import Mathlib

/-!
# EasyCMS `HTTPSession`: request correlation between client and device sessions

A shallow embedding of `EasyCMS/Server.tproj/HTTPSession.cpp`.

* Sessions live in a `World`; a C++ `HTTPSession*` is the index of the session.
* The parsed JSON envelope (`EasyProtocol`) is a record: the JSON parser is an
  external collaborator of the session code.
* Constants that come from headers outside this translation unit
  (`QTSS_*`, `http*`, `EASY_ERROR_*`, `MSG_*`, `CliStartStreamTimeout`) are the
  fields of `Consts`; every definition takes them as a parameter.
* The results of the role modules (Redis hooks) of one handler invocation are
  the fields of `Hooks`.
* Further enumerators, the session types and the functions of the protocol
  library (`GetDevInfo`, `GetAppType`, ...) are the fields of `Lib`.
* `Run` is the prologue, the loop over `switch (fState)` and the epilogue; the
  results of the socket and stream calls of one pass are a `PassResults`.
-/

set_option autoImplicit false

namespace EasyCMS

/-! ## Constants of the headers -/

/-- Values of the enumerators and macros the handlers use. -/
structure Consts where
  QTSS_NoErr : Int
  QTSS_BadArgument : Int
  QTSS_AttrNameExists : Int
  httpOK : Int
  httpUnAuthorized : Int
  httpRequestTimeout : Int
  httpNotImplemented : Int
  EASY_ERROR_SUCCESS_OK : Int
  EASY_ERROR_CLIENT_BAD_REQUEST : Int
  EASY_ERROR_CLIENT_UNAUTHORIZED : Int
  EASY_ERROR_CONFLICT : Int
  EASY_ERROR_DEVICE_NOT_FOUND : Int
  EASY_ERROR_SERVICE_NOT_FOUND : Int
  EASY_ERROR_REQUEST_TIMEOUT : Int
  EASY_ERROR_SERVER_INTERNAL_ERROR : Int
  EASY_ERROR_SERVER_NOT_IMPLEMENTED : Int
  MSG_DS_REGISTER_REQ : Int
  MSG_SD_REGISTER_ACK : Int
  MSG_CS_GET_STREAM_REQ : Int
  MSG_SC_GET_STREAM_ACK : Int
  MSG_SD_PUSH_STREAM_REQ : Int
  MSG_DS_PUSH_STREAM_ACK : Int
  MSG_CS_FREE_STREAM_REQ : Int
  MSG_SC_FREE_STREAM_ACK : Int
  MSG_DS_STREAM_STOP_ACK : Int
  MSG_CS_DEVICE_LIST_REQ : Int
  MSG_SC_DEVICE_LIST_ACK : Int
  MSG_CS_DEVICE_INFO_REQ : Int
  MSG_SC_DEVICE_INFO_ACK : Int
  MSG_DS_POST_SNAP_REQ : Int
  MSG_SD_POST_SNAP_ACK : Int
  MSG_SC_EXCEPTION : Int
  CliStartStreamTimeout : Nat

/-- The labels of `switch (nNetMsg)` in `ProcessRequest`, in source order. C++
requires the labels of one switch to be pairwise different. -/
def Consts.msgCases (k : Consts) : List Int :=
  [k.MSG_DS_REGISTER_REQ, k.MSG_CS_GET_STREAM_REQ, k.MSG_DS_PUSH_STREAM_ACK,
   k.MSG_CS_FREE_STREAM_REQ, k.MSG_DS_STREAM_STOP_ACK, k.MSG_CS_DEVICE_LIST_REQ,
   k.MSG_CS_DEVICE_INFO_REQ, k.MSG_DS_POST_SNAP_REQ]

/-- The labels of `switch (theErr)` in `ProcessRequest`, in source order. -/
def Consts.errCases (k : Consts) : List Int :=
  [k.QTSS_BadArgument, k.httpUnAuthorized, k.QTSS_AttrNameExists,
   k.EASY_ERROR_DEVICE_NOT_FOUND, k.EASY_ERROR_SERVICE_NOT_FOUND, k.httpRequestTimeout,
   k.EASY_ERROR_SERVER_INTERNAL_ERROR, k.EASY_ERROR_SERVER_NOT_IMPLEMENTED]

/-- What the compiler and the headers guarantee about the constants: the labels
of each switch are pairwise different, `QTSS_NoErr` is zero, no error label
is `QTSS_NoErr`, and the timeout macro is a non-negative `int`. -/
def Consts.WellFormed (k : Consts) : Prop :=
  k.msgCases.Nodup ∧ k.errCases.Nodup ∧ k.QTSS_NoErr = 0 ∧ k.QTSS_NoErr ∉ k.errCases
    ∧ k.CliStartStreamTimeout < 2147483648

instance (k : Consts) : Decidable k.WellFormed := by
  unfold Consts.WellFormed; infer_instance

/-- A sample assignment of the constants, used to evaluate the handlers on
concrete inputs (success is 200, the timeout macro is thirty seconds). -/
def sampleConsts : Consts where
  QTSS_NoErr := 0
  QTSS_BadArgument := -10
  QTSS_AttrNameExists := -19
  httpOK := 2
  httpUnAuthorized := 18
  httpRequestTimeout := 25
  httpNotImplemented := 36
  EASY_ERROR_SUCCESS_OK := 200
  EASY_ERROR_CLIENT_BAD_REQUEST := 400
  EASY_ERROR_CLIENT_UNAUTHORIZED := 401
  EASY_ERROR_CONFLICT := 409
  EASY_ERROR_DEVICE_NOT_FOUND := 603
  EASY_ERROR_SERVICE_NOT_FOUND := 605
  EASY_ERROR_REQUEST_TIMEOUT := 408
  EASY_ERROR_SERVER_INTERNAL_ERROR := 500
  EASY_ERROR_SERVER_NOT_IMPLEMENTED := 501
  MSG_DS_REGISTER_REQ := 1
  MSG_SD_REGISTER_ACK := 2
  MSG_CS_GET_STREAM_REQ := 3
  MSG_SC_GET_STREAM_ACK := 4
  MSG_SD_PUSH_STREAM_REQ := 5
  MSG_DS_PUSH_STREAM_ACK := 6
  MSG_CS_FREE_STREAM_REQ := 7
  MSG_SC_FREE_STREAM_ACK := 8
  MSG_DS_STREAM_STOP_ACK := 10
  MSG_CS_DEVICE_LIST_REQ := 11
  MSG_SC_DEVICE_LIST_ACK := 12
  MSG_CS_DEVICE_INFO_REQ := 13
  MSG_SC_DEVICE_INFO_ACK := 14
  MSG_DS_POST_SNAP_REQ := 15
  MSG_SD_POST_SNAP_ACK := 16
  MSG_SC_EXCEPTION := 255
  CliStartStreamTimeout := 30000

/-! ## Machine integers and the C library -/

/-- Conversion of an integer to `UInt32`. -/
def toUInt32 (z : Int) : Nat := (z % 4294967296).toNat

/-- Conversion of an integer to the 32-bit `int`. -/
def toSInt32 (z : Int) : Int := (z + 2147483648) % 4294967296 - 2147483648

/-- C `isspace` in the "C" locale. -/
def isspace (c : Char) : Bool :=
  c.toNat = 32 || (9 ≤ c.toNat && c.toNat ≤ 13)

/-- The digit run read by `atoi`. -/
def atoiDigits : List Char → Nat → Nat
  | [], acc => acc
  | c :: cs, acc =>
    if 48 ≤ c.toNat ∧ c.toNat ≤ 57 then atoiDigits cs (acc * 10 + (c.toNat - 48)) else acc

/-- The optional sign and the digit run read by `atoi`. -/
def atoiSigned : List Char → Int
  | [] => 0
  | c :: cs =>
    if c = '-' then - (atoiDigits cs 0 : Int)
    else if c = '+' then (atoiDigits cs 0 : Int)
    else (atoiDigits (c :: cs) 0 : Int)

/-- C `atoi`: leading white space, an optional sign, decimal digits; the value
is delivered as a 32-bit `int`. -/
def atoi (s : String) : Int :=
  toSInt32 (atoiSigned (s.toList.dropWhile isspace))

/-- The text `sprintf(chTemp, "%d", u)` produces for a `UInt32` argument: the
decimal of the value read as a signed 32-bit `int`. -/
def sprintf_d (u : Nat) : String := toString (toSInt32 (u : Int))

/-! ## The protocol envelope -/

/-- The `EASY_TAG_*` body keys used by the handlers. -/
inductive Tag where
  | SERIAL | CHANNEL | PROTOCOL | RESERVE | URL
  | STREAM_ID | SERVER_IP | SERVER_PORT
  | TOKEN | SESSION_ID | NAME | TAG | APP_TYPE | TERMINAL_TYPE | SNAP_URL
  | DEVICE_COUNT | CHANNEL_COUNT | STATUS | IMAGE | TYPE | TIME
  deriving DecidableEq, Repr

/-- A parsed request (`EasyProtocol req(json)`): message type, the header
values the handlers read, and the body. -/
structure EasyProtocol where
  MessageType : Int
  CSeq : String
  ErrorNum : String
  body : List (Tag × String)
  deriving DecidableEq, Repr

/-- The body accessor `GetBodyValue(tag)`: the value, or the empty string when the key is absent. -/
def EasyProtocol.GetBodyValue (req : EasyProtocol) (t : Tag) : String :=
  match req.body.find? (fun p => p.1 = t) with
  | some p => p.2
  | none => ""

/-- A message built by the server (`EasyProtocolACK`): message type, header
`CSeq`, header `ErrorNum` when set, the body in assignment order, and the
values appended to the array of the body (`Devices` or `Channels`), none for
the messages without one. -/
structure EasyProtocolACK where
  fMsgType : Int
  CSeq : String
  ErrorNum : Option Int
  body : List (Tag × String)
  array : List (List (Tag × String)) := []
  deriving DecidableEq, Repr

/-- One HTTP message put on an output stream: status of the header, the JSON
content and whether the connection-close header was added. -/
structure HTTPPacket where
  status : Int
  content : Option EasyProtocolACK
  connectionClose : Bool
  deriving DecidableEq, Repr

/-! ## Sessions -/

/-- The entry type `strMessage` of a device session's message map. -/
structure strMessage where
  iMsgType : Int
  pObject : Nat
  uCseq : Nat
  deriving DecidableEq, Repr

/-- The wait slot `fInfo` of a session. -/
structure strInfo where
  bWaitingState : Bool
  iResponse : Int
  uCseq : Nat
  uTimeoutNum : Nat
  uWaitingTime : Nat
  strDssIP : String
  strDssPort : String
  strStreamID : String
  strProtocol : String
  deriving DecidableEq, Repr

/-- States of the session loop `fState`. -/
inductive State where
  | kReadingRequest | kFilteringRequest | kPreprocessingRequest | kProcessingRequest
  | kSendingResponse | kCleaningUp | kReadingFirstRequest | kHaveCompleteMessage
  deriving DecidableEq, Repr

/-- One channel of a device (`EasyDevice`, an element of `channels_`). -/
structure EasyDevice where
  channel_ : String
  name_ : String
  status_ : String
  snapJpgPath_ : String
  deriving DecidableEq, Repr

/-- The device record `strDevice` of a session (`fDevice`). -/
structure strDevice where
  serial_ : String
  name_ : String
  tag_ : String
  eAppType : Int
  eDeviceType : Int
  snapJpgPath_ : String
  channelCount_ : Int
  channels_ : List (String × EasyDevice)
  deriving DecidableEq, Repr

/-- What the HTTP parser reports about the request framed in the input buffer
(`fRequest`): the result of `Parse`, `GetRequestPath`, `GetQueryString` (`none`
is NULL) and the `UInt32` that `ConsumeInteger` reads from the content-length
header. -/
structure HTTPRequest where
  Parse : Int
  RequestPath : Option String
  QueryString : Option String
  ContentLength : Nat
  deriving DecidableEq, Repr

/-- The attributes of an `HTTPSession` the handlers touch. `fOutputStream` is
the sequence of messages put on the output stream, `fBytesWritten` its byte
counter (one unit per message put). `fContentBody` and `fContentBodyOffset` are
the attributes `EasyHTTPSesContentBody` and `EasyHTTPSesContentBodyOffset`,
`fSocketConnected` is `fSocket.IsConnected()`, `fFlushed` the number of messages
of the output stream that `Run` has flushed. -/
structure HTTPSession where
  fInfo : strInfo
  fObjectHolders : Int
  fMsgMap : List (Nat × strMessage)
  fCSeq : Nat
  fAuthenticated : Bool
  fLiveSession : Bool
  fKillEvent : Bool
  fState : State
  fRequestBody : Option EasyProtocol
  fOutputStream : List HTTPPacket
  fBytesWritten : Nat
  fSessionType : Nat
  fDevice : strDevice
  fSessionID : String
  fRequest : Option HTTPRequest
  fContentBody : Option (List Nat)
  fContentBodyOffset : Nat
  fSocketConnected : Bool
  fFlushed : Nat
  deriving DecidableEq, Repr

/-- An entry `OSRefEx` of the device table: key, the session it designates and
its reference count. -/
structure OSRefEx where
  key : String
  obj : Nat
  refCount : Int
  deriving DecidableEq, Repr

/-- The process-wide state: all sessions, the device session map, the stream
names handed to the `Easy_RedisAddDevName_Role` modules and the snapshot files
written (path and content). -/
structure World where
  sessions : Nat → HTTPSession
  fDeviceSessionMap : List OSRefEx
  fRedisDevNames : List String
  fSnapFiles : List (String × String)

/-- Update of one session. -/
def World.modify (w : World) (i : Nat) (f : HTTPSession → HTTPSession) : World :=
  { w with sessions := Function.update w.sessions i (f (w.sessions i)) }

/-- Results of the external calls of one handler invocation: the buffers
left by `Easy_RedisGetEasyDarwin_Role` for a serial and channel, by
`Easy_RedisGetBestEasyDarwin_Role`, and by `Easy_RedisGenStreamID_Role`
(an empty string when no module wrote the buffer), and whether `Flush` of an
output stream reports `EAGAIN`. -/
structure Hooks where
  GetAssociatedDarwin : String → String → String × String
  GetBestDarwin : String × String
  GenStreamID : String
  FlushEAGAIN : Bool

/-! ## Helpers declared outside `HTTPSession.cpp` -/

/-- Modelled from the spec: `OSRefTableEx::Resolve` and `Release` (OSRefTableEx
is not part of this translation unit). "resolve(serial): under the mutex, look
up; on hit, increment the target session's lookup-hold counter and return a
scoped handle whose release decrements it." `bumpRef` adds `delta` to the
reference count of the entry with the given key. -/
def bumpRef (key : String) (delta : Int) : List OSRefEx → List OSRefEx
  | [] => []
  | r :: rs =>
    if r.key = key then { r with refCount := r.refCount + delta } :: rs
    else r :: bumpRef key delta rs

/-- Modelled from the spec: `DeviceMap->Resolve(serial)`, the designated
session and the table with the lookup-hold taken, or `none` (NULL). -/
def Resolve (m : List OSRefEx) (key : String) : Option (Nat × List OSRefEx) :=
  match m.find? (fun r => r.key = key) with
  | some r => some (r.obj, bumpRef key 1 m)
  | none => none

/-- Modelled from the spec: `DeviceMap->Release(serial)`, also run by the
destructor of `OSRefReleaserEx`. -/
def World.Release (w : World) (key : String) : World :=
  { w with fDeviceSessionMap := bumpRef key (-1) w.fDeviceSessionMap }

/-- Modelled from the spec: `HTTPSession::GetCSeq` (declared in the session
header): "per-session CSeq counter (monotonically increasing integer used when
this session originates messages to its peer)"; "the device's CSeq counter
strictly increases". Returns the current value and advances the counter. -/
def GetCSeq (dev : Nat) (w : World) : Nat × World :=
  ((w.sessions dev).fCSeq, w.modify dev (fun s => { s with fCSeq := s.fCSeq + 1 }))

/-- Modelled from the spec: `HTTPSession::InsertToMsgMap` (declared in the
session header): "insert a PendingEntry ... into the device's pending map under
that CSeq"; the keys of the map are unique. -/
def InsertToMsgMap (m : List (Nat × strMessage)) (uCSeq : Nat) (msg : strMessage) :
    List (Nat × strMessage) :=
  (uCSeq, msg) :: m.filter (fun p => p.1 ≠ uCSeq)

/-- Modelled from the spec: `HTTPSession::FindInMsgMap` (declared in the
session header): the lookup of the pending map by the echoed CSeq; a found
entry is consumed ("on entry removal the hold is released", "at removal
(either on ack consumption or on device-session teardown)"). Returns the entry
and the map without it, or `none` when the key is absent. -/
def FindInMsgMap (m : List (Nat × strMessage)) (uCSeq : Nat) :
    Option (strMessage × List (Nat × strMessage)) :=
  match m.find? (fun p => p.1 = uCSeq) with
  | some p => some (p.2, m.filter (fun q => q.1 ≠ uCSeq))
  | none => none

/-- Modelled from the spec: `IncrementObjectHolderCount` (session interface):
"increment the client's holder_count". -/
def IncrementObjectHolderCount (s : HTTPSession) : HTTPSession :=
  { s with fObjectHolders := s.fObjectHolders + 1 }

/-- Modelled from the spec: `DecrementObjectHolderCount` (session interface):
"decrement the client's holder_count". -/
def DecrementObjectHolderCount (s : HTTPSession) : HTTPSession :=
  { s with fObjectHolders := s.fObjectHolders - 1 }

/-- The output stream operation `pOutputStream->Put` for one HTTP message. -/
def Put (pkt : HTTPPacket) (s : HTTPSession) : HTTPSession :=
  { s with fOutputStream := s.fOutputStream ++ [pkt], fBytesWritten := s.fBytesWritten + 1 }

/-! ## `HTTPSession::SendHTTPPacket` -/

/-- `SendHTTPPacket(contentXML, connectionClose, decrement)` on session `this`. -/
def SendHTTPPacket (k : Consts) (hk : Hooks) (this : Nat) (content : EasyProtocolACK)
    (connectionClose decrement : Bool) (w : World) : Int × World :=
  let w1 := w.modify this (Put { status := k.httpOK, content := some content,
                                 connectionClose := connectionClose })
  if (w1.sessions this).fBytesWritten ≠ 0 ∧ hk.FlushEAGAIN = true then
    (k.QTSS_NoErr, w1)
  else
    let w2 :=
      if (w1.sessions this).fObjectHolders ≠ 0 ∧ decrement = true then
        w1.modify this DecrementObjectHolderCount
      else w1
    let w3 := if connectionClose then w2.modify this (fun s => { s with fKillEvent := true }) else w2
    (k.QTSS_NoErr, w3)

/-- Modelled from the spec: `Easy_SendMsg(session, msg, len, connectionClose,
decrement)` (a server callback): "send the message to the device"; it hands the
message to `SendHTTPPacket` of the target session. -/
def Easy_SendMsg (k : Consts) (hk : Hooks) (target : Nat) (msg : EasyProtocolACK)
    (connectionClose decrement : Bool) (w : World) : World :=
  (SendHTTPPacket k hk target msg connectionClose decrement w).2

/-! ## `HTTPSession::ExecNetMsgCSGetStreamReq` -/

/-- The playback address assembled by the chain of `append` calls. -/
def buildURL (strDssIP strDssPort strDeviceSerial strChannel strSessionID : String) : String :=
  "rtsp://" ++ strDssIP ++ ":" ++ strDssPort ++ "/" ++ strDeviceSerial ++ "/" ++ strChannel
    ++ ".sdp" ++ "?token=" ++ strSessionID

/-- The tail of the handler (after the two phases): the `MSG_SC_GET_STREAM_ACK`
success message is put on the session's own output stream. -/
def emitGetStreamAck (k : Consts) (this : Nat) (strCSeq strURL strDeviceSerial strChannel
    strProtocol strStreamID : String) (w : World) : Int × World :=
  let rsp : EasyProtocolACK :=
    { fMsgType := k.MSG_SC_GET_STREAM_ACK, CSeq := strCSeq,
      ErrorNum := some k.EASY_ERROR_SUCCESS_OK,
      body := [(Tag.URL, strURL), (Tag.SERIAL, strDeviceSerial), (Tag.CHANNEL, strChannel),
               (Tag.PROTOCOL, strProtocol), (Tag.RESERVE, strStreamID)] }
  (k.QTSS_NoErr,
    w.modify this (Put { status := k.httpOK, content := some rsp, connectionClose := false }))

/-- The client get-stream handler, run on session `this` with the parsed body `req`. -/
def ExecNetMsgCSGetStreamReq (k : Consts) (hk : Hooks) (this : Nat) (req : EasyProtocol)
    (w : World) : Int × World :=
  let strCSeq := req.CSeq
  let uCSeq := toUInt32 (atoi strCSeq)
  let strDeviceSerial := req.GetBodyValue Tag.SERIAL
  let strChannel0 := req.GetBodyValue Tag.CHANNEL
  let strProtocol := req.GetBodyValue Tag.PROTOCOL
  let strStreamID0 := req.GetBodyValue Tag.RESERVE
  let strChannel := if strChannel0 = "" then "0" else strChannel0
  let strStreamID := if strStreamID0 = "" then "1" else strStreamID0
  if strDeviceSerial.length ≤ 0 ∨ strProtocol.length ≤ 0 then
    (k.QTSS_BadArgument, w)
  else if (w.sessions this).fInfo.bWaitingState = false then
    match Resolve w.fDeviceSessionMap strDeviceSerial with
    | none => (k.EASY_ERROR_DEVICE_NOT_FOUND, w)
    | some (pDevSession, table) =>
      let w0 : World := { w with fDeviceSessionMap := table }
      let assoc := hk.GetAssociatedDarwin strDeviceSerial strChannel
      if assoc.1 ≠ "" then
        let chSessionID := hk.GenStreamID
        if chSessionID = "" then
          (k.EASY_ERROR_SERVER_INTERNAL_ERROR, w0.Release strDeviceSerial)
        else
          let strURL := buildURL assoc.1 assoc.2 strDeviceSerial strChannel chSessionID
          emitGetStreamAck k this strCSeq strURL strDeviceSerial strChannel strProtocol
            strStreamID (w0.Release strDeviceSerial)
      else
        let best := hk.GetBestDarwin
        if best.1 = "" then
          (k.EASY_ERROR_SERVICE_NOT_FOUND, w0.Release strDeviceSerial)
        else
          let (uDevCseq, w1) := GetCSeq pDevSession w0
          let chSessionID := hk.GenStreamID
          if chSessionID = "" then
            (k.EASY_ERROR_SERVER_INTERNAL_ERROR,
              (w1.Release strDeviceSerial).Release strDeviceSerial)
          else
            let reqreq : EasyProtocolACK :=
              { fMsgType := k.MSG_SD_PUSH_STREAM_REQ, CSeq := sprintf_d uDevCseq,
                ErrorNum := none,
                body := [(Tag.STREAM_ID, chSessionID), (Tag.SERVER_IP, best.1),
                         (Tag.SERVER_PORT, best.2), (Tag.SERIAL, strDeviceSerial),
                         (Tag.CHANNEL, strChannel), (Tag.PROTOCOL, strProtocol),
                         (Tag.RESERVE, strStreamID)] }
            let msgTemp : strMessage :=
              { iMsgType := k.MSG_CS_GET_STREAM_REQ, pObject := this, uCseq := uCSeq }
            let w2 := w1.modify pDevSession
              (fun s => { s with fMsgMap := InsertToMsgMap s.fMsgMap uDevCseq msgTemp })
            let w3 := w2.modify this IncrementObjectHolderCount
            let w4 := Easy_SendMsg k hk pDevSession reqreq false false w3
            let w5 := w4.modify this (fun s => { s with fInfo :=
              { s.fInfo with bWaitingState := true, iResponse := 0, uTimeoutNum := 0,
                             uWaitingTime := 100 } })
            (k.QTSS_NoErr, w5.Release strDeviceSerial)
  else
    let fInfo := (w.sessions this).fInfo
    if fInfo.iResponse = 0 then
      let n := (fInfo.uTimeoutNum + 1) % 4294967296
      if n > k.CliStartStreamTimeout / 100 then
        (k.httpRequestTimeout, w.modify this (fun s => { s with fInfo :=
          { s.fInfo with uTimeoutNum := n, bWaitingState := false } }))
      else
        (k.QTSS_NoErr, w.modify this (fun s => { s with fInfo :=
          { s.fInfo with uTimeoutNum := n, uWaitingTime := 100 } }))
    else if fInfo.uCseq ≠ uCSeq then
      (k.QTSS_NoErr, w.modify this (fun s => { s with fInfo :=
        { s.fInfo with iResponse := 0, uTimeoutNum := (s.fInfo.uTimeoutNum + 1) % 4294967296,
                       uWaitingTime := 100 } }))
    else if fInfo.iResponse = k.EASY_ERROR_SUCCESS_OK then
      let w1 := w.modify this (fun s => { s with fInfo := { s.fInfo with bWaitingState := false } })
      let chSessionID := hk.GenStreamID
      if chSessionID = "" then
        (k.EASY_ERROR_SERVER_INTERNAL_ERROR, w1)
      else
        let strURL := buildURL fInfo.strDssIP fInfo.strDssPort strDeviceSerial strChannel
          chSessionID
        emitGetStreamAck k this strCSeq strURL strDeviceSerial strChannel fInfo.strProtocol
          fInfo.strStreamID w1
    else
      (fInfo.iResponse, w.modify this (fun s => { s with fInfo :=
        { s.fInfo with bWaitingState := false } }))

/-! ## `HTTPSession::ExecNetMsgDSPushStreamAck` -/

/-- The device push-stream-ack handler, run on device session `this`. -/
def ExecNetMsgDSPushStreamAck (k : Consts) (this : Nat) (req : EasyProtocol) (w : World) :
    Int × World :=
  if (w.sessions this).fAuthenticated = false then
    (k.httpUnAuthorized, w)
  else
    let strStreamID0 := req.GetBodyValue Tag.RESERVE
    let strDssIP := req.GetBodyValue Tag.SERVER_IP
    let strDssPort := req.GetBodyValue Tag.SERVER_PORT
    let strCSeq := req.CSeq
    let strStateCode := req.ErrorNum
    let strStreamID := if strStreamID0 = "" then "1" else strStreamID0
    let uCSeq := toUInt32 (atoi strCSeq)
    let iStateCode := atoi strStateCode
    match FindInMsgMap (w.sessions this).fMsgMap uCSeq with
    | none => (k.QTSS_BadArgument, w)
    | some (strTempMsg, rest) =>
      let w1 := w.modify this (fun s => { s with fMsgMap := rest })
      let pCliSession := strTempMsg.pObject
      if strTempMsg.iMsgType = k.MSG_CS_GET_STREAM_REQ then
        let w2 :=
          if iStateCode = k.EASY_ERROR_SUCCESS_OK then
            w1.modify pCliSession (fun s => { s with fInfo :=
              { s.fInfo with strDssIP := strDssIP, strDssPort := strDssPort,
                             strStreamID := strStreamID } })
          else w1
        let w3 := w2.modify pCliSession (fun s => { s with fInfo :=
          { s.fInfo with uCseq := strTempMsg.uCseq, iResponse := iStateCode } })
        (k.QTSS_NoErr, w3.modify pCliSession DecrementObjectHolderCount)
      else
        (k.QTSS_NoErr, w1)

/-! ## `HTTPSession::ExecNetMsgErrorReqHandler` and `HTTPSession::ProcessRequest` -/

/-- The handler `ExecNetMsgErrorReqHandler(errCode)`: a bare HTTP header with the
status is put on the output stream and the session is marked not alive. -/
def ExecNetMsgErrorReqHandler (k : Consts) (errCode : Int) (this : Nat) (w : World) :
    Int × World :=
  let w1 := w.modify this (Put { status := errCode, content := none, connectionClose := false })
  (k.QTSS_NoErr, w1.modify this (fun s => { s with fLiveSession := false }))

/-- The handlers of `ProcessRequest` that are not embedded in this development,
as parameters of the dispatcher. -/
structure OtherHandlers where
  ExecNetMsgDSRegisterReq : Nat → EasyProtocol → World → Int × World
  ExecNetMsgCSFreeStreamReq : Nat → EasyProtocol → World → Int × World
  ExecNetMsgDSStreamStopAck : Nat → EasyProtocol → World → Int × World
  ExecNetMsgCSDeviceListReq : Nat → EasyProtocol → World → Int × World
  ExecNetMsgCSCameraListReq : Nat → EasyProtocol → World → Int × World
  ExecNetMsgDSPostSnapReq : Nat → EasyProtocol → World → Int × World

/-- The `switch (theErr)` of `ProcessRequest`: the envelope `ErrorNum` written
for a handler result. -/
def errorNumOf (k : Consts) (theErr : Int) : Int :=
  if theErr = k.QTSS_BadArgument then k.EASY_ERROR_CLIENT_BAD_REQUEST
  else if theErr = k.httpUnAuthorized then k.EASY_ERROR_CLIENT_UNAUTHORIZED
  else if theErr = k.QTSS_AttrNameExists then k.EASY_ERROR_CONFLICT
  else if theErr = k.EASY_ERROR_DEVICE_NOT_FOUND then k.EASY_ERROR_DEVICE_NOT_FOUND
  else if theErr = k.EASY_ERROR_SERVICE_NOT_FOUND then k.EASY_ERROR_SERVICE_NOT_FOUND
  else if theErr = k.httpRequestTimeout then k.EASY_ERROR_REQUEST_TIMEOUT
  else if theErr = k.EASY_ERROR_SERVER_INTERNAL_ERROR then k.EASY_ERROR_SERVER_INTERNAL_ERROR
  else if theErr = k.EASY_ERROR_SERVER_NOT_IMPLEMENTED then k.EASY_ERROR_SERVER_NOT_IMPLEMENTED
  else k.EASY_ERROR_CLIENT_BAD_REQUEST

/-- The `switch (nNetMsg)` of `ProcessRequest`: the handler result and the
message type of the reply. -/
def dispatch (k : Consts) (hk : Hooks) (oh : OtherHandlers) (this : Nat) (body : EasyProtocol)
    (w : World) : (Int × World) × Int :=
  let nNetMsg := body.MessageType
  if nNetMsg = k.MSG_DS_REGISTER_REQ then
    (oh.ExecNetMsgDSRegisterReq this body w, k.MSG_SD_REGISTER_ACK)
  else if nNetMsg = k.MSG_CS_GET_STREAM_REQ then
    (ExecNetMsgCSGetStreamReq k hk this body w, k.MSG_SC_GET_STREAM_ACK)
  else if nNetMsg = k.MSG_DS_PUSH_STREAM_ACK then
    (ExecNetMsgDSPushStreamAck k this body w, k.MSG_DS_PUSH_STREAM_ACK)
  else if nNetMsg = k.MSG_CS_FREE_STREAM_REQ then
    (oh.ExecNetMsgCSFreeStreamReq this body w, k.MSG_SC_FREE_STREAM_ACK)
  else if nNetMsg = k.MSG_DS_STREAM_STOP_ACK then
    (oh.ExecNetMsgDSStreamStopAck this body w, k.MSG_DS_STREAM_STOP_ACK)
  else if nNetMsg = k.MSG_CS_DEVICE_LIST_REQ then
    (oh.ExecNetMsgCSDeviceListReq this body w, k.MSG_SC_DEVICE_LIST_ACK)
  else if nNetMsg = k.MSG_CS_DEVICE_INFO_REQ then
    (oh.ExecNetMsgCSCameraListReq this body w, k.MSG_SC_DEVICE_INFO_ACK)
  else if nNetMsg = k.MSG_DS_POST_SNAP_REQ then
    (oh.ExecNetMsgDSPostSnapReq this body w, k.MSG_SD_POST_SNAP_ACK)
  else
    (ExecNetMsgErrorReqHandler k k.httpNotImplemented this w, k.MSG_SC_EXCEPTION)

/-- The uniform error reply of `ProcessRequest` for a handler result `theErr`. -/
def errorReply (k : Consts) (nRspMsg : Int) (body : EasyProtocol) (theErr : Int) : HTTPPacket :=
  { status := k.httpOK,
    content := some { fMsgType := nRspMsg, CSeq := body.CSeq,
                      ErrorNum := some (errorNumOf k theErr), body := [] },
    connectionClose := false }

/-- The dispatcher `ProcessRequest` on session `this`. -/
def ProcessRequest (k : Consts) (hk : Hooks) (oh : OtherHandlers) (this : Nat) (w : World) :
    Int × World :=
  match (w.sessions this).fRequestBody with
  | none => (k.QTSS_NoErr, w)
  | some body =>
    let r := dispatch k hk oh this body w
    let theErr := r.1.1
    if theErr ≠ k.QTSS_NoErr then
      (theErr, r.1.2.modify this (Put (errorReply k r.2 body theErr)))
    else
      (theErr, r.1.2)

/-! ## `HTTPSession::Run`, case `kPreprocessingRequest` -/

/-- The case `kPreprocessingRequest` of `Run`: the world after the case, and the
value returned to the scheduler when the case returns (the waiting quantum). -/
def Run_kPreprocessingRequest (k : Consts) (hk : Hooks) (oh : OtherHandlers) (this : Nat)
    (w : World) : World × Option Nat :=
  let w1 := (ProcessRequest k hk oh this w).2
  if (w1.sessions this).fBytesWritten > 0 then
    (w1.modify this (fun s => { s with fRequestBody := none, fState := State.kSendingResponse }),
      none)
  else if (w1.sessions this).fInfo.uWaitingTime > 0 then
    let iTemp := (w1.sessions this).fInfo.uWaitingTime
    (w1.modify this (fun s => { s with fInfo := { s.fInfo with uWaitingTime := 0 } }), some iTemp)
  else
    (w1.modify this (fun s => { s with fRequestBody := none, fState := State.kCleaningUp }), none)

/-- The scheduler re-invoking `Run` in state `kPreprocessingRequest` after each
returned quantum, while nothing else touches the sessions: the quanta returned
until the case leaves without returning, and the world then. -/
def pollRun (k : Consts) (hk : Hooks) (oh : OtherHandlers) (this : Nat) :
    Nat → World → List Nat × World
  | 0, w => ([], w)
  | fuel + 1, w =>
    match Run_kPreprocessingRequest k hk oh this w with
    | (w1, some q) => (q :: (pollRun k hk oh this fuel w1).1, (pollRun k hk oh this fuel w1).2)
    | (w1, none) => ([], w1)

/-! ## Derived values named in the statements -/

/-- The `MSG_SD_PUSH_STREAM_REQ` message the get-stream handler builds for the
device CSeq `K`. -/
def pushStreamReq (k : Consts) (hk : Hooks) (req : EasyProtocol) (K : Nat) : EasyProtocolACK :=
  { fMsgType := k.MSG_SD_PUSH_STREAM_REQ, CSeq := sprintf_d K, ErrorNum := none,
    body := [(Tag.STREAM_ID, hk.GenStreamID), (Tag.SERVER_IP, hk.GetBestDarwin.1),
             (Tag.SERVER_PORT, hk.GetBestDarwin.2), (Tag.SERIAL, req.GetBodyValue Tag.SERIAL),
             (Tag.CHANNEL,
               if req.GetBodyValue Tag.CHANNEL = "" then "0" else req.GetBodyValue Tag.CHANNEL),
             (Tag.PROTOCOL, req.GetBodyValue Tag.PROTOCOL),
             (Tag.RESERVE,
               if req.GetBodyValue Tag.RESERVE = "" then "1" else req.GetBodyValue Tag.RESERVE)] }

/-- The channel a request names, `"0"` when the field is absent. -/
def channelOf (req : EasyProtocol) : String :=
  if req.GetBodyValue Tag.CHANNEL = "" then "0" else req.GetBodyValue Tag.CHANNEL

/-- The stream type a message names in `Reserve`, `"1"` when the field is absent. -/
def reserveOf (req : EasyProtocol) : String :=
  if req.GetBodyValue Tag.RESERVE = "" then "1" else req.GetBodyValue Tag.RESERVE

/-- The `MSG_SC_GET_STREAM_ACK` success packet carrying `strURL`. -/
def getStreamAck (k : Consts) (req : EasyProtocol) (strURL strProtocol strStreamID : String) :
    HTTPPacket :=
  { status := k.httpOK,
    content := some
      { fMsgType := k.MSG_SC_GET_STREAM_ACK, CSeq := req.CSeq,
        ErrorNum := some k.EASY_ERROR_SUCCESS_OK,
        body := [(Tag.URL, strURL), (Tag.SERIAL, req.GetBodyValue Tag.SERIAL),
                 (Tag.CHANNEL, channelOf req), (Tag.PROTOCOL, strProtocol),
                 (Tag.RESERVE, strStreamID)] },
    connectionClose := false }

/-- The packets on an output stream that carry a `MSG_SD_PUSH_STREAM_REQ`. -/
def pushesIn (k : Consts) (out : List HTTPPacket) : List HTTPPacket :=
  out.filter (fun p => match p.content with
    | some m => m.fMsgType = k.MSG_SD_PUSH_STREAM_REQ
    | none => false)

/-- The world of a waiting client `c` after its tick count reached `j` and `Run`
took back the quantum. -/
def tickWorld (c j : Nat) (w : World) : World :=
  w.modify c (fun s => { s with fInfo := { s.fInfo with uTimeoutNum := j, uWaitingTime := 0 } })

/-- The world after the wait of client `c` for request `req` ended by timeout in
case `kPreprocessingRequest`: waiting cleared, the error reply for
`httpRequestTimeout` on the client's output stream, the request body freed and
the state `kSendingResponse`. -/
def timeoutWorld (k : Consts) (c : Nat) (req : EasyProtocol) (w : World) : World :=
  ((w.modify c (fun s => { s with fInfo :=
      { s.fInfo with uTimeoutNum := k.CliStartStreamTimeout / 100 + 1,
                     bWaitingState := false } })).modify c
    (Put (errorReply k k.MSG_SC_GET_STREAM_ACK req k.httpRequestTimeout))).modify c
    (fun s => { s with fRequestBody := none, fState := State.kSendingResponse })

/-! ## The hold invariant -/

/-- The handler actions during the life of one get-stream request of a client:
an invocation of the get-stream handler on the client (with the hook results of
that invocation), or the push-stream-ack handler run on some session for some
ack. -/
inductive Event where
  | tick (hk : Hooks)
  | ack (d : Nat) (msg : EasyProtocol)

/-- The run of the events of one request `req` of client `c`: the handler is
re-invoked while the client is left waiting; the run ends with the first
invocation that leaves the client not waiting, and yields that invocation's
result. `none` when the events end before the request is completed. -/
def runRequest (k : Consts) (c : Nat) (req : EasyProtocol) : List Event → World →
    World × Option Int
  | [], w => (w, none)
  | Event.tick hk :: evs, w =>
    if ((ExecNetMsgCSGetStreamReq k hk c req w).2.sessions c).fInfo.bWaitingState = true then
      runRequest k c req evs (ExecNetMsgCSGetStreamReq k hk c req w).2
    else
      ((ExecNetMsgCSGetStreamReq k hk c req w).2, some (ExecNetMsgCSGetStreamReq k hk c req w).1)
  | Event.ack d msg :: evs, w =>
    runRequest k c req evs (ExecNetMsgDSPushStreamAck k d msg w).2

/-- The ack consumptions during the run of one request: for every ack event that
finds an entry in the pending map of an authenticated session, the echoed device
CSeq, the entry consumed and the code the ack reports. -/
def consumedAcks (k : Consts) (c : Nat) (req : EasyProtocol) : List Event → World →
    List (Nat × strMessage × Int)
  | [], _ => []
  | Event.tick hk :: evs, w =>
    if ((ExecNetMsgCSGetStreamReq k hk c req w).2.sessions c).fInfo.bWaitingState = true then
      consumedAcks k c req evs (ExecNetMsgCSGetStreamReq k hk c req w).2
    else []
  | Event.ack d msg :: evs, w =>
    (if (w.sessions d).fAuthenticated = true then
      match FindInMsgMap (w.sessions d).fMsgMap (toUInt32 (atoi msg.CSeq)) with
      | some (e, _) => [(toUInt32 (atoi msg.CSeq), e, atoi msg.ErrorNum)]
      | none => []
     else [])
    ++ consumedAcks k c req evs (ExecNetMsgDSPushStreamAck k d msg w).2

/-! ## Sample inputs -/

/-- A wait slot with nothing in it. -/
def blankInfo : strInfo :=
  { bWaitingState := false, iResponse := 0, uCseq := 0, uTimeoutNum := 0, uWaitingTime := 0,
    strDssIP := "", strDssPort := "", strStreamID := "", strProtocol := "" }

/-- A device record with nothing in it. -/
def blankDevice : strDevice :=
  { serial_ := "", name_ := "", tag_ := "", eAppType := 0, eDeviceType := 0, snapJpgPath_ := "",
    channelCount_ := 0, channels_ := [] }

/-- A fresh session in state `kPreprocessingRequest`. -/
def blankSession : HTTPSession :=
  { fInfo := blankInfo, fObjectHolders := 0, fMsgMap := [], fCSeq := 0, fAuthenticated := false,
    fLiveSession := true, fKillEvent := false, fState := State.kPreprocessingRequest,
    fRequestBody := none, fOutputStream := [], fBytesWritten := 0,
    fSessionType := 2, fDevice := blankDevice, fSessionID := "", fRequest := none,
    fContentBody := none, fContentBodyOffset := 0, fSocketConnected := true, fFlushed := 0 }

/-- A client get-stream request for camera `CAM001` with CSeq 7. -/
def sampleReq : EasyProtocol :=
  { MessageType := 3, CSeq := "7", ErrorNum := "",
    body := [(Tag.SERIAL, "CAM001"), (Tag.PROTOCOL, "RTSP")] }

/-- Session 0 is a client holding `sampleReq`, session 1 the registered and
authenticated device `CAM001`. -/
def sampleWorld : World :=
  { sessions := fun i =>
      if i = 1 then { blankSession with fAuthenticated := true }
      else if i = 0 then { blankSession with fRequestBody := some sampleReq }
      else blankSession,
    fDeviceSessionMap := [{ key := "CAM001", obj := 1, refCount := 0 }],
    fRedisDevNames := [], fSnapFiles := [] }

/-- Scenario S4: no associated relay, best relay 10.0.0.7:10008, minting succeeds. -/
def hooksS4 : Hooks :=
  { GetAssociatedDarwin := fun _ _ => ("", ""), GetBestDarwin := ("10.0.0.7", "10008"),
    GenStreamID := "tok", FlushEAGAIN := false }

/-- Scenario S3: the relay 10.0.0.5:10008 is already associated. -/
def hooksS3 : Hooks :=
  { GetAssociatedDarwin := fun _ _ => ("10.0.0.5", "10008"), GetBestDarwin := ("", ""),
    GenStreamID := "tok", FlushEAGAIN := false }

/-- The device's push-stream ack for CSeq 0 reporting `ErrorNum` text `e`. -/
def sampleAck (e : String) : EasyProtocol :=
  { MessageType := 6, CSeq := "0", ErrorNum := e,
    body := [(Tag.SERVER_IP, "10.0.0.7"), (Tag.SERVER_PORT, "10008"), (Tag.RESERVE, "1")] }

/-- Handlers that do nothing, for the cases of the dispatcher not under study. -/
def noHandlers : OtherHandlers :=
  { ExecNetMsgDSRegisterReq := fun _ _ w => (0, w),
    ExecNetMsgCSFreeStreamReq := fun _ _ w => (0, w),
    ExecNetMsgDSStreamStopAck := fun _ _ w => (0, w),
    ExecNetMsgCSDeviceListReq := fun _ _ w => (0, w),
    ExecNetMsgCSCameraListReq := fun _ _ w => (0, w),
    ExecNetMsgDSPostSnapReq := fun _ _ w => (0, w) }

/-- The world after the client's first entry in scenario S4. -/
def worldAfterPush : World :=
  (ExecNetMsgCSGetStreamReq sampleConsts hooksS4 0 sampleReq sampleWorld).2

/-- The sample world after the wait of the client's first request ended by
timeout (scenario S5). -/
def worldTimedOut : World :=
  (pollRun sampleConsts hooksS4 noHandlers 0 302 sampleWorld).2

/-- The world after the client then sent a second get-stream request, again with
CSeq 7. -/
def worldSecondRequest : World :=
  (ExecNetMsgCSGetStreamReq sampleConsts hooksS4 0 sampleReq worldTimedOut).2

/-- The world after the device then acked CSeq 0, the push of the first request,
with the success code. -/
def worldStaleAck : World :=
  (ExecNetMsgDSPushStreamAck sampleConsts 1 (sampleAck "200") worldSecondRequest).2

/-- A second get-stream request of the client, with CSeq 8. -/
def sampleReq8 : EasyProtocol :=
  { MessageType := 3, CSeq := "8", ErrorNum := "",
    body := [(Tag.SERIAL, "CAM001"), (Tag.PROTOCOL, "RTSP")] }

/-- The world after the first request (CSeq 7) timed out and the client sent the
request with CSeq 8. -/
def worldSecondRequest8 : World :=
  (ExecNetMsgCSGetStreamReq sampleConsts hooksS4 0 sampleReq8
    (timeoutWorld sampleConsts 0 sampleReq (tickWorld 0 0 worldAfterPush))).2

/-! ## Further constants and library functions -/

/-- Values and functions declared outside `HTTPSession.cpp` that the register,
free-stream, list and snapshot handlers, `SetupRequest` and `Run` use: further
enumerators, the session types (`EasyHTTPSessionType`, a `UInt32`), the pure
functions of the protocol library (`GetDevInfo` delivers its `bool` and the
record it leaves in `fDevice`), the preferences, and the results of the clock
and of `fopen` during one handler invocation. -/
structure Lib where
  QTSS_AttrDoesntExist : Int
  QTSS_RequestFailed : Int
  QTSS_WouldBlock : Int
  QTSS_RequestArrived : Int
  E2BIG : Int
  EAGAIN : Int
  httpBadRequest : Int
  httpInternalServerError : Int
  MSG_SD_STREAM_STOP_REQ : Int
  EASY_APP_TYPE_CAMERA : Int
  EASY_APP_TYPE_NVR : Int
  EasyCameraSession : Nat
  EasyNVRSession : Nat
  EasyHTTPSession : Nat
  GetDevInfo : EasyProtocol → strDevice → Bool × strDevice
  GetAppType : EasyProtocol → Int
  GetAppTypeString : Int → String
  GetTerminalTypeString : Int → String
  Base64Decode : String → String
  HoldSnapPath : String → String → strDevice → strDevice
  parseBody : List Nat → EasyProtocol
  GetSnapLocalPath : String
  GetSnapWebPath : String
  NowTime : String
  fopen : String → Bool

/-- What the headers guarantee about the session types and the application
types: the two labels of `switch (appType)` differ, and the enumeration lists
the camera and NVR session types before `EasyHTTPSession`. -/
def Lib.WellFormed (L : Lib) : Prop :=
  L.EASY_APP_TYPE_CAMERA ≠ L.EASY_APP_TYPE_NVR ∧ L.EasyCameraSession < L.EasyHTTPSession
    ∧ L.EasyNVRSession < L.EasyHTTPSession

instance (L : Lib) : Decidable L.WellFormed := by
  unfold Lib.WellFormed; infer_instance

/-- Modelled from the spec: `OSRefTableEx::Register` (OSRefTableEx is not part
of this translation unit): "register(serial, session): under the table's mutex,
insert if absent, else report conflict". The table with the new entry, or
`none` for a result other than `OS_NoErr`. -/
def Register (m : List OSRefEx) (key : String) (obj : Nat) : Option (List OSRefEx) :=
  match m.find? (fun r => r.key = key) with
  | some _ => none
  | none => some (m ++ [{ key := key, obj := obj, refCount := 0 }])

/-- The call `session->Signal(Task::kKillEvent)`. -/
def Signal_kKillEvent (target : Nat) (w : World) : World :=
  w.modify target (fun s => { s with fKillEvent := true })

/-! ## `HTTPSession::ExecNetMsgDSRegisterReq` -/

/-- The `switch (appType)` of the register handler. -/
def classify (L : Lib) (appType : Int) (this : Nat) (w : World) : World :=
  if appType = L.EASY_APP_TYPE_CAMERA then
    w.modify this (fun s => { s with fSessionType := L.EasyCameraSession })
  else if appType = L.EASY_APP_TYPE_NVR then
    w.modify this (fun s => { s with fSessionType := L.EasyNVRSession })
  else w

/-- The `MSG_SD_REGISTER_ACK` message of the register handler. -/
def registerAck (k : Consts) (req : EasyProtocol) (s : HTTPSession) : HTTPPacket :=
  { status := k.httpOK,
    content := some { fMsgType := k.MSG_SD_REGISTER_ACK, CSeq := req.CSeq,
                      ErrorNum := some k.EASY_ERROR_SUCCESS_OK,
                      body := [(Tag.SERIAL, s.fDevice.serial_), (Tag.SESSION_ID, s.fSessionID)] },
    connectionClose := false }

/-- The body of `while (!fAuthenticated) { ... break; }` in the register
handler: the value of `theErr` after it and the world. -/
def registerAttempt (k : Consts) (L : Lib) (this : Nat) (req : EasyProtocol) (w : World) :
    Int × World :=
  let appType := L.GetAppType req
  let w1 := classify L appType this w
  if (w1.sessions this).fSessionType ≥ L.EasyHTTPSession then
    (k.QTSS_BadArgument, w1)
  else
    let serial := req.GetBodyValue Tag.SERIAL
    if serial = "" then
      (L.QTSS_AttrDoesntExist, w1)
    else
      let name := (w1.sessions this).fDevice.serial_
      match Register w1.fDeviceSessionMap name this with
      | some table =>
        let w2 : World :=
          { w1 with fDeviceSessionMap := table, fRedisDevNames := w1.fRedisDevNames ++ [name] }
        (k.QTSS_NoErr, w2.modify this (fun s => { s with fAuthenticated := true }))
      | none =>
        match Resolve w1.fDeviceSessionMap name with
        | some (pDevSession, table) =>
          let w2 : World := { w1 with fDeviceSessionMap := table }
          (k.QTSS_AttrNameExists, (Signal_kKillEvent pDevSession w2).Release name)
        | none => (k.QTSS_AttrNameExists, w1)

/-- The device register handler, run on session `this` with the parsed body `req`. -/
def ExecNetMsgDSRegisterReq (k : Consts) (L : Lib) (this : Nat) (req : EasyProtocol)
    (w : World) : Int × World :=
  let info := L.GetDevInfo req (w.sessions this).fDevice
  let w0 := w.modify this (fun s => { s with fDevice := info.2 })
  if info.1 = false then
    (k.QTSS_BadArgument, w0)
  else
    let r : Int × World :=
      if (w0.sessions this).fAuthenticated = false then registerAttempt k L this req w0
      else (k.QTSS_NoErr, w0)
    if r.1 ≠ k.QTSS_NoErr then
      (r.1, r.2)
    else
      (k.QTSS_NoErr, r.2.modify this (fun s => Put (registerAck k req s) s))

/-! ## `HTTPSession::ExecNetMsgCSFreeStreamReq` and `ExecNetMsgDSStreamStopAck` -/

/-- The call `std::string::find(c)`: the first position of `c`, or `none` for `npos`. -/
def find (s : String) (c : Char) : Option Nat :=
  if s.toList.indexOf c < s.toList.length then some (s.toList.indexOf c) else none

/-- The call `std::string::substr(pos, n)`. -/
def substr (s : String) (pos n : Nat) : String :=
  String.mk ((s.toList.drop pos).take n)

/-- The message the free-stream handler builds for the device (`reqreq`) and
the body of its own reply: the same four fields. -/
def streamFields (strDeviceSerial strChannel strStreamID strProtocol : String) :
    List (Tag × String) :=
  [(Tag.SERIAL, strDeviceSerial), (Tag.CHANNEL, strChannel), (Tag.RESERVE, strStreamID),
   (Tag.PROTOCOL, strProtocol)]

/-- The client free-stream handler, run on session `this` with the parsed body `req`. -/
def ExecNetMsgCSFreeStreamReq (k : Consts) (L : Lib) (hk : Hooks) (this : Nat)
    (req : EasyProtocol) (w : World) : Int × World :=
  let strStreamName := req.GetBodyValue Tag.SERIAL
  if strStreamName.length ≤ 0 then
    (k.QTSS_BadArgument, w)
  else
    match find strStreamName '/' with
    | none => (k.QTSS_BadArgument, w)
    | some iPos =>
      let strDeviceSerial := substr strStreamName 0 iPos
      let strChannel0 := substr strStreamName (iPos + 1) (strStreamName.length - iPos - 1)
      let strStreamID0 := req.GetBodyValue Tag.RESERVE
      let strProtocol := req.GetBodyValue Tag.PROTOCOL
      let strChannel := if strChannel0 = "" then "0" else strChannel0
      let strStreamID := if strStreamID0 = "" then "1" else strStreamID0
      if strDeviceSerial.length ≤ 0 ∨ strProtocol.length ≤ 0 then
        (k.QTSS_BadArgument, w)
      else
        match Resolve w.fDeviceSessionMap strDeviceSerial with
        | none => (k.EASY_ERROR_DEVICE_NOT_FOUND, w)
        | some (pDevSession, table) =>
          let w0 : World := { w with fDeviceSessionMap := table }
          let (uDevCseq, w1) := GetCSeq pDevSession w0
          let reqreq : EasyProtocolACK :=
            { fMsgType := L.MSG_SD_STREAM_STOP_REQ, CSeq := sprintf_d uDevCseq, ErrorNum := none,
              body := streamFields strDeviceSerial strChannel strStreamID strProtocol }
          let w2 := Easy_SendMsg k hk pDevSession reqreq false false w1
          let rsp : EasyProtocolACK :=
            { fMsgType := k.MSG_SC_FREE_STREAM_ACK, CSeq := req.CSeq,
              ErrorNum := some k.EASY_ERROR_SUCCESS_OK,
              body := streamFields strDeviceSerial strChannel strStreamID strProtocol }
          let w3 := w2.modify this
            (Put { status := k.httpOK, content := some rsp, connectionClose := false })
          (k.QTSS_NoErr, w3.Release strDeviceSerial)

/-- The device stream-stop-ack handler, run on session `this`. -/
def ExecNetMsgDSStreamStopAck (k : Consts) (this : Nat) (_req : EasyProtocol) (w : World) :
    Int × World :=
  if (w.sessions this).fAuthenticated = false then (k.httpUnAuthorized, w)
  else (k.QTSS_NoErr, w)

/-! ## The list handlers and the snapshot handler -/

/-- The assignment `body[tag] = value` on a JSON object: the value of an
existing key is replaced, a new key is added. -/
def setKey (b : List (Tag × String)) (t : Tag) (v : String) : List (Tag × String) :=
  if b.any (fun p => p.1 = t) then b.map (fun p => if p.1 = t then (t, v) else p)
  else b ++ [(t, v)]

/-- The value appended to `Devices` for one entry of the device table. -/
def deviceValue (L : Lib) (d : strDevice) : List (Tag × String) :=
  let value := [(Tag.SERIAL, d.serial_), (Tag.NAME, d.name_), (Tag.TAG, d.tag_),
                (Tag.APP_TYPE, L.GetAppTypeString d.eAppType),
                (Tag.TERMINAL_TYPE, L.GetTerminalTypeString d.eDeviceType)]
  if d.eAppType = L.EASY_APP_TYPE_CAMERA then setKey value Tag.SNAP_URL d.snapJpgPath_
  else value

/-- The client device-list handler (JSON), run on session `this`. -/
def ExecNetMsgCSDeviceListReq (k : Consts) (L : Lib) (this : Nat) (req : EasyProtocol)
    (w : World) : Int × World :=
  let body := [(Tag.DEVICE_COUNT, toString w.fDeviceSessionMap.length)]
  let devices := w.fDeviceSessionMap.map (fun r => deviceValue L (w.sessions r.obj).fDevice)
  let rsp : EasyProtocolACK :=
    { fMsgType := k.MSG_SC_DEVICE_LIST_ACK, CSeq := req.CSeq,
      ErrorNum := some k.EASY_ERROR_SUCCESS_OK, body := body, array := devices }
  (k.QTSS_NoErr,
    w.modify this (Put { status := k.httpOK, content := some rsp, connectionClose := false }))

/-- The loop over `channels_` in the JSON device-info handler: each channel
assigns `body[EASY_TAG_SNAP_URL]` and appends its value to `Channels`. -/
def cameraLoop : List (String × EasyDevice) → List (Tag × String) → List (List (Tag × String)) →
    List (Tag × String) × List (List (Tag × String))
  | [], body, channels => (body, channels)
  | c :: cs, body, channels =>
    let value := [(Tag.CHANNEL, c.2.channel_), (Tag.NAME, c.2.name_), (Tag.STATUS, c.2.status_)]
    cameraLoop cs (setKey body Tag.SNAP_URL c.2.snapJpgPath_) (channels ++ [value])

/-- The client device-info handler (JSON), run on session `this`. -/
def ExecNetMsgCSCameraListReq (k : Consts) (L : Lib) (this : Nat) (req : EasyProtocol)
    (w : World) : Int × World :=
  let strDeviceSerial := req.GetBodyValue Tag.SERIAL
  if strDeviceSerial.length ≤ 0 then
    (k.QTSS_BadArgument, w)
  else
    let body0 := [(Tag.SERIAL, strDeviceSerial)]
    match Resolve w.fDeviceSessionMap strDeviceSerial with
    | none => (k.EASY_ERROR_DEVICE_NOT_FOUND, w)
    | some (pDevSession, table) =>
      let w0 : World := { w with fDeviceSessionMap := table }
      let deviceInfo := (w0.sessions pDevSession).fDevice
      let filled :=
        if deviceInfo.eAppType = L.EASY_APP_TYPE_CAMERA then
          (setKey body0 Tag.SNAP_URL deviceInfo.snapJpgPath_, [])
        else
          cameraLoop deviceInfo.channels_
            (setKey body0 Tag.CHANNEL_COUNT (toString deviceInfo.channelCount_)) []
      let rsp : EasyProtocolACK :=
        { fMsgType := k.MSG_SC_DEVICE_INFO_ACK, CSeq := req.CSeq,
          ErrorNum := some k.EASY_ERROR_SUCCESS_OK, body := filled.1, array := filled.2 }
      let w1 := (w0.Release strDeviceSerial).modify this
        (Put { status := k.httpOK, content := some rsp, connectionClose := true })
      (k.QTSS_NoErr, w1)

/-- The call `EasyUtil::DelChar(s, c)`: every occurrence of the character is removed. -/
def DelChar (s : String) (c : Char) : String :=
  String.mk (s.toList.filter (fun x => x ≠ c))

/-- The device snapshot handler, run on session `this` with the parsed body `req`. -/
def ExecNetMsgDSPostSnapReq (k : Consts) (L : Lib) (this : Nat) (req : EasyProtocol)
    (w : World) : Int × World :=
  if (w.sessions this).fAuthenticated = false then
    (k.httpUnAuthorized, w)
  else
    let image := req.GetBodyValue Tag.IMAGE
    let channel0 := req.GetBodyValue Tag.CHANNEL
    let device_serial := req.GetBodyValue Tag.SERIAL
    let strType := req.GetBodyValue Tag.TYPE
    let strTime0 := req.GetBodyValue Tag.TIME
    let channel := if channel0 = "" then "0" else channel0
    let strTime :=
      if strTime0 = "" then L.NowTime
      else DelChar (DelChar (DelChar strTime0 '-') ':') ' '
    if image.length ≤ 0 ∨ device_serial.length ≤ 0 ∨ strType.length ≤ 0 ∨ strTime.length ≤ 0 then
      (k.QTSS_BadArgument, w)
    else
      let jpgDir := L.GetSnapLocalPath ++ device_serial
      let jpgPath := jpgDir ++ "/" ++ device_serial ++ "_" ++ channel ++ "_" ++ strTime ++ "."
        ++ strType
      if L.fopen jpgPath = false then
        (k.QTSS_NoErr, w)
      else
        let w1 : World := { w with fSnapFiles := w.fSnapFiles ++ [(jpgPath, L.Base64Decode image)] }
        let snapURL := L.GetSnapWebPath ++ device_serial ++ "/" ++ device_serial ++ "_" ++ channel
          ++ "_" ++ strTime ++ "." ++ strType
        let w2 := w1.modify this (fun s => { s with fDevice := L.HoldSnapPath snapURL channel s.fDevice })
        let rsp : EasyProtocolACK :=
          { fMsgType := k.MSG_SD_POST_SNAP_ACK, CSeq := req.CSeq,
            ErrorNum := some k.EASY_ERROR_SUCCESS_OK,
            body := [(Tag.SERIAL, device_serial), (Tag.CHANNEL, channel)] }
        (k.QTSS_NoErr,
          w2.modify this (Put { status := k.httpOK, content := some rsp, connectionClose := false }))

/-- The six handlers of this file that `ProcessRequest` takes as `OtherHandlers`. -/
def handlers (k : Consts) (L : Lib) (hk : Hooks) : OtherHandlers :=
  { ExecNetMsgDSRegisterReq := ExecNetMsgDSRegisterReq k L,
    ExecNetMsgCSFreeStreamReq := ExecNetMsgCSFreeStreamReq k L hk,
    ExecNetMsgDSStreamStopAck := ExecNetMsgDSStreamStopAck k,
    ExecNetMsgCSDeviceListReq := ExecNetMsgCSDeviceListReq k L,
    ExecNetMsgCSCameraListReq := ExecNetMsgCSCameraListReq k L,
    ExecNetMsgDSPostSnapReq := ExecNetMsgDSPostSnapReq k L }

/-! ## `HTTPSession::SetupRequest` -/

/-- The RESTful handlers `SetupRequest` hands a request to, as parameters: the
session, the query string (`none` is NULL) and the world. -/
structure RestHandlers where
  ExecNetMsgCSGetDeviceListReqRESTful : Nat → Option String → World → Int × World
  ExecNetMsgCSGetCameraListReqRESTful : Nat → Option String → World → Int × World
  ExecNetMsgCSGetStreamReqRESTful : Nat → Option String → World → Int × World

/-- The call `boost::to_lower`. -/
def to_lower (s : String) : String := String.mk (s.toList.map Char.toLower)

/-- The calls `boost::ends_with(s, "/")` and `boost::erase_tail(s, 1)`. -/
def eraseSlashTail (s : String) : String :=
  if s.toList.getLast? = some '/' then String.mk s.toList.dropLast else s

/-- The tokens of `boost::split` with `is_any_of("/")` and `token_compress_on`:
`cur` is the token being read, `afterDelim` tells that the previous character
was a delimiter (adjacent delimiters count as one). -/
def splitTokens : List Char → List Char → Bool → List String
  | [], cur, _ => [String.mk cur]
  | c :: cs, cur, afterDelim =>
    if c = '/' then
      if afterDelim then splitTokens cs cur true
      else String.mk cur :: splitTokens cs [] true
    else splitTokens cs (cur ++ [c]) false

/-- The call `boost::split(path, sRequest, boost::is_any_of("/"), boost::token_compress_on)`. -/
def split (sRequest : String) : List String := splitTokens sRequest.toList [] false

/-- The message of `EasyMsgExceptionACK`, put with the connection-close header. -/
def exceptionAck (k : Consts) : HTTPPacket :=
  { status := k.httpOK,
    content := some { fMsgType := k.MSG_SC_EXCEPTION, CSeq := "", ErrorNum := none, body := [] },
    connectionClose := true }

/-- Subtraction of two `UInt32` values. -/
def subUInt32 (a b : Nat) : Nat := (a + 4294967296 - b) % 4294967296

/-- The buffer after `fInputStream.Read` stored `data` at `offset`. -/
def storeAt (buf : List Nat) (offset : Nat) (data : List Nat) : List Nat :=
  buf.take offset ++ data ++ buf.drop (offset + data.length)

/-- The second half of `SetupRequest`: the content body is read into the buffer
kept in the session attributes. `Read` is the result of `fInputStream.Read`,
its error and the bytes it delivered. -/
def readContentBody (k : Consts) (L : Lib) (fRequest : HTTPRequest) (Read : Int × List Nat)
    (this : Nat) (w : World) : Int × World :=
  let content_length := fRequest.ContentLength
  if content_length ≤ 0 then
    (k.QTSS_BadArgument, w)
  else
    let w1 :=
      match (w.sessions this).fContentBody with
      | some _ => w
      | none => w.modify this (fun s =>
          { s with fContentBody := some (List.replicate ((content_length + 1) % 4294967296) 0),
                   fContentBodyOffset := 0 })
    let theRequestBody := ((w1.sessions this).fContentBody).getD []
    let theBufferOffset := (w1.sessions this).fContentBodyOffset
    let theErr := Read.1
    let data := Read.2.take (subUInt32 content_length theBufferOffset)
    let theLen := data.length
    let filled := storeAt theRequestBody theBufferOffset data
    let w2 := w1.modify this (fun s => { s with fContentBody := some filled })
    if theErr ≠ k.QTSS_NoErr ∧ theErr ≠ L.EAGAIN then
      (L.QTSS_RequestFailed, w2)
    else if theErr = L.QTSS_WouldBlock ∨ theLen < subUInt32 content_length theBufferOffset then
      (L.QTSS_WouldBlock, w2.modify this (fun s =>
        { s with fContentBodyOffset := (theBufferOffset + theLen) % 4294967296 }))
    else
      (theErr, w2.modify this (fun s =>
        { s with fRequestBody := some (L.parseBody filled), fContentBodyOffset := 0,
                 fContentBody := none }))

/-- The function `SetupRequest` on session `this`, for the request object
`fRequest`. -/
def SetupRequest (k : Consts) (L : Lib) (rh : RestHandlers) (fRequest : HTTPRequest)
    (Read : Int × List Nat) (this : Nat) (w : World) : Int × World :=
  if fRequest.Parse ≠ k.QTSS_NoErr then
    (k.QTSS_BadArgument, w)
  else
    match fRequest.RequestPath with
    | none => readContentBody k L fRequest Read this w
    | some requestPath =>
      if requestPath = "" then readContentBody k L fRequest Read this w
      else
        let sRequest := eraseSlashTail (to_lower requestPath)
        let path := split sRequest
        if path.length = 2 ∧ path.getD 0 "" = "api" ∧ path.getD 1 "" = "getdevicelist" then
          rh.ExecNetMsgCSGetDeviceListReqRESTful this fRequest.QueryString w
        else if path.length = 2 ∧ path.getD 0 "" = "api" ∧ path.getD 1 "" = "getdeviceinfo" then
          rh.ExecNetMsgCSGetCameraListReqRESTful this fRequest.QueryString w
        else if path.length = 2 ∧ path.getD 0 "" = "api" ∧ path.getD 1 "" = "getdevicestream" then
          rh.ExecNetMsgCSGetStreamReqRESTful this fRequest.QueryString w
        else
          (k.QTSS_NoErr, w.modify this (Put (exceptionAck k)))
/-! ## `HTTPSession::CleanupRequest` and `HTTPSession::Run` -/

/-- The events `GetEvents` delivers besides a pending kill signal. -/
structure EventFlags where
  kKillEvent : Bool
  kTimeoutEvent : Bool
  deriving DecidableEq, Repr

/-- The results of the calls to the sockets and streams during one pass of the
loop of `Run`: `fInputStream.ReadRequest`, `fOutputSocketP->IsConnected`, the
request framed in the input buffer, `fInputStream.Read`, `fOutputStream.Flush`,
`GetRemainingReqBodyLen`, `DumpRequestData`, `fSocket.IsConnected` once the pass
is over, and the results of the role modules. -/
structure PassResults where
  ReadRequest : Int
  OutputConnected : Bool
  Request : HTTPRequest
  Read : Int × List Nat
  Flush : Int
  RemainingReqBodyLen : Int
  DumpRequestData : Int
  IsConnected : Bool
  hooks : Hooks

/-- How one pass of `switch (fState)` ends: with a `return` of `Run`, or back at
the test of the loop with the value of the local `err`. -/
inductive Pass where
  | returned (v : Int) (w : World)
  | next (err : Int) (w : World)

/-- How the loop of `Run` ends: with a `return` inside the loop, or with its
condition false. -/
inductive LoopEnd where
  | returned (v : Int) (w : World)
  | left (w : World)

/-- Modelled from the spec: `IsLiveSession` (declared in the session header):
"alive: bool"; a kill or timeout event "flips alive = false" and an error of the
socket "mark[s] not alive": the session is alive while `fLiveSession` holds and
its socket is connected. -/
def IsLiveSession (this : Nat) (w : World) : Bool :=
  (w.sessions this).fSocketConnected && (w.sessions this).fLiveSession

/-- The function `CleanupRequest`: the request object is deleted. -/
def CleanupRequest (this : Nat) (w : World) : World :=
  w.modify this (fun s => { s with fRequest := none })

/-- Case `kCleaningUp`. -/
def Run_kCleaningUp (L : Lib) (io : PassResults) (err : Int) (this : Nat) (w : World) : Pass :=
  if io.RemainingReqBodyLen > 0 ∧ io.DumpRequestData = L.EAGAIN then
    Pass.returned 0 w
  else
    Pass.next (if io.RemainingReqBodyLen > 0 then io.DumpRequestData else err)
      ((CleanupRequest this w).modify this (fun s => { s with fState := State.kReadingRequest }))

/-- Case `kSendingResponse`, falling through to `kCleaningUp`. -/
def Run_kSendingResponse (k : Consts) (L : Lib) (io : PassResults) (this : Nat) (w : World) : Pass :=
  if io.Flush = L.EAGAIN then
    Pass.returned 0 w
  else if io.Flush ≠ k.QTSS_NoErr then
    Pass.next io.Flush w
  else
    Run_kCleaningUp L io io.Flush this
      (w.modify this (fun s =>
        { s with fFlushed := s.fOutputStream.length, fState := State.kCleaningUp }))

/-- Case `kProcessingRequest`, falling through to `kSendingResponse`. -/
def Run_kProcessingRequest (k : Consts) (L : Lib) (io : PassResults) (err : Int) (this : Nat)
    (w : World) : Pass :=
  if (w.sessions this).fBytesWritten = 0 then
    Pass.next err ((ExecNetMsgErrorReqHandler k L.httpInternalServerError this w).2.modify this
      (fun s => { s with fState := State.kSendingResponse }))
  else
    Run_kSendingResponse k L io this
      (w.modify this (fun s => { s with fState := State.kSendingResponse }))

/-- Case `kFilteringRequest`; no result when `fRequest` is NULL. -/
def Run_kFilteringRequest (k : Consts) (L : Lib) (rh : RestHandlers) (io : PassResults) (err : Int)
    (this : Nat) (w : World) : Option Pass :=
  match (w.sessions this).fRequest with
  | none => none
  | some fRequest =>
    let r := SetupRequest k L rh fRequest io.Read this w
    if r.1 = L.QTSS_WouldBlock then
      some (Pass.returned 0 r.2)
    else
      let w1 := if r.1 ≠ k.QTSS_NoErr then (ExecNetMsgErrorReqHandler k L.httpBadRequest this r.2).2
                else r.2
      if (w1.sessions this).fBytesWritten > 0 then
        some (Pass.next err (w1.modify this (fun s => { s with fState := State.kSendingResponse })))
      else
        some (Pass.next err
          (w1.modify this (fun s => { s with fState := State.kPreprocessingRequest })))

/-- Case `kHaveCompleteMessage`, falling through to `kFilteringRequest`. -/
def Run_kHaveCompleteMessage (k : Consts) (L : Lib) (rh : RestHandlers) (io : PassResults) (err : Int)
    (this : Nat) (w : World) : Option Pass :=
  let w1 := w.modify this (fun s => { s with fRequest := some io.Request, fBytesWritten := 0 })
  if err = L.E2BIG ∨ err = k.QTSS_BadArgument then
    some (Pass.next err ((ExecNetMsgErrorReqHandler k L.httpBadRequest this w1).2.modify this
      (fun s => { s with fState := State.kSendingResponse })))
  else
    Run_kFilteringRequest k L rh io err this
      (w1.modify this (fun s => { s with fState := State.kFilteringRequest }))

/-- One pass of `switch (fState)`, from the case of the current state to the
next `break`, `continue` or `return`. -/
def Run_pass (k : Consts) (L : Lib) (rh : RestHandlers) (io : PassResults) (err : Int) (this : Nat)
    (w : World) : Option Pass :=
  match (w.sessions this).fState with
  | State.kReadingFirstRequest =>
    if io.ReadRequest = k.QTSS_NoErr then some (Pass.returned 0 w)
    else if io.ReadRequest ≠ L.QTSS_RequestArrived ∧ io.ReadRequest ≠ L.E2BIG then
      some (Pass.next io.ReadRequest w)
    else
      some (Pass.next io.ReadRequest
        (w.modify this (fun s => { s with fState := State.kHaveCompleteMessage })))
  | State.kReadingRequest =>
    if io.ReadRequest = k.QTSS_NoErr then some (Pass.returned 0 w)
    else if io.ReadRequest ≠ L.QTSS_RequestArrived ∧ io.ReadRequest ≠ L.E2BIG
        ∧ io.ReadRequest ≠ k.QTSS_BadArgument then
      if io.OutputConnected then some (Pass.returned 0 w)
      else some (Pass.next io.ReadRequest w)
    else
      Run_kHaveCompleteMessage k L rh io io.ReadRequest this
        (w.modify this (fun s => { s with fState := State.kHaveCompleteMessage }))
  | State.kHaveCompleteMessage => Run_kHaveCompleteMessage k L rh io err this w
  | State.kFilteringRequest => Run_kFilteringRequest k L rh io err this w
  | State.kPreprocessingRequest =>
    match Run_kPreprocessingRequest k io.hooks (handlers k L io.hooks) this w with
    | (w1, some iTemp) => some (Pass.returned iTemp w1)
    | (w1, none) => some (Pass.next err w1)
  | State.kProcessingRequest => some (Run_kProcessingRequest k L io err this w)
  | State.kSendingResponse => some (Run_kSendingResponse k L io this w)
  | State.kCleaningUp => some (Run_kCleaningUp L io err this w)

/-- The loop `while (this->IsLiveSession())` of `Run`: one element of `ios` per
pass; no result when a pass has none or when `ios` ends with the session alive. -/
def Run_loop (k : Consts) (L : Lib) (rh : RestHandlers) (this : Nat) :
    List PassResults → Int → World → Option LoopEnd
  | [], _, w => if IsLiveSession this w = false then some (LoopEnd.left w) else none
  | io :: ios, err, w =>
    if IsLiveSession this w = false then some (LoopEnd.left w)
    else
      match Run_pass k L rh io err this w with
      | none => none
      | some (Pass.returned v w1) => some (LoopEnd.returned v w1)
      | some (Pass.next err1 w1) =>
        Run_loop k L rh this ios err1
          (w1.modify this (fun s => { s with fSocketConnected := io.IsConnected }))

/-- The events of one invocation: those the scheduler delivers and the kill
signal left pending by `Signal(Task::kKillEvent)`; `GetEvents` clears them. -/
def GetEvents (events : EventFlags) (this : Nat) (w : World) : EventFlags × World :=
  ({ kKillEvent := events.kKillEvent || (w.sessions this).fKillEvent,
     kTimeoutEvent := events.kTimeoutEvent },
   w.modify this (fun s => { s with fKillEvent := false }))

/-- The world at the test of the loop: the prologue of `Run`. -/
def Run_prologue (events : EventFlags) (this : Nat) (w : World) : World :=
  let ev := GetEvents events this w
  let w1 := if ev.1.kKillEvent then ev.2.modify this (fun s => { s with fLiveSession := false })
            else ev.2
  if ev.1.kTimeoutEvent then w1.modify this (fun s => { s with fLiveSession := false }) else w1

/-- The code of `Run` after the loop: `CleanupRequest`, then `-1` when no holder
is left and `0` otherwise. -/
def Run_epilogue (this : Nat) (w : World) : Int × World :=
  let w1 := CleanupRequest this w
  (if (w1.sessions this).fObjectHolders = 0 then -1 else 0, w1)

/-- The function `Run` on session `this`: the value returned to the scheduler
and the world. -/
def Run (k : Consts) (L : Lib) (rh : RestHandlers) (events : EventFlags) (ios : List PassResults)
    (this : Nat) (w : World) : Option (Int × World) :=
  match Run_loop k L rh this ios k.QTSS_NoErr (Run_prologue events this w) with
  | none => none
  | some (LoopEnd.returned v w1) => some (v, w1)
  | some (LoopEnd.left w1) => some (Run_epilogue this w1)

/-! ## Sample inputs for the register, free-stream and loop handlers -/

/-- An ack of the device for CSeq 5, a value the server never issued. -/
def sampleAck5 : EasyProtocol :=
  { MessageType := 6, CSeq := "5", ErrorNum := "200",
    body := [(Tag.SERVER_IP, "10.0.0.7"), (Tag.SERVER_PORT, "10008"), (Tag.RESERVE, "1")] }

/-- The world after the client's first entry in scenario S4, with the ack for
CSeq 5 as the request body of the device session. -/
def worldUnknownAck : World :=
  worldAfterPush.modify 1 (fun s => { s with fRequestBody := some sampleAck5 })

/-- A sample assignment of the further constants and library functions. The
application types are camera 0, NVR 1 and relay 2 (`"EasyDarwin"`); `GetDevInfo`
refuses a message without serial or with an unknown application type. -/
def sampleLib : Lib where
  QTSS_AttrDoesntExist := -18
  QTSS_RequestFailed := -1
  QTSS_WouldBlock := -14
  QTSS_RequestArrived := -3
  E2BIG := 7
  EAGAIN := 11
  httpBadRequest := 17
  httpInternalServerError := 35
  MSG_SD_STREAM_STOP_REQ := 9
  EASY_APP_TYPE_CAMERA := 0
  EASY_APP_TYPE_NVR := 1
  EasyCameraSession := 0
  EasyNVRSession := 1
  EasyHTTPSession := 2
  GetAppType := fun req =>
    if req.GetBodyValue Tag.APP_TYPE = "EasyCamera" then 0
    else if req.GetBodyValue Tag.APP_TYPE = "EasyNVR" then 1
    else if req.GetBodyValue Tag.APP_TYPE = "EasyDarwin" then 2
    else -1
  GetDevInfo := fun req d =>
    if req.GetBodyValue Tag.SERIAL = "" ∨
        (req.GetBodyValue Tag.APP_TYPE ≠ "EasyCamera" ∧ req.GetBodyValue Tag.APP_TYPE ≠ "EasyNVR"
          ∧ req.GetBodyValue Tag.APP_TYPE ≠ "EasyDarwin") then
      (false, { d with serial_ := req.GetBodyValue Tag.SERIAL })
    else
      (true, { d with serial_ := req.GetBodyValue Tag.SERIAL, name_ := req.GetBodyValue Tag.NAME,
                      tag_ := req.GetBodyValue Tag.TAG })
  GetAppTypeString := fun t => if t = 0 then "EasyCamera" else if t = 1 then "EasyNVR" else ""
  GetTerminalTypeString := fun _ => "ARM_Linux"
  Base64Decode := fun s => s
  HoldSnapPath := fun url _ d => { d with snapJpgPath_ := url }
  parseBody := fun _ => sampleReq
  GetSnapLocalPath := "/snap/"
  GetSnapWebPath := "http://cms/snap/"
  NowTime := "20160101000000"
  fopen := fun _ => true

/-- A register message of a device with the given serial and application type. -/
def registerReq (serial appType : String) : EasyProtocol :=
  { MessageType := 1, CSeq := "1", ErrorNum := "",
    body := [(Tag.SERIAL, serial), (Tag.APP_TYPE, appType), (Tag.NAME, "door")] }

/-- A world of fresh sessions (unauthenticated, session type `EasyHTTPSession`,
session ids `"sid"`) and an empty device table. -/
def freshWorld : World :=
  { sessions := fun _ => { blankSession with fSessionID := "sid" },
    fDeviceSessionMap := [], fRedisDevNames := [], fSnapFiles := [] }

/-- The fresh world after session 1 registered as the camera `CAM001`. -/
def worldRegistered : World :=
  (ExecNetMsgDSRegisterReq sampleConsts sampleLib 1 (registerReq "CAM001" "EasyCamera")
    freshWorld).2

/-- The world after session 2 then tried to register as the camera `CAM001`
too, which ended in the conflict. -/
def worldConflict : World :=
  (ExecNetMsgDSRegisterReq sampleConsts sampleLib 2 (registerReq "CAM001" "EasyCamera")
    worldRegistered).2

/-- The world of the register handler at the test of the session type: the
device record of `GetDevInfo` is stored and `switch (appType)` has run. -/
def worldClassified (L : Lib) (this : Nat) (req : EasyProtocol) (w : World) : World :=
  classify L (L.GetAppType req) this
    (w.modify this (fun s => { s with fDevice := (L.GetDevInfo req (w.sessions this).fDevice).2 }))

/-- A free-stream request that names camera `CAM001` and channel `2` in
separate fields. -/
def freeReqSeparate : EasyProtocol :=
  { MessageType := 7, CSeq := "9", ErrorNum := "",
    body := [(Tag.SERIAL, "CAM001"), (Tag.CHANNEL, "2"), (Tag.PROTOCOL, "RTSP")] }

/-- A free-stream request that names the stream `CAM001/2` in one field. -/
def freeReqCompound : EasyProtocol :=
  { MessageType := 7, CSeq := "9", ErrorNum := "",
    body := [(Tag.SERIAL, "CAM001/2"), (Tag.PROTOCOL, "RTSP")] }

/-- The `MSG_SD_STREAM_STOP_REQ` message the free-stream handler builds for the
device CSeq `K`, serial `S` and the channel text `C` after the slash. -/
def streamStopReq (k : Consts) (L : Lib) (req : EasyProtocol) (K : Nat) (S C : String) :
    HTTPPacket :=
  { status := k.httpOK,
    content := some { fMsgType := L.MSG_SD_STREAM_STOP_REQ, CSeq := sprintf_d K, ErrorNum := none,
                      body := streamFields S (if C = "" then "0" else C) (reserveOf req)
                        (req.GetBodyValue Tag.PROTOCOL) },
    connectionClose := false }

/-- The `MSG_SC_FREE_STREAM_ACK` reply of the free-stream handler. -/
def freeStreamAck (k : Consts) (req : EasyProtocol) (S C : String) : HTTPPacket :=
  { status := k.httpOK,
    content := some { fMsgType := k.MSG_SC_FREE_STREAM_ACK, CSeq := req.CSeq,
                      ErrorNum := some k.EASY_ERROR_SUCCESS_OK,
                      body := streamFields S (if C = "" then "0" else C) (reserveOf req)
                        (req.GetBodyValue Tag.PROTOCOL) },
    connectionClose := false }

/-- RESTful handlers that only report which of them ran (101, 102, 103) and
record the query string as the session id, to tell the routes of `SetupRequest`
apart. -/
def sampleRest : RestHandlers :=
  { ExecNetMsgCSGetDeviceListReqRESTful := fun this q w =>
      (101, w.modify this (fun s => { s with fSessionID := q.getD "NULL" })),
    ExecNetMsgCSGetCameraListReqRESTful := fun this q w =>
      (102, w.modify this (fun s => { s with fSessionID := q.getD "NULL" })),
    ExecNetMsgCSGetStreamReqRESTful := fun this q w =>
      (103, w.modify this (fun s => { s with fSessionID := q.getD "NULL" })) }

/-- A parsed GET request for the given path and query string, without body. -/
def getRequest (path query : String) : HTTPRequest :=
  { Parse := 0, RequestPath := some path, QueryString := some query, ContentLength := 0 }

/-! ## What the handlers leave untouched -/

/-- The entries of the device table without their reference counts. -/
def entries (m : List OSRefEx) : List (String × Nat) := m.map (fun r => (r.key, r.obj))

/-- The world `w1` agrees with `w` on the request body, the state of the loop,
the authentication and the session type of every session, and on the entries of
the device table. -/
def Frame (w w1 : World) : Prop :=
  (∀ s, (w1.sessions s).fRequestBody = (w.sessions s).fRequestBody
      ∧ (w1.sessions s).fState = (w.sessions s).fState
      ∧ (w1.sessions s).fAuthenticated = (w.sessions s).fAuthenticated
      ∧ (w1.sessions s).fSessionType = (w.sessions s).fSessionType)
  ∧ entries w1.fDeviceSessionMap = entries w.fDeviceSessionMap

/-- The world `w1` agrees with `w` on the request body and the state of the loop
of every session. -/
def SameRequest (w w1 : World) : Prop :=
  ∀ s, (w1.sessions s).fRequestBody = (w.sessions s).fRequestBody
    ∧ (w1.sessions s).fState = (w.sessions s).fState

/-- The results of the calls of one pass in which nothing arrives and nothing
blocks, with the role modules of scenario S4. -/
def samplePass : PassResults :=
  { ReadRequest := 0, OutputConnected := true, Request := getRequest "" "", Read := (0, []),
    Flush := 0, RemainingReqBodyLen := 0, DumpRequestData := 0, IsConnected := true,
    hooks := hooksS4 }

/-! ## The registry invariant -/

/-- The session type is camera or NVR. -/
def classified (L : Lib) (s : HTTPSession) : Prop :=
  s.fSessionType = L.EasyCameraSession ∨ s.fSessionType = L.EasyNVRSession

/-- The registry invariant: the device table has an entry that designates a
session exactly when the session is authenticated and its session type is
camera or NVR. -/
def RegistryInv (L : Lib) (w : World) : Prop :=
  ∀ s, (∃ r ∈ w.fDeviceSessionMap, r.obj = s)
    ↔ ((w.sessions s).fAuthenticated = true ∧ classified L (w.sessions s))

/-- Every session type is camera, NVR or the type of a fresh session. -/
def TypesKnown (L : Lib) (w : World) : Prop :=
  ∀ s, classified L (w.sessions s) ∨ (w.sessions s).fSessionType = L.EasyHTTPSession

/-- A world of fresh sessions: nobody is authenticated, every session has the
type `EasyHTTPSession` and the device table is empty. -/
def FreshWorld (L : Lib) (w : World) : Prop :=
  w.fDeviceSessionMap = []
  ∧ ∀ s, (w.sessions s).fAuthenticated = false ∧ (w.sessions s).fSessionType = L.EasyHTTPSession

/-- One step of the message handling: a session gets a request body, or a
session runs `ProcessRequest` with the handlers of this file, for any results of
the role modules, of the clock and of `fopen`. -/
inductive HandlerStep (k : Consts) (L : Lib) : World → World → Prop
  | receive (w : World) (this : Nat) (body : EasyProtocol) :
      HandlerStep k L w (w.modify this (fun s => { s with fRequestBody := some body }))
  | handle (w : World) (this : Nat) (hk : Hooks) (now : String) (opened : String → Bool) :
      HandlerStep k L w
        (ProcessRequest k hk (handlers k { L with NowTime := now, fopen := opened } hk) this w).2

/-- The worlds the message handling reaches from a world of fresh sessions. -/
inductive HandlerReachable (k : Consts) (L : Lib) : World → Prop
  | init (w : World) (h : FreshWorld L w) : HandlerReachable k L w
  | step (w w1 : World) (h : HandlerReachable k L w) (hs : HandlerStep k L w w1) :
      HandlerReachable k L w1

/-- The fresh world after session 1 received the register message of the camera
`CAM001` and ran the dispatcher. -/
def worldDispatched : World :=
  (ProcessRequest sampleConsts hooksS4 (handlers sampleConsts sampleLib hooksS4) 1
    (freshWorld.modify 1
      (fun s => { s with fRequestBody := some (registerReq "CAM001" "EasyCamera") }))).2

/-! ## Sample inputs for the request set-up and the list handlers -/

/-- A snapshot message of the device `CAM001`. -/
def snapReq : EasyProtocol :=
  { MessageType := 15, CSeq := "4", ErrorNum := "",
    body := [(Tag.SERIAL, "CAM001"), (Tag.IMAGE, "aGVsbG8="), (Tag.TYPE, "jpg"),
             (Tag.TIME, "2016-01-01 00:00:00")] }

/-- The fresh world with the snapshot message as the request body of session 3. -/
def worldSnapUnauth : World :=
  freshWorld.modify 3 (fun s => { s with fRequestBody := some snapReq })

/-- A parsed request with the given path, no query string and the given value
of the content-length header. -/
def pathRequest (path : String) (contentLength : Nat) : HTTPRequest :=
  { Parse := 0, RequestPath := some path, QueryString := none, ContentLength := contentLength }

/-- The path is one of the three REST routes of `SetupRequest`: two tokens, the
first `api`, the second one of the three names. -/
def isRestRoute (path : List String) : Prop :=
  path.length = 2 ∧ path.getD 0 "" = "api"
    ∧ (path.getD 1 "" = "getdevicelist" ∨ path.getD 1 "" = "getdeviceinfo"
        ∨ path.getD 1 "" = "getdevicestream")

instance (path : List String) : Decidable (isRestRoute path) := by
  unfold isRestRoute; infer_instance

/-- Session 0 of the fresh world waiting for its next request. -/
def worldReading : World :=
  freshWorld.modify 0 (fun s => { s with fState := State.kReadingRequest })

/-- The results of a pass in which `ReadRequest` reports `E2BIG`. -/
def passOverflow : PassResults := { samplePass with ReadRequest := 7 }

/-- The lookup-hold counter of the entry the device table has for a key. -/
def lookupHold (m : List OSRefEx) (key : String) : Option Int :=
  (m.find? (fun r => r.key = key)).map (fun r => r.refCount)

/-- Scenario S4 with a module for the stream id that leaves its buffer empty. -/
def hooksMintFails : Hooks :=
  { GetAssociatedDarwin := fun _ _ => ("", ""), GetBestDarwin := ("10.0.0.7", "10008"),
    GenStreamID := "", FlushEAGAIN := false }

/-! ## The kinds of the pending entries -/

/-- Every entry of every pending map has the kind `MSG_CS_GET_STREAM_REQ`. -/
def KindInv (k : Consts) (w : World) : Prop :=
  ∀ s, ∀ p ∈ (w.sessions s).fMsgMap, p.2.iMsgType = k.MSG_CS_GET_STREAM_REQ

/-- No session has a pending entry. -/
def NoPending (w : World) : Prop := ∀ s, (w.sessions s).fMsgMap = []

/-- The world `w1` has the pending maps of `w`. -/
def SameMaps (w w1 : World) : Prop := ∀ s, (w1.sessions s).fMsgMap = (w.sessions s).fMsgMap

/-- The world after session 0 received the get-stream request for `CAM001` and
the dispatcher ran it, the camera being session 1 of `worldDispatched`. -/
def worldPending : World :=
  (ProcessRequest sampleConsts hooksS4 (handlers sampleConsts sampleLib hooksS4) 0
    (worldDispatched.modify 0 (fun s => { s with fRequestBody := some sampleReq }))).2

/-! ## The content body over successive entries -/

/-- The running sums of the lengths of the chunks, from `acc`. -/
def prefixSums : Nat → List (List Nat) → List Nat
  | _, [] => []
  | acc, c :: cs => (acc + c.length) :: prefixSums (acc + c.length) cs

/-- Successive entries of `SetupRequest` on session `this` for the same request,
one entry per chunk that `fInputStream.Read` delivers without error: the value
each entry returns with the offset stored after it, and the world after the
last entry. -/
def feedChunks (k : Consts) (L : Lib) (rh : RestHandlers) (fRequest : HTTPRequest)
    (this : Nat) : List (List Nat) → World → List (Int × Nat) × World
  | [], w => ([], w)
  | c :: cs, w =>
    let r := SetupRequest k L rh fRequest (k.QTSS_NoErr, c) this w
    let rest := feedChunks k L rh fRequest this cs r.2
    ((r.1, (r.2.sessions this).fContentBodyOffset) :: rest.1, rest.2)

/-- The buffer of `m` bytes of session `this` holds the bytes `p` read so far
and the stored offset is their number; before the first entry the attribute is
not set. -/
def Buffered (m this : Nat) (p : List Nat) (w : World) : Prop :=
  ((w.sessions this).fContentBody = none ∧ p = [])
  ∨ ((w.sessions this).fContentBody = some (p ++ List.replicate (m - p.length) 0)
      ∧ (w.sessions this).fContentBodyOffset = p.length)

/-- A request without a path whose content-length header reads `n`. -/
def bodyRequest (n : Nat) : HTTPRequest :=
  { Parse := 0, RequestPath := none, QueryString := none, ContentLength := n }

/-! ## `HTTPSession::ExecNetMsgCSGetCameraListReqRESTful` -/

/-- The query-string helpers of the RESTful handlers, as parameters:
`EasyUtil::Urldecode`, `QueryParamList::DoFindCGIValueForParam` on the decoded
query (`none` is NULL) and the parameter name `EASY_TAG_L_DEVICE`. -/
structure QueryLib where
  Urldecode : String → String
  DoFindCGIValueForParam : String → String → Option String
  EASY_TAG_L_DEVICE : String

/-- The loop over `channels_` in the RESTful device-info handler: each channel
appends its value, with its own `EASY_TAG_SNAP_URL`, to `Channels`. -/
def cameraLoopRESTful : List (String × EasyDevice) → List (List (Tag × String)) →
    List (List (Tag × String))
  | [], channels => channels
  | c :: cs, channels =>
    let value := [(Tag.CHANNEL, c.2.channel_), (Tag.NAME, c.2.name_), (Tag.STATUS, c.2.status_),
                  (Tag.SNAP_URL, c.2.snapJpgPath_)]
    cameraLoopRESTful cs (channels ++ [value])

/-- The client device-info handler (RESTful), run on session `this` with the
query string of the request (`none` is NULL). -/
def ExecNetMsgCSGetCameraListReqRESTful (k : Consts) (L : Lib) (Q : QueryLib) (this : Nat)
    (queryString : Option String) (w : World) : Int × World :=
  match queryString with
  | none => (k.QTSS_BadArgument, w)
  | some query =>
    let decQueryString := Q.Urldecode query
    match Q.DoFindCGIValueForParam decQueryString Q.EASY_TAG_L_DEVICE with
    | none => (k.QTSS_BadArgument, w)
    | some device_serial =>
      let body0 := [(Tag.SERIAL, device_serial)]
      match Resolve w.fDeviceSessionMap device_serial with
      | none =>
        let rsp : EasyProtocolACK :=
          { fMsgType := k.MSG_SC_DEVICE_INFO_ACK, CSeq := "1",
            ErrorNum := some k.EASY_ERROR_DEVICE_NOT_FOUND, body := body0, array := [] }
        (k.QTSS_NoErr,
          w.modify this (Put { status := k.httpOK, content := some rsp, connectionClose := true }))
      | some (pDevSession, table) =>
        let w0 : World := { w with fDeviceSessionMap := table }
        let deviceInfo := (w0.sessions pDevSession).fDevice
        let filled :=
          if deviceInfo.eAppType = L.EASY_APP_TYPE_CAMERA then
            (setKey body0 Tag.SNAP_URL deviceInfo.snapJpgPath_, [])
          else
            (setKey body0 Tag.CHANNEL_COUNT (toString deviceInfo.channelCount_),
              cameraLoopRESTful deviceInfo.channels_ [])
        let rsp : EasyProtocolACK :=
          { fMsgType := k.MSG_SC_DEVICE_INFO_ACK, CSeq := "1",
            ErrorNum := some k.EASY_ERROR_SUCCESS_OK, body := filled.1, array := filled.2 }
        let w1 := (w0.Release device_serial).modify this
          (Put { status := k.httpOK, content := some rsp, connectionClose := true })
        (k.QTSS_NoErr, w1)

/-- The device information of the specification's channel-list reply, to
compare the two handlers with: for a camera the body carries the serial and the
single `snap_url`; for an NVR the body carries the serial and `channel_count`,
without a `snap_url` of the device, and there is one entry per channel with the
channel's id, name, status and `snap_url`. -/
def specDeviceInfo (L : Lib) (serial : String) (d : strDevice) :
    List (Tag × String) × List (List (Tag × String)) :=
  if d.eAppType = L.EASY_APP_TYPE_CAMERA then
    ([(Tag.SERIAL, serial), (Tag.SNAP_URL, d.snapJpgPath_)], [])
  else
    ([(Tag.SERIAL, serial), (Tag.CHANNEL_COUNT, toString d.channelCount_)],
      d.channels_.map (fun c =>
        [(Tag.CHANNEL, c.2.channel_), (Tag.NAME, c.2.name_), (Tag.STATUS, c.2.status_),
         (Tag.SNAP_URL, c.2.snapJpgPath_)]))

/-- The body and `Channels` that the JSON device-info handler fills for the
resolved device. -/
def jsonDeviceInfo (L : Lib) (serial : String) (d : strDevice) :
    List (Tag × String) × List (List (Tag × String)) :=
  if d.eAppType = L.EASY_APP_TYPE_CAMERA then
    (setKey [(Tag.SERIAL, serial)] Tag.SNAP_URL d.snapJpgPath_, [])
  else
    cameraLoop d.channels_
      (setKey [(Tag.SERIAL, serial)] Tag.CHANNEL_COUNT (toString d.channelCount_)) []

/-- The body and `Channels` that the RESTful device-info handler fills for the
resolved device. -/
def restDeviceInfo (L : Lib) (serial : String) (d : strDevice) :
    List (Tag × String) × List (List (Tag × String)) :=
  if d.eAppType = L.EASY_APP_TYPE_CAMERA then
    (setKey [(Tag.SERIAL, serial)] Tag.SNAP_URL d.snapJpgPath_, [])
  else
    (setKey [(Tag.SERIAL, serial)] Tag.CHANNEL_COUNT (toString d.channelCount_),
      cameraLoopRESTful d.channels_ [])

/-- The successful `MSG_SC_DEVICE_INFO_ACK` message with the given CSeq, body and
`Channels`, put with the connection-close header. -/
def deviceInfoAck (k : Consts) (CSeq : String)
    (filled : List (Tag × String) × List (List (Tag × String))) : HTTPPacket :=
  { status := k.httpOK,
    content := some { fMsgType := k.MSG_SC_DEVICE_INFO_ACK, CSeq := CSeq,
                      ErrorNum := some k.EASY_ERROR_SUCCESS_OK, body := filled.1,
                      array := filled.2 },
    connectionClose := true }

/-- A query library for the samples: no escapes to decode, and a query that is
one `name=value` pair. -/
def sampleQuery : QueryLib :=
  { Urldecode := fun s => s,
    DoFindCGIValueForParam := fun q name =>
      if q.toList.take (name.length + 1) = name.toList ++ ['='] then
        some (String.mk (q.toList.drop (name.length + 1)))
      else none,
    EASY_TAG_L_DEVICE := "device" }

/-- The device record of the NVR `NVR001` with two channels. -/
def nvrDevice : strDevice :=
  { serial_ := "NVR001", name_ := "gate", tag_ := "", eAppType := 1, eDeviceType := 0,
    snapJpgPath_ := "", channelCount_ := 2,
    channels_ :=
      [("1", { channel_ := "1", name_ := "front", status_ := "online",
               snapJpgPath_ := "http://cms/snap/1.jpg" }),
       ("2", { channel_ := "2", name_ := "back", status_ := "offline",
               snapJpgPath_ := "http://cms/snap/2.jpg" })] }

/-- The fresh world with session 1 registered as the NVR `NVR001`. -/
def worldNVR : World :=
  { freshWorld.modify 1 (fun s =>
      { s with fDevice := nvrDevice, fAuthenticated := true, fSessionType := 1 }) with
    fDeviceSessionMap := [{ key := "NVR001", obj := 1, refCount := 0 }] }

/-- A client device-info request (JSON) for `NVR001` with CSeq 5. -/
def nvrInfoReq : EasyProtocol :=
  { MessageType := 13, CSeq := "5", ErrorNum := "", body := [(Tag.SERIAL, "NVR001")] }

/-! ## Basic facts about the world -/

@[simp] theorem World.modify_sessions_same (w : World) (i : Nat) (f : HTTPSession → HTTPSession) :
    (w.modify i f).sessions i = f (w.sessions i) := by
  simp [World.modify]

theorem World.modify_sessions_ne (w : World) (i j : Nat) (f : HTTPSession → HTTPSession)
    (h : j ≠ i) : (w.modify i f).sessions j = w.sessions j := by
  simp [World.modify, Function.update_noteq h]

theorem World.modify_sessions (w : World) (i j : Nat) (f : HTTPSession → HTTPSession) :
    (w.modify i f).sessions j = if j = i then f (w.sessions i) else w.sessions j := by
  by_cases h : j = i
  · subst h; simp
  · simp [h, World.modify_sessions_ne]

@[simp] theorem World.modify_table (w : World) (i : Nat) (f : HTTPSession → HTTPSession) :
    (w.modify i f).fDeviceSessionMap = w.fDeviceSessionMap := rfl

@[simp] theorem World.Release_sessions (w : World) (key : String) :
    (w.Release key).sessions = w.sessions := rfl

theorem World.modify_modify (w : World) (i : Nat) (f g : HTTPSession → HTTPSession) :
    (w.modify i f).modify i g = w.modify i (fun s => g (f s)) := by
  simp [World.modify]

theorem World.modify_congr (w : World) (i : Nat) (f g : HTTPSession → HTTPSession)
    (h : f (w.sessions i) = g (w.sessions i)) : w.modify i f = w.modify i g := by
  simp [World.modify, h]

theorem String.length_le_zero_iff (s : String) : s.length ≤ 0 ↔ s = "" := by
  rw [Nat.le_zero]
  constructor
  · intro h
    cases s with
    | mk l =>
      simp only [String.length] at h
      have : l = [] := List.length_eq_zero.mp h
      subst this; rfl
  · intro h; subst h; rfl

/-! ## The two handlers as equations on the world -/

/-- The brokered first entry of the get-stream handler, as one equation: the
device table with the lookup-hold taken and released, the device counter
advanced, the pending entry inserted, the client's hold taken, the push put on
the device's output stream and the wait slot armed. -/
theorem getStream_first_entry_brokered (k : Consts) (hk : Hooks) (c d : Nat) (req : EasyProtocol)
    (w : World) (table : List OSRefEx)
    (hserial : req.GetBodyValue Tag.SERIAL ≠ "")
    (hproto : req.GetBodyValue Tag.PROTOCOL ≠ "")
    (hwait : (w.sessions c).fInfo.bWaitingState = false)
    (hres : Resolve w.fDeviceSessionMap (req.GetBodyValue Tag.SERIAL) = some (d, table))
    (hassoc : (hk.GetAssociatedDarwin (req.GetBodyValue Tag.SERIAL) (channelOf req)).1 = "")
    (hbest : hk.GetBestDarwin.1 ≠ "")
    (hmint : hk.GenStreamID ≠ "") :
    ExecNetMsgCSGetStreamReq k hk c req w =
      (k.QTSS_NoErr,
        ((((((({ w with fDeviceSessionMap := table } : World).modify d
              (fun s => { s with fCSeq := s.fCSeq + 1 })).modify d
              (fun s => { s with fMsgMap := InsertToMsgMap s.fMsgMap (w.sessions d).fCSeq
                                    (strMessage.mk k.MSG_CS_GET_STREAM_REQ c (toUInt32 (atoi req.CSeq))) })).modify c
              IncrementObjectHolderCount).modify d
              (Put { status := k.httpOK, content := some (pushStreamReq k hk req (w.sessions d).fCSeq),
                     connectionClose := false })).modify c
              (fun s => { s with fInfo := { s.fInfo with bWaitingState := true, iResponse := 0,
                                                         uTimeoutNum := 0, uWaitingTime := 100 } })).Release
              (req.GetBodyValue Tag.SERIAL))) := by
  unfold channelOf at hassoc
  simp only [ExecNetMsgCSGetStreamReq, String.length_le_zero_iff, hserial, hproto, hwait, hres,
    hassoc, hbest, hmint, or_self, if_false, if_true, ne_eq, not_true_eq_false, GetCSeq,
    Easy_SendMsg, SendHTTPPacket, pushStreamReq, ite_false, ite_true, not_false_eq_true]
  simp

/-! ## C1: the brokered first entry -/

/-- C1. A first-entry get-stream request (not waiting) with non-empty serial and
protocol, whose device resolves to session `d`, with no associated relay, a best
relay and a minted stream id: the handler returns no-error, takes the device's
next CSeq `K` (the counter advances by one), inserts exactly the entry
`(K, MSG_CS_GET_STREAM_REQ, this session, request CSeq)` into the device's
pending map and touches no other map, raises this session's holder count by
exactly one and no other, puts exactly one `MSG_SD_PUSH_STREAM_REQ` whose CSeq
text is the `%d` rendering of `K` on the device's output stream, writes nothing
on any other session's output stream (so no response bytes when the client is
not the device itself), and arms the wait slot: waiting, response 0, timeout
ticks 0, quantum 100. -/
theorem C1_first_entry_brokered (k : Consts) (hk : Hooks) (c d : Nat) (req : EasyProtocol)
    (w : World) (table : List OSRefEx)
    (hserial : req.GetBodyValue Tag.SERIAL ≠ "")
    (hproto : req.GetBodyValue Tag.PROTOCOL ≠ "")
    (hwait : (w.sessions c).fInfo.bWaitingState = false)
    (hres : Resolve w.fDeviceSessionMap (req.GetBodyValue Tag.SERIAL) = some (d, table))
    (hassoc : (hk.GetAssociatedDarwin (req.GetBodyValue Tag.SERIAL) (channelOf req)).1 = "")
    (hbest : hk.GetBestDarwin.1 ≠ "")
    (hmint : hk.GenStreamID ≠ "") :
    (ExecNetMsgCSGetStreamReq k hk c req w).1 = k.QTSS_NoErr
    ∧ ((ExecNetMsgCSGetStreamReq k hk c req w).2.sessions d).fCSeq = (w.sessions d).fCSeq + 1
    ∧ ((ExecNetMsgCSGetStreamReq k hk c req w).2.sessions d).fMsgMap
        = ((w.sessions d).fCSeq,
            strMessage.mk k.MSG_CS_GET_STREAM_REQ c (toUInt32 (atoi req.CSeq)))
          :: (w.sessions d).fMsgMap.filter (fun p => p.1 ≠ (w.sessions d).fCSeq)
    ∧ (∀ s, s ≠ d → ((ExecNetMsgCSGetStreamReq k hk c req w).2.sessions s).fMsgMap
        = (w.sessions s).fMsgMap)
    ∧ ((ExecNetMsgCSGetStreamReq k hk c req w).2.sessions c).fObjectHolders
        = (w.sessions c).fObjectHolders + 1
    ∧ (∀ s, s ≠ c → ((ExecNetMsgCSGetStreamReq k hk c req w).2.sessions s).fObjectHolders
        = (w.sessions s).fObjectHolders)
    ∧ ((ExecNetMsgCSGetStreamReq k hk c req w).2.sessions d).fOutputStream
        = (w.sessions d).fOutputStream
          ++ [{ status := k.httpOK, content := some (pushStreamReq k hk req (w.sessions d).fCSeq),
                connectionClose := false }]
    ∧ (pushStreamReq k hk req (w.sessions d).fCSeq).fMsgType = k.MSG_SD_PUSH_STREAM_REQ
    ∧ (pushStreamReq k hk req (w.sessions d).fCSeq).CSeq = sprintf_d (w.sessions d).fCSeq
    ∧ (∀ s, s ≠ d → ((ExecNetMsgCSGetStreamReq k hk c req w).2.sessions s).fOutputStream
          = (w.sessions s).fOutputStream
        ∧ ((ExecNetMsgCSGetStreamReq k hk c req w).2.sessions s).fBytesWritten
          = (w.sessions s).fBytesWritten)
    ∧ ((ExecNetMsgCSGetStreamReq k hk c req w).2.sessions c).fInfo
        = { (w.sessions c).fInfo with bWaitingState := true, iResponse := 0, uTimeoutNum := 0,
                                      uWaitingTime := 100 } := by
  rw [getStream_first_entry_brokered k hk c d req w table hserial hproto hwait hres hassoc hbest
    hmint]
  clear hserial hproto hwait hres hassoc hbest hmint
  refine ⟨rfl, ?_, ?_, ?_, ?_, ?_, ?_, by simp [pushStreamReq], by simp [pushStreamReq], ?_, ?_⟩
  all_goals
    try intro s hs
    simp only [World.modify_sessions, World.Release_sessions]
    split_ifs <;> first
      | rfl
      | (subst_vars; first | rfl | contradiction | simp [IncrementObjectHolderCount, Put, InsertToMsgMap])

/-- C1 at the sample world: client 0 asks for `CAM001`, held by device 1. -/
theorem C1_first_entry_brokered_witness :
    sampleReq.GetBodyValue Tag.SERIAL ≠ "" ∧ sampleReq.GetBodyValue Tag.PROTOCOL ≠ ""
    ∧ (sampleWorld.sessions 0).fInfo.bWaitingState = false
    ∧ (ExecNetMsgCSGetStreamReq sampleConsts hooksS4 0 sampleReq sampleWorld).1 = 0
    ∧ ((ExecNetMsgCSGetStreamReq sampleConsts hooksS4 0 sampleReq sampleWorld).2.sessions 1).fMsgMap
        = [(0, strMessage.mk 3 0 7)]
    ∧ ((ExecNetMsgCSGetStreamReq sampleConsts hooksS4 0 sampleReq sampleWorld).2.sessions 0).fObjectHolders
        = 1 :=
  have h := C1_first_entry_brokered sampleConsts hooksS4 0 1 sampleReq sampleWorld
    [{ key := "CAM001", obj := 1, refCount := 1 }]
    (by decide) (by decide) (by decide) (by decide) (by decide) (by decide) (by decide)
  ⟨by decide, by decide, by decide, h.1, h.2.2.1, h.2.2.2.2.1⟩

/-- The push-stream-ack handler on a found entry of kind
`MSG_CS_GET_STREAM_REQ`, as one equation: the entry leaves the device's map,
the relay data are stored for the success code only, the recorded client CSeq
and the reported code are stored, and the client's hold is released. -/
theorem pushStreamAck_found (k : Consts) (d : Nat) (ack : EasyProtocol) (w : World)
    (e : strMessage) (rest : List (Nat × strMessage))
    (hauth : (w.sessions d).fAuthenticated = true)
    (hfind : FindInMsgMap (w.sessions d).fMsgMap (toUInt32 (atoi ack.CSeq)) = some (e, rest))
    (hkind : e.iMsgType = k.MSG_CS_GET_STREAM_REQ) :
    ExecNetMsgDSPushStreamAck k d ack w =
      (k.QTSS_NoErr,
        (((w.modify d (fun s => { s with fMsgMap := rest })).modify e.pObject
            (fun s => if atoi ack.ErrorNum = k.EASY_ERROR_SUCCESS_OK then
              { s with fInfo := { s.fInfo with strDssIP := ack.GetBodyValue Tag.SERVER_IP,
                                               strDssPort := ack.GetBodyValue Tag.SERVER_PORT,
                                               strStreamID := reserveOf ack } }
              else s)).modify e.pObject
            (fun s => { s with fInfo := { s.fInfo with uCseq := e.uCseq,
                                                       iResponse := atoi ack.ErrorNum } })).modify
            e.pObject DecrementObjectHolderCount) := by
  simp only [ExecNetMsgDSPushStreamAck, hauth, hfind, hkind, reserveOf]
  by_cases hok : atoi ack.ErrorNum = k.EASY_ERROR_SUCCESS_OK
  · simp [hok]
  · simp [hok, World.modify]

/-! ## C2: what the ack handler stores -/

/-- C2 (refuted as stated). The device acks CSeq 0 with `ErrorNum` 404 and relay
address 10.0.0.7: the entry is found and is of kind `MSG_CS_GET_STREAM_REQ`, yet
the client's wait slot does not receive the ack's relay ip. -/
theorem C2_ack_error_keeps_relay :
    (worldAfterPush.sessions 1).fAuthenticated = true
    ∧ FindInMsgMap (worldAfterPush.sessions 1).fMsgMap (toUInt32 (atoi (sampleAck "404").CSeq))
        = some (strMessage.mk sampleConsts.MSG_CS_GET_STREAM_REQ 0 7, [])
    ∧ ((ExecNetMsgDSPushStreamAck sampleConsts 1 (sampleAck "404") worldAfterPush).2.sessions
        0).fInfo.strDssIP ≠ (sampleAck "404").GetBodyValue Tag.SERVER_IP
    ∧ ((ExecNetMsgDSPushStreamAck sampleConsts 1 (sampleAck "404") worldAfterPush).2.sessions
        0).fInfo.strDssIP = "" := by
  decide

/-- C2 (amended). For an authenticated device session whose pending map holds
an entry `e` of kind `MSG_CS_GET_STREAM_REQ` under the echoed CSeq, and for every
`ErrorNum` the ack reports: the handler returns no-error, removes the entry,
stores the reported code and the entry's recorded client CSeq in the client's
wait slot and lowers the client's holder count by exactly one; the relay ip,
relay port and stream id of the ack are stored when the code is the success
code, and are left as they were otherwise. -/
theorem C2_ack_stores (k : Consts) (d : Nat) (ack : EasyProtocol) (w : World)
    (e : strMessage) (rest : List (Nat × strMessage))
    (hauth : (w.sessions d).fAuthenticated = true)
    (hfind : FindInMsgMap (w.sessions d).fMsgMap (toUInt32 (atoi ack.CSeq)) = some (e, rest))
    (hkind : e.iMsgType = k.MSG_CS_GET_STREAM_REQ) :
    (ExecNetMsgDSPushStreamAck k d ack w).1 = k.QTSS_NoErr
    ∧ ((ExecNetMsgDSPushStreamAck k d ack w).2.sessions d).fMsgMap = rest
    ∧ ((ExecNetMsgDSPushStreamAck k d ack w).2.sessions e.pObject).fInfo.iResponse
        = atoi ack.ErrorNum
    ∧ ((ExecNetMsgDSPushStreamAck k d ack w).2.sessions e.pObject).fInfo.uCseq = e.uCseq
    ∧ ((ExecNetMsgDSPushStreamAck k d ack w).2.sessions e.pObject).fObjectHolders
        = (w.sessions e.pObject).fObjectHolders - 1
    ∧ (atoi ack.ErrorNum = k.EASY_ERROR_SUCCESS_OK →
        ((ExecNetMsgDSPushStreamAck k d ack w).2.sessions e.pObject).fInfo.strDssIP
          = ack.GetBodyValue Tag.SERVER_IP
        ∧ ((ExecNetMsgDSPushStreamAck k d ack w).2.sessions e.pObject).fInfo.strDssPort
          = ack.GetBodyValue Tag.SERVER_PORT
        ∧ ((ExecNetMsgDSPushStreamAck k d ack w).2.sessions e.pObject).fInfo.strStreamID
          = reserveOf ack)
    ∧ (atoi ack.ErrorNum ≠ k.EASY_ERROR_SUCCESS_OK →
        ((ExecNetMsgDSPushStreamAck k d ack w).2.sessions e.pObject).fInfo.strDssIP
          = (w.sessions e.pObject).fInfo.strDssIP
        ∧ ((ExecNetMsgDSPushStreamAck k d ack w).2.sessions e.pObject).fInfo.strDssPort
          = (w.sessions e.pObject).fInfo.strDssPort
        ∧ ((ExecNetMsgDSPushStreamAck k d ack w).2.sessions e.pObject).fInfo.strStreamID
          = (w.sessions e.pObject).fInfo.strStreamID) := by
  rw [pushStreamAck_found k d ack w e rest hauth hfind hkind]
  clear hauth hfind hkind
  refine ⟨rfl, ?_, ?_, ?_, ?_, ?_, ?_⟩
  all_goals
    try intro hok
    simp only [World.modify_sessions]
    split_ifs <;> first
      | rfl
      | (subst_vars; first | rfl | contradiction | simp [DecrementObjectHolderCount])

/-- C2 (amended) at the sample world: the device acks CSeq 0 with the success code. -/
theorem C2_ack_stores_witness :
    (worldAfterPush.sessions 1).fAuthenticated = true
    ∧ ((ExecNetMsgDSPushStreamAck sampleConsts 1 (sampleAck "200") worldAfterPush).2.sessions
        0).fInfo.iResponse = 200
    ∧ ((ExecNetMsgDSPushStreamAck sampleConsts 1 (sampleAck "200") worldAfterPush).2.sessions
        0).fObjectHolders = 0 :=
  have h := C2_ack_stores sampleConsts 1 (sampleAck "200") worldAfterPush
    (strMessage.mk 3 0 7) [] (by decide) (by decide) (by decide)
  ⟨by decide, h.2.2.1.trans (by decide), h.2.2.2.2.1.trans (by decide)⟩

/-! ## The re-entries of the get-stream handler, branch by branch -/

/-- Re-entry while the device has not replied and the tick count stays within
the limit: one more tick, the quantum re-armed, nothing else. -/
theorem getStream_reentry_wait (k : Consts) (hk : Hooks) (c : Nat) (req : EasyProtocol)
    (w : World)
    (hserial : req.GetBodyValue Tag.SERIAL ≠ "") (hproto : req.GetBodyValue Tag.PROTOCOL ≠ "")
    (hwait : (w.sessions c).fInfo.bWaitingState = true)
    (hresp : (w.sessions c).fInfo.iResponse = 0)
    (hlim : ¬ ((w.sessions c).fInfo.uTimeoutNum + 1) % 4294967296
              > k.CliStartStreamTimeout / 100) :
    ExecNetMsgCSGetStreamReq k hk c req w =
      (k.QTSS_NoErr, w.modify c (fun s => { s with fInfo :=
        { s.fInfo with uTimeoutNum := ((w.sessions c).fInfo.uTimeoutNum + 1) % 4294967296,
                       uWaitingTime := 100 } })) := by
  simp only [ExecNetMsgCSGetStreamReq, String.length_le_zero_iff, hserial, hproto, hwait, hresp,
    or_self, if_false, if_true, hlim, Bool.true_eq_false]

/-- Re-entry while the device has not replied and the tick count passes the
limit: waiting is cleared and the request-timeout status is returned. -/
theorem getStream_reentry_timeout (k : Consts) (hk : Hooks) (c : Nat) (req : EasyProtocol)
    (w : World)
    (hserial : req.GetBodyValue Tag.SERIAL ≠ "") (hproto : req.GetBodyValue Tag.PROTOCOL ≠ "")
    (hwait : (w.sessions c).fInfo.bWaitingState = true)
    (hresp : (w.sessions c).fInfo.iResponse = 0)
    (hlim : ((w.sessions c).fInfo.uTimeoutNum + 1) % 4294967296
              > k.CliStartStreamTimeout / 100) :
    ExecNetMsgCSGetStreamReq k hk c req w =
      (k.httpRequestTimeout, w.modify c (fun s => { s with fInfo :=
        { s.fInfo with uTimeoutNum := ((w.sessions c).fInfo.uTimeoutNum + 1) % 4294967296,
                       bWaitingState := false } })) := by
  simp only [ExecNetMsgCSGetStreamReq, String.length_le_zero_iff, hserial, hproto, hwait, hresp,
    or_self, if_false, if_true, hlim, Bool.true_eq_false]

/-- Re-entry on a reply whose recorded client CSeq is not the CSeq of the
request: the reply is dropped and the wait goes on. -/
theorem getStream_reentry_stale (k : Consts) (hk : Hooks) (c : Nat) (req : EasyProtocol)
    (w : World)
    (hserial : req.GetBodyValue Tag.SERIAL ≠ "") (hproto : req.GetBodyValue Tag.PROTOCOL ≠ "")
    (hwait : (w.sessions c).fInfo.bWaitingState = true)
    (hresp : (w.sessions c).fInfo.iResponse ≠ 0)
    (hcseq : (w.sessions c).fInfo.uCseq ≠ toUInt32 (atoi req.CSeq)) :
    ExecNetMsgCSGetStreamReq k hk c req w =
      (k.QTSS_NoErr, w.modify c (fun s => { s with fInfo :=
        { s.fInfo with iResponse := 0,
                       uTimeoutNum := ((w.sessions c).fInfo.uTimeoutNum + 1) % 4294967296,
                       uWaitingTime := 100 } })) := by
  simp only [ExecNetMsgCSGetStreamReq, String.length_le_zero_iff, hserial, hproto, hwait, hresp,
    hcseq, or_self, if_false, if_true, Bool.true_eq_false, ne_eq, not_false_eq_true]
  simp [World.modify]

/-- Re-entry on a matching reply with the success code and a minted id: waiting
is cleared and the success response with the playback address is put on the
client's output stream. -/
theorem getStream_reentry_success (k : Consts) (hk : Hooks) (c : Nat) (req : EasyProtocol)
    (w : World)
    (hserial : req.GetBodyValue Tag.SERIAL ≠ "") (hproto : req.GetBodyValue Tag.PROTOCOL ≠ "")
    (hwait : (w.sessions c).fInfo.bWaitingState = true)
    (hresp : (w.sessions c).fInfo.iResponse ≠ 0)
    (hcseq : (w.sessions c).fInfo.uCseq = toUInt32 (atoi req.CSeq))
    (hok : (w.sessions c).fInfo.iResponse = k.EASY_ERROR_SUCCESS_OK)
    (hmint : hk.GenStreamID ≠ "") :
    ExecNetMsgCSGetStreamReq k hk c req w =
      (k.QTSS_NoErr,
        (w.modify c (fun s => { s with fInfo := { s.fInfo with bWaitingState := false } })).modify c
          (Put (getStreamAck k req
            (buildURL (w.sessions c).fInfo.strDssIP (w.sessions c).fInfo.strDssPort
              (req.GetBodyValue Tag.SERIAL) (channelOf req) hk.GenStreamID)
            (w.sessions c).fInfo.strProtocol (w.sessions c).fInfo.strStreamID))) := by
  have hresp' : ¬ k.EASY_ERROR_SUCCESS_OK = 0 := by rw [← hok]; exact hresp
  simp only [ExecNetMsgCSGetStreamReq, String.length_le_zero_iff, hserial, hproto, hwait, hok,
    hresp', hcseq, hmint, or_self, if_false, if_true, Bool.true_eq_false, ne_eq,
    not_true_eq_false, emitGetStreamAck, getStreamAck, channelOf]

/-- Re-entry on a matching reply with the success code when minting fails. -/
theorem getStream_reentry_mint_fails (k : Consts) (hk : Hooks) (c : Nat) (req : EasyProtocol)
    (w : World)
    (hserial : req.GetBodyValue Tag.SERIAL ≠ "") (hproto : req.GetBodyValue Tag.PROTOCOL ≠ "")
    (hwait : (w.sessions c).fInfo.bWaitingState = true)
    (hresp : (w.sessions c).fInfo.iResponse ≠ 0)
    (hcseq : (w.sessions c).fInfo.uCseq = toUInt32 (atoi req.CSeq))
    (hok : (w.sessions c).fInfo.iResponse = k.EASY_ERROR_SUCCESS_OK)
    (hmint : hk.GenStreamID = "") :
    ExecNetMsgCSGetStreamReq k hk c req w =
      (k.EASY_ERROR_SERVER_INTERNAL_ERROR,
        w.modify c (fun s => { s with fInfo := { s.fInfo with bWaitingState := false } })) := by
  have hresp' : ¬ k.EASY_ERROR_SUCCESS_OK = 0 := by rw [← hok]; exact hresp
  simp only [ExecNetMsgCSGetStreamReq, String.length_le_zero_iff, hserial, hproto, hwait, hok,
    hresp', hcseq, hmint, or_self, if_false, if_true, Bool.true_eq_false, ne_eq,
    not_true_eq_false]

/-- Re-entry on a matching reply with a code other than success: waiting is
cleared and the device's code is the handler's result. -/
theorem getStream_reentry_device_error (k : Consts) (hk : Hooks) (c : Nat) (req : EasyProtocol)
    (w : World)
    (hserial : req.GetBodyValue Tag.SERIAL ≠ "") (hproto : req.GetBodyValue Tag.PROTOCOL ≠ "")
    (hwait : (w.sessions c).fInfo.bWaitingState = true)
    (hresp : (w.sessions c).fInfo.iResponse ≠ 0)
    (hcseq : (w.sessions c).fInfo.uCseq = toUInt32 (atoi req.CSeq))
    (hok : (w.sessions c).fInfo.iResponse ≠ k.EASY_ERROR_SUCCESS_OK) :
    ExecNetMsgCSGetStreamReq k hk c req w =
      ((w.sessions c).fInfo.iResponse,
        w.modify c (fun s => { s with fInfo := { s.fInfo with bWaitingState := false } })) := by
  simp only [ExecNetMsgCSGetStreamReq, String.length_le_zero_iff, hserial, hproto, hwait, hok,
    hresp, hcseq, or_self, if_false, if_true, Bool.true_eq_false, ne_eq,
    not_true_eq_false, not_false_eq_true]

/-- The client's wait slot after a consumed ack. -/
theorem pushStreamAck_client_slot (k : Consts) (d : Nat) (ack : EasyProtocol) (w : World)
    (e : strMessage) (rest : List (Nat × strMessage))
    (hauth : (w.sessions d).fAuthenticated = true)
    (hfind : FindInMsgMap (w.sessions d).fMsgMap (toUInt32 (atoi ack.CSeq)) = some (e, rest))
    (hkind : e.iMsgType = k.MSG_CS_GET_STREAM_REQ) :
    ((ExecNetMsgDSPushStreamAck k d ack w).2.sessions e.pObject).fInfo =
      (if atoi ack.ErrorNum = k.EASY_ERROR_SUCCESS_OK then
        { (w.sessions e.pObject).fInfo with
            strDssIP := ack.GetBodyValue Tag.SERVER_IP,
            strDssPort := ack.GetBodyValue Tag.SERVER_PORT,
            strStreamID := reserveOf ack, uCseq := e.uCseq, iResponse := atoi ack.ErrorNum }
       else
        { (w.sessions e.pObject).fInfo with uCseq := e.uCseq, iResponse := atoi ack.ErrorNum }) := by
  rw [pushStreamAck_found k d ack w e rest hauth hfind hkind]
  clear hauth hfind hkind
  simp only [World.modify_sessions]
  split_ifs <;> first
    | rfl
    | (subst_vars; rfl)

/-- A consumed ack writes on no output stream. -/
theorem pushStreamAck_output (k : Consts) (d : Nat) (ack : EasyProtocol) (w : World) (s : Nat) :
    ((ExecNetMsgDSPushStreamAck k d ack w).2.sessions s).fOutputStream
      = (w.sessions s).fOutputStream := by
  simp only [ExecNetMsgDSPushStreamAck]
  split_ifs <;> try rfl
  all_goals
    split <;> try rfl
    split_ifs <;> simp only [World.modify_sessions] <;> split_ifs <;>
      first
      | rfl
      | (subst_vars; rfl)

/-! ## C4: the re-entry after a consumed ack -/

/-- C4 (refuted as stated). Scenario S4 with the ack of the spec, `ErrorNum` 0
and relay 10.0.0.7:10008: the ack is consumed (the entry is found under CSeq 0
and is of kind `MSG_CS_GET_STREAM_REQ`), the client's response stays 0, and the
client's next re-entry counts one more tick, keeps waiting and emits nothing. -/
theorem C4_ack_zero_still_waiting :
    FindInMsgMap (worldAfterPush.sessions 1).fMsgMap (toUInt32 (atoi (sampleAck "0").CSeq))
        = some (strMessage.mk sampleConsts.MSG_CS_GET_STREAM_REQ 0 7, [])
    ∧ ((ExecNetMsgDSPushStreamAck sampleConsts 1 (sampleAck "0") worldAfterPush).2.sessions
        0).fInfo.iResponse = 0
    ∧ ((ExecNetMsgCSGetStreamReq sampleConsts hooksS4 0 sampleReq
        (ExecNetMsgDSPushStreamAck sampleConsts 1 (sampleAck "0") worldAfterPush).2).2.sessions
          0).fOutputStream = []
    ∧ ((ExecNetMsgCSGetStreamReq sampleConsts hooksS4 0 sampleReq
        (ExecNetMsgDSPushStreamAck sampleConsts 1 (sampleAck "0") worldAfterPush).2).2.sessions
          0).fInfo.bWaitingState = true
    ∧ ((ExecNetMsgCSGetStreamReq sampleConsts hooksS4 0 sampleReq
        (ExecNetMsgDSPushStreamAck sampleConsts 1 (sampleAck "0") worldAfterPush).2).2.sessions
          0).fInfo.uTimeoutNum = 1 := by
  decide

/-- C4 (amended). After the ack handler consumed an ack that matches a pending
`MSG_CS_GET_STREAM_REQ` entry of waiting client `c` and whose `ErrorNum` reads
as a non-zero number, the client's response is that non-zero number; and when
the number is the success code, the entry's recorded client CSeq is the CSeq of
the client's request and minting succeeds, the client's next re-entry returns
no-error, clears waiting and puts on the client's output stream the success
response whose URL is built from the relay address of the ack. -/
theorem C4_ack_then_reentry (k : Consts) (hk : Hooks) (c d : Nat) (req ack : EasyProtocol)
    (w : World) (e : strMessage) (rest : List (Nat × strMessage))
    (hauth : (w.sessions d).fAuthenticated = true)
    (hfind : FindInMsgMap (w.sessions d).fMsgMap (toUInt32 (atoi ack.CSeq)) = some (e, rest))
    (hkind : e.iMsgType = k.MSG_CS_GET_STREAM_REQ)
    (hc : e.pObject = c)
    (hnz : atoi ack.ErrorNum ≠ 0)
    (hserial : req.GetBodyValue Tag.SERIAL ≠ "") (hproto : req.GetBodyValue Tag.PROTOCOL ≠ "")
    (hwait : (w.sessions c).fInfo.bWaitingState = true) :
    ((ExecNetMsgDSPushStreamAck k d ack w).2.sessions c).fInfo.iResponse = atoi ack.ErrorNum
    ∧ ((ExecNetMsgDSPushStreamAck k d ack w).2.sessions c).fInfo.iResponse ≠ 0
    ∧ (atoi ack.ErrorNum = k.EASY_ERROR_SUCCESS_OK → e.uCseq = toUInt32 (atoi req.CSeq) →
        hk.GenStreamID ≠ "" →
        (ExecNetMsgCSGetStreamReq k hk c req (ExecNetMsgDSPushStreamAck k d ack w).2).1
          = k.QTSS_NoErr
        ∧ ((ExecNetMsgCSGetStreamReq k hk c req
            (ExecNetMsgDSPushStreamAck k d ack w).2).2.sessions c).fInfo.bWaitingState = false
        ∧ ((ExecNetMsgCSGetStreamReq k hk c req
            (ExecNetMsgDSPushStreamAck k d ack w).2).2.sessions c).fOutputStream
          = (w.sessions c).fOutputStream ++
              [getStreamAck k req
                (buildURL (ack.GetBodyValue Tag.SERVER_IP) (ack.GetBodyValue Tag.SERVER_PORT)
                  (req.GetBodyValue Tag.SERIAL) (channelOf req) hk.GenStreamID)
                (w.sessions c).fInfo.strProtocol (reserveOf ack)]) := by
  have hslot := pushStreamAck_client_slot k d ack w e rest hauth hfind hkind
  have hout := pushStreamAck_output k d ack w c
  rw [hc] at hslot
  have hresp : ((ExecNetMsgDSPushStreamAck k d ack w).2.sessions c).fInfo.iResponse
      = atoi ack.ErrorNum := by
    rw [hslot]; split_ifs <;> rfl
  refine ⟨hresp, by rw [hresp]; exact hnz, ?_⟩
  intro hok hcseq hmint
  rw [if_pos hok] at hslot
  have hw' : ((ExecNetMsgDSPushStreamAck k d ack w).2.sessions c).fInfo.bWaitingState = true := by
    rw [hslot]; exact hwait
  have hr := getStream_reentry_success k hk c req (ExecNetMsgDSPushStreamAck k d ack w).2
    hserial hproto hw' (by rw [hresp]; exact hnz) (by rw [hslot]; exact hcseq)
    (by rw [hresp]; exact hok) hmint
  rw [hr]
  refine ⟨rfl, by simp [Put], ?_⟩
  simp only [World.modify_sessions_same, Put, hout, hslot]

/-- C4 (amended) at scenario S4 with the success code 200: the URL of the
response is the one of the relay 10.0.0.7:10008. -/
theorem C4_ack_then_reentry_witness :
    atoi (sampleAck "200").ErrorNum ≠ 0
    ∧ (worldAfterPush.sessions 0).fInfo.bWaitingState = true
    ∧ ((ExecNetMsgCSGetStreamReq sampleConsts hooksS4 0 sampleReq
        (ExecNetMsgDSPushStreamAck sampleConsts 1 (sampleAck "200")
          worldAfterPush).2).2.sessions 0).fOutputStream
        = [getStreamAck sampleConsts sampleReq "rtsp://10.0.0.7:10008/CAM001/0.sdp?token=tok"
            "" "1"] :=
  have h := C4_ack_then_reentry sampleConsts hooksS4 0 1 sampleReq (sampleAck "200")
    worldAfterPush (strMessage.mk 3 0 7) [] (by decide) (by decide) (by decide) (by decide)
    (by decide) (by decide) (by decide) (by decide)
  ⟨by decide, by decide, ((h.2.2 (by decide) (by decide) (by decide)).2.2).trans (by decide)⟩

/-! ## The dispatcher on a get-stream request -/

/-- The dispatcher routes a `MSG_CS_GET_STREAM_REQ` body to the get-stream handler. -/
theorem dispatch_getStream (k : Consts) (hk : Hooks) (oh : OtherHandlers) (this : Nat)
    (body : EasyProtocol) (w : World) (hwf : k.WellFormed)
    (htype : body.MessageType = k.MSG_CS_GET_STREAM_REQ) :
    dispatch k hk oh this body w
      = (ExecNetMsgCSGetStreamReq k hk this body w, k.MSG_SC_GET_STREAM_ACK) := by
  have h := hwf.1
  simp only [Consts.msgCases, List.nodup_cons, List.mem_cons, not_or] at h
  have hne : ¬ k.MSG_CS_GET_STREAM_REQ = k.MSG_DS_REGISTER_REQ := fun e => h.1.1 e.symm
  simp [dispatch, htype, hne]

/-- The envelope code written for the handler result `httpRequestTimeout`. -/
theorem errorNumOf_timeout (k : Consts) (hwf : k.WellFormed) :
    errorNumOf k k.httpRequestTimeout = k.EASY_ERROR_REQUEST_TIMEOUT := by
  have h := hwf.2.1
  simp only [Consts.errCases, List.nodup_cons, List.mem_cons, not_or] at h
  obtain ⟨⟨-, -, -, -, h1, -⟩, ⟨-, -, -, h2, -⟩, ⟨-, -, h3, -⟩, ⟨-, h4, -⟩, ⟨h5, -⟩, -⟩ := h
  simp [errorNumOf, Ne.symm h1, Ne.symm h2, Ne.symm h3, Ne.symm h4, Ne.symm h5]

/-- The handler result `httpRequestTimeout` is an error for the dispatcher. -/
theorem timeout_ne_noErr (k : Consts) (hwf : k.WellFormed) :
    k.httpRequestTimeout ≠ k.QTSS_NoErr := by
  have h := hwf.2.2.2.1
  simp only [Consts.errCases, List.mem_cons, not_or] at h
  exact fun e => h.2.2.2.2.2.1 e.symm

/-! ## The poll-wait of case `kPreprocessingRequest` -/

/-- One scheduler tick of a waiting client whose device has not replied, within
the limit: `Run` returns the quantum 100 and the world only counts the tick. -/
theorem run_tick (k : Consts) (hk : Hooks) (oh : OtherHandlers) (c : Nat) (req : EasyProtocol)
    (w : World) (j : Nat) (hwf : k.WellFormed)
    (hbody : (w.sessions c).fRequestBody = some req)
    (htype : req.MessageType = k.MSG_CS_GET_STREAM_REQ)
    (hserial : req.GetBodyValue Tag.SERIAL ≠ "") (hproto : req.GetBodyValue Tag.PROTOCOL ≠ "")
    (hwait : (w.sessions c).fInfo.bWaitingState = true)
    (hresp : (w.sessions c).fInfo.iResponse = 0)
    (hbytes : (w.sessions c).fBytesWritten = 0)
    (hj : (w.sessions c).fInfo.uTimeoutNum = j)
    (hlim : j + 1 ≤ k.CliStartStreamTimeout / 100) :
    Run_kPreprocessingRequest k hk oh c w = (tickWorld c (j + 1) w, some 100) := by
  have hT : k.CliStartStreamTimeout / 100 + 1 < 4294967296 := by
    have := hwf.2.2.2.2
    omega
  have hmod : ((w.sessions c).fInfo.uTimeoutNum + 1) % 4294967296 = j + 1 := by
    rw [hj]; exact Nat.mod_eq_of_lt (by omega)
  have hr := getStream_reentry_wait k hk c req w hserial hproto hwait hresp
    (by rw [hmod]; omega)
  simp only [Run_kPreprocessingRequest, ProcessRequest, hbody,
    dispatch_getStream k hk oh c req w hwf htype, hr, ne_eq, not_true_eq_false, if_false,
    World.modify_sessions_same, hbytes, gt_iff_lt, lt_self_iff_false, Nat.lt_irrefl,
    Nat.zero_lt_succ, if_true, World.modify_modify, tickWorld, hmod]

/-- The scheduler tick that passes the limit: the case ends without a quantum
and leaves the timeout world. -/
theorem run_timeout (k : Consts) (hk : Hooks) (oh : OtherHandlers) (c : Nat) (req : EasyProtocol)
    (w : World) (hwf : k.WellFormed)
    (hbody : (w.sessions c).fRequestBody = some req)
    (htype : req.MessageType = k.MSG_CS_GET_STREAM_REQ)
    (hserial : req.GetBodyValue Tag.SERIAL ≠ "") (hproto : req.GetBodyValue Tag.PROTOCOL ≠ "")
    (hwait : (w.sessions c).fInfo.bWaitingState = true)
    (hresp : (w.sessions c).fInfo.iResponse = 0)
    (hj : (w.sessions c).fInfo.uTimeoutNum = k.CliStartStreamTimeout / 100) :
    Run_kPreprocessingRequest k hk oh c w = (timeoutWorld k c req w, none) := by
  have hT : k.CliStartStreamTimeout / 100 + 1 < 4294967296 := by
    have := hwf.2.2.2.2
    omega
  have hmod : ((w.sessions c).fInfo.uTimeoutNum + 1) % 4294967296
      = k.CliStartStreamTimeout / 100 + 1 := by
    rw [hj]; exact Nat.mod_eq_of_lt (by omega)
  have hr := getStream_reentry_timeout k hk c req w hserial hproto hwait hresp
    (by rw [hmod]; omega)
  simp only [Run_kPreprocessingRequest, ProcessRequest, hbody,
    dispatch_getStream k hk oh c req w hwf htype, hr, ne_eq, timeout_ne_noErr k hwf,
    not_false_eq_true, if_true, World.modify_sessions_same, Put, gt_iff_lt,
    Nat.zero_lt_succ, timeoutWorld, hmod]

/-- The session of the client in a tick world. -/
theorem tickWorld_sessions_same (c j : Nat) (w : World) :
    (tickWorld c j w).sessions c
      = { w.sessions c with fInfo := { (w.sessions c).fInfo with uTimeoutNum := j,
                                                                   uWaitingTime := 0 } } := by
  simp [tickWorld]

/-- Tick worlds compose. -/
theorem tickWorld_tickWorld (c i j : Nat) (w : World) :
    tickWorld c j (tickWorld c i w) = tickWorld c j w := by
  simp [tickWorld, World.modify_modify]

/-- The timeout world does not depend on the tick count reached before. -/
theorem timeoutWorld_tickWorld (k : Consts) (c j : Nat) (req : EasyProtocol) (w : World)
    (h : (w.sessions c).fInfo.uWaitingTime = 0) :
    timeoutWorld k c req (tickWorld c j w) = timeoutWorld k c req w := by
  simp only [timeoutWorld, tickWorld, World.modify_modify]
  apply World.modify_congr
  simp [Put, h]

/-- The whole wait of a client whose device never replies, from tick count `j`:
the scheduler is asked for `T/100 - j` further quanta of 100 and the case then
ends in the timeout world. -/
theorem pollRun_from_tick (k : Consts) (hk : Hooks) (oh : OtherHandlers) (c : Nat)
    (req : EasyProtocol) (hwf : k.WellFormed)
    (htype : req.MessageType = k.MSG_CS_GET_STREAM_REQ)
    (hserial : req.GetBodyValue Tag.SERIAL ≠ "") (hproto : req.GetBodyValue Tag.PROTOCOL ≠ "") :
    ∀ (m : Nat) (w : World) (j fuel : Nat),
      (w.sessions c).fRequestBody = some req →
      (w.sessions c).fInfo.bWaitingState = true →
      (w.sessions c).fInfo.iResponse = 0 →
      (w.sessions c).fBytesWritten = 0 →
      (w.sessions c).fInfo.uWaitingTime = 0 →
      (w.sessions c).fInfo.uTimeoutNum = j →
      j + m = k.CliStartStreamTimeout / 100 →
      m + 1 ≤ fuel →
      pollRun k hk oh c fuel w = (List.replicate m 100, timeoutWorld k c req w) := by
  intro m
  induction m with
  | zero =>
    intro w j fuel hbody hwait hresp hbytes hq hj hjm hfuel
    obtain ⟨f, rfl⟩ : ∃ f, fuel = f + 1 := ⟨fuel - 1, by omega⟩
    have hr := run_timeout k hk oh c req w hwf hbody htype hserial hproto hwait hresp
      (by omega)
    simp only [pollRun, hr, List.replicate]
  | succ m ih =>
    intro w j fuel hbody hwait hresp hbytes hq hj hjm hfuel
    obtain ⟨f, rfl⟩ : ∃ f, fuel = f + 1 := ⟨fuel - 1, by omega⟩
    have hr := run_tick k hk oh c req w j hwf hbody htype hserial hproto hwait hresp hbytes hj
      (by omega)
    have hs := tickWorld_sessions_same c (j + 1) w
    have ih' := ih (tickWorld c (j + 1) w) (j + 1) f (by rw [hs]; exact hbody)
      (by rw [hs]; exact hwait) (by rw [hs]; exact hresp) (by rw [hs]; exact hbytes)
      (by rw [hs]) (by rw [hs]) (by omega) (by omega)
    simp only [pollRun, hr, ih', List.replicate, timeoutWorld_tickWorld k c (j + 1) req w hq]

/-- The session of client `c` after the brokered first entry, when the client is
not the device itself: only the hold and the wait slot changed. -/
theorem first_entry_client_session (k : Consts) (hk : Hooks) (c d : Nat) (req : EasyProtocol)
    (w : World) (table : List OSRefEx)
    (hserial : req.GetBodyValue Tag.SERIAL ≠ "") (hproto : req.GetBodyValue Tag.PROTOCOL ≠ "")
    (hwait : (w.sessions c).fInfo.bWaitingState = false)
    (hres : Resolve w.fDeviceSessionMap (req.GetBodyValue Tag.SERIAL) = some (d, table))
    (hassoc : (hk.GetAssociatedDarwin (req.GetBodyValue Tag.SERIAL) (channelOf req)).1 = "")
    (hbest : hk.GetBestDarwin.1 ≠ "") (hmint : hk.GenStreamID ≠ "") (hcd : c ≠ d) :
    (ExecNetMsgCSGetStreamReq k hk c req w).2.sessions c =
      { w.sessions c with
          fObjectHolders := (w.sessions c).fObjectHolders + 1,
          fInfo := { (w.sessions c).fInfo with bWaitingState := true, iResponse := 0,
                                                uTimeoutNum := 0, uWaitingTime := 100 } } := by
  rw [getStream_first_entry_brokered k hk c d req w table hserial hproto hwait hres hassoc hbest
    hmint]
  have hdc : ¬ d = c := fun e => hcd e.symm
  simp [World.modify_sessions, hcd, hdc, IncrementObjectHolderCount]

/-- The first scheduler tick of a brokered get-stream request: `Run` returns the
quantum 100. -/
theorem run_first_entry (k : Consts) (hk : Hooks) (oh : OtherHandlers) (c d : Nat)
    (req : EasyProtocol) (w : World) (table : List OSRefEx) (hwf : k.WellFormed)
    (hbody : (w.sessions c).fRequestBody = some req)
    (htype : req.MessageType = k.MSG_CS_GET_STREAM_REQ)
    (hserial : req.GetBodyValue Tag.SERIAL ≠ "") (hproto : req.GetBodyValue Tag.PROTOCOL ≠ "")
    (hwait : (w.sessions c).fInfo.bWaitingState = false)
    (hres : Resolve w.fDeviceSessionMap (req.GetBodyValue Tag.SERIAL) = some (d, table))
    (hassoc : (hk.GetAssociatedDarwin (req.GetBodyValue Tag.SERIAL) (channelOf req)).1 = "")
    (hbest : hk.GetBestDarwin.1 ≠ "") (hmint : hk.GenStreamID ≠ "") (hcd : c ≠ d)
    (hbytes : (w.sessions c).fBytesWritten = 0) :
    Run_kPreprocessingRequest k hk oh c w
      = (tickWorld c 0 (ExecNetMsgCSGetStreamReq k hk c req w).2, some 100) := by
  have hs := first_entry_client_session k hk c d req w table hserial hproto hwait hres hassoc
    hbest hmint hcd
  have h1 : (ExecNetMsgCSGetStreamReq k hk c req w).1 = k.QTSS_NoErr := by
    rw [getStream_first_entry_brokered k hk c d req w table hserial hproto hwait hres hassoc
      hbest hmint]
  simp only [Run_kPreprocessingRequest, ProcessRequest, hbody,
    dispatch_getStream k hk oh c req w hwf htype, h1, ne_eq, not_true_eq_false, if_false, hs,
    hbytes, gt_iff_lt, Nat.lt_irrefl, Nat.zero_lt_succ, if_true, tickWorld]
  congr 1
  apply World.modify_congr
  simp [hs]

/-- The whole brokered wait when the device never replies: the scheduler is
asked for `T/100 + 1` quanta of 100 and the case then ends in the timeout world. -/
theorem pollRun_brokered_timeout (k : Consts) (hk : Hooks) (oh : OtherHandlers) (c d : Nat)
    (req : EasyProtocol) (w : World) (table : List OSRefEx) (fuel : Nat) (hwf : k.WellFormed)
    (hbody : (w.sessions c).fRequestBody = some req)
    (htype : req.MessageType = k.MSG_CS_GET_STREAM_REQ)
    (hserial : req.GetBodyValue Tag.SERIAL ≠ "") (hproto : req.GetBodyValue Tag.PROTOCOL ≠ "")
    (hwait : (w.sessions c).fInfo.bWaitingState = false)
    (hres : Resolve w.fDeviceSessionMap (req.GetBodyValue Tag.SERIAL) = some (d, table))
    (hassoc : (hk.GetAssociatedDarwin (req.GetBodyValue Tag.SERIAL) (channelOf req)).1 = "")
    (hbest : hk.GetBestDarwin.1 ≠ "") (hmint : hk.GenStreamID ≠ "") (hcd : c ≠ d)
    (hbytes : (w.sessions c).fBytesWritten = 0)
    (hfuel : k.CliStartStreamTimeout / 100 + 2 ≤ fuel) :
    pollRun k hk oh c fuel w
      = (List.replicate (k.CliStartStreamTimeout / 100 + 1) 100,
          timeoutWorld k c req (tickWorld c 0 (ExecNetMsgCSGetStreamReq k hk c req w).2)) := by
  obtain ⟨f, rfl⟩ : ∃ f, fuel = f + 1 := ⟨fuel - 1, by omega⟩
  have hs := first_entry_client_session k hk c d req w table hserial hproto hwait hres hassoc
    hbest hmint hcd
  have hr := run_first_entry k hk oh c d req w table hwf hbody htype hserial hproto hwait hres
    hassoc hbest hmint hcd hbytes
  have ht := tickWorld_sessions_same c 0 (ExecNetMsgCSGetStreamReq k hk c req w).2
  rw [hs] at ht
  have hp := pollRun_from_tick k hk oh c req hwf htype hserial hproto
    (k.CliStartStreamTimeout / 100) (tickWorld c 0 (ExecNetMsgCSGetStreamReq k hk c req w).2)
    0 f (by rw [ht]; exact hbody) (by rw [ht]) (by rw [ht]) (by rw [ht]; exact hbytes)
    (by rw [ht]) (by rw [ht]) (by omega) (by omega)
  simp only [pollRun, hr, hp, List.replicate]

/-! ## C6: the wait of a client whose device never replies -/

/-- C6. A brokered get-stream request of client `c` (not the device itself)
whose device never replies, with `T = CliStartStreamTimeout`. After the first
entry the worlds met by the scheduler are the tick worlds of the first-entry
world: for every `j < T/100`, re-entry number `j + 1` returns no-error and
changes nothing but the tick count (to `j + 1`) and the quantum (to 100), so it
writes no output and performs no send, insert or holder change, and `Run`
returns the quantum 100; re-entry number `T/100 + 1` returns
`httpRequestTimeout` and clears waiting, the dispatcher puts the error reply
with `ErrorNum` `EASY_ERROR_REQUEST_TIMEOUT` on the client's output stream, and
the session stays as alive as it was. The quanta `Run` hands to the scheduler
from the first entry to the timeout reply are `T/100 + 1` times 100 ms; their sum
is greater than `T` and at most `T + 100`. -/
theorem C6_poll_until_timeout (k : Consts) (hk : Hooks) (oh : OtherHandlers) (c d : Nat)
    (req : EasyProtocol) (w : World) (table : List OSRefEx) (fuel : Nat) (hwf : k.WellFormed)
    (hbody : (w.sessions c).fRequestBody = some req)
    (htype : req.MessageType = k.MSG_CS_GET_STREAM_REQ)
    (hserial : req.GetBodyValue Tag.SERIAL ≠ "") (hproto : req.GetBodyValue Tag.PROTOCOL ≠ "")
    (hwait : (w.sessions c).fInfo.bWaitingState = false)
    (hres : Resolve w.fDeviceSessionMap (req.GetBodyValue Tag.SERIAL) = some (d, table))
    (hassoc : (hk.GetAssociatedDarwin (req.GetBodyValue Tag.SERIAL) (channelOf req)).1 = "")
    (hbest : hk.GetBestDarwin.1 ≠ "") (hmint : hk.GenStreamID ≠ "") (hcd : c ≠ d)
    (hbytes : (w.sessions c).fBytesWritten = 0)
    (hfuel : k.CliStartStreamTimeout / 100 + 2 ≤ fuel) :
    (∀ j, j < k.CliStartStreamTimeout / 100 →
      ExecNetMsgCSGetStreamReq k hk c req
          (tickWorld c j (ExecNetMsgCSGetStreamReq k hk c req w).2)
        = (k.QTSS_NoErr,
            (tickWorld c j (ExecNetMsgCSGetStreamReq k hk c req w).2).modify c
              (fun s => { s with fInfo :=
                { s.fInfo with uTimeoutNum := j + 1, uWaitingTime := 100 } }))
      ∧ Run_kPreprocessingRequest k hk oh c
          (tickWorld c j (ExecNetMsgCSGetStreamReq k hk c req w).2)
        = (tickWorld c (j + 1) (ExecNetMsgCSGetStreamReq k hk c req w).2, some 100))
    ∧ ExecNetMsgCSGetStreamReq k hk c req
          (tickWorld c (k.CliStartStreamTimeout / 100) (ExecNetMsgCSGetStreamReq k hk c req w).2)
        = (k.httpRequestTimeout,
            (tickWorld c (k.CliStartStreamTimeout / 100)
              (ExecNetMsgCSGetStreamReq k hk c req w).2).modify c
              (fun s => { s with fInfo :=
                { s.fInfo with uTimeoutNum := k.CliStartStreamTimeout / 100 + 1,
                               bWaitingState := false } }))
    ∧ Run_kPreprocessingRequest k hk oh c
          (tickWorld c (k.CliStartStreamTimeout / 100) (ExecNetMsgCSGetStreamReq k hk c req w).2)
        = (timeoutWorld k c req (tickWorld c 0 (ExecNetMsgCSGetStreamReq k hk c req w).2), none)
    ∧ ((timeoutWorld k c req
          (tickWorld c 0 (ExecNetMsgCSGetStreamReq k hk c req w).2)).sessions c).fOutputStream
        = (w.sessions c).fOutputStream
            ++ [errorReply k k.MSG_SC_GET_STREAM_ACK req k.httpRequestTimeout]
    ∧ errorNumOf k k.httpRequestTimeout = k.EASY_ERROR_REQUEST_TIMEOUT
    ∧ ((timeoutWorld k c req
          (tickWorld c 0 (ExecNetMsgCSGetStreamReq k hk c req w).2)).sessions c).fLiveSession
        = (w.sessions c).fLiveSession
    ∧ ((timeoutWorld k c req
          (tickWorld c 0 (ExecNetMsgCSGetStreamReq k hk c req w).2)).sessions
            c).fInfo.bWaitingState = false
    ∧ pollRun k hk oh c fuel w
        = (List.replicate (k.CliStartStreamTimeout / 100 + 1) 100,
            timeoutWorld k c req (tickWorld c 0 (ExecNetMsgCSGetStreamReq k hk c req w).2))
    ∧ (List.replicate (k.CliStartStreamTimeout / 100 + 1) 100).sum
        = (k.CliStartStreamTimeout / 100 + 1) * 100
    ∧ k.CliStartStreamTimeout < (k.CliStartStreamTimeout / 100 + 1) * 100
    ∧ (k.CliStartStreamTimeout / 100 + 1) * 100 ≤ k.CliStartStreamTimeout + 100 := by
  have hs := first_entry_client_session k hk c d req w table hserial hproto hwait hres hassoc
    hbest hmint hcd
  have ht : ∀ j, (tickWorld c j (ExecNetMsgCSGetStreamReq k hk c req w).2).sessions c
      = { w.sessions c with
            fObjectHolders := (w.sessions c).fObjectHolders + 1,
            fInfo := { (w.sessions c).fInfo with bWaitingState := true, iResponse := 0,
                                                  uTimeoutNum := j, uWaitingTime := 0 } } := by
    intro j
    rw [tickWorld_sessions_same, hs]
  have hT : k.CliStartStreamTimeout / 100 + 1 < 4294967296 := by
    have := hwf.2.2.2.2
    omega
  refine ⟨?_, ?_, ?_, ?_, errorNumOf_timeout k hwf, ?_, ?_, ?_, ?_, ?_, ?_⟩
  · intro j hj
    have hmod : (((tickWorld c j (ExecNetMsgCSGetStreamReq k hk c req w).2).sessions
        c).fInfo.uTimeoutNum + 1) % 4294967296 = j + 1 := by
      rw [ht]
      show (j + 1) % 4294967296 = j + 1
      exact Nat.mod_eq_of_lt (by omega)
    constructor
    · have hr := getStream_reentry_wait k hk c req
        (tickWorld c j (ExecNetMsgCSGetStreamReq k hk c req w).2) hserial hproto
        (by rw [ht]) (by rw [ht]) (by rw [hmod]; omega)
      rw [hr, hmod]
    · have hr := run_tick k hk oh c req
        (tickWorld c j (ExecNetMsgCSGetStreamReq k hk c req w).2) j hwf
        (by rw [ht]; exact hbody) htype hserial hproto (by rw [ht]) (by rw [ht])
        (by rw [ht]; exact hbytes) (by rw [ht]) (by omega)
      rw [hr, tickWorld_tickWorld]
  · have hmod : (((tickWorld c (k.CliStartStreamTimeout / 100)
        (ExecNetMsgCSGetStreamReq k hk c req w).2).sessions c).fInfo.uTimeoutNum + 1)
          % 4294967296 = k.CliStartStreamTimeout / 100 + 1 := by
      rw [ht]
      show (k.CliStartStreamTimeout / 100 + 1) % 4294967296 = k.CliStartStreamTimeout / 100 + 1
      exact Nat.mod_eq_of_lt (by omega)
    have hr := getStream_reentry_timeout k hk c req
      (tickWorld c (k.CliStartStreamTimeout / 100) (ExecNetMsgCSGetStreamReq k hk c req w).2)
      hserial hproto (by rw [ht]) (by rw [ht]) (by rw [hmod]; omega)
    rw [hr, hmod]
  · have hr := run_timeout k hk oh c req
      (tickWorld c (k.CliStartStreamTimeout / 100) (ExecNetMsgCSGetStreamReq k hk c req w).2)
      hwf (by rw [ht]; exact hbody) htype hserial hproto (by rw [ht]) (by rw [ht]) (by rw [ht])
    rw [hr, ← tickWorld_tickWorld c 0 (k.CliStartStreamTimeout / 100),
      timeoutWorld_tickWorld k c (k.CliStartStreamTimeout / 100) req _ (by rw [ht])]
  · simp [timeoutWorld, ht, Put]
  · simp [timeoutWorld, ht, Put]
  · simp [timeoutWorld, ht, Put]
  · exact pollRun_brokered_timeout k hk oh c d req w table fuel hwf hbody htype hserial hproto
      hwait hres hassoc hbest hmint hcd hbytes hfuel
  · simp
  · omega
  · omega

/-- C6 at scenario S5 with the sample constants (`T` = 30000): 301 quanta of
100 ms, 30100 ms in all. -/
theorem C6_poll_until_timeout_witness :
    sampleConsts.WellFormed
    ∧ (sampleWorld.sessions 0).fRequestBody = some sampleReq
    ∧ (sampleWorld.sessions 0).fInfo.bWaitingState = false
    ∧ (pollRun sampleConsts hooksS4 noHandlers 0 302 sampleWorld).1 = List.replicate 301 100
    ∧ (List.replicate 301 100).sum = 301 * 100 :=
  have h := C6_poll_until_timeout sampleConsts hooksS4 noHandlers 0 1 sampleReq sampleWorld
    [{ key := "CAM001", obj := 1, refCount := 1 }] 302
    (by decide) (by decide) (by decide) (by decide) (by decide) (by decide) (by decide)
    (by decide) (by decide) (by decide) (by decide) (by decide) (by decide)
  ⟨by decide, by decide, by decide,
    congrArg Prod.fst h.2.2.2.2.2.2.2.1, h.2.2.2.2.2.2.2.2.1⟩

/-! ## C7: the hold after a timeout -/

/-- C7 (refuted as stated). Scenario S5 at the sample world: the client's holder
count is 0 before the request; after the wait ended by timeout and the timeout
reply was put on its output stream, the holder count is 1, and the device's
pending map still holds the entry. -/
theorem C7_hold_survives_timeout :
    (sampleWorld.sessions 0).fObjectHolders = 0
    ∧ ((pollRun sampleConsts hooksS4 noHandlers 0 302 sampleWorld).2.sessions 0).fOutputStream
        = [errorReply sampleConsts sampleConsts.MSG_SC_GET_STREAM_ACK sampleReq
            sampleConsts.httpRequestTimeout]
    ∧ ((pollRun sampleConsts hooksS4 noHandlers 0 302 sampleWorld).2.sessions 0).fObjectHolders
        = 1
    ∧ ((pollRun sampleConsts hooksS4 noHandlers 0 302 sampleWorld).2.sessions 1).fMsgMap
        = [(0, strMessage.mk sampleConsts.MSG_CS_GET_STREAM_REQ 0 7)] := by
  have h := pollRun_brokered_timeout sampleConsts hooksS4 noHandlers 0 1 sampleReq sampleWorld
    [{ key := "CAM001", obj := 1, refCount := 1 }] 302
    (by decide) (by decide) (by decide) (by decide) (by decide) (by decide) (by decide)
    (by decide) (by decide) (by decide) (by decide) (by decide) (by decide)
  rw [h]
  decide

/-- The session of device `d` after the brokered first entry of another session
`c`: the counter advanced, the entry inserted, the push on the output stream. -/
theorem first_entry_device_session (k : Consts) (hk : Hooks) (c d : Nat) (req : EasyProtocol)
    (w : World) (table : List OSRefEx)
    (hserial : req.GetBodyValue Tag.SERIAL ≠ "") (hproto : req.GetBodyValue Tag.PROTOCOL ≠ "")
    (hwait : (w.sessions c).fInfo.bWaitingState = false)
    (hres : Resolve w.fDeviceSessionMap (req.GetBodyValue Tag.SERIAL) = some (d, table))
    (hassoc : (hk.GetAssociatedDarwin (req.GetBodyValue Tag.SERIAL) (channelOf req)).1 = "")
    (hbest : hk.GetBestDarwin.1 ≠ "") (hmint : hk.GenStreamID ≠ "") (hcd : c ≠ d) :
    (ExecNetMsgCSGetStreamReq k hk c req w).2.sessions d =
      { w.sessions d with
          fCSeq := (w.sessions d).fCSeq + 1,
          fMsgMap := InsertToMsgMap (w.sessions d).fMsgMap (w.sessions d).fCSeq
            (strMessage.mk k.MSG_CS_GET_STREAM_REQ c (toUInt32 (atoi req.CSeq))),
          fOutputStream := (w.sessions d).fOutputStream
            ++ [{ status := k.httpOK,
                  content := some (pushStreamReq k hk req (w.sessions d).fCSeq),
                  connectionClose := false }],
          fBytesWritten := (w.sessions d).fBytesWritten + 1 } := by
  rw [getStream_first_entry_brokered k hk c d req w table hserial hproto hwait hres hassoc hbest
    hmint]
  have hdc : ¬ d = c := fun e => hcd e.symm
  simp [World.modify_sessions, hcd, hdc, Put]

/-- A freshly inserted entry is the one found under its key. -/
theorem FindInMsgMap_insert (m : List (Nat × strMessage)) (K : Nat) (e : strMessage) :
    FindInMsgMap (InsertToMsgMap m K e) K
      = some (e, (InsertToMsgMap m K e).filter (fun q => q.1 ≠ K)) := by
  simp [FindInMsgMap, InsertToMsgMap]

/-- C7 (amended). When a brokered get-stream wait of client `c` ends by timeout
because the device never replied, the client's holder count after the timeout
reply is still one above its value before the request, because the pending
entry is still in the device's map; the count is back at its earlier value once
the device's ack for that CSeq has been consumed. -/
theorem C7_hold_until_ack (k : Consts) (hk : Hooks) (oh : OtherHandlers) (c d : Nat)
    (req : EasyProtocol) (w : World) (table : List OSRefEx) (fuel : Nat) (hwf : k.WellFormed)
    (hbody : (w.sessions c).fRequestBody = some req)
    (htype : req.MessageType = k.MSG_CS_GET_STREAM_REQ)
    (hserial : req.GetBodyValue Tag.SERIAL ≠ "") (hproto : req.GetBodyValue Tag.PROTOCOL ≠ "")
    (hwait : (w.sessions c).fInfo.bWaitingState = false)
    (hres : Resolve w.fDeviceSessionMap (req.GetBodyValue Tag.SERIAL) = some (d, table))
    (hassoc : (hk.GetAssociatedDarwin (req.GetBodyValue Tag.SERIAL) (channelOf req)).1 = "")
    (hbest : hk.GetBestDarwin.1 ≠ "") (hmint : hk.GenStreamID ≠ "") (hcd : c ≠ d)
    (hbytes : (w.sessions c).fBytesWritten = 0)
    (hfuel : k.CliStartStreamTimeout / 100 + 2 ≤ fuel) :
    ((pollRun k hk oh c fuel w).2.sessions c).fInfo.bWaitingState = false
    ∧ ((pollRun k hk oh c fuel w).2.sessions c).fObjectHolders
        = (w.sessions c).fObjectHolders + 1
    ∧ ((pollRun k hk oh c fuel w).2.sessions d).fMsgMap
        = ((w.sessions d).fCSeq,
            strMessage.mk k.MSG_CS_GET_STREAM_REQ c (toUInt32 (atoi req.CSeq)))
          :: (w.sessions d).fMsgMap.filter (fun p => p.1 ≠ (w.sessions d).fCSeq)
    ∧ (∀ ack : EasyProtocol, (w.sessions d).fAuthenticated = true →
        toUInt32 (atoi ack.CSeq) = (w.sessions d).fCSeq →
        ((ExecNetMsgDSPushStreamAck k d ack (pollRun k hk oh c fuel w).2).2.sessions
          c).fObjectHolders = (w.sessions c).fObjectHolders) := by
  have hp := pollRun_brokered_timeout k hk oh c d req w table fuel hwf hbody htype hserial hproto
    hwait hres hassoc hbest hmint hcd hbytes hfuel
  have hs := first_entry_client_session k hk c d req w table hserial hproto hwait hres hassoc
    hbest hmint hcd
  have hd := first_entry_device_session k hk c d req w table hserial hproto hwait hres hassoc
    hbest hmint hcd
  have hdc : d ≠ c := fun e => hcd e.symm
  have hfc : ((pollRun k hk oh c fuel w).2.sessions c).fObjectHolders
      = (w.sessions c).fObjectHolders + 1 := by
    rw [hp]; simp [timeoutWorld, tickWorld, hs, Put]
  have hfd : (pollRun k hk oh c fuel w).2.sessions d
      = (ExecNetMsgCSGetStreamReq k hk c req w).2.sessions d := by
    rw [hp]; simp [timeoutWorld, tickWorld, World.modify_sessions_ne, hdc]
  refine ⟨?_, hfc, ?_, ?_⟩
  · rw [hp]; simp [timeoutWorld, tickWorld, hs, Put]
  · rw [hfd, hd]; rfl
  · intro ack hauth hkey
    have hfind : FindInMsgMap ((pollRun k hk oh c fuel w).2.sessions d).fMsgMap
        (toUInt32 (atoi ack.CSeq))
          = some (strMessage.mk k.MSG_CS_GET_STREAM_REQ c (toUInt32 (atoi req.CSeq)),
              (InsertToMsgMap (w.sessions d).fMsgMap (w.sessions d).fCSeq
                (strMessage.mk k.MSG_CS_GET_STREAM_REQ c (toUInt32 (atoi req.CSeq)))).filter
                  (fun q => q.1 ≠ (w.sessions d).fCSeq)) := by
      rw [hfd, hd, hkey]
      exact FindInMsgMap_insert _ _ _
    rw [pushStreamAck_found k d ack _ _ _ (by rw [hfd, hd]; exact hauth) hfind rfl]
    by_cases hok : atoi ack.ErrorNum = k.EASY_ERROR_SUCCESS_OK <;>
      simp [World.modify_sessions, hcd, DecrementObjectHolderCount, hfc, hok]

/-- C7 (amended) at scenario S5 with the sample constants. -/
theorem C7_hold_until_ack_witness :
    sampleConsts.WellFormed
    ∧ (sampleWorld.sessions 0).fInfo.bWaitingState = false
    ∧ ((pollRun sampleConsts hooksS4 noHandlers 0 302 sampleWorld).2.sessions 0).fObjectHolders
        = 0 + 1
    ∧ ((ExecNetMsgDSPushStreamAck sampleConsts 1 (sampleAck "200")
        (pollRun sampleConsts hooksS4 noHandlers 0 302 sampleWorld).2).2.sessions
          0).fObjectHolders = 0 :=
  have h := C7_hold_until_ack sampleConsts hooksS4 noHandlers 0 1 sampleReq sampleWorld
    [{ key := "CAM001", obj := 1, refCount := 1 }] 302
    (by decide) (by decide) (by decide) (by decide) (by decide) (by decide) (by decide)
    (by decide) (by decide) (by decide) (by decide) (by decide) (by decide)
  ⟨by decide, by decide, h.2.1, h.2.2.2 (sampleAck "200") (by decide) (by decide)⟩

/-! ## C8: the first entry with an associated relay -/

/-- The first entry with an associated relay and a minted id, as one equation. -/
theorem getStream_first_entry_associated (k : Consts) (hk : Hooks) (c d : Nat)
    (req : EasyProtocol) (w : World) (table : List OSRefEx)
    (hserial : req.GetBodyValue Tag.SERIAL ≠ "") (hproto : req.GetBodyValue Tag.PROTOCOL ≠ "")
    (hwait : (w.sessions c).fInfo.bWaitingState = false)
    (hres : Resolve w.fDeviceSessionMap (req.GetBodyValue Tag.SERIAL) = some (d, table))
    (hassoc : (hk.GetAssociatedDarwin (req.GetBodyValue Tag.SERIAL) (channelOf req)).1 ≠ "")
    (hmint : hk.GenStreamID ≠ "") :
    ExecNetMsgCSGetStreamReq k hk c req w =
      (k.QTSS_NoErr,
        (({ w with fDeviceSessionMap := table } : World).Release
            (req.GetBodyValue Tag.SERIAL)).modify c
          (Put (getStreamAck k req
            (buildURL (hk.GetAssociatedDarwin (req.GetBodyValue Tag.SERIAL) (channelOf req)).1
              (hk.GetAssociatedDarwin (req.GetBodyValue Tag.SERIAL) (channelOf req)).2
              (req.GetBodyValue Tag.SERIAL) (channelOf req) hk.GenStreamID)
            (req.GetBodyValue Tag.PROTOCOL) (reserveOf req)))) := by
  unfold channelOf at hassoc
  simp only [ExecNetMsgCSGetStreamReq, String.length_le_zero_iff, hserial, hproto, hwait, hres,
    hassoc, hmint, or_self, if_false, if_true, ne_eq, not_true_eq_false, not_false_eq_true,
    emitGetStreamAck, getStreamAck, channelOf, reserveOf]

/-- The first entry with an associated relay when minting fails. -/
theorem getStream_first_entry_associated_mint_fails (k : Consts) (hk : Hooks) (c d : Nat)
    (req : EasyProtocol) (w : World) (table : List OSRefEx)
    (hserial : req.GetBodyValue Tag.SERIAL ≠ "") (hproto : req.GetBodyValue Tag.PROTOCOL ≠ "")
    (hwait : (w.sessions c).fInfo.bWaitingState = false)
    (hres : Resolve w.fDeviceSessionMap (req.GetBodyValue Tag.SERIAL) = some (d, table))
    (hassoc : (hk.GetAssociatedDarwin (req.GetBodyValue Tag.SERIAL) (channelOf req)).1 ≠ "")
    (hmint : hk.GenStreamID = "") :
    ExecNetMsgCSGetStreamReq k hk c req w =
      (k.EASY_ERROR_SERVER_INTERNAL_ERROR,
        ({ w with fDeviceSessionMap := table } : World).Release (req.GetBodyValue Tag.SERIAL)) := by
  unfold channelOf at hassoc
  simp only [ExecNetMsgCSGetStreamReq, String.length_le_zero_iff, hserial, hproto, hwait, hres,
    hassoc, hmint, or_self, if_false, if_true, ne_eq, not_true_eq_false, not_false_eq_true]

/-- The address built by the handler, written as one concatenation. -/
theorem buildURL_eq (ip port serial channel id : String) :
    buildURL ip port serial channel id
      = "rtsp://" ++ ip ++ ":" ++ port ++ "/" ++ serial ++ "/" ++ channel ++ ".sdp?token=" ++ id := by
  simp only [buildURL, String.append_assoc]
  rfl

/-- C8. A first-entry get-stream request with non-empty serial and protocol
whose device resolves and whose associated-relay hook returns `(ip, port)` with
non-empty ip. If minting yields a non-empty id the handler returns no-error and
puts, in the same invocation, one `MSG_SC_GET_STREAM_ACK` success response on
its own output stream whose URL is
`"rtsp://" ++ ip ++ ":" ++ port ++ "/" ++ serial ++ "/" ++ channel ++ ".sdp?token=" ++ id`
(channel `"0"` when absent); nothing is put on any other output stream, no
pending map changes, and no holder count and no wait slot changes. If minting
yields the empty id the handler returns internal-server-error and no session
changes. -/
theorem C8_first_entry_associated (k : Consts) (hk : Hooks) (c d : Nat)
    (req : EasyProtocol) (w : World) (table : List OSRefEx)
    (hserial : req.GetBodyValue Tag.SERIAL ≠ "") (hproto : req.GetBodyValue Tag.PROTOCOL ≠ "")
    (hwait : (w.sessions c).fInfo.bWaitingState = false)
    (hres : Resolve w.fDeviceSessionMap (req.GetBodyValue Tag.SERIAL) = some (d, table))
    (hassoc : (hk.GetAssociatedDarwin (req.GetBodyValue Tag.SERIAL) (channelOf req)).1 ≠ "") :
    (hk.GenStreamID ≠ "" →
      (ExecNetMsgCSGetStreamReq k hk c req w).1 = k.QTSS_NoErr
      ∧ ((ExecNetMsgCSGetStreamReq k hk c req w).2.sessions c).fOutputStream
          = (w.sessions c).fOutputStream ++
            [{ status := k.httpOK,
               content := some
                 { fMsgType := k.MSG_SC_GET_STREAM_ACK, CSeq := req.CSeq,
                   ErrorNum := some k.EASY_ERROR_SUCCESS_OK,
                   body := [(Tag.URL,
                       "rtsp://"
                         ++ (hk.GetAssociatedDarwin (req.GetBodyValue Tag.SERIAL)
                              (channelOf req)).1 ++ ":"
                         ++ (hk.GetAssociatedDarwin (req.GetBodyValue Tag.SERIAL)
                              (channelOf req)).2 ++ "/"
                         ++ req.GetBodyValue Tag.SERIAL ++ "/" ++ channelOf req
                         ++ ".sdp?token=" ++ hk.GenStreamID),
                     (Tag.SERIAL, req.GetBodyValue Tag.SERIAL), (Tag.CHANNEL, channelOf req),
                     (Tag.PROTOCOL, req.GetBodyValue Tag.PROTOCOL),
                     (Tag.RESERVE, reserveOf req)] },
               connectionClose := false }]
      ∧ (∀ s, s ≠ c → ((ExecNetMsgCSGetStreamReq k hk c req w).2.sessions s).fOutputStream
          = (w.sessions s).fOutputStream)
      ∧ (∀ s, ((ExecNetMsgCSGetStreamReq k hk c req w).2.sessions s).fMsgMap
            = (w.sessions s).fMsgMap
          ∧ ((ExecNetMsgCSGetStreamReq k hk c req w).2.sessions s).fObjectHolders
            = (w.sessions s).fObjectHolders
          ∧ ((ExecNetMsgCSGetStreamReq k hk c req w).2.sessions s).fInfo
            = (w.sessions s).fInfo
          ∧ ((ExecNetMsgCSGetStreamReq k hk c req w).2.sessions s).fCSeq
            = (w.sessions s).fCSeq))
    ∧ (hk.GenStreamID = "" →
      (ExecNetMsgCSGetStreamReq k hk c req w).1 = k.EASY_ERROR_SERVER_INTERNAL_ERROR
      ∧ (ExecNetMsgCSGetStreamReq k hk c req w).2.sessions = w.sessions) := by
  constructor
  · intro hmint
    rw [getStream_first_entry_associated k hk c d req w table hserial hproto hwait hres hassoc
      hmint]
    clear hserial hproto hwait hres hassoc hmint
    refine ⟨rfl, ?_, ?_, ?_⟩
    · simp [Put, getStreamAck, buildURL_eq]
    · intro s hs
      simp [World.modify_sessions, hs]
    · intro s
      simp only [World.modify_sessions, World.Release_sessions]
      split_ifs <;> first
        | exact ⟨rfl, rfl, rfl, rfl⟩
        | (subst_vars; exact ⟨rfl, rfl, rfl, rfl⟩)
  · intro hmint
    rw [getStream_first_entry_associated_mint_fails k hk c d req w table hserial hproto hwait hres
      hassoc hmint]
    exact ⟨rfl, rfl⟩

/-- C8 at scenario S3: the relay 10.0.0.5:10008 is associated with `CAM001`. -/
theorem C8_first_entry_associated_witness :
    sampleReq.GetBodyValue Tag.SERIAL ≠ "" ∧ sampleReq.GetBodyValue Tag.PROTOCOL ≠ ""
    ∧ (hooksS3.GetAssociatedDarwin "CAM001" "0").1 ≠ ""
    ∧ ((ExecNetMsgCSGetStreamReq sampleConsts hooksS3 0 sampleReq sampleWorld).2.sessions
        0).fOutputStream
        = [getStreamAck sampleConsts sampleReq "rtsp://10.0.0.5:10008/CAM001/0.sdp?token=tok"
            "RTSP" "1"] :=
  have h := C8_first_entry_associated sampleConsts hooksS3 0 1 sampleReq sampleWorld
    [{ key := "CAM001", obj := 1, refCount := 1 }]
    (by decide) (by decide) (by decide) (by decide) (by decide)
  ⟨by decide, by decide, by decide, ((h.1 (by decide)).2.1).trans (by decide)⟩

/-! ## C10: the reply for a device error -/

/-- C10 (refuted as stated). The device acks the pending request of the sample
world with `ErrorNum` 404, which is neither 0 nor the success code; the waiting
client's next dispatch clears waiting and replies, but the envelope `ErrorNum`
of the reply is 400, not 404. -/
theorem C10_device_error_remapped :
    ((ExecNetMsgDSPushStreamAck sampleConsts 1 (sampleAck "404") worldAfterPush).2.sessions
        0).fInfo.iResponse = 404
    ∧ (404 : Int) ≠ sampleConsts.EASY_ERROR_SUCCESS_OK
    ∧ ((ExecNetMsgDSPushStreamAck sampleConsts 1 (sampleAck "404") worldAfterPush).2.sessions
        0).fInfo.uCseq = toUInt32 (atoi sampleReq.CSeq)
    ∧ (ProcessRequest sampleConsts hooksS4 noHandlers 0
        (ExecNetMsgDSPushStreamAck sampleConsts 1 (sampleAck "404") worldAfterPush).2).1 = 404
    ∧ ((ProcessRequest sampleConsts hooksS4 noHandlers 0
        (ExecNetMsgDSPushStreamAck sampleConsts 1 (sampleAck "404")
          worldAfterPush).2).2.sessions 0).fInfo.bWaitingState = false
    ∧ ((ProcessRequest sampleConsts hooksS4 noHandlers 0
        (ExecNetMsgDSPushStreamAck sampleConsts 1 (sampleAck "404")
          worldAfterPush).2).2.sessions 0).fOutputStream
        = [{ status := sampleConsts.httpOK,
             content := some { fMsgType := sampleConsts.MSG_SC_GET_STREAM_ACK, CSeq := "7",
                               ErrorNum := some 400, body := [] },
             connectionClose := false }] := by
  decide

/-- C10 (amended). When a waiting client observes a matching device reply whose
response code `e` is non-zero and is not the success code, the get-stream
handler clears waiting and returns `e`, and the dispatcher puts one error reply
on the client's output stream whose envelope `ErrorNum` is the image of `e`
under the error switch: `e` itself when `e` is one of `DEVICE_NOT_FOUND`,
`SERVICE_NOT_FOUND`, `SERVER_INTERNAL_ERROR`, `SERVER_NOT_IMPLEMENTED`, and
`CLIENT_BAD_REQUEST` for every `e` that is no label of the switch. -/
theorem C10_device_error_reply (k : Consts) (hk : Hooks) (oh : OtherHandlers) (c : Nat)
    (req : EasyProtocol) (w : World) (hwf : k.WellFormed)
    (hbody : (w.sessions c).fRequestBody = some req)
    (htype : req.MessageType = k.MSG_CS_GET_STREAM_REQ)
    (hserial : req.GetBodyValue Tag.SERIAL ≠ "") (hproto : req.GetBodyValue Tag.PROTOCOL ≠ "")
    (hwait : (w.sessions c).fInfo.bWaitingState = true)
    (hresp : (w.sessions c).fInfo.iResponse ≠ 0)
    (hcseq : (w.sessions c).fInfo.uCseq = toUInt32 (atoi req.CSeq))
    (hok : (w.sessions c).fInfo.iResponse ≠ k.EASY_ERROR_SUCCESS_OK) :
    (ExecNetMsgCSGetStreamReq k hk c req w).1 = (w.sessions c).fInfo.iResponse
    ∧ ((ExecNetMsgCSGetStreamReq k hk c req w).2.sessions c).fInfo.bWaitingState = false
    ∧ (ProcessRequest k hk oh c w).1 = (w.sessions c).fInfo.iResponse
    ∧ ((ProcessRequest k hk oh c w).2.sessions c).fInfo.bWaitingState = false
    ∧ ((ProcessRequest k hk oh c w).2.sessions c).fOutputStream
        = (w.sessions c).fOutputStream ++
          [{ status := k.httpOK,
             content := some { fMsgType := k.MSG_SC_GET_STREAM_ACK, CSeq := req.CSeq,
                               ErrorNum := some (errorNumOf k (w.sessions c).fInfo.iResponse),
                               body := [] },
             connectionClose := false }]
    ∧ ((w.sessions c).fInfo.iResponse ∈
          [k.EASY_ERROR_DEVICE_NOT_FOUND, k.EASY_ERROR_SERVICE_NOT_FOUND,
           k.EASY_ERROR_SERVER_INTERNAL_ERROR, k.EASY_ERROR_SERVER_NOT_IMPLEMENTED] →
        errorNumOf k (w.sessions c).fInfo.iResponse = (w.sessions c).fInfo.iResponse)
    ∧ ((w.sessions c).fInfo.iResponse ∉ k.errCases →
        errorNumOf k (w.sessions c).fInfo.iResponse = k.EASY_ERROR_CLIENT_BAD_REQUEST) := by
  have hr := getStream_reentry_device_error k hk c req w hserial hproto hwait hresp hcseq hok
  have hne : (w.sessions c).fInfo.iResponse ≠ k.QTSS_NoErr := by
    rw [hwf.2.2.1]; exact hresp
  have hp : ProcessRequest k hk oh c w
      = ((w.sessions c).fInfo.iResponse,
          (w.modify c (fun s => { s with fInfo := { s.fInfo with bWaitingState := false } })).modify
            c (Put (errorReply k k.MSG_SC_GET_STREAM_ACK req (w.sessions c).fInfo.iResponse))) := by
    simp only [ProcessRequest, hbody, dispatch_getStream k hk oh c req w hwf htype, hr, ne_eq,
      hne, not_false_eq_true, if_true]
  have hnd := hwf.2.1
  simp only [Consts.errCases, List.nodup_cons, List.mem_cons, not_or] at hnd
  refine ⟨by rw [hr], by rw [hr]; simp, by rw [hp], by rw [hp]; simp [Put],
    by rw [hp]; simp [Put, errorReply], ?_, ?_⟩
  · intro hmem
    simp only [List.mem_cons, List.mem_singleton, List.not_mem_nil, or_false] at hmem
    rcases hmem with h | h | h | h <;> rw [h] <;> simp only [errorNumOf] <;> split_ifs <;>
      first
      | rfl
      | simp_all
  · intro hnot
    simp only [Consts.errCases, List.mem_cons, List.not_mem_nil, or_false, not_or] at hnot
    simp [errorNumOf, hnot]

/-- C10 (amended) at the sample world after the device acked with 404. -/
theorem C10_device_error_reply_witness :
    sampleConsts.WellFormed
    ∧ ((ExecNetMsgDSPushStreamAck sampleConsts 1 (sampleAck "404") worldAfterPush).2.sessions
        0).fInfo.iResponse ≠ 0
    ∧ (ProcessRequest sampleConsts hooksS4 noHandlers 0
        (ExecNetMsgDSPushStreamAck sampleConsts 1 (sampleAck "404") worldAfterPush).2).1
        = ((ExecNetMsgDSPushStreamAck sampleConsts 1 (sampleAck "404")
            worldAfterPush).2.sessions 0).fInfo.iResponse :=
  have h := C10_device_error_reply sampleConsts hooksS4 noHandlers 0 sampleReq
    (ExecNetMsgDSPushStreamAck sampleConsts 1 (sampleAck "404") worldAfterPush).2
    (by decide) (by decide) (by decide) (by decide) (by decide) (by decide) (by decide)
    (by decide) (by decide)
  ⟨by decide, by decide, h.2.2.1⟩

/-! ## C3: holds and pending entries -/

/-- Changing a reference count keeps the sessions the table designates. -/
theorem bumpRef_objs (key : String) (delta : Int) (m : List OSRefEx) :
    ∀ r ∈ bumpRef key delta m, ∃ r0 ∈ m, r0.obj = r.obj := by
  induction m with
  | nil => intro r hr; simp [bumpRef] at hr
  | cons a rest ih =>
    intro r hr
    simp only [bumpRef] at hr
    split_ifs at hr with h
    · rcases List.mem_cons.mp hr with h1 | h1
      · exact ⟨a, List.mem_cons_self _ _, by rw [h1]⟩
      · exact ⟨r, List.mem_cons_of_mem _ h1, rfl⟩
    · rcases List.mem_cons.mp hr with h1 | h1
      · exact ⟨a, List.mem_cons_self _ _, by rw [h1]⟩
      · obtain ⟨r0, h0, e0⟩ := ih r h1
        exact ⟨r0, List.mem_cons_of_mem _ h0, e0⟩

/-- A resolved session is designated by the table. -/
theorem Resolve_obj (m : List OSRefEx) (key : String) (d : Nat) (table : List OSRefEx)
    (h : Resolve m key = some (d, table)) :
    (∃ r ∈ m, r.obj = d) ∧ table = bumpRef key 1 m := by
  unfold Resolve at h
  split at h
  · rename_i r hr
    simp only [Option.some.injEq, Prod.mk.injEq] at h
    exact ⟨⟨r, List.mem_of_find?_eq_some hr, h.1⟩, h.2.symm⟩
  · simp at h

/-- What a get-stream step can do to the pending maps, the holds, the device
counters and the device table: either no map and no hold changes and counters
do not go down, or it is the brokered first entry: the device resolved from the
table gets one entry for `c` under its counter value, the counter advances and
the hold of `c` is taken. -/
theorem getStream_effect (k : Consts) (hk : Hooks) (c : Nat) (req : EasyProtocol) (w : World) :
    (∀ r ∈ (ExecNetMsgCSGetStreamReq k hk c req w).2.fDeviceSessionMap,
        ∃ r0 ∈ w.fDeviceSessionMap, r0.obj = r.obj)
    ∧ ((∀ s, ((ExecNetMsgCSGetStreamReq k hk c req w).2.sessions s).fMsgMap
              = (w.sessions s).fMsgMap
            ∧ ((ExecNetMsgCSGetStreamReq k hk c req w).2.sessions s).fObjectHolders
              = (w.sessions s).fObjectHolders
            ∧ (w.sessions s).fCSeq
              ≤ ((ExecNetMsgCSGetStreamReq k hk c req w).2.sessions s).fCSeq)
      ∨ (∃ d, (∃ r ∈ w.fDeviceSessionMap, r.obj = d) ∧
          ∀ s, ((ExecNetMsgCSGetStreamReq k hk c req w).2.sessions s).fMsgMap
              = (if s = d then
                  InsertToMsgMap (w.sessions d).fMsgMap (w.sessions d).fCSeq
                    (strMessage.mk k.MSG_CS_GET_STREAM_REQ c (toUInt32 (atoi req.CSeq)))
                 else (w.sessions s).fMsgMap)
            ∧ ((ExecNetMsgCSGetStreamReq k hk c req w).2.sessions s).fObjectHolders
              = (if s = c then (w.sessions c).fObjectHolders + 1
                 else (w.sessions s).fObjectHolders)
            ∧ ((ExecNetMsgCSGetStreamReq k hk c req w).2.sessions s).fCSeq
              = (if s = d then (w.sessions d).fCSeq + 1 else (w.sessions s).fCSeq))) := by
  by_cases harg : req.GetBodyValue Tag.SERIAL = "" ∨ req.GetBodyValue Tag.PROTOCOL = ""
  · have : ExecNetMsgCSGetStreamReq k hk c req w = (k.QTSS_BadArgument, w) := by
      simp only [ExecNetMsgCSGetStreamReq, String.length_le_zero_iff, harg, if_true]
    rw [this]
    exact ⟨fun r hr => ⟨r, hr, rfl⟩, Or.inl (fun s => ⟨rfl, rfl, le_refl _⟩)⟩
  · rw [not_or] at harg
    obtain ⟨hserial, hproto⟩ := harg
    by_cases hwait : (w.sessions c).fInfo.bWaitingState = false
    · cases hres : Resolve w.fDeviceSessionMap (req.GetBodyValue Tag.SERIAL) with
      | none =>
        have : ExecNetMsgCSGetStreamReq k hk c req w = (k.EASY_ERROR_DEVICE_NOT_FOUND, w) := by
          simp only [ExecNetMsgCSGetStreamReq, String.length_le_zero_iff, hserial, hproto, hwait,
            hres, or_self, if_false, if_true]
        rw [this]
        exact ⟨fun r hr => ⟨r, hr, rfl⟩, Or.inl (fun s => ⟨rfl, rfl, le_refl _⟩)⟩
      | some p =>
        obtain ⟨d, table⟩ := p
        obtain ⟨hd, htab⟩ := Resolve_obj _ _ _ _ hres
        have hobj : ∀ r ∈ bumpRef (req.GetBodyValue Tag.SERIAL) (-1) table,
            ∃ r0 ∈ w.fDeviceSessionMap, r0.obj = r.obj := by
          intro r hr
          obtain ⟨r1, h1, e1⟩ := bumpRef_objs _ _ _ r hr
          rw [htab] at h1
          obtain ⟨r0, h0, e0⟩ := bumpRef_objs _ _ _ r1 h1
          exact ⟨r0, h0, e0.trans e1⟩
        have hobj2 : ∀ r ∈ bumpRef (req.GetBodyValue Tag.SERIAL) (-1)
            (bumpRef (req.GetBodyValue Tag.SERIAL) (-1) table),
            ∃ r0 ∈ w.fDeviceSessionMap, r0.obj = r.obj := by
          intro r hr
          obtain ⟨r1, h1, e1⟩ := bumpRef_objs _ _ _ r hr
          obtain ⟨r0, h0, e0⟩ := hobj r1 h1
          exact ⟨r0, h0, e0.trans e1⟩
        by_cases hassoc : (hk.GetAssociatedDarwin (req.GetBodyValue Tag.SERIAL)
            (channelOf req)).1 = ""
        · by_cases hbest : hk.GetBestDarwin.1 = ""
          · have : ExecNetMsgCSGetStreamReq k hk c req w
                = (k.EASY_ERROR_SERVICE_NOT_FOUND,
                    ({ w with fDeviceSessionMap := table } : World).Release
                      (req.GetBodyValue Tag.SERIAL)) := by
              unfold channelOf at hassoc
              simp only [ExecNetMsgCSGetStreamReq, String.length_le_zero_iff, hserial, hproto,
                hwait, hres, hassoc, hbest, or_self, if_false, if_true, ne_eq,
                not_true_eq_false]
            rw [this]
            exact ⟨hobj, Or.inl (fun s => ⟨rfl, rfl, le_refl _⟩)⟩
          · by_cases hmint : hk.GenStreamID = ""
            · have : ExecNetMsgCSGetStreamReq k hk c req w
                  = (k.EASY_ERROR_SERVER_INTERNAL_ERROR,
                      (((({ w with fDeviceSessionMap := table } : World).modify d
                        (fun s => { s with fCSeq := s.fCSeq + 1 })).Release
                        (req.GetBodyValue Tag.SERIAL)).Release
                        (req.GetBodyValue Tag.SERIAL))) := by
                unfold channelOf at hassoc
                simp only [ExecNetMsgCSGetStreamReq, String.length_le_zero_iff, hserial, hproto,
                  hwait, hres, hassoc, hbest, hmint, or_self, if_false, if_true, ne_eq,
                  not_true_eq_false, GetCSeq]
              rw [this]
              refine ⟨hobj2, Or.inl (fun s => ?_)⟩
              simp only [World.Release_sessions, World.modify_sessions]
              split_ifs with h
              · subst h; exact ⟨rfl, rfl, Nat.le_succ _⟩
              · exact ⟨rfl, rfl, le_refl _⟩
            · rw [getStream_first_entry_brokered k hk c d req w table hserial hproto hwait hres
                hassoc hbest hmint]
              refine ⟨hobj, Or.inr ⟨d, hd, fun s => ?_⟩⟩
              simp only [World.modify_sessions, World.Release_sessions]
              split_ifs <;> first
                | exact ⟨rfl, rfl, rfl⟩
                | (subst_vars; first
                    | exact ⟨rfl, rfl, rfl⟩
                    | contradiction)
        · by_cases hmint : hk.GenStreamID = ""
          · rw [getStream_first_entry_associated_mint_fails k hk c d req w table hserial hproto
              hwait hres hassoc hmint]
            exact ⟨hobj, Or.inl (fun s => ⟨rfl, rfl, le_refl _⟩)⟩
          · rw [getStream_first_entry_associated k hk c d req w table hserial hproto hwait hres
              hassoc hmint]
            refine ⟨hobj, Or.inl (fun s => ?_)⟩
            simp only [World.Release_sessions, World.modify_sessions]
            split_ifs with h
            · subst h; exact ⟨rfl, rfl, le_refl _⟩
            · exact ⟨rfl, rfl, le_refl _⟩
    · have hwait' : (w.sessions c).fInfo.bWaitingState = true := by
        cases hb : (w.sessions c).fInfo.bWaitingState
        · exact absurd hb hwait
        · rfl
      refine ⟨?_, Or.inl ?_⟩
      · intro r hr
        refine ⟨r, ?_, rfl⟩
        simp only [ExecNetMsgCSGetStreamReq, String.length_le_zero_iff, hserial, hproto, hwait',
          or_self, if_false, emitGetStreamAck, Bool.true_eq_false] at hr
        split_ifs at hr <;> exact hr
      · intro s
        simp only [ExecNetMsgCSGetStreamReq, String.length_le_zero_iff, hserial, hproto, hwait',
          or_self, if_false, emitGetStreamAck, Bool.true_eq_false]
        split_ifs <;> simp only [World.modify_sessions] <;> split_ifs <;>
          first
          | exact ⟨rfl, rfl, le_refl _⟩
          | (subst_vars; exact ⟨rfl, rfl, le_refl _⟩)

/-- What a push-stream-ack step can do to the pending maps, the holds and the
device counters: nothing, or it consumes the entry found under the echoed CSeq
and, when the entry is of kind `MSG_CS_GET_STREAM_REQ`, releases one hold of the
referenced client. -/
theorem pushStreamAck_effect (k : Consts) (d : Nat) (ack : EasyProtocol) (w : World) :
    (ExecNetMsgDSPushStreamAck k d ack w).2.fDeviceSessionMap = w.fDeviceSessionMap
    ∧ ((∀ s, ((ExecNetMsgDSPushStreamAck k d ack w).2.sessions s).fMsgMap
              = (w.sessions s).fMsgMap
            ∧ ((ExecNetMsgDSPushStreamAck k d ack w).2.sessions s).fObjectHolders
              = (w.sessions s).fObjectHolders
            ∧ ((ExecNetMsgDSPushStreamAck k d ack w).2.sessions s).fCSeq = (w.sessions s).fCSeq)
      ∨ (∃ e rest, FindInMsgMap (w.sessions d).fMsgMap (toUInt32 (atoi ack.CSeq))
            = some (e, rest) ∧
          ∀ s, ((ExecNetMsgDSPushStreamAck k d ack w).2.sessions s).fMsgMap
              = (if s = d then rest else (w.sessions s).fMsgMap)
            ∧ ((ExecNetMsgDSPushStreamAck k d ack w).2.sessions s).fObjectHolders
              = (if e.iMsgType = k.MSG_CS_GET_STREAM_REQ ∧ s = e.pObject
                 then (w.sessions s).fObjectHolders - 1 else (w.sessions s).fObjectHolders)
            ∧ ((ExecNetMsgDSPushStreamAck k d ack w).2.sessions s).fCSeq
              = (w.sessions s).fCSeq)) := by
  by_cases hauth : (w.sessions d).fAuthenticated = false
  · have : ExecNetMsgDSPushStreamAck k d ack w = (k.httpUnAuthorized, w) := by
      simp only [ExecNetMsgDSPushStreamAck, hauth, if_true]
    rw [this]
    exact ⟨rfl, Or.inl (fun s => ⟨rfl, rfl, rfl⟩)⟩
  · have hauth' : (w.sessions d).fAuthenticated = true := by
      cases hb : (w.sessions d).fAuthenticated
      · exact absurd hb hauth
      · rfl
    cases hfind : FindInMsgMap (w.sessions d).fMsgMap (toUInt32 (atoi ack.CSeq)) with
    | none =>
      have : ExecNetMsgDSPushStreamAck k d ack w = (k.QTSS_BadArgument, w) := by
        simp only [ExecNetMsgDSPushStreamAck, hauth', hfind, Bool.true_eq_false, if_false]
      rw [this]
      exact ⟨rfl, Or.inl (fun s => ⟨rfl, rfl, rfl⟩)⟩
    | some p =>
      obtain ⟨e, rest⟩ := p
      by_cases hkind : e.iMsgType = k.MSG_CS_GET_STREAM_REQ
      · rw [pushStreamAck_found k d ack w e rest hauth' hfind hkind]
        refine ⟨rfl, Or.inr ⟨e, rest, rfl, fun s => ?_⟩⟩
        simp only [World.modify_sessions, hkind, true_and]
        split_ifs <;> first
          | exact ⟨rfl, rfl, rfl⟩
          | (subst_vars; first
              | exact ⟨rfl, rfl, rfl⟩
              | contradiction)
      · have : ExecNetMsgDSPushStreamAck k d ack w
            = (k.QTSS_NoErr, w.modify d (fun s => { s with fMsgMap := rest })) := by
          simp only [ExecNetMsgDSPushStreamAck, hauth', hfind, hkind, Bool.true_eq_false,
            if_false]
        rw [this]
        refine ⟨rfl, Or.inr ⟨e, rest, rfl, fun s => ?_⟩⟩
        simp only [World.modify_sessions, hkind, false_and, if_false]
        split_ifs <;> first
          | exact ⟨rfl, rfl, rfl⟩
          | (subst_vars; exact ⟨rfl, rfl, rfl⟩)

/-- A found entry is a member under the looked-up key, and the rest is the map
without that key. -/
theorem FindInMsgMap_some (m : List (Nat × strMessage)) (K : Nat) (e : strMessage)
    (rest : List (Nat × strMessage)) (h : FindInMsgMap m K = some (e, rest)) :
    (K, e) ∈ m ∧ rest = m.filter (fun q => q.1 ≠ K) := by
  unfold FindInMsgMap at h
  split at h
  · rename_i p hp
    simp only [Option.some.injEq, Prod.mk.injEq] at h
    have hmem := List.mem_of_find?_eq_some hp
    have hkey := List.find?_some hp
    simp only [decide_eq_true_eq] at hkey
    obtain ⟨a, b⟩ := p
    simp only at hkey h
    subst hkey
    rw [← h.1]
    exact ⟨hmem, h.2.symm⟩
  · simp at h

/-- Nothing is found in an empty map. -/
theorem FindInMsgMap_nil (K : Nat) : FindInMsgMap [] K = none := rfl

/-- The timed-out sample world, in closed form. -/
theorem worldTimedOut_eq :
    worldTimedOut = timeoutWorld sampleConsts 0 sampleReq (tickWorld 0 0 worldAfterPush) := by
  unfold worldTimedOut
  rw [pollRun_brokered_timeout sampleConsts hooksS4 noHandlers 0 1 sampleReq sampleWorld
    [{ key := "CAM001", obj := 1, refCount := 1 }] 302
    (by decide) (by decide) (by decide) (by decide) (by decide) (by decide) (by decide)
    (by decide) (by decide) (by decide) (by decide) (by decide) (by decide)]
  rfl

/-- C5 (refuted as stated). The client's first request (CSeq 7) is pushed under
device CSeq 0 and times out; the client's second request carries CSeq 7 again
and is pushed under device CSeq 1; the device then acks CSeq 0, the entry of the
timed-out request. The entry of the second request is still pending under
device CSeq 1, yet the client's next re-entry ends the wait of the second request
with the success response. -/
theorem C5_stale_ack_completes_wait :
    (worldTimedOut.sessions 0).fInfo.bWaitingState = false
    ∧ (worldTimedOut.sessions 1).fMsgMap
        = [(0, strMessage.mk sampleConsts.MSG_CS_GET_STREAM_REQ 0 7)]
    ∧ (worldSecondRequest.sessions 0).fInfo.bWaitingState = true
    ∧ (worldSecondRequest.sessions 1).fMsgMap
        = [(1, strMessage.mk sampleConsts.MSG_CS_GET_STREAM_REQ 0 7),
           (0, strMessage.mk sampleConsts.MSG_CS_GET_STREAM_REQ 0 7)]
    ∧ toUInt32 (atoi (sampleAck "200").CSeq) = 0
    ∧ (worldStaleAck.sessions 1).fMsgMap
        = [(1, strMessage.mk sampleConsts.MSG_CS_GET_STREAM_REQ 0 7)]
    ∧ (ExecNetMsgCSGetStreamReq sampleConsts hooksS4 0 sampleReq worldStaleAck).1
        = sampleConsts.QTSS_NoErr
    ∧ ((ExecNetMsgCSGetStreamReq sampleConsts hooksS4 0 sampleReq worldStaleAck).2.sessions
        0).fInfo.bWaitingState = false
    ∧ ((ExecNetMsgCSGetStreamReq sampleConsts hooksS4 0 sampleReq worldStaleAck).2.sessions
        0).fOutputStream
        = [errorReply sampleConsts sampleConsts.MSG_SC_GET_STREAM_ACK sampleReq
             sampleConsts.httpRequestTimeout,
           getStreamAck sampleConsts sampleReq "rtsp://10.0.0.7:10008/CAM001/0.sdp?token=tok"
             "" "1"] := by
  unfold worldStaleAck worldSecondRequest
  rw [worldTimedOut_eq]
  decide

/-- C5 (amended). A waiting client `c` polls for request `req`; the device's ack
consumes a pending entry of `c` whose recorded client CSeq is not the CSeq of
`req` (the entry of an earlier request with another CSeq). Then the client's
next re-entry does not end the wait with success or with a device error: either
it returns no-error, keeps waiting with response 0 and writes nothing, or (only
when the ack's code reads as 0) the tick count passes the limit and it returns
the request-timeout status. -/
theorem C5_stale_ack_dropped (k : Consts) (hk : Hooks) (c d : Nat) (req ack : EasyProtocol)
    (w : World) (e : strMessage) (rest : List (Nat × strMessage))
    (hauth : (w.sessions d).fAuthenticated = true)
    (hfind : FindInMsgMap (w.sessions d).fMsgMap (toUInt32 (atoi ack.CSeq)) = some (e, rest))
    (hkind : e.iMsgType = k.MSG_CS_GET_STREAM_REQ)
    (hc : e.pObject = c)
    (hstale : e.uCseq ≠ toUInt32 (atoi req.CSeq))
    (hserial : req.GetBodyValue Tag.SERIAL ≠ "") (hproto : req.GetBodyValue Tag.PROTOCOL ≠ "")
    (hwait : (w.sessions c).fInfo.bWaitingState = true) :
    ((ExecNetMsgCSGetStreamReq k hk c req (ExecNetMsgDSPushStreamAck k d ack w).2).1
        = k.QTSS_NoErr
      ∧ ((ExecNetMsgCSGetStreamReq k hk c req
          (ExecNetMsgDSPushStreamAck k d ack w).2).2.sessions c).fInfo.bWaitingState = true
      ∧ ((ExecNetMsgCSGetStreamReq k hk c req
          (ExecNetMsgDSPushStreamAck k d ack w).2).2.sessions c).fInfo.iResponse = 0
      ∧ ((ExecNetMsgCSGetStreamReq k hk c req
          (ExecNetMsgDSPushStreamAck k d ack w).2).2.sessions c).fOutputStream
          = (w.sessions c).fOutputStream)
    ∨ (atoi ack.ErrorNum = 0
      ∧ (ExecNetMsgCSGetStreamReq k hk c req (ExecNetMsgDSPushStreamAck k d ack w).2).1
        = k.httpRequestTimeout
      ∧ ((ExecNetMsgCSGetStreamReq k hk c req
          (ExecNetMsgDSPushStreamAck k d ack w).2).2.sessions c).fOutputStream
          = (w.sessions c).fOutputStream) := by
  have hslot := pushStreamAck_client_slot k d ack w e rest hauth hfind hkind
  have hout := pushStreamAck_output k d ack w c
  rw [hc] at hslot
  have hresp : ((ExecNetMsgDSPushStreamAck k d ack w).2.sessions c).fInfo.iResponse
      = atoi ack.ErrorNum := by
    rw [hslot]; split_ifs <;> rfl
  have hcs : ((ExecNetMsgDSPushStreamAck k d ack w).2.sessions c).fInfo.uCseq = e.uCseq := by
    rw [hslot]; split_ifs <;> rfl
  have hw' : ((ExecNetMsgDSPushStreamAck k d ack w).2.sessions c).fInfo.bWaitingState = true := by
    rw [hslot]; split_ifs <;> exact hwait
  by_cases hz : atoi ack.ErrorNum = 0
  · by_cases hlim : (((ExecNetMsgDSPushStreamAck k d ack w).2.sessions c).fInfo.uTimeoutNum + 1)
        % 4294967296 > k.CliStartStreamTimeout / 100
    · right
      rw [getStream_reentry_timeout k hk c req _ hserial hproto hw' (by rw [hresp]; exact hz)
        hlim]
      exact ⟨hz, rfl, by simp [hout]⟩
    · left
      rw [getStream_reentry_wait k hk c req _ hserial hproto hw' (by rw [hresp]; exact hz) hlim]
      exact ⟨rfl, by simp [hw'], by simp [hresp, hz], by simp [hout]⟩
  · left
    rw [getStream_reentry_stale k hk c req _ hserial hproto hw' (by rw [hresp]; exact hz)
      (by rw [hcs]; exact hstale)]
    exact ⟨rfl, by simp [hw'], by simp, by simp [hout]⟩

/-- C5 (amended) at the sample world: the first request (CSeq 7) timed out, the
second request carries CSeq 8, and the device acks the push of the first. -/
theorem C5_stale_ack_dropped_witness :
    (worldSecondRequest8.sessions 1).fAuthenticated = true
    ∧ FindInMsgMap (worldSecondRequest8.sessions 1).fMsgMap
        (toUInt32 (atoi (sampleAck "200").CSeq))
        = some (strMessage.mk 3 0 7, [(1, strMessage.mk 3 0 8)])
    ∧ (7 : Nat) ≠ toUInt32 (atoi sampleReq8.CSeq)
    ∧ (worldSecondRequest8.sessions 0).fInfo.bWaitingState = true
    ∧ ((ExecNetMsgCSGetStreamReq sampleConsts hooksS4 0 sampleReq8
          (ExecNetMsgDSPushStreamAck sampleConsts 1 (sampleAck "200")
            worldSecondRequest8).2).2.sessions 0).fInfo.bWaitingState = true :=
  have h := C5_stale_ack_dropped sampleConsts hooksS4 0 1 sampleReq8 (sampleAck "200")
    worldSecondRequest8 (strMessage.mk 3 0 7) [(1, strMessage.mk 3 0 8)]
    (by decide) (by decide) (by decide) (by decide) (by decide) (by decide) (by decide)
    (by decide)
  ⟨by decide, by decide, by decide, by decide,
    h.elim (fun hl => hl.2.1) (fun hr => absurd hr.1 (by decide))⟩

/-! ## C9: pushes and acks during one request -/

/-- The pushes on a stream after a push was put. -/
theorem pushesIn_append_push (k : Consts) (out : List HTTPPacket) (st : Int)
    (m : EasyProtocolACK) (cc : Bool) (h : m.fMsgType = k.MSG_SD_PUSH_STREAM_REQ) :
    pushesIn k (out ++ [HTTPPacket.mk st (some m) cc])
      = pushesIn k out ++ [HTTPPacket.mk st (some m) cc] := by
  simp [pushesIn, List.filter_append, h]

/-- The pushes on a stream after a message of another type was put. -/
theorem pushesIn_append_other (k : Consts) (out : List HTTPPacket) (st : Int)
    (m : EasyProtocolACK) (cc : Bool) (h : m.fMsgType ≠ k.MSG_SD_PUSH_STREAM_REQ) :
    pushesIn k (out ++ [HTTPPacket.mk st (some m) cc]) = pushesIn k out := by
  simp [pushesIn, List.filter_append, h]

/-- An ack changes no wait slot but the one of the client of a consumed entry of
kind get-stream; there it stores the code and the recorded client CSeq and keeps
the waiting flag. -/
theorem pushStreamAck_slot_cases (k : Consts) (c d : Nat) (ack : EasyProtocol) (w : World) :
    ((ExecNetMsgDSPushStreamAck k d ack w).2.sessions c).fInfo.bWaitingState
        = (w.sessions c).fInfo.bWaitingState
    ∧ ((((ExecNetMsgDSPushStreamAck k d ack w).2.sessions c).fInfo.iResponse
          = (w.sessions c).fInfo.iResponse
        ∧ ((ExecNetMsgDSPushStreamAck k d ack w).2.sessions c).fInfo.uCseq
          = (w.sessions c).fInfo.uCseq)
      ∨ (∃ e rest, (w.sessions d).fAuthenticated = true
          ∧ FindInMsgMap (w.sessions d).fMsgMap (toUInt32 (atoi ack.CSeq)) = some (e, rest)
          ∧ e.pObject = c
          ∧ ((ExecNetMsgDSPushStreamAck k d ack w).2.sessions c).fInfo.iResponse
              = atoi ack.ErrorNum
          ∧ ((ExecNetMsgDSPushStreamAck k d ack w).2.sessions c).fInfo.uCseq = e.uCseq)) := by
  by_cases hauth : (w.sessions d).fAuthenticated = false
  · have : ExecNetMsgDSPushStreamAck k d ack w = (k.httpUnAuthorized, w) := by
      simp only [ExecNetMsgDSPushStreamAck, hauth, if_true]
    rw [this]
    exact ⟨rfl, Or.inl ⟨rfl, rfl⟩⟩
  · have hauth' : (w.sessions d).fAuthenticated = true := by
      cases hb : (w.sessions d).fAuthenticated
      · exact absurd hb hauth
      · rfl
    cases hfind : FindInMsgMap (w.sessions d).fMsgMap (toUInt32 (atoi ack.CSeq)) with
    | none =>
      have : ExecNetMsgDSPushStreamAck k d ack w = (k.QTSS_BadArgument, w) := by
        simp only [ExecNetMsgDSPushStreamAck, hauth', hfind, Bool.true_eq_false, if_false]
      rw [this]
      exact ⟨rfl, Or.inl ⟨rfl, rfl⟩⟩
    | some p =>
      obtain ⟨e, rest⟩ := p
      by_cases hkind : e.iMsgType = k.MSG_CS_GET_STREAM_REQ
      · by_cases hc : e.pObject = c
        · have hslot := pushStreamAck_client_slot k d ack w e rest hauth' hfind hkind
          rw [hc] at hslot
          refine ⟨by rw [hslot]; split_ifs <;> rfl, Or.inr ⟨e, rest, hauth', rfl, hc, ?_, ?_⟩⟩
          · rw [hslot]; split_ifs <;> rfl
          · rw [hslot]; split_ifs <;> rfl
        · have hc' : ¬ c = e.pObject := fun h => hc h.symm
          rw [pushStreamAck_found k d ack w e rest hauth' hfind hkind]
          simp only [World.modify_sessions, hc', if_false]
          split_ifs <;> first
            | exact ⟨rfl, Or.inl ⟨rfl, rfl⟩⟩
            | (subst_vars; exact ⟨rfl, Or.inl ⟨rfl, rfl⟩⟩)
      · have : ExecNetMsgDSPushStreamAck k d ack w
            = (k.QTSS_NoErr, w.modify d (fun s => { s with fMsgMap := rest })) := by
          simp only [ExecNetMsgDSPushStreamAck, hauth', hfind, hkind, Bool.true_eq_false,
            if_false]
        rw [this]
        simp only [World.modify_sessions]
        split_ifs <;> first
          | exact ⟨rfl, Or.inl ⟨rfl, rfl⟩⟩
          | (subst_vars; exact ⟨rfl, Or.inl ⟨rfl, rfl⟩⟩)

/-- A re-entry of the get-stream handler (the client is waiting) puts no push on
any output stream, and it either keeps the client waiting with response 0, or
ends with an error result, or ends with no-error after it saw the success code
and the CSeq of the request in the wait slot. -/
theorem getStream_reentry_cases (k : Consts) (hk : Hooks) (c : Nat) (req : EasyProtocol)
    (w : World) (hwf : k.WellFormed)
    (hdist : k.MSG_SC_GET_STREAM_ACK ≠ k.MSG_SD_PUSH_STREAM_REQ)
    (hserial : req.GetBodyValue Tag.SERIAL ≠ "") (hproto : req.GetBodyValue Tag.PROTOCOL ≠ "")
    (hwait : (w.sessions c).fInfo.bWaitingState = true) :
    (∀ s, pushesIn k ((ExecNetMsgCSGetStreamReq k hk c req w).2.sessions s).fOutputStream
        = pushesIn k (w.sessions s).fOutputStream)
    ∧ ((((ExecNetMsgCSGetStreamReq k hk c req w).2.sessions c).fInfo.bWaitingState = true
          ∧ ((ExecNetMsgCSGetStreamReq k hk c req w).2.sessions c).fInfo.iResponse = 0)
      ∨ (((ExecNetMsgCSGetStreamReq k hk c req w).2.sessions c).fInfo.bWaitingState = false
          ∧ (ExecNetMsgCSGetStreamReq k hk c req w).1 ≠ k.QTSS_NoErr)
      ∨ (((ExecNetMsgCSGetStreamReq k hk c req w).2.sessions c).fInfo.bWaitingState = false
          ∧ (w.sessions c).fInfo.iResponse ≠ 0
          ∧ (w.sessions c).fInfo.iResponse = k.EASY_ERROR_SUCCESS_OK
          ∧ (w.sessions c).fInfo.uCseq = toUInt32 (atoi req.CSeq))) := by
  have herr := hwf.2.2.2.1
  simp only [Consts.errCases, List.mem_cons, List.not_mem_nil, or_false, not_or] at herr
  obtain ⟨-, -, -, -, -, htimeout, hinternal, -⟩ := herr
  have hsame : ∀ (f : HTTPSession → HTTPSession),
      (∀ t, (f t).fOutputStream = t.fOutputStream) → ∀ s,
      pushesIn k ((w.modify c f).sessions s).fOutputStream
        = pushesIn k (w.sessions s).fOutputStream := by
    intro f hf s
    simp only [World.modify_sessions]
    split_ifs with h
    · subst h; rw [hf]
    · rfl
  by_cases hresp : (w.sessions c).fInfo.iResponse = 0
  · by_cases hlim : ((w.sessions c).fInfo.uTimeoutNum + 1) % 4294967296
        > k.CliStartStreamTimeout / 100
    · rw [getStream_reentry_timeout k hk c req w hserial hproto hwait hresp hlim]
      exact ⟨(by intro s; dsimp only; apply hsame; intro t; rfl), Or.inr (Or.inl ⟨by simp, fun h => htimeout h.symm⟩)⟩
    · rw [getStream_reentry_wait k hk c req w hserial hproto hwait hresp hlim]
      exact ⟨(by intro s; dsimp only; apply hsame; intro t; rfl), Or.inl ⟨by simp [hwait], by simp [hresp]⟩⟩
  · by_cases hcseq : (w.sessions c).fInfo.uCseq = toUInt32 (atoi req.CSeq)
    · by_cases hok : (w.sessions c).fInfo.iResponse = k.EASY_ERROR_SUCCESS_OK
      · by_cases hmint : hk.GenStreamID = ""
        · rw [getStream_reentry_mint_fails k hk c req w hserial hproto hwait hresp hcseq hok
            hmint]
          exact ⟨(by intro s; dsimp only; apply hsame; intro t; rfl), Or.inr (Or.inl ⟨by simp, fun h => hinternal h.symm⟩)⟩
        · rw [getStream_reentry_success k hk c req w hserial hproto hwait hresp hcseq hok hmint]
          refine ⟨?_, Or.inr (Or.inr ⟨by simp [Put], hresp, hok, hcseq⟩)⟩
          intro s
          simp only [World.modify_sessions]
          split_ifs with h
          · subst h
            exact pushesIn_append_other k _ _ _ _ hdist
          · rfl
      · rw [getStream_reentry_device_error k hk c req w hserial hproto hwait hresp hcseq hok]
        exact ⟨(by intro s; dsimp only; apply hsame; intro t; rfl),
          Or.inr (Or.inl ⟨by simp, by rw [hwf.2.2.1]; exact hresp⟩)⟩
    · rw [getStream_reentry_stale k hk c req w hserial hproto hwait hresp hcseq]
      exact ⟨(by intro s; dsimp only; apply hsame; intro t; rfl), Or.inl ⟨by simp [hwait], by simp⟩⟩

/-- The first entry of the get-stream handler (the client is not waiting) either
ends with an error result, or ends with no-error from an associated relay and
puts no push on any output stream, or leaves the client waiting with response 0
after it put exactly one push, for the device's counter value, on the output
stream of the device resolved from the table. -/
theorem getStream_first_entry_cases (k : Consts) (hk : Hooks) (c : Nat) (req : EasyProtocol)
    (w : World) (hwf : k.WellFormed)
    (hdist : k.MSG_SC_GET_STREAM_ACK ≠ k.MSG_SD_PUSH_STREAM_REQ)
    (hwait : (w.sessions c).fInfo.bWaitingState = false) :
    (((ExecNetMsgCSGetStreamReq k hk c req w).2.sessions c).fInfo.bWaitingState = false
        ∧ (ExecNetMsgCSGetStreamReq k hk c req w).1 ≠ k.QTSS_NoErr)
    ∨ (((ExecNetMsgCSGetStreamReq k hk c req w).2.sessions c).fInfo.bWaitingState = false
        ∧ (hk.GetAssociatedDarwin (req.GetBodyValue Tag.SERIAL) (channelOf req)).1 ≠ ""
        ∧ (∀ s, pushesIn k ((ExecNetMsgCSGetStreamReq k hk c req w).2.sessions s).fOutputStream
            = pushesIn k (w.sessions s).fOutputStream))
    ∨ (((ExecNetMsgCSGetStreamReq k hk c req w).2.sessions c).fInfo.bWaitingState = true
        ∧ ((ExecNetMsgCSGetStreamReq k hk c req w).2.sessions c).fInfo.iResponse = 0
        ∧ req.GetBodyValue Tag.SERIAL ≠ "" ∧ req.GetBodyValue Tag.PROTOCOL ≠ ""
        ∧ (hk.GetAssociatedDarwin (req.GetBodyValue Tag.SERIAL) (channelOf req)).1 = ""
        ∧ ∃ d, (∃ r ∈ w.fDeviceSessionMap, r.obj = d)
          ∧ ∀ s, pushesIn k ((ExecNetMsgCSGetStreamReq k hk c req w).2.sessions s).fOutputStream
              = pushesIn k (w.sessions s).fOutputStream
                ++ (if s = d then
                      [{ status := k.httpOK,
                         content := some (pushStreamReq k hk req (w.sessions d).fCSeq),
                         connectionClose := false }]
                    else [])) := by
  have herr := hwf.2.2.2.1
  simp only [Consts.errCases, List.mem_cons, List.not_mem_nil, or_false, not_or] at herr
  obtain ⟨hbad, -, -, hnodev, hnosvc, -, hinternal, -⟩ := herr
  by_cases harg : req.GetBodyValue Tag.SERIAL = "" ∨ req.GetBodyValue Tag.PROTOCOL = ""
  · have : ExecNetMsgCSGetStreamReq k hk c req w = (k.QTSS_BadArgument, w) := by
      simp only [ExecNetMsgCSGetStreamReq, String.length_le_zero_iff, harg, if_true]
    rw [this]
    exact Or.inl ⟨hwait, fun h => hbad h.symm⟩
  · rw [not_or] at harg
    obtain ⟨hserial, hproto⟩ := harg
    cases hres : Resolve w.fDeviceSessionMap (req.GetBodyValue Tag.SERIAL) with
    | none =>
      have : ExecNetMsgCSGetStreamReq k hk c req w = (k.EASY_ERROR_DEVICE_NOT_FOUND, w) := by
        simp only [ExecNetMsgCSGetStreamReq, String.length_le_zero_iff, hserial, hproto, hwait,
          hres, or_self, if_false, if_true]
      rw [this]
      exact Or.inl ⟨hwait, fun h => hnodev h.symm⟩
    | some p =>
      obtain ⟨d, table⟩ := p
      obtain ⟨hd, -⟩ := Resolve_obj _ _ _ _ hres
      by_cases hassoc : (hk.GetAssociatedDarwin (req.GetBodyValue Tag.SERIAL)
          (channelOf req)).1 = ""
      · by_cases hbest : hk.GetBestDarwin.1 = ""
        · have : ExecNetMsgCSGetStreamReq k hk c req w
              = (k.EASY_ERROR_SERVICE_NOT_FOUND,
                  ({ w with fDeviceSessionMap := table } : World).Release
                    (req.GetBodyValue Tag.SERIAL)) := by
            unfold channelOf at hassoc
            simp only [ExecNetMsgCSGetStreamReq, String.length_le_zero_iff, hserial, hproto,
              hwait, hres, hassoc, hbest, or_self, if_false, if_true, ne_eq,
              not_true_eq_false]
          rw [this]
          exact Or.inl ⟨hwait, fun h => hnosvc h.symm⟩
        · by_cases hmint : hk.GenStreamID = ""
          · have : ExecNetMsgCSGetStreamReq k hk c req w
                = (k.EASY_ERROR_SERVER_INTERNAL_ERROR,
                    (((({ w with fDeviceSessionMap := table } : World).modify d
                      (fun s => { s with fCSeq := s.fCSeq + 1 })).Release
                      (req.GetBodyValue Tag.SERIAL)).Release
                      (req.GetBodyValue Tag.SERIAL))) := by
              unfold channelOf at hassoc
              simp only [ExecNetMsgCSGetStreamReq, String.length_le_zero_iff, hserial, hproto,
                hwait, hres, hassoc, hbest, hmint, or_self, if_false, if_true, ne_eq,
                not_true_eq_false, GetCSeq]
            rw [this]
            refine Or.inl ⟨?_, fun h => hinternal h.symm⟩
            simp only [World.Release_sessions, World.modify_sessions]
            split_ifs with h
            · subst h; exact hwait
            · exact hwait
          · rw [getStream_first_entry_brokered k hk c d req w table hserial hproto hwait hres
              hassoc hbest hmint]
            refine Or.inr (Or.inr ⟨?_, ?_, hserial, hproto, hassoc, d, hd, fun s => ?_⟩)
            · simp
            · simp
            · have hp : (pushStreamReq k hk req (w.sessions d).fCSeq).fMsgType
                  = k.MSG_SD_PUSH_STREAM_REQ := rfl
              by_cases hsd : s = d
              · subst hsd
                rw [if_pos rfl]
                by_cases hcs : c = s
                · subst hcs
                  simp only [World.modify_sessions, World.Release_sessions, if_true]
                  exact pushesIn_append_push k _ _ _ _ hp
                · have hsc : ¬ s = c := fun h => hcs h.symm
                  simp only [World.modify_sessions, World.Release_sessions, if_true, hsc,
                    if_false]
                  exact pushesIn_append_push k _ _ _ _ hp
              · rw [if_neg hsd, List.append_nil]
                by_cases hcs : s = c
                · subst hcs
                  have hds : ¬ d = s := fun h => hsd h.symm
                  simp only [World.modify_sessions, World.Release_sessions, if_true, hsd, hds,
                    if_false]
                  rfl
                · simp only [World.modify_sessions, World.Release_sessions, hsd, hcs, if_false]
      · by_cases hmint : hk.GenStreamID = ""
        · rw [getStream_first_entry_associated_mint_fails k hk c d req w table hserial hproto
            hwait hres hassoc hmint]
          exact Or.inl ⟨hwait, fun h => hinternal h.symm⟩
        · rw [getStream_first_entry_associated k hk c d req w table hserial hproto hwait hres
            hassoc hmint]
          refine Or.inr (Or.inl ⟨?_, hassoc, fun s => ?_⟩)
          · simp [Put, hwait]
          · simp only [World.modify_sessions, World.Release_sessions]
            split_ifs with h
            · subst h
              exact pushesIn_append_other k _ _ _ _ hdist
            · rfl

/-- The wait of one request, from a world in which the client is waiting, when
the run ends with no-error: no push is put on any output stream during the
wait, and either the wait slot already held the success code and the CSeq of
the request, or an ack consumed during the wait stored them: an ack with the
success code for an entry of this client whose recorded client CSeq is the CSeq
of the request. -/
theorem runRequest_waiting (k : Consts) (c : Nat) (req : EasyProtocol) (hwf : k.WellFormed)
    (hdist : k.MSG_SC_GET_STREAM_ACK ≠ k.MSG_SD_PUSH_STREAM_REQ)
    (hserial : req.GetBodyValue Tag.SERIAL ≠ "") (hproto : req.GetBodyValue Tag.PROTOCOL ≠ "") :
    ∀ (evs : List Event) (w w1 : World),
      (w.sessions c).fInfo.bWaitingState = true →
      runRequest k c req evs w = (w1, some k.QTSS_NoErr) →
      (∀ s, pushesIn k (w1.sessions s).fOutputStream = pushesIn k (w.sessions s).fOutputStream)
      ∧ (((w.sessions c).fInfo.iResponse ≠ 0
            ∧ (w.sessions c).fInfo.iResponse = k.EASY_ERROR_SUCCESS_OK
            ∧ (w.sessions c).fInfo.uCseq = toUInt32 (atoi req.CSeq))
        ∨ ∃ x ∈ consumedAcks k c req evs w,
            x.2.1.pObject = c ∧ x.2.1.uCseq = toUInt32 (atoi req.CSeq)
              ∧ x.2.2 = k.EASY_ERROR_SUCCESS_OK) := by
  intro evs
  induction evs with
  | nil =>
    intro w w1 _ hrun
    simp [runRequest] at hrun
  | cons ev evs ih =>
    intro w w1 hwait hrun
    cases ev with
    | tick hk =>
      obtain ⟨hpush, hcase⟩ := getStream_reentry_cases k hk c req w hwf hdist hserial hproto hwait
      rcases hcase with ⟨hw1, hz⟩ | ⟨hw1, hne⟩ | ⟨hw1, hnz, hok, hcs⟩
      · simp only [runRequest, hw1, if_true] at hrun
        obtain ⟨hp, hx⟩ := ih _ w1 hw1 hrun
        refine ⟨fun s => (hp s).trans (hpush s), Or.inr ?_⟩
        rcases hx with ⟨hnz, -, -⟩ | hx
        · exact absurd hz hnz
        · simpa only [consumedAcks, hw1, if_true] using hx
      · simp only [runRequest, hw1, Bool.false_eq_true, if_false, Prod.mk.injEq,
          Option.some.injEq] at hrun
        exact absurd hrun.2 hne
      · simp only [runRequest, hw1, Bool.false_eq_true, if_false, Prod.mk.injEq] at hrun
        rw [← hrun.1]
        exact ⟨hpush, Or.inl ⟨hnz, hok, hcs⟩⟩
    | ack d msg =>
      simp only [runRequest] at hrun
      obtain ⟨hkeep, hslot⟩ := pushStreamAck_slot_cases k c d msg w
      obtain ⟨hp, hx⟩ := ih _ w1 (by rw [hkeep]; exact hwait) hrun
      refine ⟨fun s => (hp s).trans (by rw [pushStreamAck_output]), ?_⟩
      rcases hx with ⟨hnz, hok, hcs⟩ | ⟨x, hx, hprop⟩
      · rcases hslot with ⟨hr, hu⟩ | ⟨e, rest, hauth, hfind, hc, hr, hu⟩
        · left
          rw [hr] at hnz hok
          rw [hu] at hcs
          exact ⟨hnz, hok, hcs⟩
        · right
          refine ⟨(toUInt32 (atoi msg.CSeq), e, atoi msg.ErrorNum), ?_, hc, ?_, ?_⟩
          · simp only [consumedAcks, hauth, hfind, if_true]
            exact List.mem_append_left _ (List.mem_singleton.mpr rfl)
          · rw [← hu]; exact hcs
          · rw [← hr]; exact hok
      · right
        exact ⟨x, by simp only [consumedAcks]; exact List.mem_append_right _ hx, hprop⟩

/-- C9 (refuted as stated). Scenario S3 at the sample world: the request is
completed by its first invocation with no-error and the success response, and
the trace of the request holds no `MSG_SD_PUSH_STREAM_REQ` at all: the output
streams of the device and of the client hold no push, and no ack was consumed. -/
theorem C9_success_without_push :
    (runRequest sampleConsts 0 sampleReq [Event.tick hooksS3] sampleWorld).2
        = some sampleConsts.QTSS_NoErr
    ∧ ((runRequest sampleConsts 0 sampleReq [Event.tick hooksS3] sampleWorld).1.sessions
        0).fOutputStream
        = [getStreamAck sampleConsts sampleReq "rtsp://10.0.0.5:10008/CAM001/0.sdp?token=tok"
            "RTSP" "1"]
    ∧ pushesIn sampleConsts
        ((runRequest sampleConsts 0 sampleReq [Event.tick hooksS3] sampleWorld).1.sessions
          1).fOutputStream = []
    ∧ pushesIn sampleConsts
        ((runRequest sampleConsts 0 sampleReq [Event.tick hooksS3] sampleWorld).1.sessions
          0).fOutputStream = []
    ∧ consumedAcks sampleConsts 0 sampleReq [Event.tick hooksS3] sampleWorld = [] := by
  decide

/-- C9 (amended). For every completed get-stream request of client `c` that
returned success (the run of its events, begun with a first entry, ends with
no-error): either the first entry served it from an associated relay, and then
the trace holds no `MSG_SD_PUSH_STREAM_REQ` send; or the trace holds exactly one
push send, put by the first entry on the output stream of the device resolved
from the table and carrying the device's counter value, and during the wait an
ack was consumed that reported the success code for a pending entry of this
client whose recorded client CSeq is the CSeq of the request. -/
theorem C9_pushes_and_acks (k : Consts) (c : Nat) (req : EasyProtocol) (hk0 : Hooks)
    (evs : List Event) (w w1 : World) (hwf : k.WellFormed)
    (hdist : k.MSG_SC_GET_STREAM_ACK ≠ k.MSG_SD_PUSH_STREAM_REQ)
    (hwait : (w.sessions c).fInfo.bWaitingState = false)
    (hrun : runRequest k c req (Event.tick hk0 :: evs) w = (w1, some k.QTSS_NoErr)) :
    ((hk0.GetAssociatedDarwin (req.GetBodyValue Tag.SERIAL) (channelOf req)).1 ≠ ""
      ∧ ∀ s, pushesIn k (w1.sessions s).fOutputStream = pushesIn k (w.sessions s).fOutputStream)
    ∨ ((hk0.GetAssociatedDarwin (req.GetBodyValue Tag.SERIAL) (channelOf req)).1 = ""
      ∧ ∃ d, (∃ r ∈ w.fDeviceSessionMap, r.obj = d)
        ∧ (∀ s, pushesIn k (w1.sessions s).fOutputStream
            = pushesIn k (w.sessions s).fOutputStream
              ++ (if s = d then
                    [{ status := k.httpOK,
                       content := some (pushStreamReq k hk0 req (w.sessions d).fCSeq),
                       connectionClose := false }]
                  else []))
        ∧ ∃ x ∈ consumedAcks k c req (Event.tick hk0 :: evs) w,
            x.2.1.pObject = c ∧ x.2.1.uCseq = toUInt32 (atoi req.CSeq)
              ∧ x.2.2 = k.EASY_ERROR_SUCCESS_OK) := by
  rcases getStream_first_entry_cases k hk0 c req w hwf hdist hwait with
    ⟨hw1, hne⟩ | ⟨hw1, hassoc, hpush⟩ | ⟨hw1, hz, hserial, hproto, hassoc, d, hd, hpush⟩
  · simp only [runRequest, hw1, Bool.false_eq_true, if_false, Prod.mk.injEq,
      Option.some.injEq] at hrun
    exact absurd hrun.2 hne
  · simp only [runRequest, hw1, Bool.false_eq_true, if_false, Prod.mk.injEq] at hrun
    rw [← hrun.1]
    exact Or.inl ⟨hassoc, hpush⟩
  · simp only [runRequest, hw1, if_true] at hrun
    obtain ⟨hp, hx⟩ := runRequest_waiting k c req hwf hdist hserial hproto evs _ w1 hw1 hrun
    refine Or.inr ⟨hassoc, d, hd, fun s => (hp s).trans (hpush s), ?_⟩
    rcases hx with ⟨hnz, -, -⟩ | hx
    · exact absurd hz hnz
    · simpa only [consumedAcks, hw1, if_true] using hx

/-- C9 (amended) at scenario S4: first entry, ack of CSeq 0 with the success
code, re-entry. -/
theorem C9_pushes_and_acks_witness :
    sampleConsts.WellFormed
    ∧ (sampleWorld.sessions 0).fInfo.bWaitingState = false
    ∧ (runRequest sampleConsts 0 sampleReq
        [Event.tick hooksS4, Event.ack 1 (sampleAck "200"), Event.tick hooksS4] sampleWorld).2
        = some sampleConsts.QTSS_NoErr
    ∧ (((hooksS4.GetAssociatedDarwin (sampleReq.GetBodyValue Tag.SERIAL)
            (channelOf sampleReq)).1 ≠ ""
        ∧ ∀ s, pushesIn sampleConsts
            ((runRequest sampleConsts 0 sampleReq
              [Event.tick hooksS4, Event.ack 1 (sampleAck "200"), Event.tick hooksS4]
              sampleWorld).1.sessions s).fOutputStream
            = pushesIn sampleConsts (sampleWorld.sessions s).fOutputStream)
      ∨ ((hooksS4.GetAssociatedDarwin (sampleReq.GetBodyValue Tag.SERIAL)
            (channelOf sampleReq)).1 = ""
        ∧ ∃ d, (∃ r ∈ sampleWorld.fDeviceSessionMap, r.obj = d)
          ∧ (∀ s, pushesIn sampleConsts
              ((runRequest sampleConsts 0 sampleReq
                [Event.tick hooksS4, Event.ack 1 (sampleAck "200"), Event.tick hooksS4]
                sampleWorld).1.sessions s).fOutputStream
              = pushesIn sampleConsts (sampleWorld.sessions s).fOutputStream
                ++ (if s = d then
                      [{ status := sampleConsts.httpOK,
                         content := some (pushStreamReq sampleConsts hooksS4 sampleReq
                           (sampleWorld.sessions d).fCSeq),
                         connectionClose := false }]
                    else []))
          ∧ ∃ x ∈ consumedAcks sampleConsts 0 sampleReq
              [Event.tick hooksS4, Event.ack 1 (sampleAck "200"), Event.tick hooksS4]
              sampleWorld,
              x.2.1.pObject = 0 ∧ x.2.1.uCseq = toUInt32 (atoi sampleReq.CSeq)
                ∧ x.2.2 = sampleConsts.EASY_ERROR_SUCCESS_OK)) :=
  ⟨by decide, by decide, by decide,
    C9_pushes_and_acks sampleConsts 0 sampleReq hooksS4
      [Event.ack 1 (sampleAck "200"), Event.tick hooksS4] sampleWorld
      (runRequest sampleConsts 0 sampleReq
        [Event.tick hooksS4, Event.ack 1 (sampleAck "200"), Event.tick hooksS4] sampleWorld).1
      (by decide) (by decide) (by decide) (Prod.ext rfl (by decide))⟩

/-! ## The dispatcher, case by case -/

/-- The labels of `switch (nNetMsg)` are pairwise different. -/
theorem msgCases_ne (k : Consts) (hwf : k.WellFormed) :
    k.MSG_DS_REGISTER_REQ ≠ k.MSG_CS_GET_STREAM_REQ
    ∧ k.MSG_DS_REGISTER_REQ ≠ k.MSG_DS_PUSH_STREAM_ACK
    ∧ k.MSG_DS_REGISTER_REQ ≠ k.MSG_CS_FREE_STREAM_REQ
    ∧ k.MSG_DS_REGISTER_REQ ≠ k.MSG_DS_STREAM_STOP_ACK
    ∧ k.MSG_DS_REGISTER_REQ ≠ k.MSG_CS_DEVICE_LIST_REQ
    ∧ k.MSG_DS_REGISTER_REQ ≠ k.MSG_CS_DEVICE_INFO_REQ
    ∧ k.MSG_DS_REGISTER_REQ ≠ k.MSG_DS_POST_SNAP_REQ
    ∧ k.MSG_CS_GET_STREAM_REQ ≠ k.MSG_DS_PUSH_STREAM_ACK
    ∧ k.MSG_CS_GET_STREAM_REQ ≠ k.MSG_CS_FREE_STREAM_REQ
    ∧ k.MSG_CS_GET_STREAM_REQ ≠ k.MSG_DS_STREAM_STOP_ACK
    ∧ k.MSG_CS_GET_STREAM_REQ ≠ k.MSG_CS_DEVICE_LIST_REQ
    ∧ k.MSG_CS_GET_STREAM_REQ ≠ k.MSG_CS_DEVICE_INFO_REQ
    ∧ k.MSG_CS_GET_STREAM_REQ ≠ k.MSG_DS_POST_SNAP_REQ
    ∧ k.MSG_DS_PUSH_STREAM_ACK ≠ k.MSG_CS_FREE_STREAM_REQ
    ∧ k.MSG_DS_PUSH_STREAM_ACK ≠ k.MSG_DS_STREAM_STOP_ACK
    ∧ k.MSG_DS_PUSH_STREAM_ACK ≠ k.MSG_CS_DEVICE_LIST_REQ
    ∧ k.MSG_DS_PUSH_STREAM_ACK ≠ k.MSG_CS_DEVICE_INFO_REQ
    ∧ k.MSG_DS_PUSH_STREAM_ACK ≠ k.MSG_DS_POST_SNAP_REQ
    ∧ k.MSG_CS_FREE_STREAM_REQ ≠ k.MSG_DS_STREAM_STOP_ACK
    ∧ k.MSG_CS_FREE_STREAM_REQ ≠ k.MSG_CS_DEVICE_LIST_REQ
    ∧ k.MSG_CS_FREE_STREAM_REQ ≠ k.MSG_CS_DEVICE_INFO_REQ
    ∧ k.MSG_CS_FREE_STREAM_REQ ≠ k.MSG_DS_POST_SNAP_REQ
    ∧ k.MSG_DS_STREAM_STOP_ACK ≠ k.MSG_CS_DEVICE_LIST_REQ
    ∧ k.MSG_DS_STREAM_STOP_ACK ≠ k.MSG_CS_DEVICE_INFO_REQ
    ∧ k.MSG_DS_STREAM_STOP_ACK ≠ k.MSG_DS_POST_SNAP_REQ
    ∧ k.MSG_CS_DEVICE_LIST_REQ ≠ k.MSG_CS_DEVICE_INFO_REQ
    ∧ k.MSG_CS_DEVICE_LIST_REQ ≠ k.MSG_DS_POST_SNAP_REQ
    ∧ k.MSG_CS_DEVICE_INFO_REQ ≠ k.MSG_DS_POST_SNAP_REQ := by
  have h := hwf.1
  simp only [Consts.msgCases, List.nodup_cons, List.mem_cons, not_or, List.mem_singleton,
    List.not_mem_nil, not_false_eq_true, List.nodup_nil, and_true, List.mem_nil_iff] at h
  obtain ⟨⟨a1, a2, a3, a4, a5, a6, a7⟩, ⟨b1, b2, b3, b4, b5, b6⟩, ⟨c1, c2, c3, c4, c5⟩,
    ⟨d1, d2, d3, d4⟩, ⟨e1, e2, e3⟩, ⟨f1, f2⟩, g1⟩ := h
  exact ⟨a1, a2, a3, a4, a5, a6, a7, b1, b2, b3, b4, b5, b6, c1, c2, c3, c4, c5,
    d1, d2, d3, d4, e1, e2, e3, f1, f2, g1⟩

/-- The dispatcher on a register request. -/
theorem dispatch_register (k : Consts) (hk : Hooks) (oh : OtherHandlers) (this : Nat)
    (body : EasyProtocol) (w : World) (htype : body.MessageType = k.MSG_DS_REGISTER_REQ) :
    dispatch k hk oh this body w
      = (oh.ExecNetMsgDSRegisterReq this body w, k.MSG_SD_REGISTER_ACK) := by
  simp [dispatch, htype]

/-- The dispatcher on a push-stream ack. -/
theorem dispatch_pushStreamAck (k : Consts) (hk : Hooks) (oh : OtherHandlers) (this : Nat)
    (body : EasyProtocol) (w : World) (hwf : k.WellFormed)
    (htype : body.MessageType = k.MSG_DS_PUSH_STREAM_ACK) :
    dispatch k hk oh this body w
      = (ExecNetMsgDSPushStreamAck k this body w, k.MSG_DS_PUSH_STREAM_ACK) := by
  obtain ⟨-, a2, -, -, -, -, -, b1, -⟩ := msgCases_ne k hwf
  simp [dispatch, htype, Ne.symm a2, Ne.symm b1]

/-- The dispatcher on a stream-stop ack. -/
theorem dispatch_streamStopAck (k : Consts) (hk : Hooks) (oh : OtherHandlers) (this : Nat)
    (body : EasyProtocol) (w : World) (hwf : k.WellFormed)
    (htype : body.MessageType = k.MSG_DS_STREAM_STOP_ACK) :
    dispatch k hk oh this body w
      = (oh.ExecNetMsgDSStreamStopAck this body w, k.MSG_DS_STREAM_STOP_ACK) := by
  obtain ⟨-, -, -, a4, -, -, -, -, -, b3, -, -, -, -, c2, -, -, -, d1, -⟩ := msgCases_ne k hwf
  simp [dispatch, htype, Ne.symm a4, Ne.symm b3, Ne.symm c2, Ne.symm d1]

/-- The dispatcher on a snapshot request. -/
theorem dispatch_postSnap (k : Consts) (hk : Hooks) (oh : OtherHandlers) (this : Nat)
    (body : EasyProtocol) (w : World) (hwf : k.WellFormed)
    (htype : body.MessageType = k.MSG_DS_POST_SNAP_REQ) :
    dispatch k hk oh this body w
      = (oh.ExecNetMsgDSPostSnapReq this body w, k.MSG_SD_POST_SNAP_ACK) := by
  obtain ⟨-, -, -, -, -, -, a7, -, -, -, -, -, b6, -, -, -, -, c5, -, -, -, d4, -, -, e3, -, f2,
    g1⟩ := msgCases_ne k hwf
  simp [dispatch, htype, Ne.symm a7, Ne.symm b6, Ne.symm c5, Ne.symm d4, Ne.symm e3, Ne.symm f2,
    Ne.symm g1]

/-- The dispatcher `ProcessRequest` in terms of the result of `dispatch`. -/
theorem ProcessRequest_eq (k : Consts) (hk : Hooks) (oh : OtherHandlers) (this : Nat)
    (body : EasyProtocol) (w : World) (hbody : (w.sessions this).fRequestBody = some body) :
    ProcessRequest k hk oh this w
      = if (dispatch k hk oh this body w).1.1 ≠ k.QTSS_NoErr then
          ((dispatch k hk oh this body w).1.1,
            (dispatch k hk oh this body w).1.2.modify this
              (Put (errorReply k (dispatch k hk oh this body w).2 body
                (dispatch k hk oh this body w).1.1)))
        else ((dispatch k hk oh this body w).1.1, (dispatch k hk oh this body w).1.2) := by
  simp only [ProcessRequest, hbody]

/-- The handler result `QTSS_BadArgument` is an error for the dispatcher. -/
theorem badArgument_ne_noErr (k : Consts) (hwf : k.WellFormed) :
    k.QTSS_BadArgument ≠ k.QTSS_NoErr := by
  have h := hwf.2.2.2.1
  simp only [Consts.errCases, List.mem_cons, not_or] at h
  exact fun e => h.1 e.symm

/-! ## C11: an ack for a CSeq without a pending entry -/

/-- C11, the part of the claim that fails: on the sample world the device acks
CSeq 5, for which its pending map has no entry; the handler returns
`QTSS_BadArgument`, not `QTSS_NoErr`, and the dispatcher puts an error reply on
the device's output stream. -/
theorem C11_unknown_ack_error_reply :
    (worldUnknownAck.sessions 1).fAuthenticated = true
    ∧ FindInMsgMap (worldUnknownAck.sessions 1).fMsgMap (toUInt32 (atoi sampleAck5.CSeq)) = none
    ∧ (ExecNetMsgDSPushStreamAck sampleConsts 1 sampleAck5 worldUnknownAck).1
        = sampleConsts.QTSS_BadArgument
    ∧ (ExecNetMsgDSPushStreamAck sampleConsts 1 sampleAck5 worldUnknownAck).1
        ≠ sampleConsts.QTSS_NoErr
    ∧ ((ProcessRequest sampleConsts hooksS4 noHandlers 1 worldUnknownAck).2.sessions 1).fOutputStream
        = (worldUnknownAck.sessions 1).fOutputStream
          ++ [errorReply sampleConsts sampleConsts.MSG_DS_PUSH_STREAM_ACK sampleAck5
                sampleConsts.QTSS_BadArgument]
    ∧ errorNumOf sampleConsts sampleConsts.QTSS_BadArgument = 400 := by
  decide

/-- C11 (amended): when an authenticated device sends a `MSG_DS_PUSH_STREAM_ACK`
whose CSeq has no entry in its pending map, the handler returns
`QTSS_BadArgument` and changes nothing; the dispatcher then puts on the device's
output stream one error reply of type `MSG_DS_PUSH_STREAM_ACK` that echoes the
CSeq and carries `EASY_ERROR_CLIENT_BAD_REQUEST`. No pending map, wait slot or
holder count of any session changes, and no other session gets output. -/
theorem C11_unknown_ack_rejected (k : Consts) (hk : Hooks) (oh : OtherHandlers) (dev : Nat)
    (ack : EasyProtocol) (w : World) (hwf : k.WellFormed)
    (hbody : (w.sessions dev).fRequestBody = some ack)
    (htype : ack.MessageType = k.MSG_DS_PUSH_STREAM_ACK)
    (hauth : (w.sessions dev).fAuthenticated = true)
    (hfind : FindInMsgMap (w.sessions dev).fMsgMap (toUInt32 (atoi ack.CSeq)) = none) :
    ExecNetMsgDSPushStreamAck k dev ack w = (k.QTSS_BadArgument, w)
    ∧ k.QTSS_BadArgument ≠ k.QTSS_NoErr
    ∧ ProcessRequest k hk oh dev w
        = (k.QTSS_BadArgument,
            w.modify dev (Put (errorReply k k.MSG_DS_PUSH_STREAM_ACK ack k.QTSS_BadArgument)))
    ∧ errorReply k k.MSG_DS_PUSH_STREAM_ACK ack k.QTSS_BadArgument
        = HTTPPacket.mk k.httpOK
            (some (EasyProtocolACK.mk k.MSG_DS_PUSH_STREAM_ACK ack.CSeq
              (some k.EASY_ERROR_CLIENT_BAD_REQUEST) [] [])) false
    ∧ (∀ s, ((ProcessRequest k hk oh dev w).2.sessions s).fMsgMap = (w.sessions s).fMsgMap
        ∧ ((ProcessRequest k hk oh dev w).2.sessions s).fInfo = (w.sessions s).fInfo
        ∧ ((ProcessRequest k hk oh dev w).2.sessions s).fObjectHolders
            = (w.sessions s).fObjectHolders)
    ∧ (∀ s, s ≠ dev →
        ((ProcessRequest k hk oh dev w).2.sessions s).fOutputStream
          = (w.sessions s).fOutputStream) := by
  have hh : ExecNetMsgDSPushStreamAck k dev ack w = (k.QTSS_BadArgument, w) := by
    simp [ExecNetMsgDSPushStreamAck, hauth, hfind]
  have hne := badArgument_ne_noErr k hwf
  have hp : ProcessRequest k hk oh dev w
      = (k.QTSS_BadArgument,
          w.modify dev (Put (errorReply k k.MSG_DS_PUSH_STREAM_ACK ack k.QTSS_BadArgument))) := by
    rw [ProcessRequest_eq k hk oh dev ack w hbody, dispatch_pushStreamAck k hk oh dev ack w hwf htype,
      hh]
    simp [hne]
  refine ⟨hh, hne, hp, ?_, ?_, ?_⟩
  · simp [errorReply, errorNumOf]
  · intro s
    rw [hp]
    simp only [World.modify_sessions]
    split_ifs <;> first | exact ⟨rfl, rfl, rfl⟩ | (subst_vars; exact ⟨rfl, rfl, rfl⟩)
  · intro s hs
    rw [hp]
    simp only [World.modify_sessions, hs, if_false]

/-- C11 (amended), at the sample world: the ack for CSeq 5 is answered with the
error reply. -/
theorem C11_unknown_ack_rejected_witness :
    ((ProcessRequest sampleConsts hooksS4 noHandlers 1 worldUnknownAck).2.sessions 0).fInfo
      = (worldUnknownAck.sessions 0).fInfo :=
  ((C11_unknown_ack_rejected sampleConsts hooksS4 noHandlers 1 sampleAck5 worldUnknownAck
    (by decide) (by decide) (by decide) (by decide) (by decide)).2.2.2.2.1 0).2.1

/-! ## C18: the error reply of the dispatcher -/

/-- The `switch (theErr)` of `ProcessRequest`, label by label. -/
theorem errorNumOf_cases (k : Consts) (hwf : k.WellFormed) :
    errorNumOf k k.QTSS_BadArgument = k.EASY_ERROR_CLIENT_BAD_REQUEST
    ∧ errorNumOf k k.httpUnAuthorized = k.EASY_ERROR_CLIENT_UNAUTHORIZED
    ∧ errorNumOf k k.QTSS_AttrNameExists = k.EASY_ERROR_CONFLICT
    ∧ errorNumOf k k.EASY_ERROR_DEVICE_NOT_FOUND = k.EASY_ERROR_DEVICE_NOT_FOUND
    ∧ errorNumOf k k.EASY_ERROR_SERVICE_NOT_FOUND = k.EASY_ERROR_SERVICE_NOT_FOUND
    ∧ errorNumOf k k.httpRequestTimeout = k.EASY_ERROR_REQUEST_TIMEOUT
    ∧ errorNumOf k k.EASY_ERROR_SERVER_INTERNAL_ERROR = k.EASY_ERROR_SERVER_INTERNAL_ERROR
    ∧ errorNumOf k k.EASY_ERROR_SERVER_NOT_IMPLEMENTED = k.EASY_ERROR_SERVER_NOT_IMPLEMENTED
    ∧ (∀ e, e ∉ k.errCases → errorNumOf k e = k.EASY_ERROR_CLIENT_BAD_REQUEST) := by
  have h := hwf.2.1
  simp only [Consts.errCases, List.nodup_cons, List.mem_cons, not_or, List.mem_singleton,
    List.not_mem_nil, not_false_eq_true, List.nodup_nil, and_true, List.mem_nil_iff] at h
  obtain ⟨⟨a1, a2, a3, a4, a5, a6, a7⟩, ⟨b1, b2, b3, b4, b5, b6⟩, ⟨c1, c2, c3, c4, c5⟩,
    ⟨d1, d2, d3, d4⟩, ⟨e1, e2, e3⟩, ⟨f1, f2⟩, g1⟩ := h
  refine ⟨?_, ?_, ?_, ?_, ?_, ?_, ?_, ?_, ?_⟩
  · simp [errorNumOf]
  · simp [errorNumOf, Ne.symm a1]
  · simp [errorNumOf, Ne.symm a2, Ne.symm b1]
  · simp [errorNumOf, Ne.symm a3, Ne.symm b2, Ne.symm c1]
  · simp [errorNumOf, Ne.symm a4, Ne.symm b3, Ne.symm c2, Ne.symm d1]
  · simp [errorNumOf, Ne.symm a5, Ne.symm b4, Ne.symm c3, Ne.symm d2, Ne.symm e1]
  · simp [errorNumOf, Ne.symm a6, Ne.symm b5, Ne.symm c4, Ne.symm d3, Ne.symm e2, Ne.symm f1]
  · simp [errorNumOf, Ne.symm a7, Ne.symm b6, Ne.symm c5, Ne.symm d4, Ne.symm e3, Ne.symm f2,
      Ne.symm g1]
  · intro e he
    simp only [Consts.errCases, List.mem_cons, not_or, List.mem_singleton, List.not_mem_nil,
      not_false_eq_true, and_true, List.mem_nil_iff, or_false] at he
    obtain ⟨h1, h2, h3, h4, h5, h6, h7, h8⟩ := he
    simp [errorNumOf, h1, h2, h3, h4, h5, h6, h7, h8]

/-- A release undoes the lookup-hold of a resolve. -/
theorem bumpRef_cancel (key : String) (m : List OSRefEx) :
    bumpRef key (-1) (bumpRef key 1 m) = m := by
  induction m with
  | nil => rfl
  | cons r rs ih =>
    by_cases h : r.key = key
    · cases r
      simp only at h
      subst h
      simp [bumpRef]
    · simp [bumpRef, h, ih]

/-- Registration under a key no entry has adds the entry at the end. -/
theorem Register_free (m : List OSRefEx) (key : String) (obj : Nat)
    (hfree : ∀ r ∈ m, r.key ≠ key) :
    Register m key obj = some (m ++ [OSRefEx.mk key obj 0]) := by
  have : m.find? (fun r => r.key = key) = none := by
    rw [List.find?_eq_none]
    intro r hr
    simpa using hfree r hr
  simp [Register, this]

/-- Registration under a key that has an entry reports the conflict. -/
theorem Register_held (m : List OSRefEx) (key : String) (obj : Nat) (r : OSRefEx)
    (hheld : m.find? (fun r => r.key = key) = some r) :
    Register m key obj = none := by
  simp [Register, hheld]

/-- The entry found under a key that only the last entry has. -/
theorem find_append_free (m : List OSRefEx) (key : String) (e : OSRefEx)
    (hfree : ∀ r ∈ m, r.key ≠ key) (he : e.key = key) :
    (m ++ [e]).find? (fun r => r.key = key) = some e := by
  have : m.find? (fun r => r.key = key) = none := by
    rw [List.find?_eq_none]
    intro r hr
    simpa using hfree r hr
  simp [List.find?_append, this, he]

/-! ## C12: a successful registration -/

/-- The register handler on an unauthenticated session whose message passes the
checks and whose serial is free: the result and the world, step by step. -/
theorem register_success (k : Consts) (L : Lib) (this : Nat) (req : EasyProtocol) (w : World)
    (hauth : (w.sessions this).fAuthenticated = false)
    (hinfo : (L.GetDevInfo req (w.sessions this).fDevice).1 = true)
    (hclass : ((worldClassified L this req w).sessions this).fSessionType < L.EasyHTTPSession)
    (hserial : req.GetBodyValue Tag.SERIAL ≠ "")
    (hfree : ∀ r ∈ w.fDeviceSessionMap,
      r.key ≠ (L.GetDevInfo req (w.sessions this).fDevice).2.serial_) :
    ExecNetMsgDSRegisterReq k L this req w
      = (k.QTSS_NoErr,
          ((({ worldClassified L this req w with
              fDeviceSessionMap := w.fDeviceSessionMap
                ++ [OSRefEx.mk (L.GetDevInfo req (w.sessions this).fDevice).2.serial_ this 0],
              fRedisDevNames := w.fRedisDevNames
                ++ [(L.GetDevInfo req (w.sessions this).fDevice).2.serial_] } : World).modify this
            (fun s => { s with fAuthenticated := true })).modify this
            (fun s => Put (registerAck k req s) s))) := by
  have hdev : ((worldClassified L this req w).sessions this).fDevice
      = (L.GetDevInfo req (w.sessions this).fDevice).2 := by
    unfold worldClassified classify
    split_ifs <;> simp [World.modify_sessions]
  have hau : ((worldClassified L this req w).sessions this).fAuthenticated = false := by
    unfold worldClassified classify
    split_ifs <;> simp [World.modify_sessions, hauth]
  have htab : (worldClassified L this req w).fDeviceSessionMap = w.fDeviceSessionMap := by
    unfold worldClassified classify
    split_ifs <;> rfl
  have hnames : (worldClassified L this req w).fRedisDevNames = w.fRedisDevNames := by
    unfold worldClassified classify
    split_ifs <;> rfl
  have hau0 : ((w.modify this (fun s =>
      { s with fDevice := (L.GetDevInfo req (w.sessions this).fDevice).2 })).sessions
        this).fAuthenticated = false := by
    simp [World.modify_sessions, hauth]
  have hreg := Register_free w.fDeviceSessionMap
    (L.GetDevInfo req (w.sessions this).fDevice).2.serial_ this hfree
  unfold ExecNetMsgDSRegisterReq
  simp only [hinfo, Bool.true_eq_false, if_false, hau0, if_true]
  unfold registerAttempt
  simp only [← worldClassified.eq_1 L this req w]
  simp only [ge_iff_le, not_le.mpr hclass, if_false, hserial, hdev, htab, hreg, hnames, ne_eq,
    not_true_eq_false]

/-- C12: on an unauthenticated session, a register message whose application
type is camera or NVR and whose non-empty serial no entry of the device table
has (`GetDevInfo` accepts the message and stores that serial) is answered with
`QTSS_NoErr`: afterwards the table has the entry of the serial for this session,
the session is authenticated and has the session type of its application type,
the role `Easy_RedisAddDevName_Role` was dispatched with the serial, and the
session's output got one `MSG_SD_REGISTER_ACK` with the success code, the CSeq
of the request, the serial and the session id. -/
theorem C12_register_success (k : Consts) (L : Lib) (this : Nat) (req : EasyProtocol)
    (w : World) (hL : L.WellFormed)
    (hauth : (w.sessions this).fAuthenticated = false)
    (hinfo : (L.GetDevInfo req (w.sessions this).fDevice).1 = true)
    (hstored : (L.GetDevInfo req (w.sessions this).fDevice).2.serial_ = req.GetBodyValue Tag.SERIAL)
    (happ : L.GetAppType req = L.EASY_APP_TYPE_CAMERA ∨ L.GetAppType req = L.EASY_APP_TYPE_NVR)
    (hserial : req.GetBodyValue Tag.SERIAL ≠ "")
    (hfree : ∀ r ∈ w.fDeviceSessionMap, r.key ≠ req.GetBodyValue Tag.SERIAL) :
    (ExecNetMsgDSRegisterReq k L this req w).1 = k.QTSS_NoErr
    ∧ (ExecNetMsgDSRegisterReq k L this req w).2.fDeviceSessionMap
        = w.fDeviceSessionMap ++ [OSRefEx.mk (req.GetBodyValue Tag.SERIAL) this 0]
    ∧ (ExecNetMsgDSRegisterReq k L this req w).2.fDeviceSessionMap.find?
          (fun r => r.key = req.GetBodyValue Tag.SERIAL)
        = some (OSRefEx.mk (req.GetBodyValue Tag.SERIAL) this 0)
    ∧ ((ExecNetMsgDSRegisterReq k L this req w).2.sessions this).fAuthenticated = true
    ∧ ((ExecNetMsgDSRegisterReq k L this req w).2.sessions this).fSessionType
        = (if L.GetAppType req = L.EASY_APP_TYPE_CAMERA then L.EasyCameraSession
           else L.EasyNVRSession)
    ∧ (ExecNetMsgDSRegisterReq k L this req w).2.fRedisDevNames
        = w.fRedisDevNames ++ [req.GetBodyValue Tag.SERIAL]
    ∧ ((ExecNetMsgDSRegisterReq k L this req w).2.sessions this).fOutputStream
        = (w.sessions this).fOutputStream
          ++ [HTTPPacket.mk k.httpOK
                (some (EasyProtocolACK.mk k.MSG_SD_REGISTER_ACK req.CSeq
                  (some k.EASY_ERROR_SUCCESS_OK)
                  [(Tag.SERIAL, req.GetBodyValue Tag.SERIAL),
                   (Tag.SESSION_ID, (w.sessions this).fSessionID)] [])) false] := by
  obtain ⟨hne, hcam, hnvr⟩ := hL
  have htype : ((worldClassified L this req w).sessions this).fSessionType
      = (if L.GetAppType req = L.EASY_APP_TYPE_CAMERA then L.EasyCameraSession
         else L.EasyNVRSession) := by
    unfold worldClassified classify
    rcases happ with h | h
    · simp [h, World.modify_sessions]
    · simp [h, Ne.symm hne, World.modify_sessions]
  have hclass : ((worldClassified L this req w).sessions this).fSessionType
      < L.EasyHTTPSession := by
    rw [htype]; split_ifs <;> assumption
  have hsid : ((worldClassified L this req w).sessions this).fSessionID
      = (w.sessions this).fSessionID := by
    unfold worldClassified classify
    split_ifs <;> simp [World.modify_sessions]
  have hout : ((worldClassified L this req w).sessions this).fOutputStream
      = (w.sessions this).fOutputStream := by
    unfold worldClassified classify
    split_ifs <;> simp [World.modify_sessions]
  have hdev : ((worldClassified L this req w).sessions this).fDevice
      = (L.GetDevInfo req (w.sessions this).fDevice).2 := by
    unfold worldClassified classify
    split_ifs <;> simp [World.modify_sessions]
  have hfree2 : ∀ r ∈ w.fDeviceSessionMap,
      r.key ≠ (L.GetDevInfo req (w.sessions this).fDevice).2.serial_ := by
    rw [hstored]; exact hfree
  rw [register_success k L this req w hauth hinfo hclass hserial hfree2, hstored]
  refine ⟨rfl, rfl, ?_, ?_, ?_, rfl, ?_⟩
  · exact find_append_free _ _ _ hfree rfl
  · simp [World.modify_sessions, Put]
  · simp [World.modify_sessions, Put, htype]
  · simp [World.modify_sessions, Put, registerAck, hout, hsid, hdev, hstored]

/-- C12 at the fresh world: session 1 registers as the camera `CAM001`. -/
theorem C12_register_success_witness :
    (ExecNetMsgDSRegisterReq sampleConsts sampleLib 1 (registerReq "CAM001" "EasyCamera")
        freshWorld).1 = 0
    ∧ (ExecNetMsgDSRegisterReq sampleConsts sampleLib 1 (registerReq "CAM001" "EasyCamera")
        freshWorld).2.fDeviceSessionMap = [OSRefEx.mk "CAM001" 1 0] :=
  ⟨(C12_register_success sampleConsts sampleLib 1 (registerReq "CAM001" "EasyCamera") freshWorld
      (by decide) (by decide) (by decide) (by decide) (by decide) (by decide)
      (by decide)).1,
   (C12_register_success sampleConsts sampleLib 1 (registerReq "CAM001" "EasyCamera") freshWorld
      (by decide) (by decide) (by decide) (by decide) (by decide) (by decide)
      (by decide)).2.1⟩

/-! ## C13: registration under a serial that is held -/

/-- The handler result `QTSS_AttrNameExists` is an error for the dispatcher. -/
theorem attrNameExists_ne_noErr (k : Consts) (hwf : k.WellFormed) :
    k.QTSS_AttrNameExists ≠ k.QTSS_NoErr := by
  have h := hwf.2.2.2.1
  simp only [Consts.errCases, List.mem_cons, not_or] at h
  exact fun e => h.2.2.1 e.symm

/-- What `switch (appType)` leaves untouched. -/
theorem worldClassified_frame (L : Lib) (this : Nat) (req : EasyProtocol) (w : World) :
    (worldClassified L this req w).fDeviceSessionMap = w.fDeviceSessionMap
    ∧ (worldClassified L this req w).fRedisDevNames = w.fRedisDevNames
    ∧ ((worldClassified L this req w).sessions this).fDevice
        = (L.GetDevInfo req (w.sessions this).fDevice).2
    ∧ (∀ s, ((worldClassified L this req w).sessions s).fAuthenticated
        = (w.sessions s).fAuthenticated
      ∧ ((worldClassified L this req w).sessions s).fOutputStream = (w.sessions s).fOutputStream
      ∧ ((worldClassified L this req w).sessions s).fKillEvent = (w.sessions s).fKillEvent
      ∧ ((worldClassified L this req w).sessions s).fSessionID = (w.sessions s).fSessionID) := by
  unfold worldClassified classify
  refine ⟨?_, ?_, ?_, ?_⟩
  · split_ifs <;> rfl
  · split_ifs <;> rfl
  · split_ifs <;> simp [World.modify_sessions]
  · intro s
    by_cases hs : s = this
    · subst hs
      split_ifs <;> simp [World.modify_sessions]
    · split_ifs <;> simp [World.modify_sessions, hs]

/-- The register handler on an unauthenticated session whose message passes the
checks and whose serial has an entry: the kill signal for the holder, between
the resolve and the release of the entry. -/
theorem register_conflict (k : Consts) (L : Lib) (this : Nat) (req : EasyProtocol) (w : World)
    (r : OSRefEx) (hwf : k.WellFormed)
    (hauth : (w.sessions this).fAuthenticated = false)
    (hinfo : (L.GetDevInfo req (w.sessions this).fDevice).1 = true)
    (hclass : ((worldClassified L this req w).sessions this).fSessionType < L.EasyHTTPSession)
    (hserial : req.GetBodyValue Tag.SERIAL ≠ "")
    (hheld : w.fDeviceSessionMap.find?
      (fun r => r.key = (L.GetDevInfo req (w.sessions this).fDevice).2.serial_) = some r) :
    ExecNetMsgDSRegisterReq k L this req w
      = (k.QTSS_AttrNameExists,
          (Signal_kKillEvent r.obj
            ({ worldClassified L this req w with
               fDeviceSessionMap := bumpRef (L.GetDevInfo req (w.sessions this).fDevice).2.serial_ 1
                 w.fDeviceSessionMap } : World)).Release
            (L.GetDevInfo req (w.sessions this).fDevice).2.serial_) := by
  obtain ⟨htab, -, hdev, -⟩ := worldClassified_frame L this req w
  have hau0 : ((w.modify this (fun s =>
      { s with fDevice := (L.GetDevInfo req (w.sessions this).fDevice).2 })).sessions
        this).fAuthenticated = false := by
    simp [World.modify_sessions, hauth]
  have hreg := Register_held w.fDeviceSessionMap
    (L.GetDevInfo req (w.sessions this).fDevice).2.serial_ this r hheld
  have hres : Resolve w.fDeviceSessionMap (L.GetDevInfo req (w.sessions this).fDevice).2.serial_
      = some (r.obj, bumpRef (L.GetDevInfo req (w.sessions this).fDevice).2.serial_ 1
          w.fDeviceSessionMap) := by
    simp [Resolve, hheld]
  have hne := attrNameExists_ne_noErr k hwf
  unfold ExecNetMsgDSRegisterReq
  simp only [hinfo, Bool.true_eq_false, if_false, hau0, if_true]
  unfold registerAttempt
  simp only [← worldClassified.eq_1 L this req w]
  simp only [ge_iff_le, not_le.mpr hclass, if_false, hserial, hdev, htab, hreg, hres, ne_eq,
    not_true_eq_false, hne, not_false_eq_true, if_true]

/-- The checks of the handler come before the device table is consulted: in the
sample world session 1 holds `CAM001`; the unauthenticated and never classified
session 2 sends a register message for `CAM001` with the application type of a
relay. The handler returns `QTSS_BadArgument` at the test of the session type,
the conflict branch is not reached and the holder gets no kill signal. -/
theorem register_refused_before_lookup :
    (worldRegistered.sessions 2).fAuthenticated = false
    ∧ worldRegistered.fDeviceSessionMap.find? (fun r => r.key = "CAM001")
        = some (OSRefEx.mk "CAM001" 1 0)
    ∧ (ExecNetMsgDSRegisterReq sampleConsts sampleLib 2 (registerReq "CAM001" "EasyDarwin")
        worldRegistered).1 = sampleConsts.QTSS_BadArgument
    ∧ sampleConsts.QTSS_BadArgument ≠ sampleConsts.QTSS_AttrNameExists
    ∧ errorNumOf sampleConsts sampleConsts.QTSS_BadArgument
        ≠ sampleConsts.EASY_ERROR_CONFLICT
    ∧ ((ExecNetMsgDSRegisterReq sampleConsts sampleLib 2 (registerReq "CAM001" "EasyDarwin")
        worldRegistered).2.sessions 1).fKillEvent = false := by
  decide

/-- C13: on an unauthenticated session, a register message that reaches
`DeviceMap->Register` (`GetDevInfo` accepts it, the session is classified as
camera or NVR, by the application type of this message or by an earlier one, and
the serial is not empty) and whose serial has an entry in the device table. The
handler signals the kill event to the session of that entry and returns
`QTSS_AttrNameExists`. The device table is the one before the call, the session
stays unauthenticated, the role `Easy_RedisAddDevName_Role` is not dispatched and
the handler puts nothing on any output stream; the dispatcher then puts the
error reply with `EASY_ERROR_CONFLICT` on the session's output, and after it no
session's authentication and no entry of the table has changed. -/
theorem C13_register_conflict (k : Consts) (L : Lib) (hk : Hooks) (this : Nat)
    (req : EasyProtocol) (w : World) (r : OSRefEx) (hwf : k.WellFormed) (hL : L.WellFormed)
    (hbody : (w.sessions this).fRequestBody = some req)
    (hmsg : req.MessageType = k.MSG_DS_REGISTER_REQ)
    (hauth : (w.sessions this).fAuthenticated = false)
    (hinfo : (L.GetDevInfo req (w.sessions this).fDevice).1 = true)
    (happ : L.GetAppType req = L.EASY_APP_TYPE_CAMERA ∨ L.GetAppType req = L.EASY_APP_TYPE_NVR
      ∨ (w.sessions this).fSessionType < L.EasyHTTPSession)
    (hserial : req.GetBodyValue Tag.SERIAL ≠ "")
    (hheld : w.fDeviceSessionMap.find?
      (fun r => r.key = (L.GetDevInfo req (w.sessions this).fDevice).2.serial_) = some r) :
    (ExecNetMsgDSRegisterReq k L this req w).1 = k.QTSS_AttrNameExists
    ∧ ((ExecNetMsgDSRegisterReq k L this req w).2.sessions r.obj).fKillEvent = true
    ∧ (ExecNetMsgDSRegisterReq k L this req w).2.fDeviceSessionMap = w.fDeviceSessionMap
    ∧ ((ExecNetMsgDSRegisterReq k L this req w).2.sessions this).fAuthenticated = false
    ∧ (ExecNetMsgDSRegisterReq k L this req w).2.fRedisDevNames = w.fRedisDevNames
    ∧ (∀ s, ((ExecNetMsgDSRegisterReq k L this req w).2.sessions s).fOutputStream
        = (w.sessions s).fOutputStream)
    ∧ ProcessRequest k hk (handlers k L hk) this w
        = (k.QTSS_AttrNameExists,
            (ExecNetMsgDSRegisterReq k L this req w).2.modify this
              (Put (HTTPPacket.mk k.httpOK
                (some (EasyProtocolACK.mk k.MSG_SD_REGISTER_ACK req.CSeq
                  (some k.EASY_ERROR_CONFLICT) [] [])) false)))
    ∧ (∀ s, ((ProcessRequest k hk (handlers k L hk) this w).2.sessions s).fAuthenticated
        = (w.sessions s).fAuthenticated)
    ∧ (ProcessRequest k hk (handlers k L hk) this w).2.fDeviceSessionMap
        = w.fDeviceSessionMap := by
  obtain ⟨hne, hcam, hnvr⟩ := hL
  have hclass : ((worldClassified L this req w).sessions this).fSessionType
      < L.EasyHTTPSession := by
    unfold worldClassified classify
    by_cases h1 : L.GetAppType req = L.EASY_APP_TYPE_CAMERA
    · simpa [h1, World.modify_sessions] using hcam
    · by_cases h2 : L.GetAppType req = L.EASY_APP_TYPE_NVR
      · simpa [h2, Ne.symm hne, World.modify_sessions] using hnvr
      · rcases happ with h | h | h
        · exact absurd h h1
        · exact absurd h h2
        · simpa [h1, h2, World.modify_sessions] using h
  obtain ⟨htab, hnames, -, hframe⟩ := worldClassified_frame L this req w
  have heq := register_conflict k L this req w r hwf hauth hinfo hclass hserial hheld
  have hconf := (errorNumOf_cases k hwf).2.2.1
  have htable : (ExecNetMsgDSRegisterReq k L this req w).2.fDeviceSessionMap
      = w.fDeviceSessionMap := by
    rw [heq]
    simp only [World.Release, Signal_kKillEvent, World.modify_table]
    exact bumpRef_cancel _ _
  have hau : ∀ s, ((ExecNetMsgDSRegisterReq k L this req w).2.sessions s).fAuthenticated
      = (w.sessions s).fAuthenticated := by
    intro s
    rw [heq]
    simp only [World.Release_sessions, Signal_kKillEvent, World.modify_sessions]
    split_ifs with h
    · subst h; exact (hframe _).1
    · exact (hframe s).1
  have hproc : ProcessRequest k hk (handlers k L hk) this w
      = (k.QTSS_AttrNameExists,
          (ExecNetMsgDSRegisterReq k L this req w).2.modify this
            (Put (HTTPPacket.mk k.httpOK
              (some (EasyProtocolACK.mk k.MSG_SD_REGISTER_ACK req.CSeq
                (some k.EASY_ERROR_CONFLICT) [] [])) false))) := by
    rw [ProcessRequest_eq k hk (handlers k L hk) this req w hbody,
      dispatch_register k hk (handlers k L hk) this req w hmsg]
    simp only [handlers, heq, ne_eq, attrNameExists_ne_noErr k hwf, not_false_eq_true, if_true,
      errorReply, hconf]
  refine ⟨?_, ?_, htable, (hau this).trans hauth, ?_, ?_, hproc, ?_, ?_⟩
  · rw [heq]
  · rw [heq]
    simp [World.Release_sessions, Signal_kKillEvent, World.modify_sessions]
  · rw [heq]
    exact hnames
  · intro s
    rw [heq]
    simp only [World.Release_sessions, Signal_kKillEvent, World.modify_sessions]
    split_ifs with h
    · subst h; exact (hframe _).2.1
    · exact (hframe s).2.1
  · intro s
    rw [hproc]
    simp only [World.modify_sessions]
    split_ifs with h
    · subst h; exact hau s
    · exact hau s
  · rw [hproc]
    exact htable

/-- C13 at the sample world: session 1 holds `CAM001` and session 2 asks for
`CAM001` as a camera; the handler returns `QTSS_AttrNameExists` and session 1
has the kill event. -/
theorem C13_register_conflict_witness :
    (ExecNetMsgDSRegisterReq sampleConsts sampleLib 2 (registerReq "CAM001" "EasyCamera")
        (worldRegistered.modify 2
          (fun s => { s with fRequestBody := some (registerReq "CAM001" "EasyCamera") }))).1
      = sampleConsts.QTSS_AttrNameExists
    ∧ ((ExecNetMsgDSRegisterReq sampleConsts sampleLib 2 (registerReq "CAM001" "EasyCamera")
        (worldRegistered.modify 2
          (fun s => { s with fRequestBody := some (registerReq "CAM001" "EasyCamera") }))).2.sessions
          1).fKillEvent = true :=
  ⟨(C13_register_conflict sampleConsts sampleLib hooksS4 2 (registerReq "CAM001" "EasyCamera")
    (worldRegistered.modify 2
      (fun s => { s with fRequestBody := some (registerReq "CAM001" "EasyCamera") }))
    (OSRefEx.mk "CAM001" 1 0) (by decide) (by decide) (by decide) (by decide) (by decide)
    (by decide) (Or.inl (by decide)) (by decide) (by decide)).1,
   (C13_register_conflict sampleConsts sampleLib hooksS4 2 (registerReq "CAM001" "EasyCamera")
    (worldRegistered.modify 2
      (fun s => { s with fRequestBody := some (registerReq "CAM001" "EasyCamera") }))
    (OSRefEx.mk "CAM001" 1 0) (by decide) (by decide) (by decide) (by decide) (by decide)
    (by decide) (Or.inl (by decide)) (by decide) (by decide)).2.1⟩

/-! ## C14: the checks of the register handler -/

/-- A register message with an application type other than camera and NVR on a
session that no earlier message classified: the handler stores the device
record and returns `QTSS_BadArgument`. -/
theorem register_rejects_unclassified (k : Consts) (L : Lib) (this : Nat) (req : EasyProtocol)
    (w : World) (hwf : k.WellFormed)
    (hauth : (w.sessions this).fAuthenticated = false)
    (hinfo : (L.GetDevInfo req (w.sessions this).fDevice).1 = true)
    (hfresh : L.EasyHTTPSession ≤ (w.sessions this).fSessionType)
    (happ : L.GetAppType req ≠ L.EASY_APP_TYPE_CAMERA ∧ L.GetAppType req ≠ L.EASY_APP_TYPE_NVR) :
    ExecNetMsgDSRegisterReq k L this req w
      = (k.QTSS_BadArgument,
          w.modify this
            (fun s => { s with fDevice := (L.GetDevInfo req (w.sessions this).fDevice).2 })) := by
  have hne := badArgument_ne_noErr k hwf
  unfold ExecNetMsgDSRegisterReq registerAttempt classify
  simp [hinfo, hauth, happ.1, happ.2, World.modify_sessions, hfresh, hne]

/-- A register message without serial on an unauthenticated session: the
handler returns `QTSS_BadArgument` or `QTSS_AttrDoesntExist`, the device table
is the one before the call and the session stays unauthenticated. -/
theorem register_empty_serial (k : Consts) (L : Lib) (this : Nat) (req : EasyProtocol)
    (w : World) (hwf : k.WellFormed) (hattr : L.QTSS_AttrDoesntExist ≠ k.QTSS_NoErr)
    (hauth : (w.sessions this).fAuthenticated = false)
    (hserial : req.GetBodyValue Tag.SERIAL = "") :
    ((ExecNetMsgDSRegisterReq k L this req w).1 = k.QTSS_BadArgument
      ∨ (ExecNetMsgDSRegisterReq k L this req w).1 = L.QTSS_AttrDoesntExist)
    ∧ (ExecNetMsgDSRegisterReq k L this req w).2.fDeviceSessionMap = w.fDeviceSessionMap
    ∧ ((ExecNetMsgDSRegisterReq k L this req w).2.sessions this).fAuthenticated = false := by
  obtain ⟨htab, -, -, hframe⟩ := worldClassified_frame L this req w
  have hne := badArgument_ne_noErr k hwf
  have hau0 : ((w.modify this (fun s =>
      { s with fDevice := (L.GetDevInfo req (w.sessions this).fDevice).2 })).sessions
        this).fAuthenticated = false := by
    simp [World.modify_sessions, hauth]
  unfold ExecNetMsgDSRegisterReq
  by_cases hinfo : (L.GetDevInfo req (w.sessions this).fDevice).1 = false
  · dsimp only
    rw [if_pos hinfo]
    exact ⟨Or.inl rfl, rfl, hau0⟩
  · simp only [hinfo, if_false, hau0, if_true]
    unfold registerAttempt
    simp only [← worldClassified.eq_1 L this req w, hserial, if_true]
    by_cases hc : ((worldClassified L this req w).sessions this).fSessionType ≥ L.EasyHTTPSession
    · simp only [hc, if_true, ne_eq, hne, not_false_eq_true]
      exact ⟨Or.inl rfl, htab, (hframe this).1.trans hauth⟩
    · simp only [hc, if_false, ne_eq, hattr, not_false_eq_true, if_true]
      exact ⟨Or.inr rfl, htab, (hframe this).1.trans hauth⟩

/-- C14, where the code leaves the claim: the test of the register handler reads
the session type, which `switch (appType)` does not reset. On an unauthenticated
session that an earlier failed attempt classified as camera or NVR, a register
message with any other application type and a free serial is not refused: the
handler returns `QTSS_NoErr`, enters the session in the device table and
authenticates it. -/
theorem C14_stale_classification_registers (k : Consts) (L : Lib) (this : Nat)
    (req : EasyProtocol) (w : World)
    (hauth : (w.sessions this).fAuthenticated = false)
    (hinfo : (L.GetDevInfo req (w.sessions this).fDevice).1 = true)
    (hstale : (w.sessions this).fSessionType < L.EasyHTTPSession)
    (happ : L.GetAppType req ≠ L.EASY_APP_TYPE_CAMERA ∧ L.GetAppType req ≠ L.EASY_APP_TYPE_NVR)
    (hserial : req.GetBodyValue Tag.SERIAL ≠ "")
    (hfree : ∀ r ∈ w.fDeviceSessionMap,
      r.key ≠ (L.GetDevInfo req (w.sessions this).fDevice).2.serial_) :
    (ExecNetMsgDSRegisterReq k L this req w).1 = k.QTSS_NoErr
    ∧ (ExecNetMsgDSRegisterReq k L this req w).2.fDeviceSessionMap
        = w.fDeviceSessionMap
          ++ [OSRefEx.mk (L.GetDevInfo req (w.sessions this).fDevice).2.serial_ this 0]
    ∧ ((ExecNetMsgDSRegisterReq k L this req w).2.sessions this).fAuthenticated = true := by
  have hclass : ((worldClassified L this req w).sessions this).fSessionType
      < L.EasyHTTPSession := by
    unfold worldClassified classify
    simpa [happ.1, happ.2, World.modify_sessions] using hstale
  rw [register_success k L this req w hauth hinfo hclass hserial hfree]
  refine ⟨rfl, rfl, ?_⟩
  simp [World.modify_sessions, Put]

/-- C14 at the sample world: session 2, unauthenticated after its conflict
over `CAM001`, sends a register message with the application type of a relay and
the serial `CAM002`; it is registered and authenticated. -/
theorem C14_stale_classification_registers_witness :
    (worldConflict.sessions 2).fAuthenticated = false
    ∧ sampleLib.GetAppType (registerReq "CAM002" "EasyDarwin") ≠ sampleLib.EASY_APP_TYPE_CAMERA
    ∧ sampleLib.GetAppType (registerReq "CAM002" "EasyDarwin") ≠ sampleLib.EASY_APP_TYPE_NVR
    ∧ (ExecNetMsgDSRegisterReq sampleConsts sampleLib 2 (registerReq "CAM002" "EasyDarwin")
        worldConflict).1 = sampleConsts.QTSS_NoErr
    ∧ (ExecNetMsgDSRegisterReq sampleConsts sampleLib 2 (registerReq "CAM002" "EasyDarwin")
        worldConflict).2.fDeviceSessionMap
        = [OSRefEx.mk "CAM001" 1 0, OSRefEx.mk "CAM002" 2 0]
    ∧ ((ExecNetMsgDSRegisterReq sampleConsts sampleLib 2 (registerReq "CAM002" "EasyDarwin")
        worldConflict).2.sessions 2).fAuthenticated = true :=
  ⟨by decide, by decide, by decide,
   (C14_stale_classification_registers sampleConsts sampleLib 2
      (registerReq "CAM002" "EasyDarwin") worldConflict (by decide) (by decide) (by decide)
      (by decide) (by decide) (by decide)).1,
   by decide,
   (C14_stale_classification_registers sampleConsts sampleLib 2
      (registerReq "CAM002" "EasyDarwin") worldConflict (by decide) (by decide) (by decide)
      (by decide) (by decide) (by decide)).2.2⟩

/-! ## C19: the target of a free-stream request -/

/-- A message handed to `Easy_SendMsg` without connection-close and without
decrement is put on the output stream of the target, whatever `Flush` reports. -/
theorem Easy_SendMsg_plain (k : Consts) (hk : Hooks) (d : Nat) (msg : EasyProtocolACK)
    (w : World) :
    Easy_SendMsg k hk d msg false false w
      = w.modify d (Put (HTTPPacket.mk k.httpOK (some msg) false)) := by
  unfold Easy_SendMsg SendHTTPPacket
  split_ifs <;> simp_all

/-- The characters of a compound stream name. -/
theorem compound_toList (S C : String) :
    (S ++ "/" ++ C).toList = S.toList ++ '/' :: C.toList := by
  simp [String.toList]

/-- The length of a string is the number of its characters. -/
theorem toList_length (s : String) : s.toList.length = s.length := by
  cases s; rfl

/-- The position `find` reports in a compound stream name whose serial has no
slash. -/
theorem find_compound (S C : String) (h : '/' ∉ S.toList) :
    find (S ++ "/" ++ C) '/' = some S.length := by
  unfold find
  rw [compound_toList, List.indexOf_append_of_not_mem h, List.indexOf_cons_self,
    toList_length, if_pos]
  · rfl
  · rw [List.length_append, toList_length, List.length_cons]
    omega

/-- No position is reported for a string without slash. -/
theorem find_none (s : String) (h : '/' ∉ s.toList) : find s '/' = none := by
  unfold find
  have : s.toList.indexOf '/' = s.toList.length := List.indexOf_eq_length.mpr h
  rw [this, if_neg (lt_irrefl _)]

/-- The text before the slash of a compound stream name. -/
theorem substr_serial (S C : String) : substr (S ++ "/" ++ C) 0 S.length = S := by
  unfold substr
  rw [compound_toList, List.drop_zero, ← toList_length, List.take_left]
  cases S; rfl

/-- The text after the slash of a compound stream name. -/
theorem substr_channel (S C : String) :
    substr (S ++ "/" ++ C) (S.length + 1) ((S ++ "/" ++ C).length - S.length - 1) = C := by
  unfold substr
  have hlen : (S ++ "/" ++ C).length = S.length + 1 + C.length := by
    rw [← toList_length, compound_toList, List.length_append, List.length_cons, toList_length,
      toList_length]
    omega
  have hdrop : (S.toList ++ '/' :: C.toList).drop (S.length + 1) = C.toList := by
    have h1 : S.length + 1 = (S.toList ++ ['/']).length := by
      rw [List.length_append, toList_length]; rfl
    rw [h1, show S.toList ++ '/' :: C.toList = (S.toList ++ ['/']) ++ C.toList by
      rw [List.append_assoc]; rfl, List.drop_left]
  rw [compound_toList, hlen, hdrop]
  have h2 : S.length + 1 + C.length - S.length - 1 = C.toList.length := by
    rw [toList_length]; omega
  rw [h2, List.take_length]
  cases C; rfl

/-- The free-stream handler on a compound stream name whose device resolves:
the result and the world, step by step. -/
theorem freeStream_compound (k : Consts) (L : Lib) (hk : Hooks) (this d : Nat)
    (req : EasyProtocol) (w : World) (S C : String) (table : List OSRefEx)
    (hname : req.GetBodyValue Tag.SERIAL = S ++ "/" ++ C)
    (hS : S ≠ "") (hslash : '/' ∉ S.toList)
    (hproto : req.GetBodyValue Tag.PROTOCOL ≠ "")
    (hres : Resolve w.fDeviceSessionMap S = some (d, table)) :
    ExecNetMsgCSFreeStreamReq k L hk this req w
      = (k.QTSS_NoErr,
          ((((({ w with fDeviceSessionMap := table } : World).modify d
              (fun s => { s with fCSeq := s.fCSeq + 1 })).modify d
              (Put (streamStopReq k L req (w.sessions d).fCSeq S C))).modify this
              (Put (freeStreamAck k req S C))).Release S)) := by
  have hne : S ++ "/" ++ C ≠ "" := by
    intro h
    have := congrArg String.length h
    rw [← toList_length, compound_toList, List.length_append, List.length_cons] at this
    simp at this
  unfold ExecNetMsgCSFreeStreamReq
  simp only [hname, String.length_le_zero_iff, hne, if_false, find_compound S C hslash,
    substr_serial, substr_channel, hS, hproto, or_self, hres, GetCSeq, Easy_SendMsg_plain,
    streamStopReq, freeStreamAck, reserveOf]

/-- C19, the part of the claim that fails: in the sample world `CAM001` is the
serial of session 1. The request with `Serial = "CAM001"` and `Channel = "2"`
in separate fields is refused with `QTSS_BadArgument` and nothing is sent to the
device, while the request with `Serial = "CAM001/2"` returns `QTSS_NoErr` and
puts the `MSG_SD_STREAM_STOP_REQ` for channel `2` on the device's output. -/
theorem C19_separate_fields_refused :
    ExecNetMsgCSFreeStreamReq sampleConsts sampleLib hooksS4 0 freeReqSeparate sampleWorld
      = (sampleConsts.QTSS_BadArgument, sampleWorld)
    ∧ sampleConsts.QTSS_BadArgument ≠ sampleConsts.QTSS_NoErr
    ∧ (sampleWorld.sessions 1).fOutputStream = []
    ∧ (ExecNetMsgCSFreeStreamReq sampleConsts sampleLib hooksS4 0 freeReqCompound sampleWorld).1
        = sampleConsts.QTSS_NoErr
    ∧ ((ExecNetMsgCSFreeStreamReq sampleConsts sampleLib hooksS4 0 freeReqCompound
        sampleWorld).2.sessions 1).fOutputStream
        = [HTTPPacket.mk sampleConsts.httpOK
            (some (EasyProtocolACK.mk sampleLib.MSG_SD_STREAM_STOP_REQ "0" none
              [(Tag.SERIAL, "CAM001"), (Tag.CHANNEL, "2"), (Tag.RESERVE, "1"),
               (Tag.PROTOCOL, "RTSP")] [])) false] := by
  refine ⟨?_, by decide, by decide, by decide, by decide⟩
  have h : find (freeReqSeparate.GetBodyValue Tag.SERIAL) '/' = none := by decide
  unfold ExecNetMsgCSFreeStreamReq
  simp only [h]
  rfl

/-- C19 (amended): the free-stream handler takes the target from the compound
string only. For `Serial = S ++ "/" ++ C` with `S` non-empty and without slash,
a protocol and a device table entry for `S` (session `d`, not the requesting
session), it returns `QTSS_NoErr`, advances the device's CSeq counter and puts
on the device's output one `MSG_SD_STREAM_STOP_REQ` with serial `S` and channel
`C` (`"0"` when `C` is empty), and on its own output the `MSG_SC_FREE_STREAM_ACK`.
A request whose `Serial` has no slash is refused with `QTSS_BadArgument` and
changes nothing, whatever its `Channel` field is. -/
theorem C19_compound_only (k : Consts) (L : Lib) (hk : Hooks) (this d : Nat)
    (req : EasyProtocol) (w : World) (S C : String) (table : List OSRefEx)
    (hname : req.GetBodyValue Tag.SERIAL = S ++ "/" ++ C)
    (hS : S ≠ "") (hslash : '/' ∉ S.toList)
    (hproto : req.GetBodyValue Tag.PROTOCOL ≠ "")
    (hres : Resolve w.fDeviceSessionMap S = some (d, table))
    (hd : d ≠ this) :
    (ExecNetMsgCSFreeStreamReq k L hk this req w).1 = k.QTSS_NoErr
    ∧ ((ExecNetMsgCSFreeStreamReq k L hk this req w).2.sessions d).fOutputStream
        = (w.sessions d).fOutputStream
          ++ [HTTPPacket.mk k.httpOK
                (some (EasyProtocolACK.mk L.MSG_SD_STREAM_STOP_REQ (sprintf_d (w.sessions d).fCSeq)
                  none
                  [(Tag.SERIAL, S), (Tag.CHANNEL, if C = "" then "0" else C),
                   (Tag.RESERVE, reserveOf req), (Tag.PROTOCOL, req.GetBodyValue Tag.PROTOCOL)]
                  [])) false]
    ∧ ((ExecNetMsgCSFreeStreamReq k L hk this req w).2.sessions d).fCSeq
        = (w.sessions d).fCSeq + 1
    ∧ ((ExecNetMsgCSFreeStreamReq k L hk this req w).2.sessions this).fOutputStream
        = (w.sessions this).fOutputStream
          ++ [HTTPPacket.mk k.httpOK
                (some (EasyProtocolACK.mk k.MSG_SC_FREE_STREAM_ACK req.CSeq
                  (some k.EASY_ERROR_SUCCESS_OK)
                  [(Tag.SERIAL, S), (Tag.CHANNEL, if C = "" then "0" else C),
                   (Tag.RESERVE, reserveOf req), (Tag.PROTOCOL, req.GetBodyValue Tag.PROTOCOL)]
                  [])) false]
    ∧ (∀ other : EasyProtocol, '/' ∉ (other.GetBodyValue Tag.SERIAL).toList →
        ExecNetMsgCSFreeStreamReq k L hk this other w = (k.QTSS_BadArgument, w)) := by
  rw [freeStream_compound k L hk this d req w S C table hname hS hslash hproto hres]
  refine ⟨rfl, ?_, ?_, ?_, ?_⟩
  · simp [World.modify_sessions, World.Release_sessions, hd, Put, streamStopReq, streamFields]
  · simp [World.modify_sessions, World.Release_sessions, hd, Put]
  · simp [World.modify_sessions, World.Release_sessions, Ne.symm hd, Put, freeStreamAck,
      streamFields]
  · intro other hno
    unfold ExecNetMsgCSFreeStreamReq
    simp only [find_none _ hno]
    split_ifs <;> rfl

/-- C19 (amended), at the sample world: the compound request for `CAM001/2`. -/
theorem C19_compound_only_witness :
    (ExecNetMsgCSFreeStreamReq sampleConsts sampleLib hooksS4 0 freeReqCompound sampleWorld).1
      = sampleConsts.QTSS_NoErr :=
  (C19_compound_only sampleConsts sampleLib hooksS4 0 1 freeReqCompound sampleWorld "CAM001" "2"
    [OSRefEx.mk "CAM001" 1 1] (by decide) (by decide) (by decide) (by decide) (by decide)
    (by decide)).1

/-! ## C20: the REST routes of `SetupRequest` -/

/-- A path whose lower-case form is not empty is not empty. -/
theorem to_lower_ne_empty (p s : String) (h : to_lower p = s) (hs : s ≠ "") : p ≠ "" := by
  rintro rfl
  exact hs (h.symm.trans (by decide))

/-- C20: for a request that `Parse` accepts and whose path (`GetRequestPath`,
the path of the URI after its leading slash) reads `api/getdevicelist`,
`api/getdeviceinfo` or `api/getdevicestream` in lower case, with or without one
trailing slash, `SetupRequest` returns what the RESTful device-list,
device-info or get-stream handler returns for the query string of the request
(`GetQueryString`), and the world is the one that handler leaves. -/
theorem C20_rest_routes (k : Consts) (L : Lib) (rh : RestHandlers) (fRequest : HTTPRequest)
    (Read : Int × List Nat) (this : Nat) (w : World) (path : String)
    (hparse : fRequest.Parse = k.QTSS_NoErr)
    (hpath : fRequest.RequestPath = some path) :
    (to_lower path = "api/getdevicelist" ∨ to_lower path = "api/getdevicelist/" →
      SetupRequest k L rh fRequest Read this w
        = rh.ExecNetMsgCSGetDeviceListReqRESTful this fRequest.QueryString w)
    ∧ (to_lower path = "api/getdeviceinfo" ∨ to_lower path = "api/getdeviceinfo/" →
      SetupRequest k L rh fRequest Read this w
        = rh.ExecNetMsgCSGetCameraListReqRESTful this fRequest.QueryString w)
    ∧ (to_lower path = "api/getdevicestream" ∨ to_lower path = "api/getdevicestream/" →
      SetupRequest k L rh fRequest Read this w
        = rh.ExecNetMsgCSGetStreamReqRESTful this fRequest.QueryString w) := by
  have l1 : split (eraseSlashTail "api/getdevicelist") = ["api", "getdevicelist"] := by decide
  have l2 : split (eraseSlashTail "api/getdevicelist/") = ["api", "getdevicelist"] := by decide
  have i1 : split (eraseSlashTail "api/getdeviceinfo") = ["api", "getdeviceinfo"] := by decide
  have i2 : split (eraseSlashTail "api/getdeviceinfo/") = ["api", "getdeviceinfo"] := by decide
  have s1 : split (eraseSlashTail "api/getdevicestream") = ["api", "getdevicestream"] := by
    decide
  have s2 : split (eraseSlashTail "api/getdevicestream/") = ["api", "getdevicestream"] := by
    decide
  refine ⟨?_, ?_, ?_⟩
  · intro h
    have hne : path ≠ "" := by
      rcases h with h | h
      · exact to_lower_ne_empty _ _ h (by decide)
      · exact to_lower_ne_empty _ _ h (by decide)
    unfold SetupRequest
    rcases h with h | h
    · simp [hparse, hpath, hne, h, l1]
    · simp [hparse, hpath, hne, h, l2]
  · intro h
    have hne : path ≠ "" := by
      rcases h with h | h
      · exact to_lower_ne_empty _ _ h (by decide)
      · exact to_lower_ne_empty _ _ h (by decide)
    unfold SetupRequest
    rcases h with h | h
    · simp [hparse, hpath, hne, h, i1]
    · simp [hparse, hpath, hne, h, i2]
  · intro h
    have hne : path ≠ "" := by
      rcases h with h | h
      · exact to_lower_ne_empty _ _ h (by decide)
      · exact to_lower_ne_empty _ _ h (by decide)
    unfold SetupRequest
    rcases h with h | h
    · simp [hparse, hpath, hne, h, s1]
    · simp [hparse, hpath, hne, h, s2]

/-- C20 on a sample request: `API/GetDeviceInfo/` with the query `device=CAM001`
reaches the device-info handler, which gets that query string. -/
theorem C20_rest_routes_witness :
    to_lower "API/GetDeviceInfo/" = "api/getdeviceinfo/"
    ∧ SetupRequest sampleConsts sampleLib sampleRest
        (getRequest "API/GetDeviceInfo/" "device=CAM001") (0, []) 0 freshWorld
      = (102, freshWorld.modify 0 (fun s => { s with fSessionID := "device=CAM001" })) :=
  ⟨by decide,
   (C20_rest_routes sampleConsts sampleLib sampleRest
      (getRequest "API/GetDeviceInfo/" "device=CAM001") (0, []) 0 freshWorld
      "API/GetDeviceInfo/" (by decide) (by decide)).2.1 (Or.inr (by decide))⟩

/-! ## C16: the value `Run` returns after its loop -/

/-- The loop of `Run` is left only with the session not alive. -/
theorem Run_loop_left (k : Consts) (L : Lib) (rh : RestHandlers) (this : Nat) :
    ∀ (ios : List PassResults) (err : Int) (w w1 : World),
      Run_loop k L rh this ios err w = some (LoopEnd.left w1) → IsLiveSession this w1 = false := by
  intro ios
  induction ios with
  | nil =>
    intro err w w1 h
    unfold Run_loop at h
    split_ifs at h with hl
    · cases h; exact hl
  | cons io ios ih =>
    intro err w w1 h
    unfold Run_loop at h
    split_ifs at h with hl
    · cases h; exact hl
    · cases hp : Run_pass k L rh io err this w with
      | none => simp [hp] at h
      | some p =>
        cases p with
        | returned v w2 => simp [hp] at h
        | next err1 w2 =>
          simp only [hp] at h
          exact ih _ _ _ h

/-- A session that is not alive at the test of the loop: no pass is made. -/
theorem Run_loop_not_alive (k : Consts) (L : Lib) (rh : RestHandlers) (this : Nat)
    (ios : List PassResults) (err : Int) (w : World) (h : IsLiveSession this w = false) :
    Run_loop k L rh this ios err w = some (LoopEnd.left w) := by
  cases ios with
  | nil => simp [Run_loop, h]
  | cons io ios => simp [Run_loop, h]

/-- The session after the prologue of an invocation with a kill or timeout event. -/
theorem Run_prologue_killed (events : EventFlags) (this : Nat) (w : World)
    (hev : events.kKillEvent = true ∨ events.kTimeoutEvent = true
      ∨ (w.sessions this).fKillEvent = true) :
    Run_prologue events this w
      = w.modify this (fun s => { s with fKillEvent := false, fLiveSession := false }) := by
  unfold Run_prologue GetEvents
  cases hk : events.kKillEvent <;> cases ht : events.kTimeoutEvent <;>
    cases hp : (w.sessions this).fKillEvent <;>
    simp_all [World.modify_modify]

/-- C16: when the loop of `Run` is left (its condition `IsLiveSession` is
false), `Run` returns -1 if the holder count of the session is zero and 0
otherwise. In particular, on every invocation whose events contain the kill
event (delivered or left pending by a signal) or the timeout event, `Run`
returns that value without a pass through `switch (fState)`: the session only
loses the event, `fLiveSession` and the request object, and no other session
changes. -/
theorem C16_exit_value (k : Consts) (L : Lib) (rh : RestHandlers) (events : EventFlags)
    (ios : List PassResults) (this : Nat) (w : World) :
    (∀ w1, Run_loop k L rh this ios k.QTSS_NoErr (Run_prologue events this w)
          = some (LoopEnd.left w1) →
        IsLiveSession this w1 = false
        ∧ Run k L rh events ios this w
            = some (if (w1.sessions this).fObjectHolders = 0 then -1 else 0,
                CleanupRequest this w1)
        ∧ (∀ v w2, Run k L rh events ios this w = some (v, w2) →
            ((v = -1 ↔ (w1.sessions this).fObjectHolders = 0)
              ∧ (v = 0 ↔ (w1.sessions this).fObjectHolders ≠ 0))))
    ∧ (events.kKillEvent = true ∨ events.kTimeoutEvent = true
          ∨ (w.sessions this).fKillEvent = true →
        Run_loop k L rh this ios k.QTSS_NoErr (Run_prologue events this w)
          = some (LoopEnd.left (Run_prologue events this w))
        ∧ Run k L rh events ios this w
            = some (if (w.sessions this).fObjectHolders = 0 then -1 else 0,
                w.modify this (fun s =>
                  { s with fKillEvent := false, fLiveSession := false, fRequest := none }))) := by
  constructor
  · intro w1 h
    have hrun : Run k L rh events ios this w
        = some (if (w1.sessions this).fObjectHolders = 0 then -1 else 0,
            CleanupRequest this w1) := by
      unfold Run
      rw [h]
      simp [Run_epilogue, CleanupRequest, World.modify_sessions]
    refine ⟨Run_loop_left k L rh this ios _ _ _ h, hrun, ?_⟩
    intro v w2 hv
    rw [hrun] at hv
    simp only [Option.some.injEq, Prod.mk.injEq] at hv
    obtain ⟨hv, -⟩ := hv
    subst hv
    by_cases h0 : (w1.sessions this).fObjectHolders = 0 <;> simp [h0]
  · intro hev
    have hp := Run_prologue_killed events this w hev
    have hdead : IsLiveSession this (Run_prologue events this w) = false := by
      rw [hp]
      simp [IsLiveSession, World.modify_sessions]
    have hl := Run_loop_not_alive k L rh this ios k.QTSS_NoErr _ hdead
    refine ⟨hl, ?_⟩
    unfold Run
    rw [hl, hp]
    simp [Run_epilogue, CleanupRequest, World.modify_sessions, World.modify_modify]

/-- C16 at the sample worlds: a kill event for the client of `sampleWorld`, which
nobody holds, makes `Run` return -1; for the client of `worldAfterPush`, held by
the pending entry of the device, `Run` returns 0. -/
theorem C16_exit_value_witness :
    (Run sampleConsts sampleLib sampleRest (EventFlags.mk true false) [] 0 sampleWorld).map
        Prod.fst = some (-1)
    ∧ (Run sampleConsts sampleLib sampleRest (EventFlags.mk true false) [] 0 worldAfterPush).map
        Prod.fst = some 0 :=
  ⟨by
     rw [((C16_exit_value sampleConsts sampleLib sampleRest (EventFlags.mk true false) [] 0
       sampleWorld).2 (Or.inl rfl)).2]
     decide,
   by
     rw [((C16_exit_value sampleConsts sampleLib sampleRest (EventFlags.mk true false) [] 0
       worldAfterPush).2 (Or.inl rfl)).2]
     decide⟩

/-! ## The frame of the handlers -/

/-- Changing a reference count keeps the entries. -/
theorem entries_bumpRef (key : String) (delta : Int) (m : List OSRefEx) :
    entries (bumpRef key delta m) = entries m := by
  induction m with
  | nil => rfl
  | cons r rs ih =>
    unfold entries at ih ⊢
    by_cases h : r.key = key
    · simp [bumpRef, h]
    · simp [bumpRef, h, ih]

/-- Every world is in its own frame. -/
theorem frame_refl (w : World) : Frame w w := ⟨fun _ => ⟨rfl, rfl, rfl, rfl⟩, rfl⟩

/-- An update of one session that keeps the four fields stays in the frame. -/
theorem frame_modify (w w1 : World) (i : Nat) (f : HTTPSession → HTTPSession)
    (h : Frame w w1)
    (hf : ∀ t, (f t).fRequestBody = t.fRequestBody ∧ (f t).fState = t.fState
      ∧ (f t).fAuthenticated = t.fAuthenticated ∧ (f t).fSessionType = t.fSessionType) :
    Frame w (w1.modify i f) := by
  refine ⟨fun s => ?_, h.2⟩
  simp only [World.modify_sessions]
  split_ifs with hs
  · subst hs
    obtain ⟨a, b, c, d⟩ := hf (w1.sessions s)
    obtain ⟨a1, b1, c1, d1⟩ := h.1 s
    exact ⟨a.trans a1, b.trans b1, c.trans c1, d.trans d1⟩
  · exact h.1 s

/-- A release stays in the frame. -/
theorem frame_release (w w1 : World) (key : String) (h : Frame w w1) :
    Frame w (w1.Release key) :=
  ⟨h.1, (entries_bumpRef key (-1) w1.fDeviceSessionMap).trans h.2⟩

/-- The table a resolve leaves is in the frame. -/
theorem frame_resolved (w : World) (key : String) (d : Nat) (table : List OSRefEx)
    (h : Resolve w.fDeviceSessionMap key = some (d, table)) :
    Frame w ({ w with fDeviceSessionMap := table } : World) := by
  obtain ⟨-, htab⟩ := Resolve_obj _ _ _ _ h
  refine ⟨fun _ => ⟨rfl, rfl, rfl, rfl⟩, ?_⟩
  show entries table = _
  rw [htab]
  exact entries_bumpRef _ _ _

/-- The get-stream handler stays in the frame. -/
theorem getStream_frame (k : Consts) (hk : Hooks) (c : Nat) (req : EasyProtocol) (w : World) :
    Frame w (ExecNetMsgCSGetStreamReq k hk c req w).2 := by
  unfold ExecNetMsgCSGetStreamReq
  simp only [GetCSeq, Easy_SendMsg_plain, emitGetStreamAck]
  repeat' split
  all_goals
    dsimp only
    repeat (first
      | exact frame_refl _
      | (apply frame_resolved; assumption)
      | apply frame_release
      | refine frame_modify _ _ _ _ ?_ (fun t => ⟨rfl, rfl, rfl, rfl⟩))

/-- The snapshot store is outside the frame. -/
theorem frame_snapFiles (w w1 : World) (files : List (String × String)) (h : Frame w w1) :
    Frame w ({ w1 with fSnapFiles := files } : World) := ⟨h.1, h.2⟩

/-- The push-stream-ack handler stays in the frame. -/
theorem pushStreamAck_frame (k : Consts) (this : Nat) (req : EasyProtocol) (w : World) :
    Frame w (ExecNetMsgDSPushStreamAck k this req w).2 := by
  unfold ExecNetMsgDSPushStreamAck
  rcases FindInMsgMap (w.sessions this).fMsgMap (toUInt32 (atoi req.CSeq)) with _ | ⟨m, rest⟩
  all_goals
    dsimp only
    repeat' split
  all_goals
    dsimp only
    repeat (first
      | exact frame_refl _
      | refine frame_modify _ _ _ _ ?_ (fun t => ⟨rfl, rfl, rfl, rfl⟩))

/-- The free-stream handler stays in the frame. -/
theorem freeStream_frame (k : Consts) (L : Lib) (hk : Hooks) (this : Nat) (req : EasyProtocol)
    (w : World) : Frame w (ExecNetMsgCSFreeStreamReq k L hk this req w).2 := by
  unfold ExecNetMsgCSFreeStreamReq
  simp only [GetCSeq, Easy_SendMsg_plain]
  repeat' split
  all_goals
    dsimp only
    repeat (first
      | exact frame_refl _
      | (apply frame_resolved; assumption)
      | apply frame_release
      | refine frame_modify _ _ _ _ ?_ (fun t => ⟨rfl, rfl, rfl, rfl⟩))

/-- The stream-stop-ack handler stays in the frame. -/
theorem streamStopAck_frame (k : Consts) (this : Nat) (req : EasyProtocol) (w : World) :
    Frame w (ExecNetMsgDSStreamStopAck k this req w).2 := by
  unfold ExecNetMsgDSStreamStopAck
  split <;> exact frame_refl _

/-- The device-list handler stays in the frame. -/
theorem deviceList_frame (k : Consts) (L : Lib) (this : Nat) (req : EasyProtocol) (w : World) :
    Frame w (ExecNetMsgCSDeviceListReq k L this req w).2 := by
  unfold ExecNetMsgCSDeviceListReq
  dsimp only
  exact frame_modify _ _ _ _ (frame_refl _) (fun t => ⟨rfl, rfl, rfl, rfl⟩)

/-- The device-info handler stays in the frame. -/
theorem cameraList_frame (k : Consts) (L : Lib) (this : Nat) (req : EasyProtocol) (w : World) :
    Frame w (ExecNetMsgCSCameraListReq k L this req w).2 := by
  unfold ExecNetMsgCSCameraListReq
  dsimp only
  repeat' split
  all_goals
    dsimp only
    repeat (first
      | exact frame_refl _
      | (apply frame_resolved; assumption)
      | apply frame_release
      | refine frame_modify _ _ _ _ ?_ (fun t => ⟨rfl, rfl, rfl, rfl⟩))

/-- The snapshot handler stays in the frame. -/
theorem postSnap_frame (k : Consts) (L : Lib) (this : Nat) (req : EasyProtocol) (w : World) :
    Frame w (ExecNetMsgDSPostSnapReq k L this req w).2 := by
  unfold ExecNetMsgDSPostSnapReq
  dsimp only
  repeat' split
  all_goals
    dsimp only
    repeat (first
      | exact frame_refl _
      | apply frame_snapFiles
      | refine frame_modify _ _ _ _ ?_ (fun t => ⟨rfl, rfl, rfl, rfl⟩))

/-- The handler of unknown messages stays in the frame. -/
theorem errorReqHandler_frame (k : Consts) (errCode : Int) (this : Nat) (w : World) :
    Frame w (ExecNetMsgErrorReqHandler k errCode this w).2 := by
  unfold ExecNetMsgErrorReqHandler
  dsimp only
  exact frame_modify _ _ _ _ (frame_modify _ _ _ _ (frame_refl _)
    (fun t => ⟨rfl, rfl, rfl, rfl⟩)) (fun t => ⟨rfl, rfl, rfl, rfl⟩)

/-- A world in the frame has the same request bodies and states. -/
theorem Frame.sameRequest (w w1 : World) (h : Frame w w1) : SameRequest w w1 :=
  fun s => ⟨(h.1 s).1, (h.1 s).2.1⟩

/-- Every world has its own request bodies and states. -/
theorem sameRequest_refl (w : World) : SameRequest w w := fun _ => ⟨rfl, rfl⟩

/-- An update of one session that keeps the request body and the state. -/
theorem sameRequest_modify (w w1 : World) (i : Nat) (f : HTTPSession → HTTPSession)
    (h : SameRequest w w1)
    (hf : ∀ t, (f t).fRequestBody = t.fRequestBody ∧ (f t).fState = t.fState) :
    SameRequest w (w1.modify i f) := by
  intro s
  simp only [World.modify_sessions]
  split_ifs with hs
  · subst hs
    exact ⟨(hf _).1.trans (h s).1, (hf _).2.trans (h s).2⟩
  · exact h s

/-- Request bodies and states agree transitively. -/
theorem sameRequest_trans (w w1 w2 : World) (h1 : SameRequest w w1) (h2 : SameRequest w1 w2) :
    SameRequest w w2 :=
  fun s => ⟨(h2 s).1.trans (h1 s).1, (h2 s).2.trans (h1 s).2⟩

/-- The body of the loop of the register handler keeps the request bodies and
states. -/
theorem registerAttempt_sameRequest (k : Consts) (L : Lib) (this : Nat) (req : EasyProtocol)
    (w : World) : SameRequest w (registerAttempt k L this req w).2 := by
  have hc : SameRequest w (classify L (L.GetAppType req) this w) := by
    unfold classify
    split_ifs
    · exact sameRequest_modify _ _ _ _ (sameRequest_refl _) (fun t => ⟨rfl, rfl⟩)
    · exact sameRequest_modify _ _ _ _ (sameRequest_refl _) (fun t => ⟨rfl, rfl⟩)
    · exact sameRequest_refl _
  unfold registerAttempt
  dsimp only
  split_ifs
  · exact hc
  · exact hc
  · cases Register (classify L (L.GetAppType req) this w).fDeviceSessionMap
        ((classify L (L.GetAppType req) this w).sessions this).fDevice.serial_ this with
    | some table =>
      dsimp only
      refine sameRequest_modify _ _ _ _ ?_ (fun t => ⟨rfl, rfl⟩)
      exact fun s => hc s
    | none =>
      dsimp only
      cases Resolve (classify L (L.GetAppType req) this w).fDeviceSessionMap
          ((classify L (L.GetAppType req) this w).sessions this).fDevice.serial_ with
      | none => exact hc
      | some p =>
        dsimp only [Signal_kKillEvent, World.Release]
        have h2 : SameRequest w
            (({ classify L (L.GetAppType req) this w with fDeviceSessionMap := p.2 } : World).modify
              p.1 (fun s => { s with fKillEvent := true })) :=
          sameRequest_modify _ _ _ _ (fun s => hc s) (fun t => ⟨rfl, rfl⟩)
        exact fun s => h2 s

/-- The register handler keeps the request bodies and states. -/
theorem register_sameRequest (k : Consts) (L : Lib) (this : Nat) (req : EasyProtocol)
    (w : World) : SameRequest w (ExecNetMsgDSRegisterReq k L this req w).2 := by
  have h0 : SameRequest w (w.modify this
      (fun s => { s with fDevice := (L.GetDevInfo req (w.sessions this).fDevice).2 })) :=
    sameRequest_modify _ _ _ _ (sameRequest_refl _) (fun t => ⟨rfl, rfl⟩)
  have h1 := sameRequest_trans _ _ _ h0 (registerAttempt_sameRequest k L this req (w.modify this
      (fun s => { s with fDevice := (L.GetDevInfo req (w.sessions this).fDevice).2 })))
  unfold ExecNetMsgDSRegisterReq
  dsimp only
  split_ifs
  · exact h0
  · exact h1
  · exact sameRequest_modify _ _ _ _ h1 (fun t => ⟨rfl, rfl⟩)
  · exact h0
  · exact sameRequest_modify _ _ _ _ h0 (fun t => ⟨rfl, rfl⟩)

/-- The selected handler keeps the request bodies and states. -/
theorem dispatch_sameRequest (k : Consts) (L : Lib) (hk : Hooks) (this : Nat)
    (body : EasyProtocol) (w : World) :
    SameRequest w (dispatch k hk (handlers k L hk) this body w).1.2 := by
  unfold dispatch handlers
  dsimp only
  split_ifs
  · exact register_sameRequest k L this body w
  · exact (getStream_frame k hk this body w).sameRequest
  · exact (pushStreamAck_frame k this body w).sameRequest
  · exact (freeStream_frame k L hk this body w).sameRequest
  · exact (streamStopAck_frame k this body w).sameRequest
  · exact (deviceList_frame k L this body w).sameRequest
  · exact (cameraList_frame k L this body w).sameRequest
  · exact (postSnap_frame k L this body w).sameRequest
  · exact (errorReqHandler_frame k k.httpNotImplemented this w).sameRequest

/-- The dispatcher keeps the request bodies and states. -/
theorem ProcessRequest_sameRequest (k : Consts) (L : Lib) (hk : Hooks) (this : Nat) (w : World) :
    SameRequest w (ProcessRequest k hk (handlers k L hk) this w).2 := by
  unfold ProcessRequest
  cases (w.sessions this).fRequestBody with
  | none => exact sameRequest_refl _
  | some body =>
    dsimp only
    split_ifs
    · exact sameRequest_modify _ _ _ _ (dispatch_sameRequest k L hk this body w)
        (fun t => ⟨rfl, rfl⟩)
    · exact dispatch_sameRequest k L hk this body w

/-- An invocation without events on a session without pending kill signal
starts the loop in the world it was given. -/
theorem Run_prologue_idle (this : Nat) (w : World)
    (hkill : (w.sessions this).fKillEvent = false) :
    Run_prologue (EventFlags.mk false false) this w = w := by
  have hs : ({ w.sessions this with fKillEvent := false } : HTTPSession) = w.sessions this := by
    cases h : w.sessions this
    rw [h] at hkill
    simp only at hkill
    subst hkill
    rfl
  unfold Run_prologue GetEvents
  simp only [hkill, Bool.or_self, Bool.false_eq_true, if_false]
  unfold World.modify
  dsimp only at hs ⊢
  rw [hs, Function.update_eq_self]

/-! ## C17: the three exits of case `kPreprocessingRequest` -/

/-- C17: in state `kPreprocessingRequest`, with `w1` the world after
`ProcessRequest`: when the session's output has bytes written, the case frees
the request body and the state is `kSendingResponse`; otherwise, when the
waiting quantum `q` of the session is positive, the case resets it to 0 and
returns `q`, the state and the request body of the session are the ones before
the dispatch, and `Run` itself (entered without events on a live session in
that state) returns exactly `q` in this world; otherwise the case frees the
request body and the state is `kCleaningUp`. -/
theorem C17_preprocessing_exits (k : Consts) (L : Lib) (rh : RestHandlers) (io : PassResults)
    (ios : List PassResults) (this : Nat) (w : World) :
    (0 < ((ProcessRequest k io.hooks (handlers k L io.hooks) this w).2.sessions this).fBytesWritten →
      (Run_kPreprocessingRequest k io.hooks (handlers k L io.hooks) this w).2 = none
      ∧ ((Run_kPreprocessingRequest k io.hooks (handlers k L io.hooks) this w).1.sessions
          this).fRequestBody = none
      ∧ ((Run_kPreprocessingRequest k io.hooks (handlers k L io.hooks) this w).1.sessions
          this).fState = State.kSendingResponse)
    ∧ (((ProcessRequest k io.hooks (handlers k L io.hooks) this w).2.sessions this).fBytesWritten = 0 →
        0 < ((ProcessRequest k io.hooks (handlers k L io.hooks) this w).2.sessions
              this).fInfo.uWaitingTime →
      (Run_kPreprocessingRequest k io.hooks (handlers k L io.hooks) this w).2
          = some ((ProcessRequest k io.hooks (handlers k L io.hooks) this w).2.sessions
              this).fInfo.uWaitingTime
      ∧ ((Run_kPreprocessingRequest k io.hooks (handlers k L io.hooks) this w).1.sessions
          this).fInfo.uWaitingTime = 0
      ∧ ((Run_kPreprocessingRequest k io.hooks (handlers k L io.hooks) this w).1.sessions
          this).fState = (w.sessions this).fState
      ∧ ((Run_kPreprocessingRequest k io.hooks (handlers k L io.hooks) this w).1.sessions
          this).fRequestBody = (w.sessions this).fRequestBody
      ∧ ((w.sessions this).fState = State.kPreprocessingRequest →
          IsLiveSession this w = true → (w.sessions this).fKillEvent = false →
          Run k L rh (EventFlags.mk false false) (io :: ios) this w
            = some (((((ProcessRequest k io.hooks (handlers k L io.hooks) this w).2.sessions
                  this).fInfo.uWaitingTime : Nat) : Int),
                (Run_kPreprocessingRequest k io.hooks (handlers k L io.hooks) this w).1)))
    ∧ (((ProcessRequest k io.hooks (handlers k L io.hooks) this w).2.sessions this).fBytesWritten = 0 →
        ((ProcessRequest k io.hooks (handlers k L io.hooks) this w).2.sessions
              this).fInfo.uWaitingTime = 0 →
      (Run_kPreprocessingRequest k io.hooks (handlers k L io.hooks) this w).2 = none
      ∧ ((Run_kPreprocessingRequest k io.hooks (handlers k L io.hooks) this w).1.sessions
          this).fRequestBody = none
      ∧ ((Run_kPreprocessingRequest k io.hooks (handlers k L io.hooks) this w).1.sessions
          this).fState = State.kCleaningUp) := by
  have hsame := ProcessRequest_sameRequest k L io.hooks this w this
  refine ⟨?_, ?_, ?_⟩
  · intro hb
    unfold Run_kPreprocessingRequest
    simp [hb, World.modify_sessions]
  · intro hb hq
    have hrun : Run_kPreprocessingRequest k io.hooks (handlers k L io.hooks) this w
        = ((ProcessRequest k io.hooks (handlers k L io.hooks) this w).2.modify this
            (fun s => { s with fInfo := { s.fInfo with uWaitingTime := 0 } }),
           some ((ProcessRequest k io.hooks (handlers k L io.hooks) this w).2.sessions
              this).fInfo.uWaitingTime) := by
      unfold Run_kPreprocessingRequest
      simp [hb, hq]
    refine ⟨?_, ?_, ?_, ?_, ?_⟩
    · rw [hrun]
    · rw [hrun]; simp [World.modify_sessions]
    · rw [hrun]; simpa [World.modify_sessions] using hsame.2
    · rw [hrun]; simpa [World.modify_sessions] using hsame.1
    · intro hstate hlive hkill
      unfold Run
      rw [Run_prologue_idle this w hkill]
      unfold Run_loop
      simp only [hlive, Bool.true_eq_false, if_false]
      unfold Run_pass
      simp only [hstate, hrun]
  · intro hb hq
    unfold Run_kPreprocessingRequest
    simp [hb, hq, World.modify_sessions]

/-- C17 at the sample world: the client's first get-stream request arms the
quantum 100; `Run` returns 100 and the session is still in state
`kPreprocessingRequest` with its request body. -/
theorem C17_preprocessing_exits_witness :
    (Run sampleConsts sampleLib sampleRest (EventFlags.mk false false) [samplePass] 0
        sampleWorld).map Prod.fst = some 100
    ∧ ((Run_kPreprocessingRequest sampleConsts samplePass.hooks
          (handlers sampleConsts sampleLib samplePass.hooks) 0 sampleWorld).1.sessions 0).fRequestBody
        = (sampleWorld.sessions 0).fRequestBody :=
  ⟨by
     rw [((C17_preprocessing_exits sampleConsts sampleLib sampleRest samplePass [] 0
       sampleWorld).2.1 (by decide) (by decide)).2.2.2.2 (by decide) (by decide) (by decide)]
     decide,
   ((C17_preprocessing_exits sampleConsts sampleLib sampleRest samplePass [] 0
       sampleWorld).2.1 (by decide) (by decide)).2.2.2.1⟩

/-! ## C15: the registry invariant -/

/-- Membership in the device table in terms of its entries. -/
theorem mem_entries (m : List OSRefEx) (s : Nat) :
    (∃ r ∈ m, r.obj = s) ↔ ∃ p ∈ entries m, p.2 = s := by
  unfold entries
  constructor
  · rintro ⟨r, hr, rfl⟩
    exact ⟨(r.key, r.obj), List.mem_map.mpr ⟨r, hr, rfl⟩, rfl⟩
  · rintro ⟨p, hp, rfl⟩
    obtain ⟨r, hr, rfl⟩ := List.mem_map.mp hp
    exact ⟨r, hr, rfl⟩

/-- The registry invariant and the known types only read the authentication,
the session types and the entries of the table. -/
theorem registry_congr (L : Lib) (w w1 : World)
    (hs : ∀ s, (w1.sessions s).fAuthenticated = (w.sessions s).fAuthenticated
      ∧ (w1.sessions s).fSessionType = (w.sessions s).fSessionType)
    (he : entries w1.fDeviceSessionMap = entries w.fDeviceSessionMap)
    (h : RegistryInv L w ∧ TypesKnown L w) : RegistryInv L w1 ∧ TypesKnown L w1 := by
  constructor
  · intro s
    rw [mem_entries, he, ← mem_entries]
    unfold classified
    rw [(hs s).1, (hs s).2]
    exact h.1 s
  · intro s
    unfold classified
    rw [(hs s).2]
    exact h.2 s

/-- A world in the frame keeps the registry invariant. -/
theorem registry_frame (L : Lib) (w w1 : World) (hf : Frame w w1)
    (h : RegistryInv L w ∧ TypesKnown L w) : RegistryInv L w1 ∧ TypesKnown L w1 :=
  registry_congr L w w1 (fun s => ⟨(hf.1 s).2.2.1, (hf.1 s).2.2.2⟩) hf.2 h

/-- A world of fresh sessions has the registry invariant. -/
theorem registry_fresh (L : Lib) (w : World) (h : FreshWorld L w) :
    RegistryInv L w ∧ TypesKnown L w := by
  constructor
  · intro s
    rw [h.1]
    simp [(h.2 s).1]
  · intro s
    exact Or.inr (h.2 s).2

/-- The switch of the register handler on an unauthenticated session keeps the
registry invariant. -/
theorem registry_classify (L : Lib) (appType : Int) (this : Nat) (w : World)
    (hauth : (w.sessions this).fAuthenticated = false)
    (h : RegistryInv L w ∧ TypesKnown L w) :
    (RegistryInv L (classify L appType this w) ∧ TypesKnown L (classify L appType this w))
    ∧ (classify L appType this w).fDeviceSessionMap = w.fDeviceSessionMap
    ∧ ((classify L appType this w).sessions this).fAuthenticated = false := by
  have key : ∀ t : Nat, (t = L.EasyCameraSession ∨ t = L.EasyNVRSession) →
      (RegistryInv L (w.modify this (fun s => { s with fSessionType := t }))
        ∧ TypesKnown L (w.modify this (fun s => { s with fSessionType := t })))
      ∧ (w.modify this (fun s => { s with fSessionType := t })).fDeviceSessionMap
          = w.fDeviceSessionMap
      ∧ ((w.modify this (fun s => { s with fSessionType := t })).sessions this).fAuthenticated
          = false := by
    intro t ht
    refine ⟨⟨?_, ?_⟩, rfl, ?_⟩
    · intro s
      by_cases hs : s = this
      · subst hs
        have h1 := h.1 s
        simp only [World.modify_sessions, World.modify_table, if_true, hauth] at h1 ⊢
        simpa using h1
      · simpa [World.modify_sessions, hs] using h.1 s
    · intro s
      by_cases hs : s = this
      · subst hs
        left
        simpa [World.modify_sessions, classified] using ht
      · simpa [World.modify_sessions, hs] using h.2 s
    · simpa [World.modify_sessions] using hauth
  unfold classify
  split_ifs
  · exact key _ (Or.inl rfl)
  · exact key _ (Or.inr rfl)
  · exact ⟨h, rfl, hauth⟩

/-- The table after a registration. -/
theorem Register_some (m : List OSRefEx) (key : String) (obj : Nat) (table : List OSRefEx)
    (h : Register m key obj = some table) : table = m ++ [OSRefEx.mk key obj 0] := by
  unfold Register at h
  split at h
  · simp at h
  · simpa using h.symm

/-- The body of the loop of the register handler, run on an unauthenticated
session, keeps the registry invariant. -/
theorem registry_registerAttempt (k : Consts) (L : Lib) (this : Nat) (req : EasyProtocol)
    (w : World) (hauth : (w.sessions this).fAuthenticated = false)
    (h : RegistryInv L w ∧ TypesKnown L w) :
    RegistryInv L (registerAttempt k L this req w).2
    ∧ TypesKnown L (registerAttempt k L this req w).2 := by
  obtain ⟨hJ, htab, hau⟩ := registry_classify L (L.GetAppType req) this w hauth h
  unfold registerAttempt
  dsimp only
  split_ifs with hge hser
  · exact hJ
  · exact hJ
  · cases hreg : Register (classify L (L.GetAppType req) this w).fDeviceSessionMap
        ((classify L (L.GetAppType req) this w).sessions this).fDevice.serial_ this with
    | some table =>
      dsimp only
      have ht := Register_some _ _ _ _ hreg
      subst ht
      have hlt : ((classify L (L.GetAppType req) this w).sessions this).fSessionType
          < L.EasyHTTPSession := not_le.mp hge
      have hcl : classified L ((classify L (L.GetAppType req) this w).sessions this) := by
        rcases hJ.2 this with hc | hc
        · exact hc
        · exact absurd hc (Nat.ne_of_lt hlt)
      constructor
      · intro s
        by_cases hs : s = this
        · subst hs
          constructor
          · intro _
            constructor
            · simp [World.modify_sessions]
            · simpa [World.modify_sessions, classified] using hcl
          · intro _
            refine ⟨OSRefEx.mk
              ((classify L (L.GetAppType req) s w).sessions s).fDevice.serial_ s 0, ?_, rfl⟩
            simp [World.modify_table]
        · have h1 := hJ.1 s
          simp only [World.modify_sessions, World.modify_table, hs, if_false]
          rw [← h1]
          constructor
          · rintro ⟨r, hr, ho⟩
            rcases List.mem_append.mp hr with hr | hr
            · exact ⟨r, hr, ho⟩
            · rw [List.mem_singleton] at hr
              subst hr
              exact absurd ho.symm hs
          · rintro ⟨r, hr, ho⟩
            exact ⟨r, List.mem_append_left _ hr, ho⟩
      · intro s
        by_cases hs : s = this
        · subst hs
          left
          simpa [World.modify_sessions, classified] using hcl
        · simpa [World.modify_sessions, hs] using hJ.2 s
    | none =>
      dsimp only
      cases hres : Resolve (classify L (L.GetAppType req) this w).fDeviceSessionMap
          ((classify L (L.GetAppType req) this w).sessions this).fDevice.serial_ with
      | none => exact hJ
      | some p =>
        dsimp only
        refine registry_frame L _ _ ?_ hJ
        unfold Signal_kKillEvent
        exact frame_release _ _ _ (frame_modify _ _ _ _ (frame_resolved _ _ _ _ hres)
          (fun t => ⟨rfl, rfl, rfl, rfl⟩))

/-- The register handler keeps the registry invariant. -/
theorem registry_register (k : Consts) (L : Lib) (this : Nat) (req : EasyProtocol) (w : World)
    (h : RegistryInv L w ∧ TypesKnown L w) :
    RegistryInv L (ExecNetMsgDSRegisterReq k L this req w).2
    ∧ TypesKnown L (ExecNetMsgDSRegisterReq k L this req w).2 := by
  have hf0 : Frame w (w.modify this
      (fun s => { s with fDevice := (L.GetDevInfo req (w.sessions this).fDevice).2 })) :=
    frame_modify _ _ _ _ (frame_refl _) (fun t => ⟨rfl, rfl, rfl, rfl⟩)
  have h0 := registry_frame L _ _ hf0 h
  unfold ExecNetMsgDSRegisterReq
  dsimp only
  split_ifs with hinfo hauth hne hne
  · exact h0
  · exact registry_registerAttempt k L this req _ hauth h0
  · exact registry_frame L _ _ (frame_modify _ _ _ _ (frame_refl _)
      (fun t => ⟨rfl, rfl, rfl, rfl⟩)) (registry_registerAttempt k L this req _ hauth h0)
  · exact h0
  · exact registry_frame L _ _ (frame_modify _ _ _ _ (frame_refl _)
      (fun t => ⟨rfl, rfl, rfl, rfl⟩)) h0

/-- The handler selected by the dispatcher keeps the registry invariant. -/
theorem registry_dispatch (k : Consts) (L : Lib) (hk : Hooks) (this : Nat) (body : EasyProtocol)
    (w : World) (h : RegistryInv L w ∧ TypesKnown L w) :
    RegistryInv L (dispatch k hk (handlers k L hk) this body w).1.2
    ∧ TypesKnown L (dispatch k hk (handlers k L hk) this body w).1.2 := by
  unfold dispatch handlers
  dsimp only
  split_ifs
  · exact registry_register k L this body w h
  · exact registry_frame L _ _ (getStream_frame k hk this body w) h
  · exact registry_frame L _ _ (pushStreamAck_frame k this body w) h
  · exact registry_frame L _ _ (freeStream_frame k L hk this body w) h
  · exact registry_frame L _ _ (streamStopAck_frame k this body w) h
  · exact registry_frame L _ _ (deviceList_frame k L this body w) h
  · exact registry_frame L _ _ (cameraList_frame k L this body w) h
  · exact registry_frame L _ _ (postSnap_frame k L this body w) h
  · exact registry_frame L _ _ (errorReqHandler_frame k k.httpNotImplemented this w) h

/-- The dispatcher keeps the registry invariant. -/
theorem registry_ProcessRequest (k : Consts) (L : Lib) (hk : Hooks) (this : Nat) (w : World)
    (h : RegistryInv L w ∧ TypesKnown L w) :
    RegistryInv L (ProcessRequest k hk (handlers k L hk) this w).2
    ∧ TypesKnown L (ProcessRequest k hk (handlers k L hk) this w).2 := by
  unfold ProcessRequest
  cases (w.sessions this).fRequestBody with
  | none => exact h
  | some body =>
    dsimp only
    split_ifs
    · exact registry_frame L _ _ (frame_modify _ _ _ _ (frame_refl _)
        (fun t => ⟨rfl, rfl, rfl, rfl⟩)) (registry_dispatch k L hk this body w h)
    · exact registry_dispatch k L hk this body w h

/-- Every step of the message handling keeps the registry invariant. -/
theorem registry_step (k : Consts) (L : Lib) (w w1 : World) (hs : HandlerStep k L w w1)
    (h : RegistryInv L w ∧ TypesKnown L w) : RegistryInv L w1 ∧ TypesKnown L w1 := by
  cases hs with
  | receive this body =>
    refine registry_congr L w _ (fun s => ?_) rfl h
    by_cases hs : s = this
    · subst hs; simp [World.modify_sessions]
    · simp [World.modify_sessions, hs]
  | handle this hk now opened =>
    exact registry_ProcessRequest k { L with NowTime := now, fopen := opened } hk this w h

/-- C15: in every world the message handling reaches from a world of fresh
sessions (unauthenticated, session type `EasyHTTPSession`, empty device table),
whatever messages the sessions receive and whatever the role modules, the clock
and `fopen` deliver, a session is designated by an entry of the device table if
and only if it is authenticated and its session type is camera or NVR. -/
theorem C15_registry_invariant (k : Consts) (L : Lib) (w : World)
    (h : HandlerReachable k L w) : RegistryInv L w := by
  have hJ : RegistryInv L w ∧ TypesKnown L w := by
    induction h with
    | init w h => exact registry_fresh L w h
    | step w w1 _ hs ih => exact registry_step k L w w1 hs ih
  exact hJ.1

/-- C15 at the sample world: after session 1 registered as the camera `CAM001`
through the dispatcher, the table designates session 1 and the invariant holds. -/
theorem C15_registry_invariant_witness :
    worldDispatched.fDeviceSessionMap = [OSRefEx.mk "CAM001" 1 0]
    ∧ RegistryInv sampleLib worldDispatched :=
  ⟨by decide,
   C15_registry_invariant sampleConsts sampleLib worldDispatched
    (HandlerReachable.step _ _
      (HandlerReachable.step _ _
        (HandlerReachable.init freshWorld ⟨rfl, fun _ => ⟨rfl, rfl⟩⟩)
        (HandlerStep.receive freshWorld 1 (registerReq "CAM001" "EasyCamera")))
      (HandlerStep.handle _ 1 hooksS4 sampleLib.NowTime sampleLib.fopen))⟩

/-! ## C23: device messages on an unauthenticated session -/

/-- The handler result `httpUnAuthorized` is an error for the dispatcher. -/
theorem unAuthorized_ne_noErr (k : Consts) (hwf : k.WellFormed) :
    k.httpUnAuthorized ≠ k.QTSS_NoErr := by
  have h := hwf.2.2.2.1
  simp only [Consts.errCases, List.mem_cons, not_or] at h
  exact fun e => h.2.1 e.symm

/-- The three device handlers that test the authentication return
`httpUnAuthorized` and leave the world as it is on an unauthenticated session. -/
theorem unauthenticated_handlers (k : Consts) (L : Lib) (this : Nat) (body : EasyProtocol)
    (w : World) (hauth : (w.sessions this).fAuthenticated = false) :
    ExecNetMsgDSPushStreamAck k this body w = (k.httpUnAuthorized, w)
    ∧ ExecNetMsgDSStreamStopAck k this body w = (k.httpUnAuthorized, w)
    ∧ ExecNetMsgDSPostSnapReq k L this body w = (k.httpUnAuthorized, w) := by
  refine ⟨?_, ?_, ?_⟩
  · simp [ExecNetMsgDSPushStreamAck, hauth]
  · simp [ExecNetMsgDSStreamStopAck, hauth]
  · simp [ExecNetMsgDSPostSnapReq, hauth]

/-- C23: a `MSG_DS_PUSH_STREAM_ACK`, `MSG_DS_STREAM_STOP_ACK` or
`MSG_DS_POST_SNAP_REQ` on an unauthenticated session, whatever its body holds:
the handler returns `httpUnAuthorized` without touching the world, and the
dispatcher puts on the session's output one reply with the request's CSeq and
`EASY_ERROR_CLIENT_UNAUTHORIZED`. No pending map, wait slot, holder count or
device record of any session changes, no other session gets output, and the
device table and the snapshot files are the ones before. -/
theorem C23_unauthorized_changes_nothing (k : Consts) (L : Lib) (hk : Hooks) (this : Nat)
    (body : EasyProtocol) (w : World) (hwf : k.WellFormed)
    (hbody : (w.sessions this).fRequestBody = some body)
    (hauth : (w.sessions this).fAuthenticated = false)
    (htype : body.MessageType = k.MSG_DS_PUSH_STREAM_ACK
      ∨ body.MessageType = k.MSG_DS_STREAM_STOP_ACK
      ∨ body.MessageType = k.MSG_DS_POST_SNAP_REQ) :
    (dispatch k hk (handlers k L hk) this body w).1 = (k.httpUnAuthorized, w)
    ∧ ProcessRequest k hk (handlers k L hk) this w
        = (k.httpUnAuthorized,
            w.modify this (Put (HTTPPacket.mk k.httpOK
              (some (EasyProtocolACK.mk (dispatch k hk (handlers k L hk) this body w).2 body.CSeq
                (some k.EASY_ERROR_CLIENT_UNAUTHORIZED) [] [])) false)))
    ∧ (∀ s, ((ProcessRequest k hk (handlers k L hk) this w).2.sessions s).fMsgMap
          = (w.sessions s).fMsgMap
        ∧ ((ProcessRequest k hk (handlers k L hk) this w).2.sessions s).fInfo = (w.sessions s).fInfo
        ∧ ((ProcessRequest k hk (handlers k L hk) this w).2.sessions s).fObjectHolders
          = (w.sessions s).fObjectHolders
        ∧ ((ProcessRequest k hk (handlers k L hk) this w).2.sessions s).fDevice
          = (w.sessions s).fDevice
        ∧ ((ProcessRequest k hk (handlers k L hk) this w).2.sessions s).fAuthenticated
          = (w.sessions s).fAuthenticated)
    ∧ (∀ s, s ≠ this →
        ((ProcessRequest k hk (handlers k L hk) this w).2.sessions s).fOutputStream
          = (w.sessions s).fOutputStream)
    ∧ (ProcessRequest k hk (handlers k L hk) this w).2.fSnapFiles = w.fSnapFiles
    ∧ (ProcessRequest k hk (handlers k L hk) this w).2.fDeviceSessionMap
        = w.fDeviceSessionMap := by
  obtain ⟨h1, h2, h3⟩ := unauthenticated_handlers k L this body w hauth
  have hne := unAuthorized_ne_noErr k hwf
  have herr := (errorNumOf_cases k hwf).2.1
  have hd : (dispatch k hk (handlers k L hk) this body w).1 = (k.httpUnAuthorized, w) := by
    rcases htype with h | h | h
    · rw [dispatch_pushStreamAck k hk _ this body w hwf h]; exact h1
    · rw [dispatch_streamStopAck k hk _ this body w hwf h]; exact h2
    · rw [dispatch_postSnap k hk _ this body w hwf h]; exact h3
  have hp : ProcessRequest k hk (handlers k L hk) this w
      = (k.httpUnAuthorized,
          w.modify this (Put (HTTPPacket.mk k.httpOK
            (some (EasyProtocolACK.mk (dispatch k hk (handlers k L hk) this body w).2 body.CSeq
              (some k.EASY_ERROR_CLIENT_UNAUTHORIZED) [] [])) false))) := by
    rw [ProcessRequest_eq k hk _ this body w hbody, hd]
    simp [hne, errorReply, herr]
  refine ⟨hd, hp, ?_, ?_, ?_, ?_⟩
  · intro s
    rw [hp]
    simp only [World.modify_sessions]
    split_ifs with hs
    · subst hs; exact ⟨rfl, rfl, rfl, rfl, rfl⟩
    · exact ⟨rfl, rfl, rfl, rfl, rfl⟩
  · intro s hs
    rw [hp]
    simp only [World.modify_sessions, hs, if_false]
  · rw [hp]; rfl
  · rw [hp]; rfl

/-- C23 at the sample world: the snapshot message on the unauthenticated session
3 writes no file and is answered with the code 401. -/
theorem C23_unauthorized_changes_nothing_witness :
    (ProcessRequest sampleConsts hooksS4 (handlers sampleConsts sampleLib hooksS4) 3
        worldSnapUnauth).2.fSnapFiles = []
    ∧ (ProcessRequest sampleConsts hooksS4 (handlers sampleConsts sampleLib hooksS4) 3
        worldSnapUnauth).1 = sampleConsts.httpUnAuthorized :=
  ⟨(C23_unauthorized_changes_nothing sampleConsts sampleLib hooksS4 3 snapReq worldSnapUnauth
      (by decide) (by decide) (by decide) (Or.inr (Or.inr (by decide)))).2.2.2.2.1,
   congrArg Prod.fst
    (C23_unauthorized_changes_nothing sampleConsts sampleLib hooksS4 3 snapReq worldSnapUnauth
      (by decide) (by decide) (by decide) (Or.inr (Or.inr (by decide)))).2.1⟩

/-! ## C21: which requests `SetupRequest` treats as JSON-bodied -/

/-- C21, the part of the claim that fails: the parsed requests with the path
`foo`, which is none of the REST routes. Without content length `SetupRequest`
returns `QTSS_NoErr`, not a protocol error, and puts the exception message with
the connection-close header; with the content length 3 and three bytes ready to
be read it does the same and reads no body. -/
theorem C21_other_path_exception :
    ¬ isRestRoute (split (eraseSlashTail (to_lower "foo")))
    ∧ (SetupRequest sampleConsts sampleLib sampleRest (pathRequest "foo" 0) (0, []) 0
        freshWorld).1 = sampleConsts.QTSS_NoErr
    ∧ ((SetupRequest sampleConsts sampleLib sampleRest (pathRequest "foo" 0) (0, []) 0
        freshWorld).2.sessions 0).fOutputStream = [exceptionAck sampleConsts]
    ∧ (SetupRequest sampleConsts sampleLib sampleRest (pathRequest "foo" 3) (0, [104, 105, 33]) 0
        freshWorld).1 = sampleConsts.QTSS_NoErr
    ∧ ((SetupRequest sampleConsts sampleLib sampleRest (pathRequest "foo" 3) (0, [104, 105, 33]) 0
        freshWorld).2.sessions 0).fRequestBody = none
    ∧ ((SetupRequest sampleConsts sampleLib sampleRest (pathRequest "foo" 3) (0, [104, 105, 33]) 0
        freshWorld).2.sessions 0).fContentBody = none
    ∧ (SetupRequest sampleConsts sampleLib sampleRest (pathRequest "" 0) (0, []) 0
        freshWorld).1 = sampleConsts.QTSS_BadArgument := by
  decide

/-- C21 (amended): for a request that `Parse` accepts. When the path is NULL or
empty the request is JSON-bodied: `SetupRequest` is the reading of the content
body, which returns `QTSS_BadArgument` and changes nothing when the content
length is 0 (header absent, zero or not a number). When the path is not empty
and is none of the three REST routes, `SetupRequest` returns `QTSS_NoErr` and
only puts the `MSG_SC_EXCEPTION` message with the connection-close header on the
session's output: the content length is not looked at and no body is read. -/
theorem C21_json_body_only_without_path (k : Consts) (L : Lib) (rh : RestHandlers)
    (fRequest : HTTPRequest) (Read : Int × List Nat) (this : Nat) (w : World)
    (hparse : fRequest.Parse = k.QTSS_NoErr) :
    (fRequest.RequestPath = none ∨ fRequest.RequestPath = some "" →
      SetupRequest k L rh fRequest Read this w = readContentBody k L fRequest Read this w
      ∧ (fRequest.ContentLength = 0 →
          SetupRequest k L rh fRequest Read this w = (k.QTSS_BadArgument, w)))
    ∧ (∀ path, fRequest.RequestPath = some path → path ≠ "" →
        ¬ isRestRoute (split (eraseSlashTail (to_lower path))) →
      SetupRequest k L rh fRequest Read this w
        = (k.QTSS_NoErr, w.modify this (Put (exceptionAck k)))) := by
  constructor
  · intro hp
    have h1 : SetupRequest k L rh fRequest Read this w
        = readContentBody k L fRequest Read this w := by
      unfold SetupRequest
      rcases hp with hp | hp <;> simp [hparse, hp]
    refine ⟨h1, ?_⟩
    intro h0
    rw [h1]
    simp [readContentBody, h0]
  · intro path hp hne hrest
    have c1 : ¬ ((split (eraseSlashTail (to_lower path))).length = 2
        ∧ (split (eraseSlashTail (to_lower path))).getD 0 "" = "api"
        ∧ (split (eraseSlashTail (to_lower path))).getD 1 "" = "getdevicelist") :=
      fun h => hrest ⟨h.1, h.2.1, Or.inl h.2.2⟩
    have c2 : ¬ ((split (eraseSlashTail (to_lower path))).length = 2
        ∧ (split (eraseSlashTail (to_lower path))).getD 0 "" = "api"
        ∧ (split (eraseSlashTail (to_lower path))).getD 1 "" = "getdeviceinfo") :=
      fun h => hrest ⟨h.1, h.2.1, Or.inr (Or.inl h.2.2)⟩
    have c3 : ¬ ((split (eraseSlashTail (to_lower path))).length = 2
        ∧ (split (eraseSlashTail (to_lower path))).getD 0 "" = "api"
        ∧ (split (eraseSlashTail (to_lower path))).getD 1 "" = "getdevicestream") :=
      fun h => hrest ⟨h.1, h.2.1, Or.inr (Or.inr h.2.2)⟩
    unfold SetupRequest
    simp only [hparse, hp, hne, ne_eq, not_true_eq_false, if_false]
    rw [if_neg c1, if_neg c2, if_neg c3]

/-- C21 (amended), on the sample request with the path `foo`. -/
theorem C21_json_body_only_without_path_witness :
    SetupRequest sampleConsts sampleLib sampleRest (pathRequest "foo" 3) (0, [104, 105, 33]) 0
        freshWorld
      = (sampleConsts.QTSS_NoErr, freshWorld.modify 0 (Put (exceptionAck sampleConsts))) :=
  (C21_json_body_only_without_path sampleConsts sampleLib sampleRest (pathRequest "foo" 3)
    (0, [104, 105, 33]) 0 freshWorld (by decide)).2 "foo" (by decide) (by decide) (by decide)

/-! ## C24: the response for a request that could not be framed -/

/-- C24, where the code leaves the claim: a live session in state
`kReadingRequest` whose `ReadRequest` reports `E2BIG` or `QTSS_BadArgument`. Case
`kHaveCompleteMessage` puts the header with `httpBadRequest` on the output stream
and sets the state `kSendingResponse`, but `ExecNetMsgErrorReqHandler` has
cleared `fLiveSession`: the loop is left after this one pass, whatever the later
passes would have delivered. `Run` returns -1 or 0 by the holder count, and the
output stream with the response has not been flushed. -/
theorem C24_bad_request_not_flushed (k : Consts) (L : Lib) (rh : RestHandlers)
    (io : PassResults) (ios : List PassResults) (this : Nat) (w : World)
    (hstate : (w.sessions this).fState = State.kReadingRequest)
    (hlive : IsLiveSession this w = true)
    (hkill : (w.sessions this).fKillEvent = false)
    (hread : io.ReadRequest = L.E2BIG ∨ io.ReadRequest = k.QTSS_BadArgument)
    (hne : io.ReadRequest ≠ k.QTSS_NoErr) :
    ∃ W, Run_loop k L rh this (io :: ios) k.QTSS_NoErr (Run_prologue (EventFlags.mk false false)
          this w) = some (LoopEnd.left W)
      ∧ Run k L rh (EventFlags.mk false false) (io :: ios) this w
          = some (if (w.sessions this).fObjectHolders = 0 then -1 else 0, CleanupRequest this W)
      ∧ ((CleanupRequest this W).sessions this).fOutputStream
          = (w.sessions this).fOutputStream ++ [HTTPPacket.mk L.httpBadRequest none false]
      ∧ ((CleanupRequest this W).sessions this).fState = State.kSendingResponse
      ∧ ((CleanupRequest this W).sessions this).fLiveSession = false
      ∧ ((CleanupRequest this W).sessions this).fFlushed = (w.sessions this).fFlushed := by
  have hpass : Run_pass k L rh io k.QTSS_NoErr this w
      = some (Pass.next io.ReadRequest
          ((ExecNetMsgErrorReqHandler k L.httpBadRequest this
            ((w.modify this (fun s => { s with fState := State.kHaveCompleteMessage })).modify this
              (fun s => { s with fRequest := some io.Request, fBytesWritten := 0 }))).2.modify this
            (fun s => { s with fState := State.kSendingResponse }))) := by
    unfold Run_pass
    simp only [hstate]
    have hc : ¬ (io.ReadRequest ≠ L.QTSS_RequestArrived ∧ io.ReadRequest ≠ L.E2BIG
        ∧ io.ReadRequest ≠ k.QTSS_BadArgument) := by
      rintro ⟨-, h1, h2⟩
      rcases hread with h | h
      · exact h1 h
      · exact h2 h
    rw [if_neg hne, if_neg hc]
    unfold Run_kHaveCompleteMessage
    simp only [hread, if_true]
  refine ⟨((ExecNetMsgErrorReqHandler k L.httpBadRequest this
      ((w.modify this (fun s => { s with fState := State.kHaveCompleteMessage })).modify this
        (fun s => { s with fRequest := some io.Request, fBytesWritten := 0 }))).2.modify this
        (fun s => { s with fState := State.kSendingResponse })).modify this
        (fun s => { s with fSocketConnected := io.IsConnected }), ?_, ?_, ?_, ?_, ?_, ?_⟩
  · rw [Run_prologue_idle this w hkill]
    rw [Run_loop]
    simp only [hlive, Bool.true_eq_false, if_false, hpass]
    apply Run_loop_not_alive
    simp [IsLiveSession, ExecNetMsgErrorReqHandler, World.modify_sessions]
  · unfold Run
    rw [Run_prologue_idle this w hkill]
    rw [Run_loop]
    simp only [hlive, Bool.true_eq_false, if_false, hpass]
    rw [Run_loop_not_alive]
    · simp [Run_epilogue, CleanupRequest, ExecNetMsgErrorReqHandler, World.modify_sessions, Put]
    · simp [IsLiveSession, ExecNetMsgErrorReqHandler, World.modify_sessions]
  · simp [CleanupRequest, ExecNetMsgErrorReqHandler, World.modify_sessions, Put]
  · simp [CleanupRequest, ExecNetMsgErrorReqHandler, World.modify_sessions, Put]
  · simp [CleanupRequest, ExecNetMsgErrorReqHandler, World.modify_sessions, Put]
  · simp [CleanupRequest, ExecNetMsgErrorReqHandler, World.modify_sessions, Put]

/-- C24 at the sample world: `ReadRequest` reports `E2BIG` for session 0. `Run`
returns -1 although two more passes were available; the response with the
status `httpBadRequest` is on the output stream and none of it is flushed. -/
theorem C24_bad_request_not_flushed_witness :
    (Run sampleConsts sampleLib sampleRest (EventFlags.mk false false)
        [passOverflow, samplePass, samplePass] 0 worldReading).map Prod.fst = some (-1)
    ∧ (Run sampleConsts sampleLib sampleRest (EventFlags.mk false false)
        [passOverflow, samplePass, samplePass] 0 worldReading).map
          (fun r => ((r.2.sessions 0).fOutputStream, (r.2.sessions 0).fFlushed,
            (r.2.sessions 0).fState))
        = some ([HTTPPacket.mk sampleLib.httpBadRequest none false], 0,
            State.kSendingResponse) := by
  obtain ⟨W, -, hrun, hout, hstate, -, hfl⟩ :=
    C24_bad_request_not_flushed sampleConsts sampleLib sampleRest passOverflow
      [samplePass, samplePass] 0 worldReading (by decide) (by decide) (by decide)
      (Or.inl (by decide)) (by decide)
  have h0 : (worldReading.sessions 0).fObjectHolders = 0 := by decide
  have h1 : (worldReading.sessions 0).fOutputStream = [] := by decide
  have h2 : (worldReading.sessions 0).fFlushed = 0 := by decide
  rw [hrun]
  simp only [Option.map_some', h0, if_true, hout, hstate, hfl, h1, h2, List.nil_append,
    and_self]

/-! ## C25: the lookup-hold of the get-stream handler -/

/-- A change of the reference count of a key shows in its lookup-hold. -/
theorem lookupHold_bumpRef (key : String) (delta : Int) (m : List OSRefEx) :
    lookupHold (bumpRef key delta m) key = (lookupHold m key).map (fun x => x + delta) := by
  unfold lookupHold
  induction m with
  | nil => rfl
  | cons r rs ih =>
    by_cases h : r.key = key
    · simp [bumpRef, h, List.find?_cons]
    · simp only [bumpRef, h, if_false, List.find?_cons, decide_False]
      exact ih

/-- The first entry of the get-stream handler when no relay is associated, a
best relay exists and no stream id is minted: the explicit release and the
release of the scoped handle both run. -/
theorem getStream_first_entry_brokered_mint_fails (k : Consts) (hk : Hooks) (c d : Nat)
    (req : EasyProtocol) (w : World) (table : List OSRefEx)
    (hserial : req.GetBodyValue Tag.SERIAL ≠ "")
    (hproto : req.GetBodyValue Tag.PROTOCOL ≠ "")
    (hwait : (w.sessions c).fInfo.bWaitingState = false)
    (hres : Resolve w.fDeviceSessionMap (req.GetBodyValue Tag.SERIAL) = some (d, table))
    (hassoc : (hk.GetAssociatedDarwin (req.GetBodyValue Tag.SERIAL) (channelOf req)).1 = "")
    (hbest : hk.GetBestDarwin.1 ≠ "")
    (hmint : hk.GenStreamID = "") :
    ExecNetMsgCSGetStreamReq k hk c req w
      = (k.EASY_ERROR_SERVER_INTERNAL_ERROR,
          ((({ w with fDeviceSessionMap := table } : World).modify d
            (fun s => { s with fCSeq := s.fCSeq + 1 })).Release
            (req.GetBodyValue Tag.SERIAL)).Release (req.GetBodyValue Tag.SERIAL)) := by
  unfold channelOf at hassoc
  simp only [ExecNetMsgCSGetStreamReq, String.length_le_zero_iff, hserial, hproto, hwait, hres,
    hassoc, hbest, hmint, or_self, if_false, if_true, ne_eq, not_true_eq_false, GetCSeq,
    not_false_eq_true]

/-- On every path of the get-stream handler but the brokered first entry whose
stream id is not minted, the device table after the handler is the one before:
each resolve is undone by one release. -/
theorem getStream_hold_balanced (k : Consts) (hk : Hooks) (c : Nat) (req : EasyProtocol)
    (w : World)
    (h : ¬ ((w.sessions c).fInfo.bWaitingState = false
      ∧ req.GetBodyValue Tag.SERIAL ≠ "" ∧ req.GetBodyValue Tag.PROTOCOL ≠ ""
      ∧ (Resolve w.fDeviceSessionMap (req.GetBodyValue Tag.SERIAL)).isSome
      ∧ (hk.GetAssociatedDarwin (req.GetBodyValue Tag.SERIAL) (channelOf req)).1 = ""
      ∧ hk.GetBestDarwin.1 ≠ "" ∧ hk.GenStreamID = "")) :
    (ExecNetMsgCSGetStreamReq k hk c req w).2.fDeviceSessionMap = w.fDeviceSessionMap := by
  by_cases harg : req.GetBodyValue Tag.SERIAL = "" ∨ req.GetBodyValue Tag.PROTOCOL = ""
  · simp only [ExecNetMsgCSGetStreamReq, String.length_le_zero_iff, harg, if_true]
  · rw [not_or] at harg
    obtain ⟨hserial, hproto⟩ := harg
    by_cases hwait : (w.sessions c).fInfo.bWaitingState = false
    · cases hres : Resolve w.fDeviceSessionMap (req.GetBodyValue Tag.SERIAL) with
      | none =>
        simp only [ExecNetMsgCSGetStreamReq, String.length_le_zero_iff, hserial, hproto, hwait,
          hres, or_self, if_false, if_true]
      | some p =>
        obtain ⟨d, table⟩ := p
        obtain ⟨-, htab⟩ := Resolve_obj _ _ _ _ hres
        have hnot : ¬ ((hk.GetAssociatedDarwin (req.GetBodyValue Tag.SERIAL) (channelOf req)).1
            = "" ∧ hk.GetBestDarwin.1 ≠ "" ∧ hk.GenStreamID = "") := by
          intro h3
          exact h ⟨hwait, hserial, hproto, by simp [hres], h3⟩
        unfold channelOf at hnot
        subst htab
        by_cases ha : (hk.GetAssociatedDarwin (req.GetBodyValue Tag.SERIAL)
            (if req.GetBodyValue Tag.CHANNEL = "" then "0"
             else req.GetBodyValue Tag.CHANNEL)).1 = ""
        · by_cases hb : hk.GetBestDarwin.1 = ""
          · simp only [ExecNetMsgCSGetStreamReq, String.length_le_zero_iff, hserial, hproto,
              hwait, hres, or_self, if_false, if_true, ha, hb, ne_eq, not_true_eq_false]
            simp [World.Release, bumpRef_cancel]
          · by_cases hm : hk.GenStreamID = ""
            · exact absurd ⟨ha, hb, hm⟩ hnot
            · simp only [ExecNetMsgCSGetStreamReq, String.length_le_zero_iff, hserial, hproto,
                hwait, hres, or_self, if_false, if_true, ha, hb, hm, ne_eq, not_true_eq_false,
                GetCSeq, Easy_SendMsg_plain]
              simp [World.Release, World.modify_table, bumpRef_cancel]
        · by_cases hm : hk.GenStreamID = ""
          · simp only [ExecNetMsgCSGetStreamReq, String.length_le_zero_iff, hserial, hproto,
              hwait, hres, or_self, if_false, if_true, ha, hm, ne_eq, not_false_eq_true]
            simp [World.Release, bumpRef_cancel]
          · simp only [ExecNetMsgCSGetStreamReq, String.length_le_zero_iff, hserial, hproto,
              hwait, hres, or_self, if_false, if_true, ha, hm, ne_eq, not_false_eq_true,
              emitGetStreamAck]
            simp [World.Release, World.modify_table, bumpRef_cancel]
    · have hw : (w.sessions c).fInfo.bWaitingState = true := by simpa using hwait
      simp only [ExecNetMsgCSGetStreamReq, String.length_le_zero_iff, hserial, hproto, hw,
        or_self, if_false, emitGetStreamAck, Bool.true_eq_false]
      split_ifs <;> rfl

/-- C25, where the code leaves the claim: on the brokered first entry (device
resolved, no associated relay, a best relay) whose stream id is not minted, the
handler returns `EASY_ERROR_SERVER_INTERNAL_ERROR` after two releases for its one
resolve: the lookup-hold counter of the device's entry is one below its value
before the handler. -/
theorem C25_brokered_mint_failure_releases_twice (k : Consts) (hk : Hooks) (c d : Nat)
    (req : EasyProtocol) (w : World) (table : List OSRefEx)
    (hserial : req.GetBodyValue Tag.SERIAL ≠ "")
    (hproto : req.GetBodyValue Tag.PROTOCOL ≠ "")
    (hwait : (w.sessions c).fInfo.bWaitingState = false)
    (hres : Resolve w.fDeviceSessionMap (req.GetBodyValue Tag.SERIAL) = some (d, table))
    (hassoc : (hk.GetAssociatedDarwin (req.GetBodyValue Tag.SERIAL) (channelOf req)).1 = "")
    (hbest : hk.GetBestDarwin.1 ≠ "")
    (hmint : hk.GenStreamID = "") :
    (ExecNetMsgCSGetStreamReq k hk c req w).1 = k.EASY_ERROR_SERVER_INTERNAL_ERROR
    ∧ lookupHold (ExecNetMsgCSGetStreamReq k hk c req w).2.fDeviceSessionMap
          (req.GetBodyValue Tag.SERIAL)
        = (lookupHold w.fDeviceSessionMap (req.GetBodyValue Tag.SERIAL)).map (fun x => x - 1)
    ∧ lookupHold (ExecNetMsgCSGetStreamReq k hk c req w).2.fDeviceSessionMap
          (req.GetBodyValue Tag.SERIAL)
        ≠ lookupHold w.fDeviceSessionMap (req.GetBodyValue Tag.SERIAL) := by
  obtain ⟨-, htab⟩ := Resolve_obj _ _ _ _ hres
  have hsome : ∃ x, lookupHold w.fDeviceSessionMap (req.GetBodyValue Tag.SERIAL) = some x := by
    unfold Resolve at hres
    unfold lookupHold
    cases hf : w.fDeviceSessionMap.find? (fun r => r.key = req.GetBodyValue Tag.SERIAL) with
    | none => simp [hf] at hres
    | some r => exact ⟨r.refCount, rfl⟩
  have hl : lookupHold (ExecNetMsgCSGetStreamReq k hk c req w).2.fDeviceSessionMap
        (req.GetBodyValue Tag.SERIAL)
      = (lookupHold w.fDeviceSessionMap (req.GetBodyValue Tag.SERIAL)).map (fun x => x - 1) := by
    rw [getStream_first_entry_brokered_mint_fails k hk c d req w table hserial hproto hwait hres
      hassoc hbest hmint, htab]
    simp only [World.Release, World.modify_table, lookupHold_bumpRef]
    obtain ⟨x, hx⟩ := hsome
    rw [hx]
    simp only [Option.map_some', Option.some.injEq]
    omega
  refine ⟨?_, hl, ?_⟩
  · rw [getStream_first_entry_brokered_mint_fails k hk c d req w table hserial hproto hwait hres
      hassoc hbest hmint]
  · rw [hl]
    obtain ⟨x, hx⟩ := hsome
    rw [hx]
    simp

/-- C25 at the sample world: the client's request for `CAM001` with a best relay
and no minted stream id leaves the lookup-hold of `CAM001` at -1; it was 0. -/
theorem C25_brokered_mint_failure_releases_twice_witness :
    lookupHold sampleWorld.fDeviceSessionMap "CAM001" = some 0
    ∧ lookupHold (ExecNetMsgCSGetStreamReq sampleConsts hooksMintFails 0 sampleReq
        sampleWorld).2.fDeviceSessionMap "CAM001" = some (-1) := by
  have h := (C25_brokered_mint_failure_releases_twice sampleConsts hooksMintFails 0 1 sampleReq
    sampleWorld [OSRefEx.mk "CAM001" 1 1] (by decide) (by decide) (by decide) (by decide)
    (by decide) (by decide) (by decide)).2.1
  exact ⟨by decide, h.trans (by decide)⟩

/-! ## C27: the kinds of the pending entries -/

/-- Every world has its own pending maps. -/
theorem sameMaps_refl (w : World) : SameMaps w w := fun _ => rfl

/-- An update of one session that keeps its pending map. -/
theorem sameMaps_modify (w w1 : World) (i : Nat) (f : HTTPSession → HTTPSession)
    (h : SameMaps w w1) (hf : ∀ t, (f t).fMsgMap = t.fMsgMap) : SameMaps w (w1.modify i f) := by
  intro s
  simp only [World.modify_sessions]
  split_ifs with hs
  · subst hs; exact (hf _).trans (h s)
  · exact h s

/-- A release keeps the pending maps. -/
theorem sameMaps_release (w w1 : World) (key : String) (h : SameMaps w w1) :
    SameMaps w (w1.Release key) := h

/-- A new device table keeps the pending maps. -/
theorem sameMaps_table (w w1 : World) (table : List OSRefEx) (h : SameMaps w w1) :
    SameMaps w ({ w1 with fDeviceSessionMap := table } : World) := h

/-- New snapshot files keep the pending maps. -/
theorem sameMaps_snapFiles (w w1 : World) (files : List (String × String)) (h : SameMaps w w1) :
    SameMaps w ({ w1 with fSnapFiles := files } : World) := h

/-- Pending maps agree transitively. -/
theorem sameMaps_trans (w w1 w2 : World) (h1 : SameMaps w w1) (h2 : SameMaps w1 w2) :
    SameMaps w w2 := fun s => (h2 s).trans (h1 s)

/-- The free-stream handler keeps the pending maps. -/
theorem freeStream_sameMaps (k : Consts) (L : Lib) (hk : Hooks) (this : Nat) (req : EasyProtocol)
    (w : World) : SameMaps w (ExecNetMsgCSFreeStreamReq k L hk this req w).2 := by
  unfold ExecNetMsgCSFreeStreamReq
  simp only [GetCSeq, Easy_SendMsg_plain]
  repeat' split
  all_goals
    dsimp only
    repeat (first
      | exact sameMaps_refl _
      | apply sameMaps_release
      | apply sameMaps_table
      | refine sameMaps_modify _ _ _ _ ?_ (fun t => rfl))

/-- The stream-stop-ack handler keeps the pending maps. -/
theorem streamStopAck_sameMaps (k : Consts) (this : Nat) (req : EasyProtocol) (w : World) :
    SameMaps w (ExecNetMsgDSStreamStopAck k this req w).2 := by
  unfold ExecNetMsgDSStreamStopAck
  split <;> exact sameMaps_refl _

/-- The device-list handler keeps the pending maps. -/
theorem deviceList_sameMaps (k : Consts) (L : Lib) (this : Nat) (req : EasyProtocol) (w : World) :
    SameMaps w (ExecNetMsgCSDeviceListReq k L this req w).2 := by
  unfold ExecNetMsgCSDeviceListReq
  dsimp only
  exact sameMaps_modify _ _ _ _ (sameMaps_refl _) (fun t => rfl)

/-- The device-info handler keeps the pending maps. -/
theorem cameraList_sameMaps (k : Consts) (L : Lib) (this : Nat) (req : EasyProtocol) (w : World) :
    SameMaps w (ExecNetMsgCSCameraListReq k L this req w).2 := by
  unfold ExecNetMsgCSCameraListReq
  dsimp only
  repeat' split
  all_goals
    dsimp only
    repeat (first
      | exact sameMaps_refl _
      | apply sameMaps_release
      | apply sameMaps_table
      | refine sameMaps_modify _ _ _ _ ?_ (fun t => rfl))

/-- The snapshot handler keeps the pending maps. -/
theorem postSnap_sameMaps (k : Consts) (L : Lib) (this : Nat) (req : EasyProtocol) (w : World) :
    SameMaps w (ExecNetMsgDSPostSnapReq k L this req w).2 := by
  unfold ExecNetMsgDSPostSnapReq
  dsimp only
  repeat' split
  all_goals
    dsimp only
    repeat (first
      | exact sameMaps_refl _
      | apply sameMaps_snapFiles
      | refine sameMaps_modify _ _ _ _ ?_ (fun t => rfl))

/-- The handler of unknown messages keeps the pending maps. -/
theorem errorReqHandler_sameMaps (k : Consts) (errCode : Int) (this : Nat) (w : World) :
    SameMaps w (ExecNetMsgErrorReqHandler k errCode this w).2 := by
  unfold ExecNetMsgErrorReqHandler
  dsimp only
  exact sameMaps_modify _ _ _ _ (sameMaps_modify _ _ _ _ (sameMaps_refl _) (fun t => rfl))
    (fun t => rfl)

/-- The body of the loop of the register handler keeps the pending maps. -/
theorem registerAttempt_sameMaps (k : Consts) (L : Lib) (this : Nat) (req : EasyProtocol)
    (w : World) : SameMaps w (registerAttempt k L this req w).2 := by
  have hc : SameMaps w (classify L (L.GetAppType req) this w) := by
    unfold classify
    split_ifs
    · exact sameMaps_modify _ _ _ _ (sameMaps_refl _) (fun t => rfl)
    · exact sameMaps_modify _ _ _ _ (sameMaps_refl _) (fun t => rfl)
    · exact sameMaps_refl _
  unfold registerAttempt
  dsimp only
  split_ifs
  · exact hc
  · exact hc
  · cases Register (classify L (L.GetAppType req) this w).fDeviceSessionMap
        ((classify L (L.GetAppType req) this w).sessions this).fDevice.serial_ this with
    | some table =>
      dsimp only
      refine sameMaps_modify _ _ _ _ ?_ (fun t => rfl)
      exact fun s => hc s
    | none =>
      dsimp only
      cases Resolve (classify L (L.GetAppType req) this w).fDeviceSessionMap
          ((classify L (L.GetAppType req) this w).sessions this).fDevice.serial_ with
      | none => exact hc
      | some p =>
        dsimp only [Signal_kKillEvent, World.Release]
        have h2 : SameMaps w
            (({ classify L (L.GetAppType req) this w with fDeviceSessionMap := p.2 } : World).modify
              p.1 (fun s => { s with fKillEvent := true })) :=
          sameMaps_modify _ _ _ _ (fun s => hc s) (fun t => rfl)
        exact fun s => h2 s

/-- The register handler keeps the pending maps. -/
theorem register_sameMaps (k : Consts) (L : Lib) (this : Nat) (req : EasyProtocol)
    (w : World) : SameMaps w (ExecNetMsgDSRegisterReq k L this req w).2 := by
  have h0 : SameMaps w (w.modify this
      (fun s => { s with fDevice := (L.GetDevInfo req (w.sessions this).fDevice).2 })) :=
    sameMaps_modify _ _ _ _ (sameMaps_refl _) (fun t => rfl)
  have h1 := sameMaps_trans _ _ _ h0 (registerAttempt_sameMaps k L this req (w.modify this
      (fun s => { s with fDevice := (L.GetDevInfo req (w.sessions this).fDevice).2 })))
  unfold ExecNetMsgDSRegisterReq
  dsimp only
  split_ifs
  · exact h0
  · exact h1
  · exact sameMaps_modify _ _ _ _ h1 (fun t => rfl)
  · exact h0
  · exact sameMaps_modify _ _ _ _ h0 (fun t => rfl)

/-- The same pending maps have the same kinds. -/
theorem kindInv_sameMaps (k : Consts) (w w1 : World) (h : SameMaps w w1) (hi : KindInv k w) :
    KindInv k w1 := by
  intro s p hp
  rw [h s] at hp
  exact hi s p hp

/-- The get-stream handler inserts entries of kind `MSG_CS_GET_STREAM_REQ` only. -/
theorem kindInv_getStream (k : Consts) (hk : Hooks) (c : Nat) (req : EasyProtocol) (w : World)
    (hi : KindInv k w) : KindInv k (ExecNetMsgCSGetStreamReq k hk c req w).2 := by
  rcases (getStream_effect k hk c req w).2 with h | ⟨d, -, h⟩
  · exact kindInv_sameMaps k _ _ (fun s => (h s).1) hi
  · intro s p hp
    rw [(h s).1] at hp
    split_ifs at hp with hs
    · unfold InsertToMsgMap at hp
      rcases List.mem_cons.mp hp with hp | hp
      · rw [hp]
      · exact hi d p (List.mem_of_mem_filter hp)
    · exact hi s p hp

/-- The push-stream-ack handler only removes entries. -/
theorem kindInv_pushStreamAck (k : Consts) (d : Nat) (ack : EasyProtocol) (w : World)
    (hi : KindInv k w) : KindInv k (ExecNetMsgDSPushStreamAck k d ack w).2 := by
  rcases (pushStreamAck_effect k d ack w).2 with h | ⟨e, rest, hfind, h⟩
  · exact kindInv_sameMaps k _ _ (fun s => (h s).1) hi
  · obtain ⟨-, hrest⟩ := FindInMsgMap_some _ _ _ _ hfind
    intro s p hp
    rw [(h s).1] at hp
    split_ifs at hp with hs
    · rw [hrest] at hp
      exact hi d p (List.mem_of_mem_filter hp)
    · exact hi s p hp

/-- The handler selected by the dispatcher keeps the kinds. -/
theorem kindInv_dispatch (k : Consts) (L : Lib) (hk : Hooks) (this : Nat) (body : EasyProtocol)
    (w : World) (hi : KindInv k w) :
    KindInv k (dispatch k hk (handlers k L hk) this body w).1.2 := by
  unfold dispatch handlers
  dsimp only
  split_ifs
  · exact kindInv_sameMaps k _ _ (register_sameMaps k L this body w) hi
  · exact kindInv_getStream k hk this body w hi
  · exact kindInv_pushStreamAck k this body w hi
  · exact kindInv_sameMaps k _ _ (freeStream_sameMaps k L hk this body w) hi
  · exact kindInv_sameMaps k _ _ (streamStopAck_sameMaps k this body w) hi
  · exact kindInv_sameMaps k _ _ (deviceList_sameMaps k L this body w) hi
  · exact kindInv_sameMaps k _ _ (cameraList_sameMaps k L this body w) hi
  · exact kindInv_sameMaps k _ _ (postSnap_sameMaps k L this body w) hi
  · exact kindInv_sameMaps k _ _ (errorReqHandler_sameMaps k k.httpNotImplemented this w) hi

/-- Every step of the message handling keeps the kinds. -/
theorem kindInv_step (k : Consts) (L : Lib) (w w1 : World) (hs : HandlerStep k L w w1)
    (hi : KindInv k w) : KindInv k w1 := by
  cases hs with
  | receive this body =>
    exact kindInv_sameMaps k _ _ (sameMaps_modify _ _ _ _ (sameMaps_refl _) (fun t => rfl)) hi
  | handle this hk now opened =>
    unfold ProcessRequest
    cases (w.sessions this).fRequestBody with
    | none => exact hi
    | some body =>
      dsimp only
      split_ifs
      · exact kindInv_sameMaps k _ _
          (sameMaps_modify _ _ _ _ (sameMaps_refl _) (fun t => rfl))
          (kindInv_dispatch k _ hk this body w hi)
      · exact kindInv_dispatch k _ hk this body w hi

/-- C27: in every world the message handling reaches from a world without
pending entries, by any messages on any sessions through `ProcessRequest` with
all handlers, every entry of every pending map has the kind
`MSG_CS_GET_STREAM_REQ`; so the entry that `ExecNetMsgDSPushStreamAck` finds for an
ack has that kind, and the branch for an entry of another kind is not taken. -/
theorem C27_pending_kinds (k : Consts) (L : Lib) (w0 w : World) (h0 : NoPending w0)
    (hr : Relation.ReflTransGen (HandlerStep k L) w0 w) :
    KindInv k w
    ∧ ∀ (this : Nat) (ack : EasyProtocol) (e : strMessage) (rest : List (Nat × strMessage)),
        FindInMsgMap (w.sessions this).fMsgMap (toUInt32 (atoi ack.CSeq)) = some (e, rest) →
        e.iMsgType = k.MSG_CS_GET_STREAM_REQ := by
  have hi : KindInv k w := by
    induction hr with
    | refl =>
      intro s p hp
      rw [h0 s] at hp
      simp at hp
    | tail _ hs ih => exact kindInv_step k L _ _ hs ih
  refine ⟨hi, ?_⟩
  intro this ack e rest hfind
  exact hi this _ (FindInMsgMap_some _ _ _ _ hfind).1

/-- C27 at the sample world: after the camera registered and the client's
get-stream request was brokered, the device's pending map has one entry, of
kind `MSG_CS_GET_STREAM_REQ`. -/
theorem C27_pending_kinds_witness :
    (worldPending.sessions 1).fMsgMap
        = [(0, strMessage.mk sampleConsts.MSG_CS_GET_STREAM_REQ 0 7)]
    ∧ KindInv sampleConsts worldPending :=
  ⟨by decide,
   (C27_pending_kinds sampleConsts sampleLib freshWorld worldPending (fun _ => rfl)
    (Relation.ReflTransGen.tail
      (Relation.ReflTransGen.tail
        (Relation.ReflTransGen.tail
          (Relation.ReflTransGen.tail Relation.ReflTransGen.refl
            (HandlerStep.receive freshWorld 1 (registerReq "CAM001" "EasyCamera")))
          (HandlerStep.handle _ 1 hooksS4 sampleLib.NowTime sampleLib.fopen))
        (HandlerStep.receive worldDispatched 0 sampleReq))
      (HandlerStep.handle _ 0 hooksS4 sampleLib.NowTime sampleLib.fopen))).1⟩

/-! ## C28: the text of the device CSeq -/

/-- The character of a decimal digit is between `'0'` and `'9'` and has the
digit as its distance from `'0'`. -/
theorem digitChar_mod (n : Nat) :
    48 ≤ (Nat.digitChar (n % 10)).toNat ∧ (Nat.digitChar (n % 10)).toNat ≤ 57
    ∧ (Nat.digitChar (n % 10)).toNat - 48 = n % 10 := by
  have h : n % 10 < 10 := Nat.mod_lt _ (by decide)
  generalize n % 10 = r at h
  interval_cases r <;> decide

/-- The digit run `atoi` reads from the decimal digits of `n` is `n`; the digits
are not empty and are digit characters. -/
theorem toDigitsCore_atoiDigits (fuel : Nat) : ∀ (n : Nat) (ds : List Char), n < fuel →
    ∃ pre, Nat.toDigitsCore 10 fuel n ds = pre ++ ds ∧ pre ≠ []
      ∧ (∀ ch ∈ pre, 48 ≤ ch.toNat ∧ ch.toNat ≤ 57)
      ∧ ∀ tail, atoiDigits (pre ++ tail) 0 = atoiDigits tail n := by
  induction fuel with
  | zero => intro n ds h; omega
  | succ fuel ih =>
    intro n ds h
    obtain ⟨d1, d2, d3⟩ := digitChar_mod n
    unfold Nat.toDigitsCore
    dsimp only
    split_ifs with h0
    · refine ⟨[Nat.digitChar (n % 10)], rfl, by simp, ?_, ?_⟩
      · intro ch hch
        rw [List.mem_singleton] at hch
        rw [hch]
        exact ⟨d1, d2⟩
      · intro tail
        have hn : n % 10 = n := by omega
        show atoiDigits (Nat.digitChar (n % 10) :: tail) 0 = atoiDigits tail n
        rw [atoiDigits, if_pos ⟨d1, d2⟩, d3, hn, Nat.zero_mul, Nat.zero_add]
    · obtain ⟨pre, e1, -, e3, e4⟩ := ih (n / 10) (Nat.digitChar (n % 10) :: ds) (by omega)
      refine ⟨pre ++ [Nat.digitChar (n % 10)], ?_, by simp, ?_, ?_⟩
      · rw [e1]; simp
      · intro ch hch
        rcases List.mem_append.mp hch with hch | hch
        · exact e3 ch hch
        · rw [List.mem_singleton] at hch
          rw [hch]
          exact ⟨d1, d2⟩
      · intro tail
        have hn : n / 10 * 10 + n % 10 = n := by omega
        rw [List.append_assoc, e4]
        show atoiDigits (Nat.digitChar (n % 10) :: tail) (n / 10) = atoiDigits tail n
        rw [atoiDigits, if_pos ⟨d1, d2⟩, d3, hn]

/-- The decimal text of a natural number: not empty, digits only, read back by
the digit run of `atoi`. -/
theorem repr_atoiDigits (n : Nat) :
    (Nat.repr n).data ≠ [] ∧ (∀ ch ∈ (Nat.repr n).data, 48 ≤ ch.toNat ∧ ch.toNat ≤ 57)
    ∧ atoiDigits (Nat.repr n).data 0 = n := by
  obtain ⟨pre, e1, e2, e3, e4⟩ := toDigitsCore_atoiDigits (n + 1) n [] (by omega)
  have hr : (Nat.repr n).data = pre := by
    simp only [Nat.repr, Nat.toDigits, e1, List.append_nil, List.asString]
  rw [hr]
  refine ⟨e2, e3, ?_⟩
  have := e4 []
  simpa [atoiDigits] using this

/-- The sign and digits `atoi` reads from the text of an integer give the
integer. -/
theorem atoiSigned_toString (z : Int) :
    atoiSigned ((toString z).toList.dropWhile isspace) = z := by
  cases z with
  | ofNat m =>
    obtain ⟨e2, e3, e4⟩ := repr_atoiDigits m
    have hs : (toString (Int.ofNat m)).toList = (Nat.repr m).data := rfl
    rw [hs]
    cases hd : (Nat.repr m).data with
    | nil => exact absurd hd e2
    | cons c cs =>
      rw [hd] at e3 e4
      have hc := e3 c (List.mem_cons_self _ _)
      have hsp : isspace c = false := by
        simp only [isspace, Bool.or_eq_false_iff, decide_eq_false_iff_not, Bool.and_eq_false_iff]
        omega
      have hm : c ≠ '-' := by
        intro h; rw [h] at hc; revert hc; decide
      have hp : c ≠ '+' := by
        intro h; rw [h] at hc; revert hc; decide
      rw [List.dropWhile_cons_of_neg (by simp [hsp])]
      simp only [atoiSigned, hm, hp, if_false, e4]
      rfl
  | negSucc m =>
    obtain ⟨-, -, e4⟩ := repr_atoiDigits (m + 1)
    have hs : (toString (Int.negSucc m)).toList = '-' :: (Nat.repr (m + 1)).data := rfl
    rw [hs, List.dropWhile_cons_of_neg (by decide)]
    simp only [atoiSigned, if_true, e4]
    rfl

/-- The text of an integer of the 32-bit signed range has at most eleven
characters, all of them of one byte. -/
theorem toString_length (z : Int) (hlo : -2147483648 ≤ z) (hhi : z < 2147483648) :
    (toString z).length ≤ 11 ∧ ∀ ch ∈ (toString z).toList, ch.toNat < 128 := by
  cases z with
  | ofNat m =>
    have hm : m < 10 ^ 10 := by
      have : (m : Int) < 2147483648 := hhi
      omega
    have hl := Nat.repr_length m 10 (by decide) hm
    obtain ⟨-, e3, -⟩ := repr_atoiDigits m
    have hs : toString (Int.ofNat m) = Nat.repr m := rfl
    rw [hs]
    refine ⟨by omega, ?_⟩
    intro ch hch
    have := e3 ch hch
    omega
  | negSucc m =>
    have hm : m + 1 < 10 ^ 10 := by
      have h1 : -2147483648 ≤ Int.negSucc m := hlo
      have h2 : Int.negSucc m = -((m : Int) + 1) := Int.negSucc_eq m
      omega
    have hl := Nat.repr_length (m + 1) 10 (by decide) hm
    obtain ⟨-, e3, -⟩ := repr_atoiDigits (m + 1)
    have hs : toString (Int.negSucc m) = "-" ++ Nat.repr (m + 1) := rfl
    rw [hs]
    refine ⟨?_, ?_⟩
    · rw [String.length_append]
      have : "-".length = 1 := rfl
      omega
    · intro ch hch
      have hch2 : ch ∈ '-' :: (Nat.repr (m + 1)).data := hch
      rcases List.mem_cons.mp hch2 with h | h
      · rw [h]; decide
      · have := e3 ch h
        omega

/-- The function `atoi` reads the text of an integer as that integer, wrapped
to the 32-bit `int`. -/
theorem atoi_toString (z : Int) : atoi (toString z) = toSInt32 z := by
  show toSInt32 (atoiSigned ((toString z).toList.dropWhile isspace)) = _
  rw [atoiSigned_toString]

/-- The text of `sprintf_d`, as a function. -/
theorem sprintf_d_fun : sprintf_d = fun (u : Nat) => toString (toSInt32 (u : Int)) := by
  delta sprintf_d
  exact Eq.refl _

/-- C28: for every unsigned 32-bit `c`, the text the signed `%d` conversion
writes for `c` (`sprintf_d`), parsed by `atoi` and converted to unsigned 32 bits,
is `c` again; the text has at most eleven one-byte characters, so with its
terminator it fits the 16-byte buffer; and an entry inserted under the key `c` is
the one found under the key computed from the echoed text. -/
theorem C28_cseq_text_roundtrip (c : Nat) (hc : c < 4294967296) :
    toUInt32 (atoi (sprintf_d c)) = c
    ∧ (sprintf_d c).length + 1 ≤ 16
    ∧ (∀ ch ∈ (sprintf_d c).toList, ch.toNat < 128)
    ∧ ∀ (m : List (Nat × strMessage)) (msg : strMessage),
        FindInMsgMap (InsertToMsgMap m c msg) (toUInt32 (atoi (sprintf_d c)))
          = some (msg, m.filter (fun p => p.1 ≠ c)) := by
  have hkey : toUInt32 (atoi (sprintf_d c)) = c := by
    rw [sprintf_d_fun, atoi_toString]
    unfold toUInt32 toSInt32
    omega
  have hrange : -2147483648 ≤ toSInt32 (c : Int) ∧ toSInt32 (c : Int) < 2147483648 := by
    unfold toSInt32
    omega
  have htext : (sprintf_d c).length ≤ 11 ∧ ∀ ch ∈ (sprintf_d c).toList, ch.toNat < 128 := by
    rw [sprintf_d_fun]
    exact toString_length (toSInt32 (c : Int)) hrange.1 hrange.2
  refine ⟨hkey, ?_, htext.2, ?_⟩
  · have hl := htext.1
    omega
  · intro m msg
    rw [hkey]
    simp [FindInMsgMap, InsertToMsgMap, List.filter_filter]

/-- C28 at the largest counter: `4294967295` is written as `-1` and read back
as `4294967295`. -/
theorem C28_cseq_text_roundtrip_witness :
    (4294967295 : Nat) < 4294967296
    ∧ sprintf_d 4294967295 = "-1"
    ∧ toUInt32 (atoi (sprintf_d 4294967295)) = 4294967295 :=
  ⟨by decide, by decide, (C28_cseq_text_roundtrip 4294967295 (by decide)).1⟩

/-! ## C26: the content body over successive entries -/

/-- The buffer after a chunk is stored behind the bytes read so far. -/
theorem storeAt_buffered (m : Nat) (p c : List Nat) :
    storeAt (p ++ List.replicate (m - p.length) 0) p.length c
      = (p ++ c) ++ List.replicate (m - (p ++ c).length) 0 := by
  unfold storeAt
  rw [List.take_left', List.drop_append, List.drop_replicate, List.length_append]
  · congr 2
    omega
  · rfl

/-- On the first entry the buffer is created; the entry then goes on as one
that finds the buffer. -/
theorem readContentBody_fresh (k : Consts) (L : Lib) (fRequest : HTTPRequest)
    (Read : Int × List Nat) (this : Nat) (w : World)
    (hn : 0 < fRequest.ContentLength) (hnone : (w.sessions this).fContentBody = none) :
    readContentBody k L fRequest Read this w
      = readContentBody k L fRequest Read this (w.modify this (fun s =>
          { s with fContentBody :=
                     some (List.replicate ((fRequest.ContentLength + 1) % 4294967296) 0),
                   fContentBodyOffset := 0 })) := by
  unfold readContentBody
  have h0 : ¬ fRequest.ContentLength ≤ 0 := by omega
  simp only [h0, if_false, hnone, World.modify_sessions, if_true]

/-- One entry that finds the buffer with the bytes `p`, for a chunk that fits
the content length. -/
theorem readContentBody_step (k : Consts) (L : Lib) (fRequest : HTTPRequest)
    (this : Nat) (w : World) (m : Nat) (p c : List Nat)
    (hn : 0 < fRequest.ContentLength) (hn2 : fRequest.ContentLength < 4294967296)
    (hwb : k.QTSS_NoErr ≠ L.QTSS_WouldBlock)
    (hbuf : (w.sessions this).fContentBody = some (p ++ List.replicate (m - p.length) 0))
    (hoff : (w.sessions this).fContentBodyOffset = p.length)
    (hle : p.length + c.length ≤ fRequest.ContentLength) :
    (p.length + c.length < fRequest.ContentLength →
      (readContentBody k L fRequest (k.QTSS_NoErr, c) this w).1 = L.QTSS_WouldBlock
      ∧ ((readContentBody k L fRequest (k.QTSS_NoErr, c) this w).2.sessions this).fContentBody
          = some ((p ++ c) ++ List.replicate (m - (p ++ c).length) 0)
      ∧ ((readContentBody k L fRequest (k.QTSS_NoErr, c) this w).2.sessions this).fContentBodyOffset
          = (p ++ c).length)
    ∧ (p.length + c.length = fRequest.ContentLength →
      (readContentBody k L fRequest (k.QTSS_NoErr, c) this w).1 = k.QTSS_NoErr
      ∧ ((readContentBody k L fRequest (k.QTSS_NoErr, c) this w).2.sessions this).fRequestBody
          = some (L.parseBody ((p ++ c) ++ List.replicate (m - (p ++ c).length) 0))
      ∧ ((readContentBody k L fRequest (k.QTSS_NoErr, c) this w).2.sessions this).fContentBodyOffset
          = 0
      ∧ ((readContentBody k L fRequest (k.QTSS_NoErr, c) this w).2.sessions this).fContentBody
          = none) := by
  have h0 : ¬ fRequest.ContentLength ≤ 0 := by omega
  have hsub : subUInt32 fRequest.ContentLength p.length = fRequest.ContentLength - p.length := by
    unfold subUInt32
    omega
  have htake : c.take (fRequest.ContentLength - p.length) = c :=
    List.take_of_length_le (by omega)
  have herr : ¬ (k.QTSS_NoErr ≠ k.QTSS_NoErr ∧ k.QTSS_NoErr ≠ L.EAGAIN) := fun h => h.1 rfl
  unfold readContentBody
  simp only [h0, if_false, hbuf, hoff, Option.getD_some, hsub, htake, storeAt_buffered, herr,
    hwb, false_or]
  constructor
  · intro hlt
    have hshort : c.length < fRequest.ContentLength - p.length := by omega
    have hmod : (p.length + c.length) % 4294967296 = p.length + c.length :=
      Nat.mod_eq_of_lt (by omega)
    simp only [hshort, if_true, World.modify_sessions, hmod, List.length_append, and_self]
  · intro heq
    have hfull : ¬ c.length < fRequest.ContentLength - p.length := by omega
    simp only [hfull, if_false, World.modify_sessions, if_true, and_self]

/-- A parsed request without a path is handed to the reading of the content
body. -/
theorem SetupRequest_body (k : Consts) (L : Lib) (rh : RestHandlers) (fRequest : HTTPRequest)
    (Read : Int × List Nat) (this : Nat) (w : World)
    (hparse : fRequest.Parse = k.QTSS_NoErr)
    (hpath : fRequest.RequestPath = none ∨ fRequest.RequestPath = some "") :
    SetupRequest k L rh fRequest Read this w = readContentBody k L fRequest Read this w := by
  unfold SetupRequest
  rcases hpath with hp | hp <;> simp [hparse, hp]

/-- One entry of `SetupRequest` for a chunk that fits the content length, from
a session whose buffer holds the bytes `p`. -/
theorem SetupRequest_entry (k : Consts) (L : Lib) (rh : RestHandlers) (fRequest : HTTPRequest)
    (this : Nat) (w : World) (p c : List Nat)
    (hparse : fRequest.Parse = k.QTSS_NoErr)
    (hpath : fRequest.RequestPath = none ∨ fRequest.RequestPath = some "")
    (hn : 0 < fRequest.ContentLength) (hn2 : fRequest.ContentLength < 4294967296)
    (hwb : k.QTSS_NoErr ≠ L.QTSS_WouldBlock)
    (hb : Buffered ((fRequest.ContentLength + 1) % 4294967296) this p w)
    (hle : p.length + c.length ≤ fRequest.ContentLength) :
    (p.length + c.length < fRequest.ContentLength →
      (SetupRequest k L rh fRequest (k.QTSS_NoErr, c) this w).1 = L.QTSS_WouldBlock
      ∧ Buffered ((fRequest.ContentLength + 1) % 4294967296) this (p ++ c)
          (SetupRequest k L rh fRequest (k.QTSS_NoErr, c) this w).2
      ∧ ((SetupRequest k L rh fRequest (k.QTSS_NoErr, c) this w).2.sessions this).fContentBodyOffset
          = p.length + c.length)
    ∧ (p.length + c.length = fRequest.ContentLength →
      (SetupRequest k L rh fRequest (k.QTSS_NoErr, c) this w).1 = k.QTSS_NoErr
      ∧ ((SetupRequest k L rh fRequest (k.QTSS_NoErr, c) this w).2.sessions this).fRequestBody
          = some (L.parseBody ((p ++ c) ++ List.replicate
              ((fRequest.ContentLength + 1) % 4294967296 - fRequest.ContentLength) 0))
      ∧ ((SetupRequest k L rh fRequest (k.QTSS_NoErr, c) this w).2.sessions this).fContentBodyOffset
          = 0
      ∧ ((SetupRequest k L rh fRequest (k.QTSS_NoErr, c) this w).2.sessions this).fContentBody
          = none) := by
  rw [SetupRequest_body k L rh fRequest _ this w hparse hpath]
  have key : ∀ w1 : World,
      (w1.sessions this).fContentBody
        = some (p ++ List.replicate ((fRequest.ContentLength + 1) % 4294967296 - p.length) 0) →
      (w1.sessions this).fContentBodyOffset = p.length →
      (p.length + c.length < fRequest.ContentLength →
        (readContentBody k L fRequest (k.QTSS_NoErr, c) this w1).1 = L.QTSS_WouldBlock
        ∧ Buffered ((fRequest.ContentLength + 1) % 4294967296) this (p ++ c)
            (readContentBody k L fRequest (k.QTSS_NoErr, c) this w1).2
        ∧ ((readContentBody k L fRequest (k.QTSS_NoErr, c) this w1).2.sessions
              this).fContentBodyOffset = p.length + c.length)
      ∧ (p.length + c.length = fRequest.ContentLength →
        (readContentBody k L fRequest (k.QTSS_NoErr, c) this w1).1 = k.QTSS_NoErr
        ∧ ((readContentBody k L fRequest (k.QTSS_NoErr, c) this w1).2.sessions this).fRequestBody
            = some (L.parseBody ((p ++ c) ++ List.replicate
                ((fRequest.ContentLength + 1) % 4294967296 - fRequest.ContentLength) 0))
        ∧ ((readContentBody k L fRequest (k.QTSS_NoErr, c) this w1).2.sessions
              this).fContentBodyOffset = 0
        ∧ ((readContentBody k L fRequest (k.QTSS_NoErr, c) this w1).2.sessions this).fContentBody
            = none) := by
    intro w1 hbuf hoff
    obtain ⟨s1, s2⟩ := readContentBody_step k L fRequest this w1 _ p c hn hn2 hwb hbuf hoff hle
    constructor
    · intro hlt
      obtain ⟨a1, a2, a3⟩ := s1 hlt
      exact ⟨a1, Or.inr ⟨a2, a3⟩, by rw [a3, List.length_append]⟩
    · intro heq
      obtain ⟨a1, a2, a3, a4⟩ := s2 heq
      refine ⟨a1, ?_, a3, a4⟩
      rw [a2, List.length_append, heq]
  rcases hb with ⟨hnone, hp⟩ | ⟨hbuf, hoff⟩
  · rw [readContentBody_fresh k L fRequest _ this w hn hnone]
    apply key
    · simp [hp]
    · simp [hp]
  · exact key w hbuf hoff

/-- The running sums stay within the total. -/
theorem prefixSums_le (cs : List (List Nat)) : ∀ (acc o : Nat), o ∈ prefixSums acc cs →
    o ≤ acc + cs.flatten.length := by
  induction cs with
  | nil => intro acc o h; simp [prefixSums] at h
  | cons c cs ih =>
    intro acc o h
    simp only [prefixSums, List.mem_cons] at h
    simp only [List.flatten_cons, List.length_append]
    rcases h with h | h
    · omega
    · have := ih _ _ h
      omega

/-- The first of several entries. -/
theorem feedChunks_cons (k : Consts) (L : Lib) (rh : RestHandlers) (fRequest : HTTPRequest)
    (this : Nat) (c : List Nat) (cs : List (List Nat)) (w : World) :
    feedChunks k L rh fRequest this (c :: cs) w
      = (((SetupRequest k L rh fRequest (k.QTSS_NoErr, c) this w).1,
          ((SetupRequest k L rh fRequest (k.QTSS_NoErr, c) this w).2.sessions
            this).fContentBodyOffset)
          :: (feedChunks k L rh fRequest this cs
                (SetupRequest k L rh fRequest (k.QTSS_NoErr, c) this w).2).1,
         (feedChunks k L rh fRequest this cs
            (SetupRequest k L rh fRequest (k.QTSS_NoErr, c) this w).2).2) := rfl

/-- The entries of `SetupRequest` for a body that arrives in the chunks `init`
and then `last`, from a session whose buffer holds the bytes `p`. -/
theorem feedChunks_buffered (k : Consts) (L : Lib) (rh : RestHandlers) (fRequest : HTTPRequest)
    (this : Nat) (last : List Nat)
    (hparse : fRequest.Parse = k.QTSS_NoErr)
    (hpath : fRequest.RequestPath = none ∨ fRequest.RequestPath = some "")
    (hn : 0 < fRequest.ContentLength) (hn2 : fRequest.ContentLength < 4294967296)
    (hwb : k.QTSS_NoErr ≠ L.QTSS_WouldBlock) :
    ∀ (init : List (List Nat)) (p : List Nat) (w : World),
      Buffered ((fRequest.ContentLength + 1) % 4294967296) this p w →
      p.length + init.flatten.length < fRequest.ContentLength →
      p.length + init.flatten.length + last.length = fRequest.ContentLength →
      (feedChunks k L rh fRequest this (init ++ [last]) w).1
          = (prefixSums p.length init).map (fun o => (L.QTSS_WouldBlock, o))
              ++ [(k.QTSS_NoErr, 0)]
      ∧ ((feedChunks k L rh fRequest this (init ++ [last]) w).2.sessions this).fRequestBody
          = some (L.parseBody ((p ++ init.flatten ++ last) ++ List.replicate
              ((fRequest.ContentLength + 1) % 4294967296 - fRequest.ContentLength) 0))
      ∧ ((feedChunks k L rh fRequest this (init ++ [last]) w).2.sessions this).fContentBodyOffset
          = 0
      ∧ ((feedChunks k L rh fRequest this (init ++ [last]) w).2.sessions this).fContentBody
          = none := by
  intro init
  induction init with
  | nil =>
    intro p w hb hlt htot
    simp only [List.flatten_nil, List.length_nil, Nat.add_zero] at hlt htot
    obtain ⟨a1, a2, a3, a4⟩ :=
      (SetupRequest_entry k L rh fRequest this w p last hparse hpath hn hn2 hwb hb
        (by omega)).2 htot
    rw [List.nil_append, feedChunks_cons]
    refine ⟨?_, ?_, a3, a4⟩
    · dsimp only [feedChunks]
      rw [a1, a3]
      simp only [prefixSums, List.map_nil, List.nil_append]
    · dsimp only [feedChunks]
      rw [a2]
      simp only [List.flatten_nil, List.append_nil]
  | cons c init ih =>
    intro p w hb hlt htot
    simp only [List.flatten_cons, List.length_append] at hlt htot
    obtain ⟨a1, a2, a3⟩ :=
      (SetupRequest_entry k L rh fRequest this w p c hparse hpath hn hn2 hwb hb
        (by omega)).1 (by omega)
    obtain ⟨b1, b2, b3, b4⟩ := ih (p ++ c) _ a2
      (by rw [List.length_append]; omega) (by rw [List.length_append]; omega)
    rw [List.length_append] at b1
    rw [List.cons_append, feedChunks_cons]
    refine ⟨?_, ?_, b3, b4⟩
    · dsimp only
      rw [a1, a3, b1]
      simp only [prefixSums, List.map_cons, List.cons_append]
    · dsimp only
      rw [b2]
      simp only [List.flatten_cons, List.append_assoc]

/-- C26, with the place where the code leaves the claim. A parsed request
without a path has the content length `n`, `0 < n < 2^32`, and its body arrives
over successive entries of `SetupRequest` as the chunks `init` and then `last`,
the lengths of `init` summing to less than `n` and all lengths to `n`. Every
entry but the last returns `QTSS_WouldBlock` with the stored offset equal to the
sum of the lengths so far, which is below `n`, so that the read asks for
`n - offset` bytes; the last entry returns `QTSS_NoErr` with the offset 0 and the
buffer attribute cleared. The body handed on is the chunks in arrival order
followed by one zero byte, except for `n = 4294967295`: there `content_length + 1`
wraps to 0 and the body is the chunks alone, with no byte behind them. -/
theorem C26_body_buffering (k : Consts) (L : Lib) (rh : RestHandlers) (fRequest : HTTPRequest)
    (this : Nat) (w : World) (init : List (List Nat)) (last : List Nat)
    (hparse : fRequest.Parse = k.QTSS_NoErr)
    (hpath : fRequest.RequestPath = none ∨ fRequest.RequestPath = some "")
    (hn : 0 < fRequest.ContentLength) (hn2 : fRequest.ContentLength < 4294967296)
    (hwb : k.QTSS_NoErr ≠ L.QTSS_WouldBlock)
    (hfresh : (w.sessions this).fContentBody = none)
    (hbelow : init.flatten.length < fRequest.ContentLength)
    (htotal : init.flatten.length + last.length = fRequest.ContentLength) :
    (feedChunks k L rh fRequest this (init ++ [last]) w).1
        = (prefixSums 0 init).map (fun o => (L.QTSS_WouldBlock, o)) ++ [(k.QTSS_NoErr, 0)]
    ∧ (∀ o ∈ prefixSums 0 init, o < fRequest.ContentLength
        ∧ subUInt32 fRequest.ContentLength o = fRequest.ContentLength - o)
    ∧ ((feedChunks k L rh fRequest this (init ++ [last]) w).2.sessions this).fRequestBody
        = some (L.parseBody ((init.flatten ++ last)
            ++ (if fRequest.ContentLength = 4294967295 then [] else [0])))
    ∧ ((feedChunks k L rh fRequest this (init ++ [last]) w).2.sessions this).fContentBodyOffset = 0
    ∧ ((feedChunks k L rh fRequest this (init ++ [last]) w).2.sessions this).fContentBody
        = none := by
  obtain ⟨a1, a2, a3, a4⟩ := feedChunks_buffered k L rh fRequest this last hparse hpath hn hn2
    hwb init [] w (Or.inl ⟨hfresh, rfl⟩) (by simpa using hbelow) (by simpa using htotal)
  refine ⟨a1, ?_, ?_, a3, a4⟩
  · intro o ho
    have h1 := prefixSums_le init 0 o ho
    have h2 : o < fRequest.ContentLength := by omega
    refine ⟨h2, ?_⟩
    unfold subUInt32
    omega
  · rw [a2, List.nil_append]
    by_cases hmax : fRequest.ContentLength = 4294967295
    · rw [if_pos hmax, hmax]
      rfl
    · rw [if_neg hmax]
      have hm : (fRequest.ContentLength + 1) % 4294967296 - fRequest.ContentLength = 1 := by
        omega
      rw [hm]
      rfl

/-- C26 on the sample world: the body `hi!` of a request with the content
length 3 arrives on session 0 as one byte, one byte and one byte. -/
theorem C26_body_buffering_witness :
    (feedChunks sampleConsts sampleLib sampleRest (bodyRequest 3) 0
        ([[104], [105]] ++ [[33]]) freshWorld).1
      = (prefixSums 0 [[104], [105]]).map (fun o => (sampleLib.QTSS_WouldBlock, o))
          ++ [(sampleConsts.QTSS_NoErr, 0)]
    ∧ (feedChunks sampleConsts sampleLib sampleRest (bodyRequest 3) 0
        [[104], [105], [33]] freshWorld).1 = [(-14, 1), (-14, 2), (0, 0)] :=
  ⟨(C26_body_buffering sampleConsts sampleLib sampleRest (bodyRequest 3) 0 freshWorld
      [[104], [105]] [33] (by decide) (by decide) (by decide) (by decide) (by decide)
      (by decide) (by decide) (by decide)).1,
   by decide⟩

/-- The content length `4294967295`: the entry that receives the whole body
hands the bytes on with nothing behind them, the buffer having been created with
`(4294967295 + 1) mod 2^32 = 0` bytes. -/
theorem SetupRequest_max_length (k : Consts) (L : Lib) (rh : RestHandlers)
    (fRequest : HTTPRequest) (this : Nat) (w : World) (data : List Nat)
    (hparse : fRequest.Parse = k.QTSS_NoErr)
    (hpath : fRequest.RequestPath = none ∨ fRequest.RequestPath = some "")
    (hmax : fRequest.ContentLength = 4294967295)
    (hwb : k.QTSS_NoErr ≠ L.QTSS_WouldBlock)
    (hfresh : (w.sessions this).fContentBody = none)
    (hlen : data.length = 4294967295) :
    (SetupRequest k L rh fRequest (k.QTSS_NoErr, data) this w).1 = k.QTSS_NoErr
    ∧ ((SetupRequest k L rh fRequest (k.QTSS_NoErr, data) this w).2.sessions this).fRequestBody
        = some (L.parseBody data) := by
  obtain ⟨a1, a2, -, -⟩ :=
    (SetupRequest_entry k L rh fRequest this w [] data hparse hpath (by omega) (by omega) hwb
      (Or.inl ⟨hfresh, rfl⟩) (by simp [hlen, hmax])).2 (by simp [hlen, hmax])
  refine ⟨a1, ?_⟩
  rw [a2, hmax]
  simp

/-- The content length `4294967295`, first entry with one byte: the byte is
stored although the buffer was created with 0 bytes. -/
theorem SetupRequest_max_length_first_entry :
    (SetupRequest sampleConsts sampleLib sampleRest (bodyRequest 4294967295) (0, [65]) 0
        freshWorld).1 = sampleLib.QTSS_WouldBlock
    ∧ ((SetupRequest sampleConsts sampleLib sampleRest (bodyRequest 4294967295) (0, [65]) 0
        freshWorld).2.sessions 0).fContentBody = some [65]
    ∧ (List.replicate ((4294967295 + 1) % 4294967296) 0 : List Nat) = [] := by
  decide

/-! ## C22: the two device-info handlers -/

/-- The loop of the RESTful handler appends one value with four fields per
channel. -/
theorem cameraLoopRESTful_eq (cs : List (String × EasyDevice)) :
    ∀ channels, cameraLoopRESTful cs channels
      = channels ++ cs.map (fun c =>
          [(Tag.CHANNEL, c.2.channel_), (Tag.NAME, c.2.name_), (Tag.STATUS, c.2.status_),
           (Tag.SNAP_URL, c.2.snapJpgPath_)]) := by
  induction cs with
  | nil => intro channels; simp [cameraLoopRESTful]
  | cons c cs ih => intro channels; simp [cameraLoopRESTful, ih]

/-- The loop of the JSON handler, from a body that ends in the snap address of
the device: the address is overwritten by each channel, the last one stays, and
one value with three fields is appended per channel. -/
theorem cameraLoop_eq (serial count : String) (cs : List (String × EasyDevice)) :
    ∀ (v : String) channels,
      cameraLoop cs [(Tag.SERIAL, serial), (Tag.CHANNEL_COUNT, count), (Tag.SNAP_URL, v)] channels
        = ([(Tag.SERIAL, serial), (Tag.CHANNEL_COUNT, count),
            (Tag.SNAP_URL, ((cs.getLast?).map (fun c => c.2.snapJpgPath_)).getD v)],
           channels ++ cs.map (fun c =>
            [(Tag.CHANNEL, c.2.channel_), (Tag.NAME, c.2.name_), (Tag.STATUS, c.2.status_)])) := by
  induction cs with
  | nil => intro v channels; simp [cameraLoop]
  | cons c cs ih =>
    intro v channels
    have hset : setKey [(Tag.SERIAL, serial), (Tag.CHANNEL_COUNT, count), (Tag.SNAP_URL, v)]
        Tag.SNAP_URL c.2.snapJpgPath_
        = [(Tag.SERIAL, serial), (Tag.CHANNEL_COUNT, count), (Tag.SNAP_URL, c.2.snapJpgPath_)] := by
      simp [setKey]
    rw [cameraLoop, hset, ih]
    cases cs with
    | nil => simp
    | cons c2 cs2 =>
      obtain ⟨x, hx⟩ : ∃ x, (c2 :: cs2).getLast? = some x :=
        Option.isSome_iff_exists.mp (by simp)
      simp [List.getLast?_cons_cons, hx]

/-- The reply of the JSON device-info handler for a device that resolves. -/
theorem cameraList_resolved (k : Consts) (L : Lib) (this dev : Nat) (table : List OSRefEx)
    (req : EasyProtocol) (serial : String) (w : World)
    (hreq : req.GetBodyValue Tag.SERIAL = serial) (hne : serial ≠ "")
    (hres : Resolve w.fDeviceSessionMap serial = some (dev, table)) :
    ExecNetMsgCSCameraListReq k L this req w
      = (k.QTSS_NoErr,
          (({ w with fDeviceSessionMap := table } : World).Release serial).modify this
            (Put (deviceInfoAck k req.CSeq (jsonDeviceInfo L serial (w.sessions dev).fDevice)))) := by
  unfold ExecNetMsgCSCameraListReq
  simp only [hreq, String.length_le_zero_iff, hne, if_false, hres]
  rfl

/-- The reply of the RESTful device-info handler for a device that resolves. -/
theorem cameraListRESTful_resolved (k : Consts) (L : Lib) (Q : QueryLib) (this dev : Nat)
    (table : List OSRefEx) (query serial : String) (w : World)
    (hquery : Q.DoFindCGIValueForParam (Q.Urldecode query) Q.EASY_TAG_L_DEVICE = some serial)
    (hres : Resolve w.fDeviceSessionMap serial = some (dev, table)) :
    ExecNetMsgCSGetCameraListReqRESTful k L Q this (some query) w
      = (k.QTSS_NoErr,
          (({ w with fDeviceSessionMap := table } : World).Release serial).modify this
            (Put (deviceInfoAck k "1" (restDeviceInfo L serial (w.sessions dev).fDevice)))) := by
  unfold ExecNetMsgCSGetCameraListReqRESTful
  simp only [hquery, hres]
  rfl

/-- The RESTful handler fills what the specification describes. -/
theorem restDeviceInfo_spec (L : Lib) (serial : String) (d : strDevice) :
    restDeviceInfo L serial d = specDeviceInfo L serial d := by
  unfold restDeviceInfo specDeviceInfo
  split_ifs
  · simp [setKey]
  · simp [setKey, cameraLoopRESTful_eq]

/-- The JSON handler fills what the specification describes for a camera and
for a device without channels. -/
theorem jsonDeviceInfo_spec (L : Lib) (serial : String) (d : strDevice)
    (h : d.eAppType = L.EASY_APP_TYPE_CAMERA ∨ d.channels_ = []) :
    jsonDeviceInfo L serial d = specDeviceInfo L serial d := by
  unfold jsonDeviceInfo specDeviceInfo
  split_ifs with hc
  · simp [setKey]
  · rcases h with h | h
    · exact absurd h hc
    · simp [h, setKey, cameraLoop]

/-- The JSON handler for a device that is not a camera and has channels: the
body ends in a `snap_url` of the device, the address of the last channel, and
the values of the channels have no `snap_url`. -/
theorem jsonDeviceInfo_channels (L : Lib) (serial : String) (d : strDevice)
    (cs : List (String × EasyDevice)) (c : String × EasyDevice)
    (hc : d.eAppType ≠ L.EASY_APP_TYPE_CAMERA) (hch : d.channels_ = cs ++ [c]) :
    jsonDeviceInfo L serial d
      = ([(Tag.SERIAL, serial), (Tag.CHANNEL_COUNT, toString d.channelCount_),
          (Tag.SNAP_URL, c.2.snapJpgPath_)],
         d.channels_.map (fun c =>
          [(Tag.CHANNEL, c.2.channel_), (Tag.NAME, c.2.name_), (Tag.STATUS, c.2.status_)])) := by
  have hbase : setKey [(Tag.SERIAL, serial)] Tag.CHANNEL_COUNT (toString d.channelCount_)
      = [(Tag.SERIAL, serial), (Tag.CHANNEL_COUNT, toString d.channelCount_)] := by
    simp [setKey]
  unfold jsonDeviceInfo
  rw [if_neg hc, hbase, hch]
  cases cs with
  | nil =>
    have hset : setKey [(Tag.SERIAL, serial), (Tag.CHANNEL_COUNT, toString d.channelCount_)]
        Tag.SNAP_URL c.2.snapJpgPath_
        = [(Tag.SERIAL, serial), (Tag.CHANNEL_COUNT, toString d.channelCount_),
           (Tag.SNAP_URL, c.2.snapJpgPath_)] := by
      simp [setKey]
    rw [List.nil_append, cameraLoop, hset, cameraLoop_eq]
    simp
  | cons c0 cs0 =>
    have hset : setKey [(Tag.SERIAL, serial), (Tag.CHANNEL_COUNT, toString d.channelCount_)]
        Tag.SNAP_URL c0.2.snapJpgPath_
        = [(Tag.SERIAL, serial), (Tag.CHANNEL_COUNT, toString d.channelCount_),
           (Tag.SNAP_URL, c0.2.snapJpgPath_)] := by
      simp [setKey]
    rw [List.cons_append, cameraLoop, hset, cameraLoop_eq]
    simp

/-- C22, where the code leaves the claim. For a device that resolves, the
RESTful handler replies with the device information of the specification. The
JSON handler does so for a camera and for a device without channels. For every
other device with channels the JSON handler assigns the address of each channel
to `snap_url` of the body instead of the channel's value: its body carries a
`snap_url` of the device, the address of the last channel, its channel values
carry id, name and status only, and the two handlers reply differently. -/
theorem C22_json_channel_snap_url_in_body (k : Consts) (L : Lib) (Q : QueryLib) (this dev : Nat)
    (table : List OSRefEx) (req : EasyProtocol) (query serial : String) (w : World)
    (hreq : req.GetBodyValue Tag.SERIAL = serial) (hne : serial ≠ "")
    (hquery : Q.DoFindCGIValueForParam (Q.Urldecode query) Q.EASY_TAG_L_DEVICE = some serial)
    (hres : Resolve w.fDeviceSessionMap serial = some (dev, table)) :
    ExecNetMsgCSGetCameraListReqRESTful k L Q this (some query) w
        = (k.QTSS_NoErr,
            (({ w with fDeviceSessionMap := table } : World).Release serial).modify this
              (Put (deviceInfoAck k "1" (specDeviceInfo L serial (w.sessions dev).fDevice))))
    ∧ ExecNetMsgCSCameraListReq k L this req w
        = (k.QTSS_NoErr,
            (({ w with fDeviceSessionMap := table } : World).Release serial).modify this
              (Put (deviceInfoAck k req.CSeq
                (jsonDeviceInfo L serial (w.sessions dev).fDevice))))
    ∧ ((w.sessions dev).fDevice.eAppType = L.EASY_APP_TYPE_CAMERA
          ∨ (w.sessions dev).fDevice.channels_ = [] →
        jsonDeviceInfo L serial (w.sessions dev).fDevice
          = specDeviceInfo L serial (w.sessions dev).fDevice)
    ∧ ((w.sessions dev).fDevice.eAppType ≠ L.EASY_APP_TYPE_CAMERA →
        ∀ (cs : List (String × EasyDevice)) (c : String × EasyDevice),
          (w.sessions dev).fDevice.channels_ = cs ++ [c] →
          jsonDeviceInfo L serial (w.sessions dev).fDevice
            = ([(Tag.SERIAL, serial),
                (Tag.CHANNEL_COUNT, toString (w.sessions dev).fDevice.channelCount_),
                (Tag.SNAP_URL, c.2.snapJpgPath_)],
               (w.sessions dev).fDevice.channels_.map (fun c =>
                [(Tag.CHANNEL, c.2.channel_), (Tag.NAME, c.2.name_),
                 (Tag.STATUS, c.2.status_)]))
          ∧ jsonDeviceInfo L serial (w.sessions dev).fDevice
              ≠ specDeviceInfo L serial (w.sessions dev).fDevice) := by
  refine ⟨?_, cameraList_resolved k L this dev table req serial w hreq hne hres,
    jsonDeviceInfo_spec L serial _, ?_⟩
  · rw [cameraListRESTful_resolved k L Q this dev table query serial w hquery hres,
      restDeviceInfo_spec]
  · intro hc cs c hch
    have hj := jsonDeviceInfo_channels L serial _ cs c hc hch
    refine ⟨hj, ?_⟩
    rw [hj]
    unfold specDeviceInfo
    rw [if_neg hc]
    intro heq
    have h1 := congrArg (fun p => p.1.length) heq
    simp at h1

/-- C22 on the sample world with the NVR `NVR001` of two channels: the reply of
the JSON handler, the reply of the RESTful handler, and their difference. -/
theorem C22_json_channel_snap_url_in_body_witness :
    ((ExecNetMsgCSCameraListReq sampleConsts sampleLib 0 nvrInfoReq worldNVR).2.sessions
        0).fOutputStream
      = [deviceInfoAck sampleConsts "5"
          ([(Tag.SERIAL, "NVR001"), (Tag.CHANNEL_COUNT, "2"),
            (Tag.SNAP_URL, "http://cms/snap/2.jpg")],
           [[(Tag.CHANNEL, "1"), (Tag.NAME, "front"), (Tag.STATUS, "online")],
            [(Tag.CHANNEL, "2"), (Tag.NAME, "back"), (Tag.STATUS, "offline")]])]
    ∧ ((ExecNetMsgCSGetCameraListReqRESTful sampleConsts sampleLib sampleQuery 0
          (some "device=NVR001") worldNVR).2.sessions 0).fOutputStream
      = [deviceInfoAck sampleConsts "1"
          ([(Tag.SERIAL, "NVR001"), (Tag.CHANNEL_COUNT, "2")],
           [[(Tag.CHANNEL, "1"), (Tag.NAME, "front"), (Tag.STATUS, "online"),
             (Tag.SNAP_URL, "http://cms/snap/1.jpg")],
            [(Tag.CHANNEL, "2"), (Tag.NAME, "back"), (Tag.STATUS, "offline"),
             (Tag.SNAP_URL, "http://cms/snap/2.jpg")]])]
    ∧ jsonDeviceInfo sampleLib "NVR001" (worldNVR.sessions 1).fDevice
        ≠ specDeviceInfo sampleLib "NVR001" (worldNVR.sessions 1).fDevice :=
  ⟨by decide, by decide,
   ((C22_json_channel_snap_url_in_body sampleConsts sampleLib sampleQuery 0 1
      [{ key := "NVR001", obj := 1, refCount := 1 }] nvrInfoReq "device=NVR001" "NVR001"
      worldNVR (by decide) (by decide) (by decide) (by decide)).2.2.2 (by decide)
      [("1", { channel_ := "1", name_ := "front", status_ := "online",
               snapJpgPath_ := "http://cms/snap/1.jpg" })]
      ("2", { channel_ := "2", name_ := "back", status_ := "offline",
              snapJpgPath_ := "http://cms/snap/2.jpg" }) (by decide)).2⟩

end EasyCMS
